import Mathlib

/-!
# Game session state machine of otclient (`src/otclient/game.cpp`)

A shallow embedding of `Game`: the member variables become the structure `Game`,
everything handed to a collaborator (the transport handle `ProtocolGame`, the Lua
event sink, the logger, the local player object, container objects) is appended to
an ordered trace, and every member function becomes a function on `World`.
-/

set_option linter.unusedTactic false
set_option linter.unusedVariables false
set_option linter.unreachableTactic false

namespace Otclient

/-! ## Collaborator types

The enumerations of `Otc::` and the classes `Creature`, `LocalPlayer`, `Item`,
`Thing`, `Container`, `ProtocolGame` are declared outside `game.cpp`; only what
`game.cpp` reads of them is kept. -/

/-- Modelled from the spec: `Otc::Direction`, the eight walk directions of the
spec, plus `InvalidDirection` for the `default:` branch of the switches. -/
inductive Direction
  | North | East | South | West | NorthEast | SouthEast | SouthWest | NorthWest
  | InvalidDirection
  deriving DecidableEq, Repr

/-- Modelled from the spec: `Otc::FightModes` (Offensive/Balanced/Defensive). -/
inductive FightModes
  | FightOffensive | FightBalanced | FightDefensive
  deriving DecidableEq, Repr

/-- Modelled from the spec: `Otc::ChaseModes` (Stand/Chase). -/
inductive ChaseModes
  | DontChase | ChaseOpponent
  deriving DecidableEq, Repr

/-- The members of `Otc::GameFeature` named in `game.cpp`; `other n` stands for
any further index of the bitset `m_features`. -/
inductive GameFeature
  | GameFormatCreatureName
  | GameChargeableItems
  | GameProtocolChecksum
  | GameAccountNames
  | GameChallangeOnLogin
  | GameDoubleFreeCapacity
  | GameCreatureEmblems
  | GamePenalityOnDeath
  | GameDoubleExperience
  | GamePlayerMounts
  | GameSpellList
  | GameNameOnNpcTrade
  | GameTotalCapacity
  | GameSkillsBase
  | GamePlayerRegenerationTime
  | GameChannelPlayerList
  | GameEnvironmentEffect
  | GameItemAnimationPhase
  | GamePlayerMarket
  | GamePurseSlot
  | GameClientPing
  | GameSpritesU32
  | GameOfflineTrainingTime
  | other (n : Nat)
  deriving DecidableEq, Repr

structure Position where
  x : Int
  y : Int
  z : Int
  deriving DecidableEq, Repr

/-- A creature object: `obj` is the identity of the object (what pointer
comparison compares), `id` is what `getId()` returns. -/
structure Creature where
  obj : Nat
  id : Nat
  deriving DecidableEq, Repr

/-- The local player object; it is a creature, `obj` is its identity. -/
structure LocalPlayer where
  obj : Nat
  name : String
  deriving DecidableEq, Repr

/-- An item object, with the getters `game.cpp` calls. -/
structure Item where
  position : Position
  id : Nat
  stackpos : Int
  count : Int
  subType : Int
  countOrSubType : Int
  deriving DecidableEq, Repr

/-- A thing object, with the getters `game.cpp` calls. -/
structure Thing where
  position : Position
  id : Nat
  stackpos : Int
  isCreature : Bool
  deriving DecidableEq, Repr

structure Outfit where
  id : Int
  mount : Int
  deriving DecidableEq, Repr

/-- A container object as built by `new Container(id, capacity, name, item, hasParent)`
followed by `onAddItems(items)`. -/
structure Container where
  id : Int
  capacity : Int
  name : String
  containerItem : Option Item
  hasParent : Bool
  items : List (Option Item)
  deriving DecidableEq, Repr

/-- The transport handle: `connected` is what `isConnected()` returns. -/
structure ProtocolGame where
  connected : Bool
  deriving DecidableEq, Repr

/-- The handle returned by `g_dispatcher.cycleEvent(callback, delay)`. -/
structure ScheduledEvent where
  delay : Nat
  deriving DecidableEq, Repr

/-- What `tile->isWalkable()`, `hasElevation(3)` and `isEmpty()` return. -/
structure Tile where
  isWalkable : Bool
  hasElevation3 : Bool
  isEmpty : Bool
  deriving DecidableEq, Repr

/-! ## Outbound commands and the trace -/

/-- One constructor per `ProtocolGame::send...` method called from `game.cpp`. -/
inductive Command
  | sendLogout
  | sendPing
  | sendWalkNorth | sendWalkEast | sendWalkSouth | sendWalkWest
  | sendWalkNorthEast | sendWalkSouthEast | sendWalkSouthWest | sendWalkNorthWest
  | sendAutoWalk (dirs : List Direction)
  | sendTurnNorth | sendTurnEast | sendTurnSouth | sendTurnWest
  | sendStop
  | sendLook (pos : Position) (thingId : Nat) (stackpos : Int)
  | sendMove (fromPos : Position) (thingId : Nat) (stackpos : Int) (toPos : Position) (count : Int)
  | sendRotateItem (pos : Position) (thingId : Nat) (stackpos : Int)
  | sendUseItem (pos : Position) (itemId : Int) (stackpos : Int) (index : Int)
  | sendUseOnCreature (pos : Position) (thingId : Int) (stackpos : Int) (creatureId : Nat)
  | sendUseItemWith (fromPos : Position) (itemId : Int) (fromStackpos : Int)
      (toPos : Position) (toThingId : Nat) (toStackpos : Int)
  | sendUpContainer (containerId : Int)
  | sendCloseContainer (containerId : Int)
  | sendRefreshContainer
  | sendAttack (creatureId : Nat) (seq : Nat)
  | sendFollow (creatureId : Nat) (seq : Nat)
  | sendCancelAttackAndFollow
  | sendTalk (mode : Nat) (channelId : Int) (receiver : String) (message : String)
  | sendOpenPrivateChannel (receiver : String)
  | sendRequestChannels
  | sendJoinChannel (channelId : Int)
  | sendLeaveChannel (channelId : Int)
  | sendCloseNpcChannel
  | sendOpenOwnChannel
  | sendInviteToOwnChannel (name : String)
  | sendExcludeFromOwnChannel (name : String)
  | sendInviteToParty (creatureId : Int)
  | sendJoinParty (creatureId : Int)
  | sendRevokeInvitation (creatureId : Int)
  | sendPassLeadership (creatureId : Int)
  | sendLeaveParty
  | sendShareExperience (active : Bool)
  | sendRequestOutfit
  | sendChangeOutfit (outfit : Outfit)
  | sendAddVip (name : String)
  | sendRemoveVip (playerId : Int)
  | sendChangeFightModes (fightMode : FightModes) (chaseMode : ChaseModes) (safeFight : Bool)
  | sendInspectNpcTrade (itemId : Nat) (count : Int)
  | sendBuyItem (itemId : Nat) (subType : Int) (amount : Int) (ignoreCapacity : Bool)
      (buyWithBackpack : Bool)
  | sendSellItem (itemId : Nat) (subType : Int) (amount : Int) (ignoreEquipped : Bool)
  | sendCloseNpcTrade
  | sendRequestTrade (pos : Position) (thingId : Nat) (stackpos : Int) (creatureId : Nat)
  | sendInspectTrade (counterOffer : Bool) (index : Int)
  | sendAcceptTrade
  | sendRejectTrade
  | sendEditText (id : Nat) (text : String)
  | sendEditList (id : Nat) (doorId : Int) (text : String)
  | sendBugReport (comment : String)
  | sendRuleVilation (target : String) (reason : Int) (action : Int) (comment : String)
      (statement : String) (statementId : Int) (ipBanishment : Bool)
  | sendDebugReport (a b c d : String)
  | sendRequestQuestLog
  | sendRequestQuestLine (questId : Int)
  | sendEquipItem (itemId : Nat) (countOrSubType : Int)
  | sendMountStatus (mount : Bool)
  | sendRequestItemInfo (itemId : Nat) (subType : Int) (index : Int)
  deriving Repr

/-- A value passed to a Lua callback. Payloads that the session only forwards
(lists of tuples, positions, outfits) are carried as `payload`. -/
inductive LuaValue
  | int (i : Int)
  | bool (b : Bool)
  | str (s : String)
  | creature (c : Option Creature)
  | direction (d : Direction)
  | directions (ds : List Direction)
  | fightMode (m : FightModes)
  | chaseMode (m : ChaseModes)
  | bytes (bs : List Nat)
  | outfit (o : Option Outfit)
  | payload (tag : Nat)
  deriving DecidableEq, Repr

/-- The calls `game.cpp` makes on `m_localPlayer`. -/
inductive PlayerCall
  | stopWalk
  | preWalk (d : Direction)
  | lockWalk
  | cancelWalk (d : Direction)
  | setInventoryItem (slot : Int) (item : Option Item)
  deriving DecidableEq, Repr

/-- Everything `Game` hands to a collaborator, in the order it happens. -/
inductive Effect
  /-- Call `m_protocolGame->send...(...)` -/
  | send (c : Command)
  /-- Call `m_protocolGame->login(account, password, worldHost, (uint16)worldPort, characterName)` -/
  | protocolLogin (account password worldHost : String) (worldPort : Nat) (characterName : String)
  /-- Call `m_protocolGame->disconnect()` -/
  | protocolDisconnect
  /-- Call `g_lua.callGlobalField("g_game", field, args...)` -/
  | lua (field : String) (args : List LuaValue)
  /-- Call `container->onOpen(previousContainer)` -/
  | containerOnOpen (c : Container) (previousContainer : Option Container)
  /-- Call `container->onClose()` -/
  | containerOnClose (c : Container)
  /-- Call `m_localPlayer->...` -/
  | localPlayer (call : PlayerCall)
  /-- Call `m_pingEvent->cancel()` -/
  | cancelEvent (e : ScheduledEvent)
  /-- Call `g_logger.error(...)` and `g_logger.traceError(...)` -/
  | log (msg : String)
  /-- Call `g_map.cleanDynamicThings()` -/
  | cleanDynamicThings
  /-- Call `Proto::buildMessageModesMap(version)` -/
  | buildMessageModesMap (version : Int)
  /-- Call `container->onAddItem(item)`, on the container as it was before the call -/
  | containerOnAddItem (c : Container) (item : Option Item)
  /-- Call `container->onUpdateItem(slot, item)`, on the container as it was before the call -/
  | containerOnUpdateItem (c : Container) (slot : Int) (item : Option Item)
  /-- Call `container->onRemoveItem(slot)`, on the container as it was before the call -/
  | containerOnRemoveItem (c : Container) (slot : Int)
  deriving Repr

/-- What `throw_exception` throws, and the dereference of a null pointer. -/
inductive GameError
  /-- Message "Unable to login into a world while already online or logging." -/
  | loginWhileOnlineOrLogging
  /-- Message "Must set a valid game protocol version before logging." -/
  | versionNotSet
  /-- Message "Unable to change client version while online" -/
  | changeVersionWhileOnline
  /-- Message "Protocol version %d not supported" -/
  | versionNotSupported (version : Int)
  /-- A member call through a null pointer. -/
  | nullDereference
  /-- A loop that did not finish within the fuel given to it. -/
  | outOfFuel
  deriving DecidableEq, Repr

/-! ## The session -/

/-- The member variables of `Game`. `std::map` members are association lists
sorted by key. -/
structure Game where
  m_localPlayer : Option LocalPlayer
  m_attackingCreature : Option Creature
  m_followingCreature : Option Creature
  m_protocolGame : Option ProtocolGame
  m_containers : List (Int × Option Container)
  m_vips : List (Nat × (String × Bool))
  m_online : Bool
  m_denyBotCall : Bool
  m_dead : Bool
  m_serverBeat : Int
  m_seq : Nat
  m_ping : Int
  m_fightMode : FightModes
  m_chaseMode : ChaseModes
  m_safeFight : Bool
  m_canReportBugs : Bool
  m_gmActions : List Nat
  m_characterName : String
  m_worldName : String
  m_features : GameFeature → Bool
  m_pingEvent : Option ScheduledEvent
  m_clientVersion : Int

/-- The session together with the trace of what it handed to its collaborators
(oldest first). -/
structure World where
  game : Game
  out : List Effect

/-- What the collaborators outside `game.cpp` answer during one call:
the bot-protection inputs, the local player's walking state, the map. -/
structure Env where
  /-- Whether the file is compiled with `BOT_PROTECTION` defined -/
  BOT_PROTECTION : Bool
  /-- Call `g_lua.isInCppCallback()` -/
  isInCppCallback : Bool
  /-- Call `g_app.isOnInputEvent()` -/
  isOnInputEvent : Bool
  /-- Call `m_localPlayer->isAutoWalking()` -/
  isAutoWalking : Bool
  /-- Call `m_localPlayer->canWalk(direction)` -/
  canWalk : Direction → Bool
  /-- Call `m_localPlayer->getPosition()` -/
  playerPosition : Position
  /-- Call `m_localPlayer->getTile()` -/
  playerTile : Option Tile
  /-- Call `pos.translatedToDirection(direction)` -/
  translatedToDirection : Position → Direction → Position
  /-- Call `pos.down()`: the moved position, or none when it returns false -/
  down : Position → Option Position
  /-- Call `pos.up()`: the moved position, or none when it returns false -/
  up : Position → Option Position
  /-- Call `g_map.getTile(pos)` -/
  getTile : Position → Option Tile
  /-- Call `pos.isValid()` -/
  isValid : Position → Bool
  /-- Call `g_things.isValidDatId(itemId, ThingCategoryItem)` -/
  isValidDatId : Int → Bool
  /-- The constant `Proto::Creature` of protocolcodes.h -/
  ProtoCreature : Nat

/-- Modelled from the spec: the declaration of `m_seq` is in game.h, which is not
among the sources; it is a machine unsigned counter incremented with `++` and
compared with the `uint seq` of `processAttackCancel`, so its modulus is 2^32. -/
def UINT_MOD : Nat := 4294967296

def emit (e : Effect) (w : World) : World :=
  { w with out := w.out ++ [e] }

def send (c : Command) (w : World) : World :=
  emit (.send c) w

def callGlobalField (field : String) (args : List LuaValue) (w : World) : World :=
  emit (.lua field args) w

/-! ### Inline accessors of `game.h` used by `game.cpp`

game.h is not among the sources; its one-line accessors are modelled from what
`game.cpp` and the specification say of them. -/

/-- Modelled from the spec: inline `isOnline()` of game.h; the session is online
(Active) when the `online` flag is set. -/
def isOnline (g : Game) : Bool := g.m_online

/-- Modelled from the spec: inline `isAttacking()` of game.h; an attack is in
progress when the attacking target is set. -/
def isAttacking (g : Game) : Bool := g.m_attackingCreature.isSome

/-- Modelled from the spec: inline `isFollowing()` of game.h; the following target
is set. -/
def isFollowing (g : Game) : Bool := g.m_followingCreature.isSome

/-- Modelled from the spec: inline `getFeature(feature)` of game.h; the flag is in
the feature set. -/
def getFeature (g : Game) (f : GameFeature) : Bool := g.m_features f

/-- Modelled from the spec: inline `enableFeature(feature)` of game.h; the flag is
added to the feature set, no flag is removed. -/
def enableFeature (f : GameFeature) (g : Game) : Game :=
  { g with m_features := fun x => if x = f then true else g.m_features x }

/-- Comparison `creature == other` on `CreaturePtr`: same object, or both null. -/
def ptrEq (a b : Option Creature) : Bool :=
  match a, b with
  | none, none => true
  | some x, some y => x.obj == y.obj
  | _, _ => false

/-- Comparison `creature == m_localPlayer`: same object, or both null. -/
def isLocalPlayer (creature : Option Creature) (p : Option LocalPlayer) : Bool :=
  match creature, p with
  | none, none => true
  | some x, some y => x.obj == y.obj
  | _, _ => false

/-- Expression `creature ? creature->getId() : 0` -/
def idOrZero (creature : Option Creature) : Nat :=
  match creature with
  | some c => c.id
  | none => 0

/-! ### Reset -/

/-- The loop of `resetGameStates` over `m_containers`: `onClose()` on every
non-null entry, in key order. -/
def closeAll : List (Int × Option Container) → World → World
  | [], w => w
  | (_, some c) :: rest, w => closeAll rest (emit (.containerOnClose c) w)
  | (_, none) :: rest, w => closeAll rest w

def resetGameStates (w : World) : World :=
  let g := w.game
  let g := { g with
    m_online := false
    m_denyBotCall := false
    m_dead := false
    m_serverBeat := 50
    m_seq := 0
    m_ping := -1
    m_canReportBugs := false
    m_fightMode := FightModes.FightBalanced
    m_chaseMode := ChaseModes.DontChase
    m_safeFight := true
    m_followingCreature := none
    m_attackingCreature := none
    m_localPlayer := none }
  let w : World := { w with game := g }
  let w := closeAll w.game.m_containers w
  let w : World :=
    match w.game.m_pingEvent with
    | some e => { emit (.cancelEvent e) w with game := { w.game with m_pingEvent := none } }
    | none => w
  { w with game := { w.game with m_containers := [], m_vips := [], m_gmActions := [] } }

/-- The assignments of `resetGameStates`, on the members alone (the calls it makes
on containers and on the timer are in `resetGameStates`). -/
def Game.reset (g : Game) : Game :=
  { g with
    m_online := false, m_denyBotCall := false, m_dead := false, m_serverBeat := 50,
    m_seq := 0, m_ping := -1, m_canReportBugs := false,
    m_fightMode := FightModes.FightBalanced, m_chaseMode := ChaseModes.DontChase,
    m_safeFight := true, m_followingCreature := none, m_attackingCreature := none,
    m_localPlayer := none, m_pingEvent := none, m_containers := [], m_vips := [],
    m_gmActions := [] }

/-- The assignments of `processGameEnd`, on the members alone. -/
def Game.gameEnd (g : Game) : Game :=
  { g.reset with m_worldName := "", m_characterName := "" }

/-- The assignments of `processDisconnect`, on the members alone. -/
def Game.disconnect (g : Game) : Game :=
  { (if g.m_online then g.gameEnd else g) with m_protocolGame := none }

/-- The members before the constructor body runs: null pointers, empty maps,
strings and bitset. -/
def defaultGame : Game :=
  { m_localPlayer := none, m_attackingCreature := none, m_followingCreature := none,
    m_protocolGame := none, m_containers := [], m_vips := [], m_online := false,
    m_denyBotCall := false, m_dead := false, m_serverBeat := 0, m_seq := 0, m_ping := 0,
    m_fightMode := FightModes.FightOffensive, m_chaseMode := ChaseModes.DontChase,
    m_safeFight := false, m_canReportBugs := false, m_gmActions := [],
    m_characterName := "", m_worldName := "", m_features := fun _ => false,
    m_pingEvent := none, m_clientVersion := 0 }

/-- Constructor `Game::Game()` -/
def construct : World :=
  let w := resetGameStates { game := defaultGame, out := [] }
  { w with game := { w.game with m_clientVersion := 0 } }

/-! ### The action gate -/

/-- Function `Game::checkBotProtection`: the verdict, and the world with the error logged
when the call is rejected. -/
def checkBotProtection (env : Env) (w : World) : Bool × World :=
  if env.BOT_PROTECTION && (w.game.m_denyBotCall && env.isInCppCallback && !env.isOnInputEvent) then
    (false, emit (.log "caught a lua call to a bot protected game function, the call was cancelled") w)
  else
    (true, w)

/-- Function `Game::canPerformGameAction`, with the short-circuit evaluation of `&&`. -/
def canPerformGameAction (env : Env) (w : World) : Bool × World :=
  if w.game.m_online && w.game.m_localPlayer.isSome && !w.game.m_dead
      && w.game.m_protocolGame.isSome
      && (match w.game.m_protocolGame with | some p => p.connected | none => false) then
    checkBotProtection env w
  else
    (false, w)

/-! ### Attack and follow -/

def setAttackingCreature (creature : Option Creature) (w : World) : World :=
  let oldCreature := w.game.m_attackingCreature
  let w : World := { w with game := { w.game with m_attackingCreature := creature } }
  callGlobalField "onAttackingCreatureChange" [.creature creature, .creature oldCreature] w

def setFollowingCreature (creature : Option Creature) (w : World) : World :=
  let oldCreature := w.game.m_followingCreature
  let w : World := { w with game := { w.game with m_followingCreature := creature } }
  callGlobalField "onFollowingCreatureChange" [.creature creature, .creature oldCreature] w

/-- Statement `m_seq++` on the unsigned counter. -/
def incSeq (w : World) : World :=
  { w with game := { w.game with m_seq := (w.game.m_seq + 1) % UINT_MOD } }

/-- The body of `Game::attack`, with the callee `cancelFollow()` as a parameter
(`attack` and `follow` call each other through `cancelFollow()`/`cancelAttack()`). -/
def attackBody (cancelFollow : World → World) (env : Env) (creature : Option Creature)
    (w : World) : World :=
  match canPerformGameAction env w with
  | (false, w) => w
  | (true, w) =>
    if isLocalPlayer creature w.game.m_localPlayer then w
    else
      -- cancel when attacking again
      let creature :=
        if creature.isSome && ptrEq creature w.game.m_attackingCreature then none else creature
      let w := if creature.isSome && isFollowing w.game then cancelFollow w else w
      let w := setAttackingCreature creature w
      let w := incSeq w
      send (.sendAttack (idOrZero creature) w.game.m_seq) w

/-- The body of `Game::follow`, with the callee `cancelAttack()` as a parameter. -/
def followBody (cancelAttack : World → World) (env : Env) (creature : Option Creature)
    (w : World) : World :=
  match canPerformGameAction env w with
  | (false, w) => w
  | (true, w) =>
    if isLocalPlayer creature w.game.m_localPlayer then w
    else
      -- cancel when following again
      let creature :=
        if creature.isSome && ptrEq creature w.game.m_followingCreature then none else creature
      let w := if creature.isSome && isAttacking w.game then cancelAttack w else w
      let w := setFollowingCreature creature w
      let w := incSeq w
      send (.sendFollow (idOrZero creature) w.game.m_seq) w

/-- Modelled from the spec: inline `cancelAttack()` of game.h, which is not among
the sources; cancelling is `attack` with no target (`attack(nullptr)`, the path of
`Game::attack` that sends target id 0: "attack-again = cancel"). With a null
creature the body never reaches its `cancelFollow()` call, so the callee given
here is not used (`attack_none` below). -/
def cancelAttack (env : Env) (w : World) : World :=
  attackBody (fun w => w) env none w

/-- Modelled from the spec: inline `cancelFollow()` of game.h, which is not among
the sources; cancelling is `follow` with no target (`follow(nullptr)`), mirroring
`cancelAttack`. With a null creature the body never reaches its `cancelAttack()`
call (`follow_none` below). -/
def cancelFollow (env : Env) (w : World) : World :=
  followBody (fun w => w) env none w

/-- Function `Game::attack`. -/
def attack (env : Env) (creature : Option Creature) (w : World) : World :=
  attackBody (cancelFollow env) env creature w

/-- Function `Game::follow`. -/
def follow (env : Env) (creature : Option Creature) (w : World) : World :=
  followBody (cancelAttack env) env creature w

def cancelAttackAndFollow (env : Env) (w : World) : World :=
  match canPerformGameAction env w with
  | (false, w) => w
  | (true, w) => send .sendCancelAttackAndFollow w

def processAttackCancel (env : Env) (seq : Nat) (w : World) : World :=
  if isAttacking w.game && (seq == 0 || w.game.m_seq == seq) then cancelAttack env w else w

/-- The feature block of `Game::setClientVersion` (from `m_features.reset()` to the
last `enableFeature`). -/
def applyVersionFeatures (version : Int) (g : Game) : Game :=
  let g := { g with m_features := fun _ => false }
  let g := enableFeature .GameFormatCreatureName g
  let g := if version ≤ 810 then enableFeature .GameChargeableItems g else g
  let g :=
    if version ≥ 854 then
      enableFeature .GameCreatureEmblems (enableFeature .GameDoubleFreeCapacity
        (enableFeature .GameChallangeOnLogin (enableFeature .GameAccountNames
          (enableFeature .GameProtocolChecksum g))))
    else g
  let g := if version ≥ 862 then enableFeature .GamePenalityOnDeath g else g
  let g :=
    if version ≥ 870 then
      enableFeature .GameSpellList (enableFeature .GamePlayerMounts
        (enableFeature .GameDoubleExperience g))
    else g
  let g :=
    if version ≥ 910 then
      enableFeature .GameItemAnimationPhase (enableFeature .GameEnvironmentEffect
        (enableFeature .GameChannelPlayerList (enableFeature .GamePlayerRegenerationTime
          (enableFeature .GameSkillsBase (enableFeature .GameTotalCapacity
            (enableFeature .GameNameOnNpcTrade g))))))
    else g
  let g := if version ≥ 940 then enableFeature .GamePlayerMarket g else g
  let g :=
    if version ≥ 953 then enableFeature .GameClientPing (enableFeature .GamePurseSlot g)
    else g
  if version ≥ 960 then
    enableFeature .GameOfflineTrainingTime (enableFeature .GameSpritesU32 g)
  else g

/-- Function `Game::setClientVersion`. -/
def setClientVersion (version : Int) (w : World) : Except GameError World :=
  if w.game.m_clientVersion = version then .ok w
  else if isOnline w.game then .error .changeVersionWhileOnline
  else if version ≠ 0 ∧ (version < 810 ∨ version > 961) then
    .error (.versionNotSupported version)
  else
    let g := applyVersionFeatures version w.game
    let g := { g with m_clientVersion := version }
    let w : World := { w with game := g }
    let w := emit (.buildMessageModesMap version) w
    .ok (callGlobalField "onClientVersionChange" [.int version] w)

/-! ### The container map -/

/-- Lookup in a `std::map` kept as a list sorted by key. -/
def mapFind {κ α : Type} [DecidableEq κ] : List (κ × α) → κ → Option α
  | [], _ => none
  | (k, v) :: rest, key => if k = key then some v else mapFind rest key

/-- Assignment `m[key] = v` on a `std::map` kept as a list sorted by key. -/
def mapSet {κ α : Type} [DecidableEq κ] [LT κ] [DecidableRel (fun a b : κ => a < b)] :
    List (κ × α) → κ → α → List (κ × α)
  | [], key, v => [(key, v)]
  | (k, x) :: rest, key, v =>
    if key < k then (key, v) :: (k, x) :: rest
    else if k = key then (k, v) :: rest
    else (k, x) :: mapSet rest key v

/-- Expression `m_containers[id]` read as a value: `operator[]` inserts a null entry
when the key is absent, and returns the stored pointer. -/
def containersIndex (id : Int) (g : Game) : Option Container × Game :=
  match mapFind g.m_containers id with
  | some c => (c, g)
  | none => (none, { g with m_containers := mapSet g.m_containers id none })

/-- Modelled from the spec: inline `getContainer(index)` of game.h, which is not
among the sources; it returns the container the registry holds at the id, read
with `m_containers[index]` as `findEmptyContainerId` reads it. -/
def getContainer (index : Int) (w : World) : Option Container × World :=
  let (c, g) := containersIndex index w.game
  (c, { w with game := g })

/-- The loop of `findEmptyContainerId`, `fuel` bounding the number of iterations. -/
def findEmptyContainerIdLoop : Nat → Int → Game → Option (Int × Game)
  | 0, _, _ => none
  | fuel + 1, id, g =>
    match containersIndex id g with
    | (some _, g) => findEmptyContainerIdLoop fuel (id + 1) g
    | (none, g) => some (id, g)

/-- Function `Game::findEmptyContainerId`; a map of `n` entries stops the loop
within `n + 1` iterations. -/
def findEmptyContainerId (g : Game) : Option (Int × Game) :=
  findEmptyContainerIdLoop (g.m_containers.length + 1) 0 g

/-- Function `Game::formatCreatureName`; `upchar` is `stdext::upchar`. -/
def formatCreatureName (upchar : Char → Char) (g : Game) (name : String) : String :=
  if getFeature g .GameFormatCreatureName && name.length > 0 then
    name.set 0 (upchar (name.get 0))
  else name

/-! ### Gated player intents -/

def forceWalk (env : Env) (direction : Direction) (w : World) : World :=
  match canPerformGameAction env w with
  | (false, w) => w
  | (true, w) =>
    let w :=
      match direction with
      | .North => send .sendWalkNorth w
      | .East => send .sendWalkEast w
      | .South => send .sendWalkSouth w
      | .West => send .sendWalkWest w
      | .NorthEast => send .sendWalkNorthEast w
      | .SouthEast => send .sendWalkSouthEast w
      | .SouthWest => send .sendWalkSouthWest w
      | .NorthWest => send .sendWalkNorthWest w
      | .InvalidDirection => w
    callGlobalField "onForceWalk" [.direction direction] w

/-- The lambda `canChangeFloorDown` of `Game::walk`. -/
def canChangeFloorDown (env : Env) (toPos : Position) : Bool :=
  match env.down toPos with
  | none => false
  | some pos =>
    match env.getTile pos with
    | some toTile => toTile.hasElevation3
    | none => false

/-- The lambda `canChangeFloorUp` of `Game::walk`. -/
def canChangeFloorUp (env : Env) (toPos : Position) : Bool :=
  match env.playerTile with
  | none => false
  | some fromTile =>
    if !fromTile.hasElevation3 then false
    else
      match env.up toPos with
      | none => false
      | some pos =>
        match env.getTile pos with
        | none => false
        | some toTile => toTile.isWalkable

def walk (env : Env) (direction : Direction) (w : World) : World :=
  match canPerformGameAction env w with
  | (false, w) => w
  | (true, w) =>
    -- must cancel follow before any new walk
    let w := if isFollowing w.game then cancelFollow env w else w
    if env.isAutoWalking then send .sendStop w
    else if !env.canWalk direction then w
    else
      let toPos := env.translatedToDirection env.playerPosition direction
      let toTile := env.getTile toPos
      if (match toTile with | some t => t.isWalkable | none => false) then
        let w := emit (.localPlayer (.preWalk direction)) w
        let w := callGlobalField "onWalk" [.direction direction] w
        forceWalk env direction w
      else if canChangeFloorDown env toPos || canChangeFloorUp env toPos
          || (match toTile with | some t => t.isEmpty | none => true) then
        let w := emit (.localPlayer .lockWalk) w
        let w := callGlobalField "onWalk" [.direction direction] w
        forceWalk env direction w
      else w

def autoWalk (env : Env) (dirs : List Direction) (w : World) : World :=
  match canPerformGameAction env w with
  | (false, w) => w
  | (true, w) =>
    -- protocol limits walk path up to 255 directions
    if dirs.length > 127 then
      emit (.log "Auto walk path too great, the maximum number of directions is 127") w
    else
      match dirs with
      | [] => w
      | direction :: _ =>
        let w := if isFollowing w.game then cancelFollow env w else w
        let w :=
          if env.canWalk direction then
            let toTile := env.getTile (env.translatedToDirection env.playerPosition direction)
            if (match toTile with | some t => t.isWalkable | none => false)
                && !env.isAutoWalking then
              emit (.localPlayer (.preWalk direction)) w
            else w
          else w
        let w := callGlobalField "onAutoWalk" [.directions dirs] w
        send (.sendAutoWalk dirs) w

def turn (env : Env) (direction : Direction) (w : World) : World :=
  match canPerformGameAction env w with
  | (false, w) => w
  | (true, w) =>
    match direction with
    | .North => send .sendTurnNorth w
    | .East => send .sendTurnEast w
    | .South => send .sendTurnSouth w
    | .West => send .sendTurnWest w
    | _ => w

def stop (env : Env) (w : World) : World :=
  match canPerformGameAction env w with
  | (false, w) => w
  | (true, w) =>
    let w := if isFollowing w.game then cancelFollow env w else w
    send .sendStop w

def look (env : Env) (thing : Option Thing) (w : World) : World :=
  match canPerformGameAction env w with
  | (false, w) => w
  | (true, w) =>
    match thing with
    | none => w
    | some thing => send (.sendLook thing.position thing.id thing.stackpos) w

def move (env : Env) (thing : Option Thing) (toPos : Position) (count : Int) (w : World) : World :=
  let count := if count ≤ 0 then 1 else count
  match canPerformGameAction env w with
  | (false, w) => w
  | (true, w) =>
    match thing with
    | none => w
    | some thing =>
      if thing.position = toPos then w
      else
        let id := if thing.isCreature then env.ProtoCreature else thing.id
        send (.sendMove thing.position id thing.stackpos toPos count) w

def moveToParentContainer (env : Env) (thing : Option Thing) (count : Int) (w : World) : World :=
  match canPerformGameAction env w with
  | (false, w) => w
  | (true, w) =>
    match thing with
    | none => w
    | some t =>
      if count ≤ 0 then w
      else
        let position := t.position
        move env thing { x := position.x, y := position.y, z := 254 } count w

def rotate (env : Env) (thing : Option Thing) (w : World) : World :=
  match canPerformGameAction env w with
  | (false, w) => w
  | (true, w) =>
    match thing with
    | none => w
    | some thing => send (.sendRotateItem thing.position thing.id thing.stackpos) w

/-- The inventory marker `Position(0xFFFF, 0, 0)`. -/
def inventoryPos : Position := { x := 65535, y := 0, z := 0 }

def use (env : Env) (thing : Option Thing) (w : World) : Except GameError World :=
  match canPerformGameAction env w with
  | (false, w) => .ok w
  | (true, w) =>
    match thing with
    | none => .ok w
    | some thing =>
      let pos := if !env.isValid thing.position then inventoryPos else thing.position
      match findEmptyContainerId w.game with
      | none => .error .outOfFuel
      | some (id, g) =>
        .ok (send (.sendUseItem pos thing.id thing.stackpos id) { w with game := g })

def useInventoryItem (env : Env) (itemId : Int) (w : World) : World :=
  match canPerformGameAction env w with
  | (false, w) => w
  | (true, w) =>
    if !env.isValidDatId itemId then w
    else send (.sendUseItem inventoryPos itemId 0 0) w

def useWith (env : Env) (item : Option Item) (toThing : Option Thing) (w : World) : World :=
  match canPerformGameAction env w with
  | (false, w) => w
  | (true, w) =>
    match item, toThing with
    | some item, some toThing =>
      let pos := if !env.isValid item.position then inventoryPos else item.position
      if toThing.isCreature then
        send (.sendUseOnCreature pos item.id item.stackpos toThing.id) w
      else
        send (.sendUseItemWith pos item.id item.stackpos toThing.position toThing.id
          toThing.stackpos) w
    | _, _ => w

def useInventoryItemWith (env : Env) (itemId : Int) (toThing : Option Thing) (w : World) : World :=
  match canPerformGameAction env w with
  | (false, w) => w
  | (true, w) =>
    match toThing with
    | none => w
    | some toThing =>
      if toThing.isCreature then
        send (.sendUseOnCreature inventoryPos itemId 0 toThing.id) w
      else
        send (.sendUseItemWith inventoryPos itemId 0 toThing.position toThing.id
          toThing.stackpos) w

def «open» (env : Env) (item : Option Item) (previousContainer : Option Container) (w : World) :
    Except GameError World :=
  match canPerformGameAction env w with
  | (false, w) => .ok w
  | (true, w) =>
    match item with
    | none => .ok w
    | some item =>
      match previousContainer with
      | none =>
        match findEmptyContainerId w.game with
        | none => .error .outOfFuel
        | some (id, g) =>
          .ok (send (.sendUseItem item.position item.id item.stackpos id) { w with game := g })
      | some c => .ok (send (.sendUseItem item.position item.id item.stackpos c.id) w)

def openParent (env : Env) (container : Option Container) (w : World) : World :=
  match canPerformGameAction env w with
  | (false, w) => w
  | (true, w) =>
    match container with
    | none => w
    | some c => send (.sendUpContainer c.id) w

def close (env : Env) (container : Option Container) (w : World) : World :=
  match canPerformGameAction env w with
  | (false, w) => w
  | (true, w) =>
    match container with
    | none => w
    | some c => send (.sendCloseContainer c.id) w

def refreshContainer (env : Env) (w : World) : World :=
  match canPerformGameAction env w with
  | (false, w) => w
  | (true, w) => send .sendRefreshContainer w

def talkChannel (env : Env) (mode : Nat) (channelId : Int) (message : String) (w : World) : World :=
  match canPerformGameAction env w with
  | (false, w) => w
  | (true, w) => if message.isEmpty then w else send (.sendTalk mode channelId "" message) w

/-- Function `Game::talk`; `MessageSay` is the constant `Otc::MessageSay`. -/
def talk (env : Env) (MessageSay : Nat) (message : String) (w : World) : World :=
  match canPerformGameAction env w with
  | (false, w) => w
  | (true, w) => if message.isEmpty then w else talkChannel env MessageSay 0 message w

def talkPrivate (env : Env) (mode : Nat) (receiver : String) (message : String) (w : World) :
    World :=
  match canPerformGameAction env w with
  | (false, w) => w
  | (true, w) =>
    if receiver.isEmpty || message.isEmpty then w else send (.sendTalk mode 0 receiver message) w

def openPrivateChannel (env : Env) (receiver : String) (w : World) : World :=
  match canPerformGameAction env w with
  | (false, w) => w
  | (true, w) => if receiver.isEmpty then w else send (.sendOpenPrivateChannel receiver) w

def requestChannels (env : Env) (w : World) : World :=
  match canPerformGameAction env w with
  | (false, w) => w
  | (true, w) => send .sendRequestChannels w

def joinChannel (env : Env) (channelId : Int) (w : World) : World :=
  match canPerformGameAction env w with
  | (false, w) => w
  | (true, w) => send (.sendJoinChannel channelId) w

def leaveChannel (env : Env) (channelId : Int) (w : World) : World :=
  match canPerformGameAction env w with
  | (false, w) => w
  | (true, w) => send (.sendLeaveChannel channelId) w

def closeNpcChannel (env : Env) (w : World) : World :=
  match canPerformGameAction env w with
  | (false, w) => w
  | (true, w) => send .sendCloseNpcChannel w

def openOwnChannel (env : Env) (w : World) : World :=
  match canPerformGameAction env w with
  | (false, w) => w
  | (true, w) => send .sendOpenOwnChannel w

def inviteToOwnChannel (env : Env) (name : String) (w : World) : World :=
  match canPerformGameAction env w with
  | (false, w) => w
  | (true, w) => if name.isEmpty then w else send (.sendInviteToOwnChannel name) w

def excludeFromOwnChannel (env : Env) (name : String) (w : World) : World :=
  match canPerformGameAction env w with
  | (false, w) => w
  | (true, w) => if name.isEmpty then w else send (.sendExcludeFromOwnChannel name) w

def partyInvite (env : Env) (creatureId : Int) (w : World) : World :=
  match canPerformGameAction env w with
  | (false, w) => w
  | (true, w) => send (.sendInviteToParty creatureId) w

def partyJoin (env : Env) (creatureId : Int) (w : World) : World :=
  match canPerformGameAction env w with
  | (false, w) => w
  | (true, w) => send (.sendJoinParty creatureId) w

def partyRevokeInvitation (env : Env) (creatureId : Int) (w : World) : World :=
  match canPerformGameAction env w with
  | (false, w) => w
  | (true, w) => send (.sendRevokeInvitation creatureId) w

def partyPassLeadership (env : Env) (creatureId : Int) (w : World) : World :=
  match canPerformGameAction env w with
  | (false, w) => w
  | (true, w) => send (.sendPassLeadership creatureId) w

def partyLeave (env : Env) (w : World) : World :=
  match canPerformGameAction env w with
  | (false, w) => w
  | (true, w) => send .sendLeaveParty w

def partyShareExperience (env : Env) (active : Bool) (w : World) : World :=
  match canPerformGameAction env w with
  | (false, w) => w
  | (true, w) => send (.sendShareExperience active) w

def requestOutfit (env : Env) (w : World) : World :=
  match canPerformGameAction env w with
  | (false, w) => w
  | (true, w) => send .sendRequestOutfit w

def changeOutfit (env : Env) (outfit : Outfit) (w : World) : World :=
  match canPerformGameAction env w with
  | (false, w) => w
  | (true, w) => send (.sendChangeOutfit outfit) w

def addVip (env : Env) (name : String) (w : World) : World :=
  match canPerformGameAction env w with
  | (false, w) => w
  | (true, w) => if name.isEmpty then w else send (.sendAddVip name) w

def removeVip (env : Env) (playerId : Int) (w : World) : World :=
  match canPerformGameAction env w with
  | (false, w) => w
  | (true, w) => send (.sendRemoveVip playerId) w

def setChaseMode (env : Env) (chaseMode : ChaseModes) (w : World) : World :=
  match canPerformGameAction env w with
  | (false, w) => w
  | (true, w) =>
    if w.game.m_chaseMode = chaseMode then w
    else
      let w : World := { w with game := { w.game with m_chaseMode := chaseMode } }
      let w := send (.sendChangeFightModes w.game.m_fightMode w.game.m_chaseMode
        w.game.m_safeFight) w
      callGlobalField "onChaseModeChange" [.chaseMode chaseMode] w

def setFightMode (env : Env) (fightMode : FightModes) (w : World) : World :=
  match canPerformGameAction env w with
  | (false, w) => w
  | (true, w) =>
    if w.game.m_fightMode = fightMode then w
    else
      let w : World := { w with game := { w.game with m_fightMode := fightMode } }
      let w := send (.sendChangeFightModes w.game.m_fightMode w.game.m_chaseMode
        w.game.m_safeFight) w
      callGlobalField "onFightModeChange" [.fightMode fightMode] w

def setSafeFight (env : Env) (safeFight : Bool) (w : World) : World :=
  match canPerformGameAction env w with
  | (false, w) => w
  | (true, w) =>
    if w.game.m_safeFight = safeFight then w
    else
      let w : World := { w with game := { w.game with m_safeFight := safeFight } }
      let w := send (.sendChangeFightModes w.game.m_fightMode w.game.m_chaseMode
        w.game.m_safeFight) w
      callGlobalField "onSafeFightChange" [.bool safeFight] w

def inspectNpcTrade (env : Env) (item : Option Item) (w : World) : World :=
  match canPerformGameAction env w with
  | (false, w) => w
  | (true, w) =>
    match item with
    | none => w
    | some item => send (.sendInspectNpcTrade item.id item.count) w

def buyItem (env : Env) (item : Option Item) (amount : Int) (ignoreCapacity : Bool)
    (buyWithBackpack : Bool) (w : World) : World :=
  match canPerformGameAction env w with
  | (false, w) => w
  | (true, w) =>
    match item with
    | none => w
    | some item =>
      send (.sendBuyItem item.id item.subType amount ignoreCapacity buyWithBackpack) w

def sellItem (env : Env) (item : Option Item) (amount : Int) (ignoreEquipped : Bool)
    (w : World) : World :=
  match canPerformGameAction env w with
  | (false, w) => w
  | (true, w) =>
    match item with
    | none => w
    | some item => send (.sendSellItem item.id item.subType amount ignoreEquipped) w

def closeNpcTrade (env : Env) (w : World) : World :=
  match canPerformGameAction env w with
  | (false, w) => w
  | (true, w) => send .sendCloseNpcTrade w

def requestTrade (env : Env) (item : Option Item) (creature : Option Creature) (w : World) :
    World :=
  match canPerformGameAction env w with
  | (false, w) => w
  | (true, w) =>
    match item, creature with
    | some item, some creature =>
      send (.sendRequestTrade item.position item.id item.stackpos creature.id) w
    | _, _ => w

def inspectTrade (env : Env) (counterOffer : Bool) (index : Int) (w : World) : World :=
  match canPerformGameAction env w with
  | (false, w) => w
  | (true, w) => send (.sendInspectTrade counterOffer index) w

def acceptTrade (env : Env) (w : World) : World :=
  match canPerformGameAction env w with
  | (false, w) => w
  | (true, w) => send .sendAcceptTrade w

def rejectTrade (env : Env) (w : World) : World :=
  match canPerformGameAction env w with
  | (false, w) => w
  | (true, w) => send .sendRejectTrade w

def editText (env : Env) (id : Nat) (text : String) (w : World) : World :=
  match canPerformGameAction env w with
  | (false, w) => w
  | (true, w) => send (.sendEditText id text) w

def editList (env : Env) (id : Nat) (doorId : Int) (text : String) (w : World) : World :=
  match canPerformGameAction env w with
  | (false, w) => w
  | (true, w) => send (.sendEditList id doorId text) w

def reportBug (env : Env) (comment : String) (w : World) : World :=
  match canPerformGameAction env w with
  | (false, w) => w
  | (true, w) => send (.sendBugReport comment) w

def reportRuleVilation (env : Env) (target : String) (reason : Int) (action : Int)
    (comment : String) (statement : String) (statementId : Int) (ipBanishment : Bool)
    (w : World) : World :=
  match canPerformGameAction env w with
  | (false, w) => w
  | (true, w) =>
    send (.sendRuleVilation target reason action comment statement statementId ipBanishment) w

/-- Function `Game::debugReport`: no gate, the handle is used unchecked. -/
def debugReport (a b c d : String) (w : World) : Except GameError World :=
  match w.game.m_protocolGame with
  | none => .error .nullDereference
  | some _ => .ok (send (.sendDebugReport a b c d) w)

def requestQuestLog (env : Env) (w : World) : World :=
  match canPerformGameAction env w with
  | (false, w) => w
  | (true, w) => send .sendRequestQuestLog w

def requestQuestLine (env : Env) (questId : Int) (w : World) : World :=
  match canPerformGameAction env w with
  | (false, w) => w
  | (true, w) => send (.sendRequestQuestLine questId) w

/-- Function `Game::equipItem`: `item` is dereferenced without a null check. -/
def equipItem (env : Env) (item : Option Item) (w : World) : Except GameError World :=
  match canPerformGameAction env w with
  | (false, w) => .ok w
  | (true, w) =>
    match item with
    | none => .error .nullDereference
    | some item => .ok (send (.sendEquipItem item.id item.countOrSubType) w)

def mount (env : Env) (mount : Bool) (w : World) : World :=
  match canPerformGameAction env w with
  | (false, w) => w
  | (true, w) => send (.sendMountStatus mount) w

/-- Function `Game::requestItemInfo`: `item` is dereferenced without a null check. -/
def requestItemInfo (env : Env) (item : Option Item) (index : Int) (w : World) :
    Except GameError World :=
  match canPerformGameAction env w with
  | (false, w) => .ok w
  | (true, w) =>
    match item with
    | none => .error .nullDereference
    | some item => .ok (send (.sendRequestItemInfo item.id item.subType index) w)

/-- Function `Game::ping`: not behind the action gate. -/
def ping (w : World) : World :=
  match w.game.m_protocolGame with
  | none => w
  | some p =>
    if !p.connected then w
    else
      let w : World := { w with game := { w.game with m_denyBotCall := false } }
      let w := send .sendPing w
      { w with game := { w.game with m_denyBotCall := true } }

/-! ### Connection lifecycle -/

/-- A `boost::system::error_code`: whether it equals `asio::error::eof`, its
`message()` and its `value()`. -/
structure ErrorCode where
  isEof : Bool
  message : String
  value : Int
  deriving DecidableEq, Repr

/-- Modelled from the spec: inline `enableBotCall()` of game.h; it opens the scope
in which bot calls are allowed, as `Game::ping` does with `m_denyBotCall = false`. -/
def enableBotCall (w : World) : World :=
  { w with game := { w.game with m_denyBotCall := false } }

/-- Modelled from the spec: inline `disableBotCall()` of game.h; it closes the
scope again, as `Game::ping` does with `m_denyBotCall = true`. -/
def disableBotCall (w : World) : World :=
  { w with game := { w.game with m_denyBotCall := true } }

def terminate (w : World) : World :=
  let w := resetGameStates w
  { w with game := { w.game with m_protocolGame := none } }

def processGameEnd (w : World) : World :=
  let w := callGlobalField "onGameEnd" [] w
  let w := resetGameStates w
  let w : World := { w with game := { w.game with m_worldName := "", m_characterName := "" } }
  emit .cleanDynamicThings w

def processDisconnect (w : World) : World :=
  let w := if isOnline w.game then processGameEnd w else w
  match w.game.m_protocolGame with
  | some _ =>
    let w := emit .protocolDisconnect w
    { w with game := { w.game with m_protocolGame := none } }
  | none => w

def processConnectionError (ec : ErrorCode) (w : World) : World :=
  match w.game.m_protocolGame with
  | some _ =>
    let w :=
      if !ec.isEof then callGlobalField "onConnectionError" [.str ec.message, .int ec.value] w
      else w
    processDisconnect w
  | none => w

def processLoginError (error : String) (w : World) : World :=
  callGlobalField "onLoginError" [.str error] w

def processLoginAdvice (message : String) (w : World) : World :=
  callGlobalField "onLoginAdvice" [.str message] w

def processLoginWait (message : String) (time : Int) (w : World) : World :=
  callGlobalField "onLoginWait" [.str message, .int time] w

/-- The callback given to `g_dispatcher.cycleEvent` in `processGameStart`: one
tick of the keepalive timer. -/
def pingEventCallback (w : World) : World :=
  match w.game.m_protocolGame with
  | some p =>
    if p.connected then
      let w := enableBotCall w
      let w := send .sendPing w
      disableBotCall w
    else w
  | none => w

def processGameStart (w : World) : Except GameError World :=
  let w : World := { w with game := { w.game with m_online := true } }
  match w.game.m_protocolGame with
  | none => .error .nullDereference
  | some _ =>
    -- synchronize fight modes with the server
    let w := send (.sendChangeFightModes w.game.m_fightMode w.game.m_chaseMode
      w.game.m_safeFight) w
    let w := enableBotCall w
    let w := callGlobalField "onGameStart" [] w
    let w := disableBotCall w
    if getFeature w.game .GameClientPing then
      .ok { w with game := { w.game with m_pingEvent := some { delay := 1000 } } }
    else .ok w

def processDeath (penality : Int) (w : World) : Except GameError World :=
  let w : World := { w with game := { w.game with m_dead := true } }
  match w.game.m_localPlayer with
  | none => .error .nullDereference
  | some _ =>
    let w := emit (.localPlayer .stopWalk) w
    .ok (callGlobalField "onDeath" [.int penality] w)

def processGMActions (actions : List Nat) (w : World) : World :=
  let w : World := { w with game := { w.game with m_gmActions := actions } }
  callGlobalField "onGMActions" [.bytes actions] w

def processPing (w : World) : World :=
  callGlobalField "onPing" [] w

def processPingBack (elapsed : Int) (w : World) : World :=
  let w : World := { w with game := { w.game with m_ping := elapsed } }
  callGlobalField "onPingBack" [.int elapsed] w

/-- The inbound events that `Game` only forwards to Lua, unchanged:
`processTextMessage`, `processTalk`, `processChannelList`, `processOpenChannel`,
`processOpenPrivateChannel`, `processOpenOwnPrivateChannel`, `processCloseChannel`,
`processRuleViolationChannel`, `processRuleViolationRemove`, `processRuleViolationCancel`,
`processRuleViolationLock`, `processTutorialHint`, `processAutomapFlag`,
`processOpenNpcTrade`, `processPlayerGoods`, `processCloseNpcTrade`, `processOwnTrade`,
`processCounterTrade`, `processCloseTrade`, `processEditText`, `processEditList`,
`processQuestLog`, `processQuestLine`; `field` is the Lua field each one calls and
`args` its arguments. -/
def processForward (field : String) (args : List LuaValue) (w : World) : World :=
  callGlobalField field args w

def processOpenOutfitWindow (currentOufit : Outfit) (outfitList mountList : Nat) (w : World) :
    World :=
  let outfit := { currentOufit with mount := 0 }
  let virtualMountCreature : Option Outfit :=
    if getFeature w.game .GamePlayerMounts then
      let mount := currentOufit.mount
      some { id := if mount > 0 then mount else 0, mount := 0 }
    else none
  callGlobalField "onOpenOutfitWindow"
    [.outfit (some outfit), .payload outfitList, .outfit virtualMountCreature,
      .payload mountList] w

/-! ### Containers, inventory, vips -/

/-- Modelled from the spec: `Container::onAddItems` of container.cpp, which is not
among the sources; the container is populated with the initial items, in order. -/
def Container.onAddItems (c : Container) (items : List (Option Item)) : Container :=
  { c with items := c.items ++ items }

/-- Modelled from the spec: `Container::onAddItem` of container.cpp, which is not
among the sources; the new item becomes the first slot. -/
def Container.onAddItem (c : Container) (item : Option Item) : Container :=
  { c with items := item :: c.items }

/-- Modelled from the spec: `Container::onUpdateItem` of container.cpp, which is not
among the sources; the item of an existing slot is replaced. -/
def Container.onUpdateItem (c : Container) (slot : Int) (item : Option Item) : Container :=
  if 0 ≤ slot ∧ slot.toNat < c.items.length then
    { c with items := c.items.set slot.toNat item }
  else c

/-- Modelled from the spec: `Container::onRemoveItem` of container.cpp, which is not
among the sources; an existing slot is removed. -/
def Container.onRemoveItem (c : Container) (slot : Int) : Container :=
  if 0 ≤ slot ∧ slot.toNat < c.items.length then
    { c with items := c.items.eraseIdx slot.toNat }
  else c

def processOpenContainer (containerId : Int) (containerItem : Option Item) (name : String)
    (capacity : Int) (hasParent : Bool) (items : List (Option Item)) (w : World) : World :=
  let (previousContainer, w) := getContainer containerId w
  let container : Container :=
    { id := containerId, capacity := capacity, name := name, containerItem := containerItem,
      hasParent := hasParent, items := [] }
  let container := container.onAddItems items
  let w : World :=
    { w with game := { w.game with
        m_containers := mapSet w.game.m_containers containerId (some container) } }
  -- we might want to close a container here
  let w := enableBotCall w
  let w := emit (.containerOnOpen container previousContainer) w
  let w := disableBotCall w
  match previousContainer with
  | some p => emit (.containerOnClose p) w
  | none => w

def processCloseContainer (containerId : Int) (w : World) : World :=
  match getContainer containerId w with
  | (none, w) => emit (.log "container not found") w
  | (some container, w) =>
    let w : World :=
      { w with game := { w.game with
          m_containers := mapSet w.game.m_containers containerId none } }
    emit (.containerOnClose container) w

def processContainerAddItem (containerId : Int) (item : Option Item) (w : World) : World :=
  match getContainer containerId w with
  | (none, w) => emit (.log "container not found") w
  | (some container, w) =>
    let w : World :=
      { w with game := { w.game with
          m_containers := mapSet w.game.m_containers containerId (some (container.onAddItem item)) } }
    emit (.containerOnAddItem container item) w

def processContainerUpdateItem (containerId : Int) (slot : Int) (item : Option Item)
    (w : World) : World :=
  match getContainer containerId w with
  | (none, w) => emit (.log "container not found") w
  | (some container, w) =>
    let w : World :=
      { w with game := { w.game with
          m_containers :=
            mapSet w.game.m_containers containerId (some (container.onUpdateItem slot item)) } }
    emit (.containerOnUpdateItem container slot item) w

def processContainerRemoveItem (containerId : Int) (slot : Int) (w : World) : World :=
  match getContainer containerId w with
  | (none, w) => emit (.log "container not found") w
  | (some container, w) =>
    let w : World :=
      { w with game := { w.game with
          m_containers :=
            mapSet w.game.m_containers containerId (some (container.onRemoveItem slot)) } }
    emit (.containerOnRemoveItem container slot) w

def processInventoryChange (slot : Int) (item : Option Item) (w : World) :
    Except GameError World :=
  let item := item.map (fun i => { i with position := { x := 65535, y := slot, z := 0 } })
  match w.game.m_localPlayer with
  | none => .error .nullDereference
  | some _ => .ok (emit (.localPlayer (.setInventoryItem slot item)) w)

def processVipAdd (id : Nat) (name : String) (online : Bool) (w : World) : World :=
  let w : World :=
    { w with game := { w.game with m_vips := mapSet w.game.m_vips id (name, online) } }
  callGlobalField "onAddVip" [.int id, .str name, .bool online] w

def processVipStateChange (id : Nat) (online : Bool) (w : World) : World :=
  let name := match mapFind w.game.m_vips id with
    | some v => v.1
    | none => ""
  let w : World :=
    { w with game := { w.game with m_vips := mapSet w.game.m_vips id (name, online) } }
  callGlobalField "onVipStateChange" [.int id, .bool online] w

def processWalkCancel (env : Env) (direction : Direction) (w : World) : Except GameError World :=
  match w.game.m_localPlayer with
  | none => .error .nullDereference
  | some _ =>
    if env.isAutoWalking then
      match w.game.m_protocolGame with
      | none => .error .nullDereference
      | some _ => .ok (emit (.localPlayer (.cancelWalk direction)) (send .sendStop w))
    else .ok (emit (.localPlayer (.cancelWalk direction)) w)

/-! ### Login and logout -/

/-- Function `Game::loginWorld`; `playerObj` is the identity of the object that
`new LocalPlayer` creates. -/
def loginWorld (playerObj : Nat) (account password worldName worldHost : String)
    (worldPort : Int) (characterName : String) (w : World) : Except GameError World :=
  if w.game.m_protocolGame.isSome || isOnline w.game then .error .loginWhileOnlineOrLogging
  else if w.game.m_clientVersion = 0 then .error .versionNotSet
  else
    -- reset the new game state
    let w := resetGameStates w
    let w : World :=
      { w with game := { w.game with
          m_localPlayer := some { obj := playerObj, name := characterName } } }
    let w : World := { w with game := { w.game with m_protocolGame := some { connected := false } } }
    let w := emit (.protocolLogin account password worldHost (worldPort % 65536).toNat
      characterName) w
    .ok { w with game := { w.game with m_characterName := characterName, m_worldName := worldName } }

def cancelLogin (w : World) : World :=
  let w := match w.game.m_protocolGame with
    | some _ => send .sendLogout w
    | none => w
  processDisconnect w

def forceLogout (w : World) : Except GameError World :=
  if !isOnline w.game then .ok w
  else
    match w.game.m_protocolGame with
    | none => .error .nullDereference
    | some _ => .ok (processDisconnect (send .sendLogout w))

def safeLogout (w : World) : Except GameError World :=
  if !isOnline w.game then .ok w
  else
    match w.game.m_protocolGame with
    | none => .error .nullDereference
    | some _ => .ok (send .sendLogout w)

/-- The transport finished connecting: `isConnected()` answers true from now on.
This happens inside `ProtocolGame`, outside `game.cpp`. -/
def transportConnected (w : World) : World :=
  match w.game.m_protocolGame with
  | some _ => { w with game := { w.game with m_protocolGame := some { connected := true } } }
  | none => w

/-- The transport lost its connection: `isConnected()` answers false from now on.
This happens inside `ProtocolGame`, outside `game.cpp`. -/
def transportClosed (w : World) : World :=
  match w.game.m_protocolGame with
  | some _ => { w with game := { w.game with m_protocolGame := some { connected := false } } }
  | none => w

/-! ## The operations as a transition system -/

/-- One constructor per operation of `Game` in `game.cpp` (public member functions,
the `process...` events called by the protocol, the inline `cancelAttack` and
`cancelFollow`), plus the keepalive timer tick and the two transport events.
Left out: `formatCreatureName`, which reads the session only, and the helpers
`resetGameStates`, `setAttackingCreature` and `setFollowingCreature`, which
`game.cpp` calls from inside the operations listed here. -/
inductive Op
  | terminate
  | processConnectionError (ec : ErrorCode)
  | processDisconnect
  | processLoginError (error : String)
  | processLoginAdvice (message : String)
  | processLoginWait (message : String) (time : Int)
  | processGameStart
  | processGameEnd
  | processDeath (penality : Int)
  | processGMActions (actions : List Nat)
  | processPing
  | processPingBack (elapsed : Int)
  | processForward (field : String) (args : List LuaValue)
  | processOpenOutfitWindow (currentOufit : Outfit) (outfitList : Nat) (mountList : Nat)
  | processOpenContainer (containerId : Int) (containerItem : Option Item) (name : String) (capacity : Int) (hasParent : Bool) (items : List (Option Item))
  | processCloseContainer (containerId : Int)
  | processContainerAddItem (containerId : Int) (item : Option Item)
  | processContainerUpdateItem (containerId : Int) (slot : Int) (item : Option Item)
  | processContainerRemoveItem (containerId : Int) (slot : Int)
  | processInventoryChange (slot : Int) (item : Option Item)
  | processVipAdd (id : Nat) (name : String) (online : Bool)
  | processVipStateChange (id : Nat) (online : Bool)
  | processAttackCancel (seq : Nat)
  | processWalkCancel (direction : Direction)
  | loginWorld (playerObj : Nat) (account : String) (password : String) (worldName : String) (worldHost : String) (worldPort : Int) (characterName : String)
  | cancelLogin
  | forceLogout
  | safeLogout
  | walk (direction : Direction)
  | autoWalk (dirs : List Direction)
  | forceWalk (direction : Direction)
  | turn (direction : Direction)
  | stop
  | look (thing : Option Thing)
  | move (thing : Option Thing) (toPos : Position) (count : Int)
  | moveToParentContainer (thing : Option Thing) (count : Int)
  | rotate (thing : Option Thing)
  | use (thing : Option Thing)
  | useInventoryItem (itemId : Int)
  | useWith (item : Option Item) (toThing : Option Thing)
  | useInventoryItemWith (itemId : Int) (toThing : Option Thing)
  | «open» (item : Option Item) (previousContainer : Option Container)
  | openParent (container : Option Container)
  | close (container : Option Container)
  | refreshContainer
  | attack (creature : Option Creature)
  | cancelAttack
  | follow (creature : Option Creature)
  | cancelFollow
  | cancelAttackAndFollow
  | talk (MessageSay : Nat) (message : String)
  | talkChannel (mode : Nat) (channelId : Int) (message : String)
  | talkPrivate (mode : Nat) (receiver : String) (message : String)
  | openPrivateChannel (receiver : String)
  | requestChannels
  | joinChannel (channelId : Int)
  | leaveChannel (channelId : Int)
  | closeNpcChannel
  | openOwnChannel
  | inviteToOwnChannel (name : String)
  | excludeFromOwnChannel (name : String)
  | partyInvite (creatureId : Int)
  | partyJoin (creatureId : Int)
  | partyRevokeInvitation (creatureId : Int)
  | partyPassLeadership (creatureId : Int)
  | partyLeave
  | partyShareExperience (active : Bool)
  | requestOutfit
  | changeOutfit (outfit : Outfit)
  | addVip (name : String)
  | removeVip (playerId : Int)
  | setChaseMode (chaseMode : ChaseModes)
  | setFightMode (fightMode : FightModes)
  | setSafeFight (safeFight : Bool)
  | inspectNpcTrade (item : Option Item)
  | buyItem (item : Option Item) (amount : Int) (ignoreCapacity : Bool) (buyWithBackpack : Bool)
  | sellItem (item : Option Item) (amount : Int) (ignoreEquipped : Bool)
  | closeNpcTrade
  | requestTrade (item : Option Item) (creature : Option Creature)
  | inspectTrade (counterOffer : Bool) (index : Int)
  | acceptTrade
  | rejectTrade
  | editText (id : Nat) (text : String)
  | editList (id : Nat) (doorId : Int) (text : String)
  | reportBug (comment : String)
  | reportRuleVilation (target : String) (reason : Int) (action : Int) (comment : String) (statement : String) (statementId : Int) (ipBanishment : Bool)
  | debugReport (a : String) (b : String) (c : String) (d : String)
  | requestQuestLog
  | requestQuestLine (questId : Int)
  | equipItem (item : Option Item)
  | mount (mount : Bool)
  | requestItemInfo (item : Option Item) (index : Int)
  | ping
  | canPerformGameAction
  | checkBotProtection
  | setClientVersion (version : Int)
  | pingEventCallback
  | transportConnected
  | transportClosed
  | findEmptyContainerId

/-- Whether the operation starts with `if(!canPerformGameAction() ...) return;`. -/
def Op.gated : Op → Bool
  | .walk .. => true
  | .autoWalk .. => true
  | .forceWalk .. => true
  | .turn .. => true
  | .stop .. => true
  | .look .. => true
  | .move .. => true
  | .moveToParentContainer .. => true
  | .rotate .. => true
  | .use .. => true
  | .useInventoryItem .. => true
  | .useWith .. => true
  | .useInventoryItemWith .. => true
  | .«open» .. => true
  | .openParent .. => true
  | .close .. => true
  | .refreshContainer .. => true
  | .attack .. => true
  | .cancelAttack .. => true
  | .follow .. => true
  | .cancelFollow .. => true
  | .cancelAttackAndFollow .. => true
  | .talk .. => true
  | .talkChannel .. => true
  | .talkPrivate .. => true
  | .openPrivateChannel .. => true
  | .requestChannels .. => true
  | .joinChannel .. => true
  | .leaveChannel .. => true
  | .closeNpcChannel .. => true
  | .openOwnChannel .. => true
  | .inviteToOwnChannel .. => true
  | .excludeFromOwnChannel .. => true
  | .partyInvite .. => true
  | .partyJoin .. => true
  | .partyRevokeInvitation .. => true
  | .partyPassLeadership .. => true
  | .partyLeave .. => true
  | .partyShareExperience .. => true
  | .requestOutfit .. => true
  | .changeOutfit .. => true
  | .addVip .. => true
  | .removeVip .. => true
  | .setChaseMode .. => true
  | .setFightMode .. => true
  | .setSafeFight .. => true
  | .inspectNpcTrade .. => true
  | .buyItem .. => true
  | .sellItem .. => true
  | .closeNpcTrade .. => true
  | .requestTrade .. => true
  | .inspectTrade .. => true
  | .acceptTrade .. => true
  | .rejectTrade .. => true
  | .editText .. => true
  | .editList .. => true
  | .reportBug .. => true
  | .reportRuleVilation .. => true
  | .requestQuestLog .. => true
  | .requestQuestLine .. => true
  | .equipItem .. => true
  | .mount .. => true
  | .requestItemInfo .. => true
  | _ => false

/-- Whether the operation can reach a `sendAttack` or `sendFollow`: `attack` and
`follow`, the cancellations, and the operations that call `cancelAttack()` or
`cancelFollow()`. -/
def Op.sendsSeq : Op → Bool
  | .attack .. => true
  | .follow .. => true
  | .cancelAttack => true
  | .cancelFollow => true
  | .processAttackCancel .. => true
  | .walk .. => true
  | .autoWalk .. => true
  | .stop => true
  | _ => false

/-- Whether the body of the operation can reach `resetGameStates()`: directly
(`terminate`, `loginWorld`, `processGameEnd`) or through `processDisconnect()`. -/
def Op.resets : Op → Bool
  | .terminate => true
  | .processConnectionError .. => true
  | .processDisconnect => true
  | .processGameEnd => true
  | .loginWorld .. => true
  | .cancelLogin => true
  | .forceLogout => true
  | _ => false

/-- Run one operation. An error is a thrown exception or a crash; the session is
then as it was before the call. -/
def step (env : Env) (op : Op) (w : World) : Except GameError World :=
  match op with
  | .terminate => .ok (Otclient.terminate w)
  | .processConnectionError ec => .ok (Otclient.processConnectionError ec w)
  | .processDisconnect => .ok (Otclient.processDisconnect w)
  | .processLoginError error => .ok (Otclient.processLoginError error w)
  | .processLoginAdvice message => .ok (Otclient.processLoginAdvice message w)
  | .processLoginWait message time => .ok (Otclient.processLoginWait message time w)
  | .processGameStart => Otclient.processGameStart w
  | .processGameEnd => .ok (Otclient.processGameEnd w)
  | .processDeath penality => Otclient.processDeath penality w
  | .processGMActions actions => .ok (Otclient.processGMActions actions w)
  | .processPing => .ok (Otclient.processPing w)
  | .processPingBack elapsed => .ok (Otclient.processPingBack elapsed w)
  | .processForward field args => .ok (Otclient.processForward field args w)
  | .processOpenOutfitWindow currentOufit outfitList mountList => .ok (Otclient.processOpenOutfitWindow currentOufit outfitList mountList w)
  | .processOpenContainer containerId containerItem name capacity hasParent items => .ok (Otclient.processOpenContainer containerId containerItem name capacity hasParent items w)
  | .processCloseContainer containerId => .ok (Otclient.processCloseContainer containerId w)
  | .processContainerAddItem containerId item => .ok (Otclient.processContainerAddItem containerId item w)
  | .processContainerUpdateItem containerId slot item => .ok (Otclient.processContainerUpdateItem containerId slot item w)
  | .processContainerRemoveItem containerId slot => .ok (Otclient.processContainerRemoveItem containerId slot w)
  | .processInventoryChange slot item => Otclient.processInventoryChange slot item w
  | .processVipAdd id name online => .ok (Otclient.processVipAdd id name online w)
  | .processVipStateChange id online => .ok (Otclient.processVipStateChange id online w)
  | .processAttackCancel seq => .ok (Otclient.processAttackCancel env seq w)
  | .processWalkCancel direction => Otclient.processWalkCancel env direction w
  | .loginWorld playerObj account password worldName worldHost worldPort characterName => Otclient.loginWorld playerObj account password worldName worldHost worldPort characterName w
  | .cancelLogin => .ok (Otclient.cancelLogin w)
  | .forceLogout => Otclient.forceLogout w
  | .safeLogout => Otclient.safeLogout w
  | .walk direction => .ok (Otclient.walk env direction w)
  | .autoWalk dirs => .ok (Otclient.autoWalk env dirs w)
  | .forceWalk direction => .ok (Otclient.forceWalk env direction w)
  | .turn direction => .ok (Otclient.turn env direction w)
  | .stop => .ok (Otclient.stop env w)
  | .look thing => .ok (Otclient.look env thing w)
  | .move thing toPos count => .ok (Otclient.move env thing toPos count w)
  | .moveToParentContainer thing count => .ok (Otclient.moveToParentContainer env thing count w)
  | .rotate thing => .ok (Otclient.rotate env thing w)
  | .use thing => Otclient.use env thing w
  | .useInventoryItem itemId => .ok (Otclient.useInventoryItem env itemId w)
  | .useWith item toThing => .ok (Otclient.useWith env item toThing w)
  | .useInventoryItemWith itemId toThing => .ok (Otclient.useInventoryItemWith env itemId toThing w)
  | .«open» item previousContainer => Otclient.«open» env item previousContainer w
  | .openParent container => .ok (Otclient.openParent env container w)
  | .close container => .ok (Otclient.close env container w)
  | .refreshContainer => .ok (Otclient.refreshContainer env w)
  | .attack creature => .ok (Otclient.attack env creature w)
  | .cancelAttack => .ok (Otclient.cancelAttack env w)
  | .follow creature => .ok (Otclient.follow env creature w)
  | .cancelFollow => .ok (Otclient.cancelFollow env w)
  | .cancelAttackAndFollow => .ok (Otclient.cancelAttackAndFollow env w)
  | .talk MessageSay message => .ok (Otclient.talk env MessageSay message w)
  | .talkChannel mode channelId message => .ok (Otclient.talkChannel env mode channelId message w)
  | .talkPrivate mode receiver message => .ok (Otclient.talkPrivate env mode receiver message w)
  | .openPrivateChannel receiver => .ok (Otclient.openPrivateChannel env receiver w)
  | .requestChannels => .ok (Otclient.requestChannels env w)
  | .joinChannel channelId => .ok (Otclient.joinChannel env channelId w)
  | .leaveChannel channelId => .ok (Otclient.leaveChannel env channelId w)
  | .closeNpcChannel => .ok (Otclient.closeNpcChannel env w)
  | .openOwnChannel => .ok (Otclient.openOwnChannel env w)
  | .inviteToOwnChannel name => .ok (Otclient.inviteToOwnChannel env name w)
  | .excludeFromOwnChannel name => .ok (Otclient.excludeFromOwnChannel env name w)
  | .partyInvite creatureId => .ok (Otclient.partyInvite env creatureId w)
  | .partyJoin creatureId => .ok (Otclient.partyJoin env creatureId w)
  | .partyRevokeInvitation creatureId => .ok (Otclient.partyRevokeInvitation env creatureId w)
  | .partyPassLeadership creatureId => .ok (Otclient.partyPassLeadership env creatureId w)
  | .partyLeave => .ok (Otclient.partyLeave env w)
  | .partyShareExperience active => .ok (Otclient.partyShareExperience env active w)
  | .requestOutfit => .ok (Otclient.requestOutfit env w)
  | .changeOutfit outfit => .ok (Otclient.changeOutfit env outfit w)
  | .addVip name => .ok (Otclient.addVip env name w)
  | .removeVip playerId => .ok (Otclient.removeVip env playerId w)
  | .setChaseMode chaseMode => .ok (Otclient.setChaseMode env chaseMode w)
  | .setFightMode fightMode => .ok (Otclient.setFightMode env fightMode w)
  | .setSafeFight safeFight => .ok (Otclient.setSafeFight env safeFight w)
  | .inspectNpcTrade item => .ok (Otclient.inspectNpcTrade env item w)
  | .buyItem item amount ignoreCapacity buyWithBackpack => .ok (Otclient.buyItem env item amount ignoreCapacity buyWithBackpack w)
  | .sellItem item amount ignoreEquipped => .ok (Otclient.sellItem env item amount ignoreEquipped w)
  | .closeNpcTrade => .ok (Otclient.closeNpcTrade env w)
  | .requestTrade item creature => .ok (Otclient.requestTrade env item creature w)
  | .inspectTrade counterOffer index => .ok (Otclient.inspectTrade env counterOffer index w)
  | .acceptTrade => .ok (Otclient.acceptTrade env w)
  | .rejectTrade => .ok (Otclient.rejectTrade env w)
  | .editText id text => .ok (Otclient.editText env id text w)
  | .editList id doorId text => .ok (Otclient.editList env id doorId text w)
  | .reportBug comment => .ok (Otclient.reportBug env comment w)
  | .reportRuleVilation target reason action comment statement statementId ipBanishment => .ok (Otclient.reportRuleVilation env target reason action comment statement statementId ipBanishment w)
  | .debugReport a b c d => Otclient.debugReport a b c d w
  | .requestQuestLog => .ok (Otclient.requestQuestLog env w)
  | .requestQuestLine questId => .ok (Otclient.requestQuestLine env questId w)
  | .equipItem item => Otclient.equipItem env item w
  | .mount m => .ok (Otclient.mount env m w)
  | .requestItemInfo item index => Otclient.requestItemInfo env item index w
  | .ping => .ok (Otclient.ping w)
  | .canPerformGameAction => .ok (Otclient.canPerformGameAction env w).2
  | .checkBotProtection => .ok (Otclient.checkBotProtection env w).2
  | .setClientVersion version => Otclient.setClientVersion version w
  | .pingEventCallback => .ok (Otclient.pingEventCallback w)
  | .transportConnected => .ok (Otclient.transportConnected w)
  | .transportClosed => .ok (Otclient.transportClosed w)
  | .findEmptyContainerId =>
    match Otclient.findEmptyContainerId w.game with
    | some (_, g) => .ok { w with game := g }
    | none => .error .outOfFuel

/-- The states the session can be in: the constructed one, and every state an
operation returns normally from a reachable one. -/
inductive Reachable : World → Prop
  | construct : Reachable construct
  | step {w w' : World} (env : Env) (op : Op) :
      Reachable w → step env op w = .ok w' → Reachable w'

/-- Run a list of operations in order; an operation that throws leaves the
session as it was before the call. -/
def runOps (env : Env) : List Op → World → World
  | [], w => w
  | op :: ops, w =>
    match step env op w with
    | .ok w' => runOps env ops w'
    | .error _ => runOps env ops w

/-- Run a list of calls in order, each with the answers its collaborators give
during that call; a call that throws leaves the session as it was. -/
def runCalls : List (Env × Op) → World → World
  | [], w => w
  | (env, op) :: calls, w =>
    match step env op w with
    | .ok w' => runCalls calls w'
    | .error _ => runCalls calls w

/-- No call of the run ends the session: every call that returns is either an
operation that cannot reach `resetGameStates()` or leaves the session online. -/
def sessionKept : List (Env × Op) → World → Bool
  | [], _ => true
  | (env, op) :: calls, w =>
    match step env op w with
    | .ok w' => (!op.resets || w'.game.m_online) && sessionKept calls w'
    | .error _ => sessionKept calls w

/-! ## Exceptions, with the session at the point of the throw

`setClientVersion` and `loginWorld` above give the caller's view (a result or an
error). The two functions below are the same bodies, returning the session as it is
when the function returns or throws, together with what was thrown. -/

/-- Function `Game::setClientVersion`, with the session at the point of return or
throw. -/
def setClientVersionAt (version : Int) (w : World) : World × Option GameError :=
  if w.game.m_clientVersion = version then (w, none)
  else if isOnline w.game then (w, some .changeVersionWhileOnline)
  else if version ≠ 0 ∧ (version < 810 ∨ version > 961) then
    (w, some (.versionNotSupported version))
  else
    let g := applyVersionFeatures version w.game
    let g := { g with m_clientVersion := version }
    let w : World := { w with game := g }
    let w := emit (.buildMessageModesMap version) w
    (callGlobalField "onClientVersionChange" [.int version] w, none)

/-- Function `Game::loginWorld`, with the session at the point of return or throw. -/
def loginWorldAt (playerObj : Nat) (account password worldName worldHost : String)
    (worldPort : Int) (characterName : String) (w : World) : World × Option GameError :=
  if w.game.m_protocolGame.isSome || isOnline w.game then (w, some .loginWhileOnlineOrLogging)
  else if w.game.m_clientVersion = 0 then (w, some .versionNotSet)
  else
    -- reset the new game state
    let w := resetGameStates w
    let w : World :=
      { w with game := { w.game with
          m_localPlayer := some { obj := playerObj, name := characterName } } }
    let w : World := { w with game := { w.game with m_protocolGame := some { connected := false } } }
    let w := emit (.protocolLogin account password worldHost (worldPort % 65536).toNat
      characterName) w
    ({ w with game := { w.game with m_characterName := characterName, m_worldName := worldName } },
      none)

/-- The caller's view of a run that ends in a session and possibly a throw. -/
def callerView (r : World × Option GameError) : Except GameError World :=
  match r with
  | (w, none) => .ok w
  | (_, some e) => .error e

/-! ## The words of the specification -/

/-- The version-to-feature threshold table of the specification (section 6). -/
def thresholdTable (v : Int) : GameFeature → Bool
  | .GameFormatCreatureName => true
  | .GameChargeableItems => decide (v ≤ 810)
  | .GameProtocolChecksum => decide (v ≥ 854)
  | .GameAccountNames => decide (v ≥ 854)
  | .GameChallangeOnLogin => decide (v ≥ 854)
  | .GameDoubleFreeCapacity => decide (v ≥ 854)
  | .GameCreatureEmblems => decide (v ≥ 854)
  | .GamePenalityOnDeath => decide (v ≥ 862)
  | .GameDoubleExperience => decide (v ≥ 870)
  | .GamePlayerMounts => decide (v ≥ 870)
  | .GameSpellList => decide (v ≥ 870)
  | .GameNameOnNpcTrade => decide (v ≥ 910)
  | .GameTotalCapacity => decide (v ≥ 910)
  | .GameSkillsBase => decide (v ≥ 910)
  | .GamePlayerRegenerationTime => decide (v ≥ 910)
  | .GameChannelPlayerList => decide (v ≥ 910)
  | .GameEnvironmentEffect => decide (v ≥ 910)
  | .GameItemAnimationPhase => decide (v ≥ 910)
  | .GamePlayerMarket => decide (v ≥ 940)
  | .GamePurseSlot => decide (v ≥ 953)
  | .GameClientPing => decide (v ≥ 953)
  | .GameSpritesU32 => decide (v ≥ 960)
  | .GameOfflineTrainingTime => decide (v ≥ 960)
  | .other _ => false

/-- The flags of the 854-and-later thresholds of the table. -/
def flagsFrom854 : List GameFeature :=
  [.GameProtocolChecksum, .GameAccountNames, .GameChallangeOnLogin, .GameDoubleFreeCapacity,
   .GameCreatureEmblems, .GamePenalityOnDeath, .GameDoubleExperience, .GamePlayerMounts,
   .GameSpellList, .GameNameOnNpcTrade, .GameTotalCapacity, .GameSkillsBase,
   .GamePlayerRegenerationTime, .GameChannelPlayerList, .GameEnvironmentEffect,
   .GameItemAnimationPhase, .GamePlayerMarket, .GamePurseSlot, .GameClientPing,
   .GameSpritesU32, .GameOfflineTrainingTime]

/-- The sequence value carried by an attack or follow command. -/
def seqOf : Effect → Option Nat
  | .send (.sendAttack _ seq) => some seq
  | .send (.sendFollow _ seq) => some seq
  | _ => none

/-- The sequence values of the attack and follow commands of a trace, in order. -/
def seqValues (out : List Effect) : List Nat :=
  out.filterMap seqOf

/-- The close notifications `resetGameStates` sends: one per non-null entry of the
container map, in key order. -/
def closeEffects (l : List (Int × Option Container)) : List Effect :=
  l.filterMap (fun kc => kc.2.map Effect.containerOnClose)

/-- The cancellation `resetGameStates` sends to a running keepalive timer. -/
def cancelEffects (e : Option ScheduledEvent) : List Effect :=
  match e with
  | some e => [.cancelEvent e]
  | none => []

/-- The step from `w` to `w'` handed no attack or follow command to the transport:
the trace grew by effects that carry no sequence value. -/
def Quiet (w w' : World) : Prop :=
  ∃ effs, w'.out = w.out ++ effs ∧ seqValues effs = []

/-- The step from `w` to `w'` seen from the sequence counter: either no attack or
follow command was sent and the counter is unchanged or back to 0, or one or two
were sent, carrying the successive values of the counter, the last one stored. -/
def SeqStep (w w' : World) : Prop :=
  ∃ effs, w'.out = w.out ++ effs ∧
    ((seqValues effs = [] ∧ (w'.game.m_seq = w.game.m_seq ∨ w'.game.m_seq = 0))
      ∨ (seqValues effs = [(w.game.m_seq + 1) % UINT_MOD]
          ∧ w'.game.m_seq = (w.game.m_seq + 1) % UINT_MOD)
      ∨ (seqValues effs = [(w.game.m_seq + 1) % UINT_MOD, (w.game.m_seq + 2) % UINT_MOD]
          ∧ w'.game.m_seq = (w.game.m_seq + 2) % UINT_MOD))

/-- The step from `w` to `w'` within a session, seen from the sequence counter:
either no attack or follow command was sent and the counter is unchanged, or one or
two were sent, carrying the successive values of the counter, the last one
stored. -/
def SeqSend (w w' : World) : Prop :=
  ∃ effs, w'.out = w.out ++ effs ∧
    ((seqValues effs = [] ∧ w'.game.m_seq = w.game.m_seq)
      ∨ (seqValues effs = [(w.game.m_seq + 1) % UINT_MOD]
          ∧ w'.game.m_seq = (w.game.m_seq + 1) % UINT_MOD)
      ∨ (seqValues effs = [(w.game.m_seq + 1) % UINT_MOD, (w.game.m_seq + 2) % UINT_MOD]
          ∧ w'.game.m_seq = (w.game.m_seq + 2) % UINT_MOD))

/-- The container the registry holds at an id: none when the id is absent from
the map or holds a null pointer (a closed slot). -/
def containerAt (g : Game) (id : Int) : Option Container :=
  match mapFind g.m_containers id with
  | some c => c
  | none => none

/-- The login requests of a trace. -/
def loginRequests (out : List Effect) : List Effect :=
  out.filter (fun e => match e with
    | .protocolLogin .. => true
    | _ => false)

/-- The connection-error notifications of a trace. -/
def connectionErrors (out : List Effect) : List Effect :=
  out.filter (fun e => match e with
    | .lua "onConnectionError" _ => true
    | _ => false)

/-- The container notifications of a trace (open, close, add, update, remove). -/
def containerNotifications (out : List Effect) : List Effect :=
  out.filter (fun e => match e with
    | .containerOnOpen .. => true
    | .containerOnClose .. => true
    | .containerOnAddItem .. => true
    | .containerOnUpdateItem .. => true
    | .containerOnRemoveItem .. => true
    | _ => false)

/-- What `processGameEnd` hands to its collaborators. -/
def gameEndEffects (g : Game) : List Effect :=
  [.lua "onGameEnd" []] ++ closeEffects g.m_containers ++ cancelEffects g.m_pingEvent
    ++ [.cleanDynamicThings]

/-- The commands a trace handed to the transport, in order. -/
def sentCommands (out : List Effect) : List Command :=
  out.filterMap (fun e => match e with
    | .send c => some c
    | _ => none)

/-- The paths of the auto-walk commands of a trace. -/
def autoWalkCommands (out : List Effect) : List (List Direction) :=
  out.filterMap (fun e => match e with
    | .send (.sendAutoWalk dirs) => some dirs
    | _ => none)

/-- The game-end notifications of a trace. -/
def gameEndNotifications (out : List Effect) : List Effect :=
  out.filter (fun e => match e with
    | .lua "onGameEnd" _ => true
    | _ => false)

/-! ## Concrete sessions -/

/-- An environment without bot protection, standing on an empty map. -/
def envPlain : Env :=
  { BOT_PROTECTION := false, isInCppCallback := false, isOnInputEvent := false,
    isAutoWalking := false, canWalk := fun _ => true, playerPosition := ⟨100, 100, 7⟩,
    playerTile := none, translatedToDirection := fun p _ => p, down := fun _ => none,
    up := fun _ => none, getTile := fun _ => none, isValid := fun _ => true,
    isValidDatId := fun _ => true, ProtoCreature := 99 }

/-- An environment with bot protection compiled in, inside a Lua callback that
no input event started. -/
def envBot : Env :=
  { envPlain with BOT_PROTECTION := true, isInCppCallback := true, isOnInputEvent := false }

def orc : Creature := { obj := 5, id := 50 }

def rat : Creature := { obj := 6, id := 60 }

/-- The operations that bring a fresh client into a running game at version 860. -/
def loginOps : List Op :=
  [.setClientVersion 860, .loginWorld 1 "account" "password" "World" "host" 7171 "Player",
   .transportConnected, .processGameStart]

/-- A running game: online, local player present and alive, transport connected. -/
def playing : World := runOps envPlain loginOps construct

/-- A running game in which the orc is being attacked. -/
def attackingOrc : World := runOps envPlain (loginOps ++ [.attack (some orc)]) construct

/-- A running game in which the player died while attacking the orc. -/
def deadAttackingOrc : World :=
  runOps envPlain (loginOps ++ [.attack (some orc), .processDeath 0]) construct

def backpack : Container :=
  { id := 0, capacity := 20, name := "backpack", containerItem := none, hasParent := false,
    items := [] }

def pouch : Container :=
  { id := 1, capacity := 8, name := "pouch", containerItem := none, hasParent := true,
    items := [] }

def chest : Container :=
  { id := 3, capacity := 30, name := "chest", containerItem := none, hasParent := false,
    items := [] }

/-- A session whose registry holds containers at the ids 0, 1 and 3. -/
def registry013 : Game :=
  { playing.game with m_containers := [(0, some backpack), (1, some pouch), (3, some chest)] }

/-- A running game in which the server opened the backpack at id 0. -/
def playingWithBackpack : World :=
  runOps envPlain (loginOps ++ [.processOpenContainer 0 none "backpack" 20 false []]) construct

/-- A fresh client with version 860 set, not logged in. -/
def versionSet : World := runOps envPlain [.setClientVersion 860] construct

/-- A transport error that is not the end of the stream. -/
def connectionReset : ErrorCode := { isEof := false, message := "Connection reset by peer", value := 104 }

/-- The clean end of the stream. -/
def endOfFile : ErrorCode := { isEof := true, message := "End of file", value := 2 }

/-- A client that is logging in: version 860, handle open and connected, the
game-start confirmation not yet received. -/
def loggingIn : World :=
  runOps envPlain
    [.setClientVersion 860, .loginWorld 1 "account" "password" "World" "host" 7171 "Player",
     .transportConnected] construct

/-- A client that is logging in at version 960, where the client ping is enabled. -/
def loggingIn960 : World :=
  runOps envPlain
    [.setClientVersion 960, .loginWorld 1 "account" "password" "World" "host" 7171 "Player",
     .transportConnected] construct

/-- A path of 127 steps to the north. -/
def path127 : List Direction := List.replicate 127 Direction.North

/-- A path of 128 steps to the north. -/
def path128 : List Direction := List.replicate 128 Direction.North

/-! ## Basic facts about the trace helpers and the gate -/

@[simp] theorem emit_game (e : Effect) (w : World) : (emit e w).game = w.game := rfl

@[simp] theorem send_game (c : Command) (w : World) : (send c w).game = w.game := rfl

@[simp] theorem callGlobalField_game (f : String) (a : List LuaValue) (w : World) :
    (callGlobalField f a w).game = w.game := rfl

@[simp] theorem emit_out (e : Effect) (w : World) : (emit e w).out = w.out ++ [e] := rfl

@[simp] theorem send_out (c : Command) (w : World) : (send c w).out = w.out ++ [.send c] := rfl

@[simp] theorem callGlobalField_out (f : String) (a : List LuaValue) (w : World) :
    (callGlobalField f a w).out = w.out ++ [.lua f a] := rfl

theorem checkBotProtection_game (env : Env) (w : World) :
    (checkBotProtection env w).2.game = w.game := by
  unfold checkBotProtection; split <;> rfl

theorem canPerformGameAction_game (env : Env) (w : World) :
    (canPerformGameAction env w).2.game = w.game := by
  unfold canPerformGameAction; split
  · exact checkBotProtection_game env w
  · rfl

/-- Whatever the gate answers, the session it returns is the one it was given. -/
theorem gate_game {env : Env} {w w1 : World} {b : Bool}
    (h : canPerformGameAction env w = (b, w1)) : w1.game = w.game := by
  have := canPerformGameAction_game env w
  rw [h] at this; exact this

/-- When the gate passes nothing was logged either. -/
theorem gate_true {env : Env} {w w1 : World}
    (h : canPerformGameAction env w = (true, w1)) : w1 = w := by
  unfold canPerformGameAction checkBotProtection at h
  split at h
  · split at h
    · simp at h
    · simp at h; exact h.symm
  · simp at h

/-- A dead player or an offline session fails the gate before the bot check. -/
theorem gate_dead_or_offline (env : Env) (w : World)
    (h : w.game.m_dead = true ∨ w.game.m_online = false) :
    canPerformGameAction env w = (false, w) := by
  unfold canPerformGameAction
  rcases h with h | h <;> simp [h]

/-- The gate only reads the five liveness fields and `m_denyBotCall`. -/
theorem gate_congr (env : Env) (w w2 : World)
    (h1 : w2.game.m_online = w.game.m_online)
    (h2 : w2.game.m_localPlayer = w.game.m_localPlayer)
    (h3 : w2.game.m_dead = w.game.m_dead)
    (h4 : w2.game.m_protocolGame = w.game.m_protocolGame)
    (h5 : w2.game.m_denyBotCall = w.game.m_denyBotCall) :
    (canPerformGameAction env w2).1 = (canPerformGameAction env w).1 := by
  unfold canPerformGameAction checkBotProtection
  rw [h1, h2, h3, h4, h5]
  repeat' split
  all_goals rfl

/-! ## Operations that only send: the session is left as it was -/

@[simp] theorem forceWalk_game (env : Env) (d : Direction) (w : World) :
    (forceWalk env d w).game = w.game := by
  unfold forceWalk
  rcases hg : canPerformGameAction env w with ⟨b, w1⟩
  have h1 : w1.game = w.game := gate_game hg
  cases b <;> simp only [] <;> (repeat' split) <;> simp_all

@[simp] theorem turn_game (env : Env) (d : Direction) (w : World) :
    (turn env d w).game = w.game := by
  unfold turn
  rcases hg : canPerformGameAction env w with ⟨b, w1⟩
  have h1 : w1.game = w.game := gate_game hg
  cases b <;> simp only [] <;> (repeat' split) <;> simp_all

@[simp] theorem look_game (env : Env) (t : Option Thing) (w : World) :
    (look env t w).game = w.game := by
  unfold look
  rcases hg : canPerformGameAction env w with ⟨b, w1⟩
  have h1 : w1.game = w.game := gate_game hg
  cases b <;> simp only [] <;> (repeat' split) <;> simp_all

@[simp] theorem move_game (env : Env) (t : Option Thing) (p : Position) (n : Int) (w : World) :
    (move env t p n w).game = w.game := by
  unfold move
  rcases hg : canPerformGameAction env w with ⟨b, w1⟩
  have h1 : w1.game = w.game := gate_game hg
  cases b <;> simp only [] <;> (repeat' split) <;> simp_all

@[simp] theorem moveToParentContainer_game (env : Env) (t : Option Thing) (n : Int) (w : World) :
    (moveToParentContainer env t n w).game = w.game := by
  unfold moveToParentContainer
  rcases hg : canPerformGameAction env w with ⟨b, w1⟩
  have h1 : w1.game = w.game := gate_game hg
  cases b <;> simp only [] <;> (repeat' split) <;> simp_all [move_game]

@[simp] theorem rotate_game (env : Env) (t : Option Thing) (w : World) :
    (rotate env t w).game = w.game := by
  unfold rotate
  rcases hg : canPerformGameAction env w with ⟨b, w1⟩
  have h1 : w1.game = w.game := gate_game hg
  cases b <;> simp only [] <;> (repeat' split) <;> simp_all

@[simp] theorem useInventoryItem_game (env : Env) (i : Int) (w : World) :
    (useInventoryItem env i w).game = w.game := by
  unfold useInventoryItem
  rcases hg : canPerformGameAction env w with ⟨b, w1⟩
  have h1 : w1.game = w.game := gate_game hg
  cases b <;> simp only [] <;> (repeat' split) <;> simp_all

@[simp] theorem useWith_game (env : Env) (i : Option Item) (t : Option Thing) (w : World) :
    (useWith env i t w).game = w.game := by
  unfold useWith
  rcases hg : canPerformGameAction env w with ⟨b, w1⟩
  have h1 : w1.game = w.game := gate_game hg
  cases b <;> simp only [] <;> (repeat' split) <;> simp_all

@[simp] theorem useInventoryItemWith_game (env : Env) (i : Int) (t : Option Thing) (w : World) :
    (useInventoryItemWith env i t w).game = w.game := by
  unfold useInventoryItemWith
  rcases hg : canPerformGameAction env w with ⟨b, w1⟩
  have h1 : w1.game = w.game := gate_game hg
  cases b <;> simp only [] <;> (repeat' split) <;> simp_all

@[simp] theorem openParent_game (env : Env) (c : Option Container) (w : World) :
    (openParent env c w).game = w.game := by
  unfold openParent
  rcases hg : canPerformGameAction env w with ⟨b, w1⟩
  have h1 : w1.game = w.game := gate_game hg
  cases b <;> simp only [] <;> (repeat' split) <;> simp_all

@[simp] theorem close_game (env : Env) (c : Option Container) (w : World) :
    (close env c w).game = w.game := by
  unfold close
  rcases hg : canPerformGameAction env w with ⟨b, w1⟩
  have h1 : w1.game = w.game := gate_game hg
  cases b <;> simp only [] <;> (repeat' split) <;> simp_all

@[simp] theorem refreshContainer_game (env : Env) (w : World) :
    (refreshContainer env w).game = w.game := by
  unfold refreshContainer
  rcases hg : canPerformGameAction env w with ⟨b, w1⟩
  have h1 : w1.game = w.game := gate_game hg
  cases b <;> simp only [] <;> (repeat' split) <;> simp_all

@[simp] theorem cancelAttackAndFollow_game (env : Env) (w : World) :
    (cancelAttackAndFollow env w).game = w.game := by
  unfold cancelAttackAndFollow
  rcases hg : canPerformGameAction env w with ⟨b, w1⟩
  have h1 : w1.game = w.game := gate_game hg
  cases b <;> simp only [] <;> (repeat' split) <;> simp_all

@[simp] theorem talkChannel_game (env : Env) (m : Nat) (c : Int) (s : String) (w : World) :
    (talkChannel env m c s w).game = w.game := by
  unfold talkChannel
  rcases hg : canPerformGameAction env w with ⟨b, w1⟩
  have h1 : w1.game = w.game := gate_game hg
  cases b <;> simp only [] <;> (repeat' split) <;> simp_all

@[simp] theorem talk_game (env : Env) (m : Nat) (s : String) (w : World) :
    (talk env m s w).game = w.game := by
  unfold talk
  rcases hg : canPerformGameAction env w with ⟨b, w1⟩
  have h1 : w1.game = w.game := gate_game hg
  cases b <;> simp only [] <;> (repeat' split) <;> simp_all [talkChannel_game]

@[simp] theorem talkPrivate_game (env : Env) (m : Nat) (r s : String) (w : World) :
    (talkPrivate env m r s w).game = w.game := by
  unfold talkPrivate
  rcases hg : canPerformGameAction env w with ⟨b, w1⟩
  have h1 : w1.game = w.game := gate_game hg
  cases b <;> simp only [] <;> (repeat' split) <;> simp_all

@[simp] theorem openPrivateChannel_game (env : Env) (r : String) (w : World) :
    (openPrivateChannel env r w).game = w.game := by
  unfold openPrivateChannel
  rcases hg : canPerformGameAction env w with ⟨b, w1⟩
  have h1 : w1.game = w.game := gate_game hg
  cases b <;> simp only [] <;> (repeat' split) <;> simp_all

@[simp] theorem requestChannels_game (env : Env) (w : World) :
    (requestChannels env w).game = w.game := by
  unfold requestChannels
  rcases hg : canPerformGameAction env w with ⟨b, w1⟩
  have h1 : w1.game = w.game := gate_game hg
  cases b <;> simp only [] <;> (repeat' split) <;> simp_all

@[simp] theorem joinChannel_game (env : Env) (c : Int) (w : World) :
    (joinChannel env c w).game = w.game := by
  unfold joinChannel
  rcases hg : canPerformGameAction env w with ⟨b, w1⟩
  have h1 : w1.game = w.game := gate_game hg
  cases b <;> simp only [] <;> (repeat' split) <;> simp_all

@[simp] theorem leaveChannel_game (env : Env) (c : Int) (w : World) :
    (leaveChannel env c w).game = w.game := by
  unfold leaveChannel
  rcases hg : canPerformGameAction env w with ⟨b, w1⟩
  have h1 : w1.game = w.game := gate_game hg
  cases b <;> simp only [] <;> (repeat' split) <;> simp_all

@[simp] theorem closeNpcChannel_game (env : Env) (w : World) :
    (closeNpcChannel env w).game = w.game := by
  unfold closeNpcChannel
  rcases hg : canPerformGameAction env w with ⟨b, w1⟩
  have h1 : w1.game = w.game := gate_game hg
  cases b <;> simp only [] <;> (repeat' split) <;> simp_all

@[simp] theorem openOwnChannel_game (env : Env) (w : World) :
    (openOwnChannel env w).game = w.game := by
  unfold openOwnChannel
  rcases hg : canPerformGameAction env w with ⟨b, w1⟩
  have h1 : w1.game = w.game := gate_game hg
  cases b <;> simp only [] <;> (repeat' split) <;> simp_all

@[simp] theorem inviteToOwnChannel_game (env : Env) (n : String) (w : World) :
    (inviteToOwnChannel env n w).game = w.game := by
  unfold inviteToOwnChannel
  rcases hg : canPerformGameAction env w with ⟨b, w1⟩
  have h1 : w1.game = w.game := gate_game hg
  cases b <;> simp only [] <;> (repeat' split) <;> simp_all

@[simp] theorem excludeFromOwnChannel_game (env : Env) (n : String) (w : World) :
    (excludeFromOwnChannel env n w).game = w.game := by
  unfold excludeFromOwnChannel
  rcases hg : canPerformGameAction env w with ⟨b, w1⟩
  have h1 : w1.game = w.game := gate_game hg
  cases b <;> simp only [] <;> (repeat' split) <;> simp_all

@[simp] theorem partyInvite_game (env : Env) (c : Int) (w : World) :
    (partyInvite env c w).game = w.game := by
  unfold partyInvite
  rcases hg : canPerformGameAction env w with ⟨b, w1⟩
  have h1 : w1.game = w.game := gate_game hg
  cases b <;> simp only [] <;> (repeat' split) <;> simp_all

@[simp] theorem partyJoin_game (env : Env) (c : Int) (w : World) :
    (partyJoin env c w).game = w.game := by
  unfold partyJoin
  rcases hg : canPerformGameAction env w with ⟨b, w1⟩
  have h1 : w1.game = w.game := gate_game hg
  cases b <;> simp only [] <;> (repeat' split) <;> simp_all

@[simp] theorem partyRevokeInvitation_game (env : Env) (c : Int) (w : World) :
    (partyRevokeInvitation env c w).game = w.game := by
  unfold partyRevokeInvitation
  rcases hg : canPerformGameAction env w with ⟨b, w1⟩
  have h1 : w1.game = w.game := gate_game hg
  cases b <;> simp only [] <;> (repeat' split) <;> simp_all

@[simp] theorem partyPassLeadership_game (env : Env) (c : Int) (w : World) :
    (partyPassLeadership env c w).game = w.game := by
  unfold partyPassLeadership
  rcases hg : canPerformGameAction env w with ⟨b, w1⟩
  have h1 : w1.game = w.game := gate_game hg
  cases b <;> simp only [] <;> (repeat' split) <;> simp_all

@[simp] theorem partyLeave_game (env : Env) (w : World) :
    (partyLeave env w).game = w.game := by
  unfold partyLeave
  rcases hg : canPerformGameAction env w with ⟨b, w1⟩
  have h1 : w1.game = w.game := gate_game hg
  cases b <;> simp only [] <;> (repeat' split) <;> simp_all

@[simp] theorem partyShareExperience_game (env : Env) (a : Bool) (w : World) :
    (partyShareExperience env a w).game = w.game := by
  unfold partyShareExperience
  rcases hg : canPerformGameAction env w with ⟨b, w1⟩
  have h1 : w1.game = w.game := gate_game hg
  cases b <;> simp only [] <;> (repeat' split) <;> simp_all

@[simp] theorem requestOutfit_game (env : Env) (w : World) :
    (requestOutfit env w).game = w.game := by
  unfold requestOutfit
  rcases hg : canPerformGameAction env w with ⟨b, w1⟩
  have h1 : w1.game = w.game := gate_game hg
  cases b <;> simp only [] <;> (repeat' split) <;> simp_all

@[simp] theorem changeOutfit_game (env : Env) (o : Outfit) (w : World) :
    (changeOutfit env o w).game = w.game := by
  unfold changeOutfit
  rcases hg : canPerformGameAction env w with ⟨b, w1⟩
  have h1 : w1.game = w.game := gate_game hg
  cases b <;> simp only [] <;> (repeat' split) <;> simp_all

@[simp] theorem addVip_game (env : Env) (n : String) (w : World) :
    (addVip env n w).game = w.game := by
  unfold addVip
  rcases hg : canPerformGameAction env w with ⟨b, w1⟩
  have h1 : w1.game = w.game := gate_game hg
  cases b <;> simp only [] <;> (repeat' split) <;> simp_all

@[simp] theorem removeVip_game (env : Env) (i : Int) (w : World) :
    (removeVip env i w).game = w.game := by
  unfold removeVip
  rcases hg : canPerformGameAction env w with ⟨b, w1⟩
  have h1 : w1.game = w.game := gate_game hg
  cases b <;> simp only [] <;> (repeat' split) <;> simp_all

@[simp] theorem inspectNpcTrade_game (env : Env) (i : Option Item) (w : World) :
    (inspectNpcTrade env i w).game = w.game := by
  unfold inspectNpcTrade
  rcases hg : canPerformGameAction env w with ⟨b, w1⟩
  have h1 : w1.game = w.game := gate_game hg
  cases b <;> simp only [] <;> (repeat' split) <;> simp_all

@[simp] theorem buyItem_game (env : Env) (i : Option Item) (a : Int) (x y : Bool) (w : World) :
    (buyItem env i a x y w).game = w.game := by
  unfold buyItem
  rcases hg : canPerformGameAction env w with ⟨b, w1⟩
  have h1 : w1.game = w.game := gate_game hg
  cases b <;> simp only [] <;> (repeat' split) <;> simp_all

@[simp] theorem sellItem_game (env : Env) (i : Option Item) (a : Int) (x : Bool) (w : World) :
    (sellItem env i a x w).game = w.game := by
  unfold sellItem
  rcases hg : canPerformGameAction env w with ⟨b, w1⟩
  have h1 : w1.game = w.game := gate_game hg
  cases b <;> simp only [] <;> (repeat' split) <;> simp_all

@[simp] theorem closeNpcTrade_game (env : Env) (w : World) :
    (closeNpcTrade env w).game = w.game := by
  unfold closeNpcTrade
  rcases hg : canPerformGameAction env w with ⟨b, w1⟩
  have h1 : w1.game = w.game := gate_game hg
  cases b <;> simp only [] <;> (repeat' split) <;> simp_all

@[simp] theorem requestTrade_game (env : Env) (i : Option Item) (c : Option Creature) (w : World) :
    (requestTrade env i c w).game = w.game := by
  unfold requestTrade
  rcases hg : canPerformGameAction env w with ⟨b, w1⟩
  have h1 : w1.game = w.game := gate_game hg
  cases b <;> simp only [] <;> (repeat' split) <;> simp_all

@[simp] theorem inspectTrade_game (env : Env) (x : Bool) (i : Int) (w : World) :
    (inspectTrade env x i w).game = w.game := by
  unfold inspectTrade
  rcases hg : canPerformGameAction env w with ⟨b, w1⟩
  have h1 : w1.game = w.game := gate_game hg
  cases b <;> simp only [] <;> (repeat' split) <;> simp_all

@[simp] theorem acceptTrade_game (env : Env) (w : World) :
    (acceptTrade env w).game = w.game := by
  unfold acceptTrade
  rcases hg : canPerformGameAction env w with ⟨b, w1⟩
  have h1 : w1.game = w.game := gate_game hg
  cases b <;> simp only [] <;> (repeat' split) <;> simp_all

@[simp] theorem rejectTrade_game (env : Env) (w : World) :
    (rejectTrade env w).game = w.game := by
  unfold rejectTrade
  rcases hg : canPerformGameAction env w with ⟨b, w1⟩
  have h1 : w1.game = w.game := gate_game hg
  cases b <;> simp only [] <;> (repeat' split) <;> simp_all

@[simp] theorem editText_game (env : Env) (i : Nat) (t : String) (w : World) :
    (editText env i t w).game = w.game := by
  unfold editText
  rcases hg : canPerformGameAction env w with ⟨b, w1⟩
  have h1 : w1.game = w.game := gate_game hg
  cases b <;> simp only [] <;> (repeat' split) <;> simp_all

@[simp] theorem editList_game (env : Env) (i : Nat) (d : Int) (t : String) (w : World) :
    (editList env i d t w).game = w.game := by
  unfold editList
  rcases hg : canPerformGameAction env w with ⟨b, w1⟩
  have h1 : w1.game = w.game := gate_game hg
  cases b <;> simp only [] <;> (repeat' split) <;> simp_all

@[simp] theorem reportBug_game (env : Env) (c : String) (w : World) :
    (reportBug env c w).game = w.game := by
  unfold reportBug
  rcases hg : canPerformGameAction env w with ⟨b, w1⟩
  have h1 : w1.game = w.game := gate_game hg
  cases b <;> simp only [] <;> (repeat' split) <;> simp_all

@[simp] theorem reportRuleVilation_game (env : Env) (t : String) (r a : Int) (c s : String) (i : Int) (b : Bool) (w : World) :
    (reportRuleVilation env t r a c s i b w).game = w.game := by
  unfold reportRuleVilation
  rcases hg : canPerformGameAction env w with ⟨b, w1⟩
  have h1 : w1.game = w.game := gate_game hg
  cases b <;> simp only [] <;> (repeat' split) <;> simp_all

@[simp] theorem requestQuestLog_game (env : Env) (w : World) :
    (requestQuestLog env w).game = w.game := by
  unfold requestQuestLog
  rcases hg : canPerformGameAction env w with ⟨b, w1⟩
  have h1 : w1.game = w.game := gate_game hg
  cases b <;> simp only [] <;> (repeat' split) <;> simp_all

@[simp] theorem requestQuestLine_game (env : Env) (q : Int) (w : World) :
    (requestQuestLine env q w).game = w.game := by
  unfold requestQuestLine
  rcases hg : canPerformGameAction env w with ⟨b, w1⟩
  have h1 : w1.game = w.game := gate_game hg
  cases b <;> simp only [] <;> (repeat' split) <;> simp_all

@[simp] theorem mount_game (env : Env) (m : Bool) (w : World) :
    (mount env m w).game = w.game := by
  unfold mount
  rcases hg : canPerformGameAction env w with ⟨b, w1⟩
  have h1 : w1.game = w.game := gate_game hg
  cases b <;> simp only [] <;> (repeat' split) <;> simp_all

theorem equipItem_game {env : Env} {i : Option Item} {w w' : World}
    (h : equipItem env i w = .ok w') : w'.game = w.game := by
  unfold equipItem at h
  rcases hg : canPerformGameAction env w with ⟨b, w1⟩
  have h1 : w1.game = w.game := gate_game hg
  rw [hg] at h
  cases b <;> cases i <;> simp at h <;> subst h <;> simp [h1]

theorem requestItemInfo_game {env : Env} {i : Option Item} {n : Int} {w w' : World}
    (h : requestItemInfo env i n w = .ok w') : w'.game = w.game := by
  unfold requestItemInfo at h
  rcases hg : canPerformGameAction env w with ⟨b, w1⟩
  have h1 : w1.game = w.game := gate_game hg
  rw [hg] at h
  cases b <;> cases i <;> simp at h <;> subst h <;> simp [h1]

theorem debugReport_game {a b c d : String} {w w' : World}
    (h : debugReport a b c d w = .ok w') : w'.game = w.game := by
  unfold debugReport at h
  split at h <;> simp at h
  subst h; rfl

/-- What a passing gate says about the session. -/
theorem gate_pass_fields {env : Env} {w : World} (h : (canPerformGameAction env w).1 = true) :
    w.game.m_online = true ∧ w.game.m_localPlayer.isSome = true ∧ w.game.m_dead = false
      ∧ (∃ p, w.game.m_protocolGame = some p ∧ p.connected = true)
      ∧ (checkBotProtection env w).1 = true := by
  unfold canPerformGameAction at h
  split at h
  · rename_i hc
    simp only [Bool.and_eq_true, Bool.not_eq_true'] at hc
    obtain ⟨⟨⟨⟨h1, h2⟩, h3⟩, h4⟩, h5⟩ := hc
    refine ⟨h1, h2, h3, ?_, h⟩
    cases hp : w.game.m_protocolGame with
    | none => simp [hp] at h4
    | some p => simp [hp] at h5; exact ⟨p, rfl, h5⟩
  · simp at h

theorem gate_eq_of_pass {env : Env} {w : World} (h : (canPerformGameAction env w).1 = true) :
    canPerformGameAction env w = (true, w) := by
  rcases hg : canPerformGameAction env w with ⟨b, w1⟩
  rw [hg] at h
  simp at h
  subst h
  rw [gate_true hg]

theorem isLocalPlayer_none_of_pass {env : Env} {w : World}
    (h : (canPerformGameAction env w).1 = true) : isLocalPlayer none w.game.m_localPlayer = false := by
  have := (gate_pass_fields h).2.1
  cases hp : w.game.m_localPlayer with
  | none => simp [hp] at this
  | some p => rfl

theorem cancelFollow_of_pass {env : Env} {w : World} (h : (canPerformGameAction env w).1 = true) :
    cancelFollow env w =
      send (.sendFollow 0 ((w.game.m_seq + 1) % UINT_MOD)) (incSeq (setFollowingCreature none w)) := by
  unfold cancelFollow followBody
  rw [gate_eq_of_pass h]
  simp [isLocalPlayer_none_of_pass h, idOrZero, incSeq, setFollowingCreature]

theorem cancelAttack_of_pass {env : Env} {w : World} (h : (canPerformGameAction env w).1 = true) :
    cancelAttack env w =
      send (.sendAttack 0 ((w.game.m_seq + 1) % UINT_MOD)) (incSeq (setAttackingCreature none w)) := by
  unfold cancelAttack attackBody
  rw [gate_eq_of_pass h]
  simp [isLocalPlayer_none_of_pass h, idOrZero, incSeq, setAttackingCreature]

theorem attack_none (env : Env) (w : World) : attack env none w = cancelAttack env w := by
  unfold attack cancelAttack attackBody
  rcases canPerformGameAction env w with ⟨b, w1⟩
  cases b <;> simp

theorem follow_none (env : Env) (w : World) : follow env none w = cancelFollow env w := by
  unfold follow cancelFollow followBody
  rcases canPerformGameAction env w with ⟨b, w1⟩
  cases b <;> simp

/-- The session after a permitted `attack(creature)`, field by field. -/
theorem attack_of_pass {env : Env} {w : World} {creature : Option Creature}
    (h : (canPerformGameAction env w).1 = true)
    (hl : isLocalPlayer creature w.game.m_localPlayer = false) :
    attack env creature w =
      (let c := if creature.isSome && ptrEq creature w.game.m_attackingCreature then none
        else creature
       let w1 := if c.isSome && isFollowing w.game then cancelFollow env w else w
       let w2 := incSeq (setAttackingCreature c w1)
       send (.sendAttack (idOrZero c) w2.game.m_seq) w2) := by
  unfold attack attackBody
  rw [gate_eq_of_pass h]
  simp [hl]

theorem follow_of_pass {env : Env} {w : World} {creature : Option Creature}
    (h : (canPerformGameAction env w).1 = true)
    (hl : isLocalPlayer creature w.game.m_localPlayer = false) :
    follow env creature w =
      (let c := if creature.isSome && ptrEq creature w.game.m_followingCreature then none
        else creature
       let w1 := if c.isSome && isAttacking w.game then cancelAttack env w else w
       let w2 := incSeq (setFollowingCreature c w1)
       send (.sendFollow (idOrZero c) w2.game.m_seq) w2) := by
  unfold follow followBody
  rw [gate_eq_of_pass h]
  simp [hl]

theorem attack_of_fail {env : Env} {w : World} {creature : Option Creature}
    (h : (canPerformGameAction env w).1 = false ∨ isLocalPlayer creature w.game.m_localPlayer = true) :
    (attack env creature w).game = w.game := by
  unfold attack attackBody
  rcases hg : canPerformGameAction env w with ⟨b, w1⟩
  have h1 := gate_game hg
  cases b
  · simpa using h1
  · rw [hg] at h
    simp at h
    simp [h1, h]

theorem follow_of_fail {env : Env} {w : World} {creature : Option Creature}
    (h : (canPerformGameAction env w).1 = false ∨ isLocalPlayer creature w.game.m_localPlayer = true) :
    (follow env creature w).game = w.game := by
  unfold follow followBody
  rcases hg : canPerformGameAction env w with ⟨b, w1⟩
  have h1 := gate_game hg
  cases b
  · simpa using h1
  · rw [hg] at h
    simp at h
    simp [h1, h]

/-- The mutual exclusion of the two targets. -/
theorem attack_exclusive (env : Env) (creature : Option Creature) (w : World)
    (hx : w.game.m_attackingCreature = none ∨ w.game.m_followingCreature = none) :
    (attack env creature w).game.m_attackingCreature = none
      ∨ (attack env creature w).game.m_followingCreature = none := by
  by_cases h : (canPerformGameAction env w).1 = true
  · cases hl : isLocalPlayer creature w.game.m_localPlayer
    · rw [attack_of_pass h hl]
      simp only [isFollowing]
      cases creature <;> split_ifs <;>
        simp_all [cancelFollow_of_pass h, incSeq, setAttackingCreature, setFollowingCreature]
    · rw [attack_of_fail (Or.inr hl)]; exact hx
  · rw [attack_of_fail (Or.inl (by simpa using h))]; exact hx

theorem follow_exclusive (env : Env) (creature : Option Creature) (w : World)
    (hx : w.game.m_attackingCreature = none ∨ w.game.m_followingCreature = none) :
    (follow env creature w).game.m_attackingCreature = none
      ∨ (follow env creature w).game.m_followingCreature = none := by
  by_cases h : (canPerformGameAction env w).1 = true
  · cases hl : isLocalPlayer creature w.game.m_localPlayer
    · rw [follow_of_pass h hl]
      simp only [isAttacking]
      cases creature <;> split_ifs <;>
        simp_all [cancelAttack_of_pass h, incSeq, setAttackingCreature, setFollowingCreature]
    · rw [follow_of_fail (Or.inr hl)]; exact hx
  · rw [follow_of_fail (Or.inl (by simpa using h))]; exact hx

theorem cancelFollow_exclusive (env : Env) (w : World)
    (hx : w.game.m_attackingCreature = none ∨ w.game.m_followingCreature = none) :
    (cancelFollow env w).game.m_attackingCreature = none
      ∨ (cancelFollow env w).game.m_followingCreature = none := by
  rw [← follow_none]; exact follow_exclusive env none w hx

theorem cancelAttack_exclusive (env : Env) (w : World)
    (hx : w.game.m_attackingCreature = none ∨ w.game.m_followingCreature = none) :
    (cancelAttack env w).game.m_attackingCreature = none
      ∨ (cancelAttack env w).game.m_followingCreature = none := by
  rw [← attack_none]; exact attack_exclusive env none w hx

/-- Every field but the two targets and the counter is left alone by `attack`. -/
theorem attack_frame (env : Env) (creature : Option Creature) (w : World) :
    ∃ a f s, (attack env creature w).game =
      { w.game with m_attackingCreature := a, m_followingCreature := f, m_seq := s } := by
  by_cases h : (canPerformGameAction env w).1 = true
  · cases hl : isLocalPlayer creature w.game.m_localPlayer
    · rw [attack_of_pass h hl]
      simp only [isFollowing]
      split_ifs <;>
        simp [cancelFollow_of_pass h, incSeq, setAttackingCreature, setFollowingCreature]
    · rw [attack_of_fail (Or.inr hl)]; exact ⟨_, _, _, rfl⟩
  · rw [attack_of_fail (Or.inl (by simpa using h))]; exact ⟨_, _, _, rfl⟩

theorem follow_frame (env : Env) (creature : Option Creature) (w : World) :
    ∃ a f s, (follow env creature w).game =
      { w.game with m_attackingCreature := a, m_followingCreature := f, m_seq := s } := by
  by_cases h : (canPerformGameAction env w).1 = true
  · cases hl : isLocalPlayer creature w.game.m_localPlayer
    · rw [follow_of_pass h hl]
      simp only [isAttacking]
      split_ifs <;>
        simp [cancelAttack_of_pass h, incSeq, setAttackingCreature, setFollowingCreature]
    · rw [follow_of_fail (Or.inr hl)]; exact ⟨_, _, _, rfl⟩
  · rw [follow_of_fail (Or.inl (by simpa using h))]; exact ⟨_, _, _, rfl⟩

/-! ## Reset -/

@[simp] theorem closeAll_game (l : List (Int × Option Container)) (w : World) :
    (closeAll l w).game = w.game := by
  induction l generalizing w with
  | nil => rfl
  | cons x rest ih =>
    rcases x with ⟨k, c⟩
    cases c <;> simp [closeAll, ih]

/-- The session after `resetGameStates`, field by field. -/
@[simp] theorem resetGameStates_game (w : World) :
    (resetGameStates w).game = w.game.reset := by
  unfold resetGameStates Game.reset
  simp only [closeAll_game]
  cases hp : w.game.m_pingEvent <;> simp [hp]

theorem cancelFollow_frame (env : Env) (w : World) :
    ∃ a f s, (cancelFollow env w).game =
      { w.game with m_attackingCreature := a, m_followingCreature := f, m_seq := s } := by
  rw [← follow_none]; exact follow_frame env none w

theorem cancelAttack_frame (env : Env) (w : World) :
    ∃ a f s, (cancelAttack env w).game =
      { w.game with m_attackingCreature := a, m_followingCreature := f, m_seq := s } := by
  rw [← attack_none]; exact attack_frame env none w

theorem processAttackCancel_frame (env : Env) (seq : Nat) (w : World) :
    ∃ a f s, (processAttackCancel env seq w).game =
      { w.game with m_attackingCreature := a, m_followingCreature := f, m_seq := s } := by
  unfold processAttackCancel
  split
  · exact cancelAttack_frame env w
  · exact ⟨_, _, _, rfl⟩

theorem processAttackCancel_exclusive (env : Env) (seq : Nat) (w : World)
    (hx : w.game.m_attackingCreature = none ∨ w.game.m_followingCreature = none) :
    (processAttackCancel env seq w).game.m_attackingCreature = none
      ∨ (processAttackCancel env seq w).game.m_followingCreature = none := by
  unfold processAttackCancel
  split
  · exact cancelAttack_exclusive env w hx
  · exact hx

/-- The part of `walk`, `autoWalk` and `stop` that touches the session:
`if(isFollowing()) cancelFollow();`. -/
theorem stop_game (env : Env) (w : World) :
    (stop env w).game = w.game ∨ (stop env w).game = (cancelFollow env w).game := by
  unfold stop
  rcases hg : canPerformGameAction env w with ⟨b, w1⟩
  have h1 : w1.game = w.game := gate_game hg
  cases b
  · left; simpa using h1
  · have := gate_true hg; subst this
    simp only []
    split
    · right; simp
    · left; simp

theorem walk_game (env : Env) (d : Direction) (w : World) :
    (walk env d w).game = w.game ∨ (walk env d w).game = (cancelFollow env w).game := by
  unfold walk
  rcases hg : canPerformGameAction env w with ⟨b, w1⟩
  have h1 : w1.game = w.game := gate_game hg
  cases b
  · left; simpa using h1
  · have := gate_true hg; subst this
    simp only []
    cases hf : isFollowing w1.game
    · left; simp only [Bool.false_eq_true, if_false]
      repeat' split
      all_goals simp
    · right; simp only [if_true]
      repeat' split
      all_goals simp

theorem autoWalk_game (env : Env) (dirs : List Direction) (w : World) :
    (autoWalk env dirs w).game = w.game ∨ (autoWalk env dirs w).game = (cancelFollow env w).game := by
  unfold autoWalk
  rcases hg : canPerformGameAction env w with ⟨b, w1⟩
  have h1 : w1.game = w.game := gate_game hg
  cases b
  · left; simpa using h1
  · have := gate_true hg; subst this
    simp only []
    split
    · left; simp
    · cases dirs with
      | nil => left; rfl
      | cons d ds =>
        cases hf : isFollowing w1.game
        · left; simp only [Bool.false_eq_true, if_false]
          repeat' split
          all_goals simp
        · right; simp only [if_true]
          repeat' split
          all_goals simp

/-! ## The session after each remaining operation -/

@[simp] theorem terminate_game (w : World) :
    (terminate w).game = { w.game.reset with m_protocolGame := none } := by
  simp [terminate]

@[simp] theorem processGameEnd_game (w : World) : (processGameEnd w).game = w.game.gameEnd := by
  simp [processGameEnd, Game.gameEnd]

@[simp] theorem processDisconnect_game (w : World) :
    (processDisconnect w).game = w.game.disconnect := by
  rcases w with ⟨g, o⟩
  rcases g with ⟨lp, ac, fc, pg, ct, vi, onl, db, de, sb, sq, pi, fm, cm, sf, cr, ga, cn, wn, fe,
    pe, cv⟩
  cases onl <;> cases pg <;>
    simp [processDisconnect, Game.disconnect, isOnline, Game.gameEnd, Game.reset]

@[simp] theorem processConnectionError_game (ec : ErrorCode) (w : World) :
    (processConnectionError ec w).game =
      if w.game.m_protocolGame.isSome then w.game.disconnect else w.game := by
  unfold processConnectionError
  cases hp : w.game.m_protocolGame <;> simp [hp]
  split <;> simp

@[simp] theorem cancelLogin_game (w : World) : (cancelLogin w).game = w.game.disconnect := by
  unfold cancelLogin
  cases hp : w.game.m_protocolGame <;> simp [hp]

theorem forceLogout_game {w w' : World} (h : forceLogout w = .ok w') :
    w'.game = if w.game.m_online then w.game.disconnect else w.game := by
  unfold forceLogout isOnline at h
  cases ho : w.game.m_online <;> simp [ho] at h
  · subst h; simp [ho]
  · split at h <;> simp at h
    subst h; simp [ho]

theorem safeLogout_game {w w' : World} (h : safeLogout w = .ok w') : w'.game = w.game := by
  unfold safeLogout isOnline at h
  cases ho : w.game.m_online <;> simp [ho] at h
  · subst h; rfl
  · split at h <;> simp at h
    subst h; rfl

theorem processGameStart_game {w w' : World} (h : processGameStart w = .ok w') :
    w.game.m_protocolGame.isSome = true ∧
    w'.game = { w.game with
      m_online := true, m_denyBotCall := true,
      m_pingEvent := if w.game.m_features .GameClientPing then some { delay := 1000 }
        else w.game.m_pingEvent } := by
  unfold processGameStart at h
  simp only [] at h
  cases hp : w.game.m_protocolGame with
  | none => simp [hp] at h
  | some p =>
    simp only [hp] at h
    cases hf : w.game.m_features .GameClientPing <;>
      simp [getFeature, enableBotCall, disableBotCall, hf] at h <;> subst h <;> simp [hp]

theorem processDeath_game {n : Int} {w w' : World} (h : processDeath n w = .ok w') :
    w.game.m_localPlayer.isSome = true ∧ w'.game = { w.game with m_dead := true } := by
  unfold processDeath at h
  simp only [] at h
  cases hp : w.game.m_localPlayer with
  | none => simp [hp] at h
  | some p => simp [hp] at h; subst h; simp [hp]

@[simp] theorem processGMActions_game (a : List Nat) (w : World) :
    (processGMActions a w).game = { w.game with m_gmActions := a } := rfl

@[simp] theorem processPing_game (w : World) : (processPing w).game = w.game := rfl

@[simp] theorem processPingBack_game (n : Int) (w : World) :
    (processPingBack n w).game = { w.game with m_ping := n } := rfl

@[simp] theorem processLoginError_game (e : String) (w : World) :
    (processLoginError e w).game = w.game := rfl

@[simp] theorem processLoginAdvice_game (e : String) (w : World) :
    (processLoginAdvice e w).game = w.game := rfl

@[simp] theorem processLoginWait_game (e : String) (t : Int) (w : World) :
    (processLoginWait e t w).game = w.game := rfl

@[simp] theorem processForward_game (f : String) (a : List LuaValue) (w : World) :
    (processForward f a w).game = w.game := rfl

@[simp] theorem processOpenOutfitWindow_game (o : Outfit) (a b : Nat) (w : World) :
    (processOpenOutfitWindow o a b w).game = w.game := rfl

theorem getContainer_game (id : Int) (w : World) :
    ∃ m, (getContainer id w).2.game = { w.game with m_containers := m } := by
  unfold getContainer containersIndex
  cases mapFind w.game.m_containers id <;> exact ⟨_, rfl⟩

theorem processOpenContainer_game (id : Int) (it : Option Item) (n : String) (c : Int)
    (hp : Bool) (items : List (Option Item)) (w : World) :
    ∃ m, (processOpenContainer id it n c hp items w).game =
      { w.game with m_containers := m, m_denyBotCall := true } := by
  unfold processOpenContainer
  rcases hg : getContainer id w with ⟨prev, w1⟩
  obtain ⟨m, hm⟩ := getContainer_game id w
  rw [hg] at hm
  simp only [] at hm ⊢
  cases prev <;> simp [enableBotCall, disableBotCall, hm]

theorem processCloseContainer_game (id : Int) (w : World) :
    ∃ m, (processCloseContainer id w).game = { w.game with m_containers := m } := by
  unfold processCloseContainer
  rcases hg : getContainer id w with ⟨prev, w1⟩
  obtain ⟨m, hm⟩ := getContainer_game id w
  rw [hg] at hm
  simp only [] at hm ⊢
  cases prev <;> simp [hm]

theorem processContainerAddItem_game (id : Int) (it : Option Item) (w : World) :
    ∃ m, (processContainerAddItem id it w).game = { w.game with m_containers := m } := by
  unfold processContainerAddItem
  rcases hg : getContainer id w with ⟨prev, w1⟩
  obtain ⟨m, hm⟩ := getContainer_game id w
  rw [hg] at hm
  simp only [] at hm ⊢
  cases prev <;> simp [hm]

theorem processContainerUpdateItem_game (id slot : Int) (it : Option Item) (w : World) :
    ∃ m, (processContainerUpdateItem id slot it w).game = { w.game with m_containers := m } := by
  unfold processContainerUpdateItem
  rcases hg : getContainer id w with ⟨prev, w1⟩
  obtain ⟨m, hm⟩ := getContainer_game id w
  rw [hg] at hm
  simp only [] at hm ⊢
  cases prev <;> simp [hm]

theorem processContainerRemoveItem_game (id slot : Int) (w : World) :
    ∃ m, (processContainerRemoveItem id slot w).game = { w.game with m_containers := m } := by
  unfold processContainerRemoveItem
  rcases hg : getContainer id w with ⟨prev, w1⟩
  obtain ⟨m, hm⟩ := getContainer_game id w
  rw [hg] at hm
  simp only [] at hm ⊢
  cases prev <;> simp [hm]

theorem processInventoryChange_game {slot : Int} {it : Option Item} {w w' : World}
    (h : processInventoryChange slot it w = .ok w') : w'.game = w.game := by
  unfold processInventoryChange at h
  simp only [] at h
  split at h <;> simp at h
  subst h; rfl

@[simp] theorem processVipAdd_game (id : Nat) (n : String) (o : Bool) (w : World) :
    (processVipAdd id n o w).game = { w.game with m_vips := mapSet w.game.m_vips id (n, o) } := rfl

theorem processVipStateChange_game (id : Nat) (o : Bool) (w : World) :
    ∃ m, (processVipStateChange id o w).game = { w.game with m_vips := m } :=
  ⟨_, rfl⟩

theorem processWalkCancel_game {env : Env} {d : Direction} {w w' : World}
    (h : processWalkCancel env d w = .ok w') : w'.game = w.game := by
  unfold processWalkCancel at h
  repeat' split at h
  all_goals simp at h
  all_goals subst h; rfl

theorem loginWorld_game {o : Nat} {a p wn wh : String} {port : Int} {cn : String} {w w' : World}
    (h : loginWorld o a p wn wh port cn w = .ok w') :
    w.game.m_protocolGame = none ∧ w.game.m_online = false ∧ w.game.m_clientVersion ≠ 0 ∧
    w'.game = { w.game.reset with
      m_localPlayer := some { obj := o, name := cn },
      m_protocolGame := some { connected := false },
      m_characterName := cn, m_worldName := wn } := by
  unfold loginWorld isOnline at h
  split at h
  · simp at h
  · rename_i h1
    split at h
    · simp at h
    · rename_i h2
      simp at h1
      simp at h
      subst h
      refine ⟨h1.1, h1.2, h2, ?_⟩
      simp

theorem findEmptyContainerIdLoop_game {fuel : Nat} {id r : Int} {g g' : Game}
    (h : findEmptyContainerIdLoop fuel id g = some (r, g')) :
    ∃ m, g' = { g with m_containers := m } := by
  induction fuel generalizing id g with
  | zero => simp [findEmptyContainerIdLoop] at h
  | succ n ih =>
    unfold findEmptyContainerIdLoop containersIndex at h
    cases hf : mapFind g.m_containers id with
    | none => simp [hf] at h; exact ⟨_, h.2.symm⟩
    | some c =>
      cases c with
      | none => simp [hf] at h; exact ⟨_, h.2.symm⟩
      | some c => simp [hf] at h; exact ih h

theorem findEmptyContainerId_game {r : Int} {g g' : Game}
    (h : findEmptyContainerId g = some (r, g')) : ∃ m, g' = { g with m_containers := m } :=
  findEmptyContainerIdLoop_game h

theorem findEmptyContainerId_op_game {env : Env} {w w' : World}
    (h : step env .findEmptyContainerId w = .ok w') :
    ∃ m, w'.game = { w.game with m_containers := m } := by
  simp only [step] at h
  cases hf : findEmptyContainerId w.game with
  | none => simp [hf] at h
  | some r =>
    rcases r with ⟨id, g⟩
    simp [hf] at h
    subst h
    exact findEmptyContainerId_game hf

theorem use_game {env : Env} {t : Option Thing} {w w' : World} (h : use env t w = .ok w') :
    ∃ m, w'.game = { w.game with m_containers := m } := by
  unfold use at h
  rcases hg : canPerformGameAction env w with ⟨b, w1⟩
  have h1 : w1.game = w.game := gate_game hg
  rw [hg] at h
  cases b
  · simp at h; subst h; exact ⟨_, h1⟩
  · cases t with
    | none => simp at h; subst h; exact ⟨_, h1⟩
    | some t =>
      simp only [] at h
      cases hf : findEmptyContainerId w1.game with
      | none => simp [hf] at h
      | some r =>
        rcases r with ⟨id, g⟩
        simp [hf] at h
        subst h
        obtain ⟨m, hm⟩ := findEmptyContainerId_game hf
        exact ⟨m, by simp [hm, h1]⟩

theorem open_game {env : Env} {i : Option Item} {c : Option Container} {w w' : World}
    (h : «open» env i c w = .ok w') : ∃ m, w'.game = { w.game with m_containers := m } := by
  unfold «open» at h
  rcases hg : canPerformGameAction env w with ⟨b, w1⟩
  have h1 : w1.game = w.game := gate_game hg
  rw [hg] at h
  cases b
  · simp at h; subst h; exact ⟨_, h1⟩
  · cases i with
    | none => simp at h; subst h; exact ⟨_, h1⟩
    | some i =>
      cases c with
      | some c => simp at h; subst h; exact ⟨w.game.m_containers, by simp [h1]⟩
      | none =>
        simp only [] at h
        cases hf : findEmptyContainerId w1.game with
        | none => simp [hf] at h
        | some r =>
          rcases r with ⟨id, g⟩
          simp [hf] at h
          subst h
          obtain ⟨m, hm⟩ := findEmptyContainerId_game hf
          exact ⟨m, by simp [hm, h1]⟩

theorem setChaseMode_game (env : Env) (m : ChaseModes) (w : World) :
    ∃ x, (setChaseMode env m w).game = { w.game with m_chaseMode := x } := by
  unfold setChaseMode
  rcases hg : canPerformGameAction env w with ⟨b, w1⟩
  have h1 : w1.game = w.game := gate_game hg
  cases b <;> simp only []
  · exact ⟨_, h1⟩
  · split
    · exact ⟨_, h1⟩
    · exact ⟨m, by simp [h1]⟩

theorem setFightMode_game (env : Env) (m : FightModes) (w : World) :
    ∃ x, (setFightMode env m w).game = { w.game with m_fightMode := x } := by
  unfold setFightMode
  rcases hg : canPerformGameAction env w with ⟨b, w1⟩
  have h1 : w1.game = w.game := gate_game hg
  cases b <;> simp only []
  · exact ⟨_, h1⟩
  · split
    · exact ⟨_, h1⟩
    · exact ⟨m, by simp [h1]⟩

theorem setSafeFight_game (env : Env) (m : Bool) (w : World) :
    ∃ x, (setSafeFight env m w).game = { w.game with m_safeFight := x } := by
  unfold setSafeFight
  rcases hg : canPerformGameAction env w with ⟨b, w1⟩
  have h1 : w1.game = w.game := gate_game hg
  cases b <;> simp only []
  · exact ⟨_, h1⟩
  · split
    · exact ⟨_, h1⟩
    · exact ⟨m, by simp [h1]⟩

theorem ping_game (w : World) : ∃ d, (ping w).game = { w.game with m_denyBotCall := d } := by
  unfold ping
  repeat' split
  all_goals exact ⟨_, rfl⟩

theorem pingEventCallback_game (w : World) :
    ∃ d, (pingEventCallback w).game = { w.game with m_denyBotCall := d } := by
  unfold pingEventCallback
  repeat' split
  all_goals exact ⟨_, rfl⟩

theorem transportConnected_game (w : World) :
    (transportConnected w).game =
      { w.game with m_protocolGame := w.game.m_protocolGame.map (fun _ => { connected := true }) } := by
  unfold transportConnected
  cases hp : w.game.m_protocolGame with
  | none => show w.game = { w.game with m_protocolGame := none }; rw [← hp]
  | some p => simp [hp]

theorem transportClosed_game (w : World) :
    (transportClosed w).game =
      { w.game with m_protocolGame := w.game.m_protocolGame.map (fun _ => { connected := false }) } := by
  unfold transportClosed
  cases hp : w.game.m_protocolGame with
  | none => show w.game = { w.game with m_protocolGame := none }; rw [← hp]
  | some p => simp [hp]

theorem featFrame_enable {g g' : Game} (x : GameFeature)
    (h : ∃ f, g' = { g with m_features := f }) :
    ∃ f, enableFeature x g' = { g with m_features := f } := by
  obtain ⟨f, rfl⟩ := h
  exact ⟨_, rfl⟩

theorem featFrame_ite {c : Prop} [Decidable c] {g a b : Game}
    (ha : ∃ f, a = { g with m_features := f }) (hb : ∃ f, b = { g with m_features := f }) :
    ∃ f, (if c then a else b) = { g with m_features := f } := by
  split
  · exact ha
  · exact hb

theorem applyVersionFeatures_frame (v : Int) (g : Game) :
    ∃ f, applyVersionFeatures v g = { g with m_features := f } := by
  unfold applyVersionFeatures
  lift_lets
  extract_lets g1 g2 g3 g4 g5 g6 g7 g8 g9
  have h1 : ∃ f, g1 = { g with m_features := f } := ⟨_, rfl⟩
  clear_value g1
  have h2 : ∃ f, g2 = { g with m_features := f } := featFrame_enable _ h1
  clear_value g2
  have h3 : ∃ f, g3 = { g with m_features := f } := featFrame_ite (featFrame_enable _ h2) h2
  clear_value g3
  have h4 : ∃ f, g4 = { g with m_features := f } :=
    featFrame_ite (featFrame_enable _ (featFrame_enable _ (featFrame_enable _
      (featFrame_enable _ (featFrame_enable _ h3))))) h3
  clear_value g4
  have h5 : ∃ f, g5 = { g with m_features := f } := featFrame_ite (featFrame_enable _ h4) h4
  clear_value g5
  have h6 : ∃ f, g6 = { g with m_features := f } :=
    featFrame_ite (featFrame_enable _ (featFrame_enable _ (featFrame_enable _ h5))) h5
  clear_value g6
  have h7 : ∃ f, g7 = { g with m_features := f } :=
    featFrame_ite (featFrame_enable _ (featFrame_enable _ (featFrame_enable _
      (featFrame_enable _ (featFrame_enable _ (featFrame_enable _ (featFrame_enable _ h6)))))))
      h6
  clear_value g7
  have h8 : ∃ f, g8 = { g with m_features := f } := featFrame_ite (featFrame_enable _ h7) h7
  clear_value g8
  have h9 : ∃ f, g9 = { g with m_features := f } :=
    featFrame_ite (featFrame_enable _ (featFrame_enable _ h8)) h8
  clear_value g9
  exact featFrame_ite (featFrame_enable _ (featFrame_enable _ h9)) h9

/-- The session after a call of `setClientVersion` that returns: only the feature
set and the stored version can differ. -/
theorem setClientVersion_frame {v : Int} {w w' : World} (h : setClientVersion v w = .ok w') :
    ∃ f x, w'.game = { w.game with m_features := f, m_clientVersion := x } := by
  unfold setClientVersion at h
  split at h
  · simp at h; subst h; exact ⟨_, _, rfl⟩
  · split at h
    · simp at h
    · split at h
      · simp at h
      · simp only [Except.ok.injEq] at h
        subst h
        obtain ⟨f, hf⟩ := applyVersionFeatures_frame v w.game
        simp only [callGlobalField_game, emit_game, hf]
        exact ⟨_, _, rfl⟩

/-! ## Invariants of the transition system -/

/-- No operation sets both targets. -/
theorem step_exclusive {env : Env} {op : Op} {w w' : World} (h : step env op w = .ok w')
    (hx : w.game.m_attackingCreature = none ∨ w.game.m_followingCreature = none) :
    w'.game.m_attackingCreature = none ∨ w'.game.m_followingCreature = none := by
  cases op with
  | terminate =>
    simp only [step, Except.ok.injEq] at h
    subst h; simp [Game.reset]
  | processConnectionError a0 =>
    simp only [step, Except.ok.injEq] at h
    subst h; simp only [processConnectionError_game, Game.disconnect]
    split
    · split <;> simp [Game.gameEnd, Game.reset, hx]
    · exact hx
  | processDisconnect =>
    simp only [step, Except.ok.injEq] at h
    subst h; simp only [processDisconnect_game, Game.disconnect]
    split <;> simp [Game.gameEnd, Game.reset, hx]
  | processLoginError a0 =>
    simp only [step, Except.ok.injEq] at h
    rw [← h]; exact hx
  | processLoginAdvice a0 =>
    simp only [step, Except.ok.injEq] at h
    rw [← h]; exact hx
  | processLoginWait a0 a1 =>
    simp only [step, Except.ok.injEq] at h
    rw [← h]; exact hx
  | processGameStart =>
    simp only [step] at h
    rw [(processGameStart_game h).2]; exact hx
  | processGameEnd =>
    simp only [step, Except.ok.injEq] at h
    subst h; simp [Game.gameEnd, Game.reset]
  | processDeath a0 =>
    simp only [step] at h
    rw [(processDeath_game h).2]; exact hx
  | processGMActions a0 =>
    simp only [step, Except.ok.injEq] at h
    rw [← h]; exact hx
  | processPing =>
    simp only [step, Except.ok.injEq] at h
    rw [← h]; exact hx
  | processPingBack a0 =>
    simp only [step, Except.ok.injEq] at h
    rw [← h]; exact hx
  | processForward a0 a1 =>
    simp only [step, Except.ok.injEq] at h
    rw [← h]; exact hx
  | processOpenOutfitWindow a0 a1 a2 =>
    simp only [step, Except.ok.injEq] at h
    rw [← h]; exact hx
  | processOpenContainer a0 a1 a2 a3 a4 a5 =>
    simp only [step, Except.ok.injEq] at h
    obtain ⟨m, hm⟩ := processOpenContainer_game a0 a1 a2 a3 a4 a5 w
    rw [← h, hm]; exact hx
  | processCloseContainer a0 =>
    simp only [step, Except.ok.injEq] at h
    obtain ⟨m, hm⟩ := processCloseContainer_game a0 w
    rw [← h, hm]; exact hx
  | processContainerAddItem a0 a1 =>
    simp only [step, Except.ok.injEq] at h
    obtain ⟨m, hm⟩ := processContainerAddItem_game a0 a1 w
    rw [← h, hm]; exact hx
  | processContainerUpdateItem a0 a1 a2 =>
    simp only [step, Except.ok.injEq] at h
    obtain ⟨m, hm⟩ := processContainerUpdateItem_game a0 a1 a2 w
    rw [← h, hm]; exact hx
  | processContainerRemoveItem a0 a1 =>
    simp only [step, Except.ok.injEq] at h
    obtain ⟨m, hm⟩ := processContainerRemoveItem_game a0 a1 w
    rw [← h, hm]; exact hx
  | processInventoryChange a0 a1 =>
    simp only [step] at h
    rw [processInventoryChange_game h]; exact hx
  | processVipAdd a0 a1 a2 =>
    simp only [step, Except.ok.injEq] at h
    rw [← h]; exact hx
  | processVipStateChange a0 a1 =>
    simp only [step, Except.ok.injEq] at h
    obtain ⟨m, hm⟩ := processVipStateChange_game a0 a1 w
    rw [← h, hm]; exact hx
  | processAttackCancel a0 =>
    simp only [step, Except.ok.injEq] at h
    subst h; exact processAttackCancel_exclusive env a0 w hx
  | processWalkCancel a0 =>
    simp only [step] at h
    rw [processWalkCancel_game h]; exact hx
  | loginWorld a0 a1 a2 a3 a4 a5 a6 =>
    simp only [step] at h
    rw [(loginWorld_game h).2.2.2]; simp [Game.reset]
  | cancelLogin =>
    simp only [step, Except.ok.injEq] at h
    subst h; simp only [cancelLogin_game, Game.disconnect]
    split <;> simp [Game.gameEnd, Game.reset, hx]
  | forceLogout =>
    simp only [step] at h
    rw [forceLogout_game h]; simp only [Game.disconnect]
    split <;> simp [Game.gameEnd, Game.reset, hx]
  | safeLogout =>
    simp only [step] at h
    rw [safeLogout_game h]; exact hx
  | walk a0 =>
    simp only [step, Except.ok.injEq] at h
    subst h
    rcases walk_game env a0 w with e | e <;> rw [e]
    · exact hx
    · exact cancelFollow_exclusive env w hx
  | autoWalk a0 =>
    simp only [step, Except.ok.injEq] at h
    subst h
    rcases autoWalk_game env a0 w with e | e <;> rw [e]
    · exact hx
    · exact cancelFollow_exclusive env w hx
  | forceWalk a0 =>
    simp only [step, Except.ok.injEq] at h
    rw [← h, forceWalk_game]; exact hx
  | turn a0 =>
    simp only [step, Except.ok.injEq] at h
    rw [← h, turn_game]; exact hx
  | stop =>
    simp only [step, Except.ok.injEq] at h
    subst h
    rcases stop_game env w with e | e <;> rw [e]
    · exact hx
    · exact cancelFollow_exclusive env w hx
  | look a0 =>
    simp only [step, Except.ok.injEq] at h
    rw [← h, look_game]; exact hx
  | move a0 a1 a2 =>
    simp only [step, Except.ok.injEq] at h
    rw [← h, move_game]; exact hx
  | moveToParentContainer a0 a1 =>
    simp only [step, Except.ok.injEq] at h
    rw [← h, moveToParentContainer_game]; exact hx
  | rotate a0 =>
    simp only [step, Except.ok.injEq] at h
    rw [← h, rotate_game]; exact hx
  | use a0 =>
    simp only [step] at h
    obtain ⟨m, hm⟩ := use_game h
    rw [hm]; exact hx
  | useInventoryItem a0 =>
    simp only [step, Except.ok.injEq] at h
    rw [← h, useInventoryItem_game]; exact hx
  | useWith a0 a1 =>
    simp only [step, Except.ok.injEq] at h
    rw [← h, useWith_game]; exact hx
  | useInventoryItemWith a0 a1 =>
    simp only [step, Except.ok.injEq] at h
    rw [← h, useInventoryItemWith_game]; exact hx
  | «open» a0 a1 =>
    simp only [step] at h
    obtain ⟨m, hm⟩ := open_game h
    rw [hm]; exact hx
  | openParent a0 =>
    simp only [step, Except.ok.injEq] at h
    rw [← h, openParent_game]; exact hx
  | close a0 =>
    simp only [step, Except.ok.injEq] at h
    rw [← h, close_game]; exact hx
  | refreshContainer =>
    simp only [step, Except.ok.injEq] at h
    rw [← h, refreshContainer_game]; exact hx
  | attack a0 =>
    simp only [step, Except.ok.injEq] at h
    subst h; exact attack_exclusive env a0 w hx
  | cancelAttack =>
    simp only [step, Except.ok.injEq] at h
    subst h; exact cancelAttack_exclusive env w hx
  | follow a0 =>
    simp only [step, Except.ok.injEq] at h
    subst h; exact follow_exclusive env a0 w hx
  | cancelFollow =>
    simp only [step, Except.ok.injEq] at h
    subst h; exact cancelFollow_exclusive env w hx
  | cancelAttackAndFollow =>
    simp only [step, Except.ok.injEq] at h
    rw [← h, cancelAttackAndFollow_game]; exact hx
  | talk a0 a1 =>
    simp only [step, Except.ok.injEq] at h
    rw [← h, talk_game]; exact hx
  | talkChannel a0 a1 a2 =>
    simp only [step, Except.ok.injEq] at h
    rw [← h, talkChannel_game]; exact hx
  | talkPrivate a0 a1 a2 =>
    simp only [step, Except.ok.injEq] at h
    rw [← h, talkPrivate_game]; exact hx
  | openPrivateChannel a0 =>
    simp only [step, Except.ok.injEq] at h
    rw [← h, openPrivateChannel_game]; exact hx
  | requestChannels =>
    simp only [step, Except.ok.injEq] at h
    rw [← h, requestChannels_game]; exact hx
  | joinChannel a0 =>
    simp only [step, Except.ok.injEq] at h
    rw [← h, joinChannel_game]; exact hx
  | leaveChannel a0 =>
    simp only [step, Except.ok.injEq] at h
    rw [← h, leaveChannel_game]; exact hx
  | closeNpcChannel =>
    simp only [step, Except.ok.injEq] at h
    rw [← h, closeNpcChannel_game]; exact hx
  | openOwnChannel =>
    simp only [step, Except.ok.injEq] at h
    rw [← h, openOwnChannel_game]; exact hx
  | inviteToOwnChannel a0 =>
    simp only [step, Except.ok.injEq] at h
    rw [← h, inviteToOwnChannel_game]; exact hx
  | excludeFromOwnChannel a0 =>
    simp only [step, Except.ok.injEq] at h
    rw [← h, excludeFromOwnChannel_game]; exact hx
  | partyInvite a0 =>
    simp only [step, Except.ok.injEq] at h
    rw [← h, partyInvite_game]; exact hx
  | partyJoin a0 =>
    simp only [step, Except.ok.injEq] at h
    rw [← h, partyJoin_game]; exact hx
  | partyRevokeInvitation a0 =>
    simp only [step, Except.ok.injEq] at h
    rw [← h, partyRevokeInvitation_game]; exact hx
  | partyPassLeadership a0 =>
    simp only [step, Except.ok.injEq] at h
    rw [← h, partyPassLeadership_game]; exact hx
  | partyLeave =>
    simp only [step, Except.ok.injEq] at h
    rw [← h, partyLeave_game]; exact hx
  | partyShareExperience a0 =>
    simp only [step, Except.ok.injEq] at h
    rw [← h, partyShareExperience_game]; exact hx
  | requestOutfit =>
    simp only [step, Except.ok.injEq] at h
    rw [← h, requestOutfit_game]; exact hx
  | changeOutfit a0 =>
    simp only [step, Except.ok.injEq] at h
    rw [← h, changeOutfit_game]; exact hx
  | addVip a0 =>
    simp only [step, Except.ok.injEq] at h
    rw [← h, addVip_game]; exact hx
  | removeVip a0 =>
    simp only [step, Except.ok.injEq] at h
    rw [← h, removeVip_game]; exact hx
  | setChaseMode a0 =>
    simp only [step, Except.ok.injEq] at h
    obtain ⟨m, hm⟩ := setChaseMode_game env a0 w
    rw [← h, hm]; exact hx
  | setFightMode a0 =>
    simp only [step, Except.ok.injEq] at h
    obtain ⟨m, hm⟩ := setFightMode_game env a0 w
    rw [← h, hm]; exact hx
  | setSafeFight a0 =>
    simp only [step, Except.ok.injEq] at h
    obtain ⟨m, hm⟩ := setSafeFight_game env a0 w
    rw [← h, hm]; exact hx
  | inspectNpcTrade a0 =>
    simp only [step, Except.ok.injEq] at h
    rw [← h, inspectNpcTrade_game]; exact hx
  | buyItem a0 a1 a2 a3 =>
    simp only [step, Except.ok.injEq] at h
    rw [← h, buyItem_game]; exact hx
  | sellItem a0 a1 a2 =>
    simp only [step, Except.ok.injEq] at h
    rw [← h, sellItem_game]; exact hx
  | closeNpcTrade =>
    simp only [step, Except.ok.injEq] at h
    rw [← h, closeNpcTrade_game]; exact hx
  | requestTrade a0 a1 =>
    simp only [step, Except.ok.injEq] at h
    rw [← h, requestTrade_game]; exact hx
  | inspectTrade a0 a1 =>
    simp only [step, Except.ok.injEq] at h
    rw [← h, inspectTrade_game]; exact hx
  | acceptTrade =>
    simp only [step, Except.ok.injEq] at h
    rw [← h, acceptTrade_game]; exact hx
  | rejectTrade =>
    simp only [step, Except.ok.injEq] at h
    rw [← h, rejectTrade_game]; exact hx
  | editText a0 a1 =>
    simp only [step, Except.ok.injEq] at h
    rw [← h, editText_game]; exact hx
  | editList a0 a1 a2 =>
    simp only [step, Except.ok.injEq] at h
    rw [← h, editList_game]; exact hx
  | reportBug a0 =>
    simp only [step, Except.ok.injEq] at h
    rw [← h, reportBug_game]; exact hx
  | reportRuleVilation a0 a1 a2 a3 a4 a5 a6 =>
    simp only [step, Except.ok.injEq] at h
    rw [← h, reportRuleVilation_game]; exact hx
  | debugReport a0 a1 a2 a3 =>
    simp only [step] at h
    rw [debugReport_game h]; exact hx
  | requestQuestLog =>
    simp only [step, Except.ok.injEq] at h
    rw [← h, requestQuestLog_game]; exact hx
  | requestQuestLine a0 =>
    simp only [step, Except.ok.injEq] at h
    rw [← h, requestQuestLine_game]; exact hx
  | equipItem a0 =>
    simp only [step] at h
    rw [equipItem_game h]; exact hx
  | mount a0 =>
    simp only [step, Except.ok.injEq] at h
    rw [← h, mount_game]; exact hx
  | requestItemInfo a0 a1 =>
    simp only [step] at h
    rw [requestItemInfo_game h]; exact hx
  | ping =>
    simp only [step, Except.ok.injEq] at h
    obtain ⟨m, hm⟩ := ping_game w
    rw [← h, hm]; exact hx
  | canPerformGameAction =>
    simp only [step, Except.ok.injEq] at h
    rw [← h, canPerformGameAction_game]; exact hx
  | checkBotProtection =>
    simp only [step, Except.ok.injEq] at h
    rw [← h, checkBotProtection_game]; exact hx
  | setClientVersion a0 =>
    simp only [step] at h
    obtain ⟨f, v, hm⟩ := setClientVersion_frame h
    rw [hm]; exact hx
  | pingEventCallback =>
    simp only [step, Except.ok.injEq] at h
    obtain ⟨m, hm⟩ := pingEventCallback_game w
    rw [← h, hm]; exact hx
  | transportConnected =>
    simp only [step, Except.ok.injEq] at h
    rw [← h, transportConnected_game]; exact hx
  | transportClosed =>
    simp only [step, Except.ok.injEq] at h
    rw [← h, transportClosed_game]; exact hx
  | findEmptyContainerId =>
    obtain ⟨m, hm⟩ := findEmptyContainerId_op_game h
    rw [hm]; exact hx

/-- Only `setClientVersion` touches the stored version and the feature set. -/
theorem step_version_features {env : Env} {op : Op} {w w' : World} (h : step env op w = .ok w') :
    (w'.game.m_clientVersion = w.game.m_clientVersion ∧ w'.game.m_features = w.game.m_features)
      ∨ ∃ v, op = .setClientVersion v := by
  cases op with
  | terminate =>
    simp only [step, Except.ok.injEq] at h
    subst h; simp only [terminate_game, Game.reset]
    all_goals first | exact Or.inl ⟨rfl, rfl⟩ | simp
  | processConnectionError a0 =>
    simp only [step, Except.ok.injEq] at h
    subst h; simp only [processConnectionError_game, Game.disconnect, Game.gameEnd, Game.reset]
    split <;> try split
    all_goals first | exact Or.inl ⟨rfl, rfl⟩ | simp
  | processDisconnect =>
    simp only [step, Except.ok.injEq] at h
    subst h; simp only [processDisconnect_game, Game.disconnect, Game.gameEnd, Game.reset]
    split
    all_goals first | exact Or.inl ⟨rfl, rfl⟩ | simp
  | processLoginError a0 =>
    simp only [step, Except.ok.injEq] at h
    rw [← h]
    first | exact Or.inl ⟨rfl, rfl⟩ | simp
  | processLoginAdvice a0 =>
    simp only [step, Except.ok.injEq] at h
    rw [← h]
    first | exact Or.inl ⟨rfl, rfl⟩ | simp
  | processLoginWait a0 a1 =>
    simp only [step, Except.ok.injEq] at h
    rw [← h]
    first | exact Or.inl ⟨rfl, rfl⟩ | simp
  | processGameStart =>
    simp only [step] at h
    rw [(processGameStart_game h).2]
    all_goals first | exact Or.inl ⟨rfl, rfl⟩ | simp
  | processGameEnd =>
    simp only [step, Except.ok.injEq] at h
    subst h; simp only [processGameEnd_game, Game.gameEnd, Game.reset]
    all_goals first | exact Or.inl ⟨rfl, rfl⟩ | simp
  | processDeath a0 =>
    simp only [step] at h
    rw [(processDeath_game h).2]
    all_goals first | exact Or.inl ⟨rfl, rfl⟩ | simp
  | processGMActions a0 =>
    simp only [step, Except.ok.injEq] at h
    rw [← h]
    first | exact Or.inl ⟨rfl, rfl⟩ | simp
  | processPing =>
    simp only [step, Except.ok.injEq] at h
    rw [← h]
    first | exact Or.inl ⟨rfl, rfl⟩ | simp
  | processPingBack a0 =>
    simp only [step, Except.ok.injEq] at h
    rw [← h]
    first | exact Or.inl ⟨rfl, rfl⟩ | simp
  | processForward a0 a1 =>
    simp only [step, Except.ok.injEq] at h
    rw [← h]
    first | exact Or.inl ⟨rfl, rfl⟩ | simp
  | processOpenOutfitWindow a0 a1 a2 =>
    simp only [step, Except.ok.injEq] at h
    rw [← h]
    first | exact Or.inl ⟨rfl, rfl⟩ | simp
  | processOpenContainer a0 a1 a2 a3 a4 a5 =>
    simp only [step, Except.ok.injEq] at h
    obtain ⟨m, hm⟩ := processOpenContainer_game a0 a1 a2 a3 a4 a5 w
    rw [← h, hm]
    all_goals first | exact Or.inl ⟨rfl, rfl⟩ | simp
  | processCloseContainer a0 =>
    simp only [step, Except.ok.injEq] at h
    obtain ⟨m, hm⟩ := processCloseContainer_game a0 w
    rw [← h, hm]
    all_goals first | exact Or.inl ⟨rfl, rfl⟩ | simp
  | processContainerAddItem a0 a1 =>
    simp only [step, Except.ok.injEq] at h
    obtain ⟨m, hm⟩ := processContainerAddItem_game a0 a1 w
    rw [← h, hm]
    all_goals first | exact Or.inl ⟨rfl, rfl⟩ | simp
  | processContainerUpdateItem a0 a1 a2 =>
    simp only [step, Except.ok.injEq] at h
    obtain ⟨m, hm⟩ := processContainerUpdateItem_game a0 a1 a2 w
    rw [← h, hm]
    all_goals first | exact Or.inl ⟨rfl, rfl⟩ | simp
  | processContainerRemoveItem a0 a1 =>
    simp only [step, Except.ok.injEq] at h
    obtain ⟨m, hm⟩ := processContainerRemoveItem_game a0 a1 w
    rw [← h, hm]
    all_goals first | exact Or.inl ⟨rfl, rfl⟩ | simp
  | processInventoryChange a0 a1 =>
    simp only [step] at h
    rw [processInventoryChange_game h]
    all_goals first | exact Or.inl ⟨rfl, rfl⟩ | simp
  | processVipAdd a0 a1 a2 =>
    simp only [step, Except.ok.injEq] at h
    rw [← h]
    first | exact Or.inl ⟨rfl, rfl⟩ | simp
  | processVipStateChange a0 a1 =>
    simp only [step, Except.ok.injEq] at h
    obtain ⟨m, hm⟩ := processVipStateChange_game a0 a1 w
    rw [← h, hm]
    all_goals first | exact Or.inl ⟨rfl, rfl⟩ | simp
  | processAttackCancel a0 =>
    simp only [step, Except.ok.injEq] at h
    obtain ⟨a, f, s, hm⟩ := processAttackCancel_frame env a0 w
    rw [← h, hm]
    all_goals first | exact Or.inl ⟨rfl, rfl⟩ | simp
  | processWalkCancel a0 =>
    simp only [step] at h
    rw [processWalkCancel_game h]
    all_goals first | exact Or.inl ⟨rfl, rfl⟩ | simp
  | loginWorld a0 a1 a2 a3 a4 a5 a6 =>
    simp only [step] at h
    rw [(loginWorld_game h).2.2.2]; simp only [Game.reset]
    all_goals first | exact Or.inl ⟨rfl, rfl⟩ | simp
  | cancelLogin =>
    simp only [step, Except.ok.injEq] at h
    subst h; simp only [cancelLogin_game, Game.disconnect, Game.gameEnd, Game.reset]
    split
    all_goals first | exact Or.inl ⟨rfl, rfl⟩ | simp
  | forceLogout =>
    simp only [step] at h
    rw [forceLogout_game h]; simp only [Game.disconnect, Game.gameEnd, Game.reset]
    split <;> try split
    all_goals first | exact Or.inl ⟨rfl, rfl⟩ | simp
  | safeLogout =>
    simp only [step] at h
    rw [safeLogout_game h]
    all_goals first | exact Or.inl ⟨rfl, rfl⟩ | simp
  | walk a0 =>
    simp only [step, Except.ok.injEq] at h
    subst h
    rcases walk_game env a0 w with e | e <;> rw [e]
    rotate_left
    · obtain ⟨a, f, s, hm⟩ := cancelFollow_frame env w
      rw [hm]
      first | exact Or.inl ⟨rfl, rfl⟩ | simp
    · first | exact Or.inl ⟨rfl, rfl⟩ | simp
  | autoWalk a0 =>
    simp only [step, Except.ok.injEq] at h
    subst h
    rcases autoWalk_game env a0 w with e | e <;> rw [e]
    rotate_left
    · obtain ⟨a, f, s, hm⟩ := cancelFollow_frame env w
      rw [hm]
      first | exact Or.inl ⟨rfl, rfl⟩ | simp
    · first | exact Or.inl ⟨rfl, rfl⟩ | simp
  | forceWalk a0 =>
    simp only [step, Except.ok.injEq] at h
    rw [← h, forceWalk_game]
    first | exact Or.inl ⟨rfl, rfl⟩ | simp
  | turn a0 =>
    simp only [step, Except.ok.injEq] at h
    rw [← h, turn_game]
    first | exact Or.inl ⟨rfl, rfl⟩ | simp
  | stop =>
    simp only [step, Except.ok.injEq] at h
    subst h
    rcases stop_game env w with e | e <;> rw [e]
    rotate_left
    · obtain ⟨a, f, s, hm⟩ := cancelFollow_frame env w
      rw [hm]
      first | exact Or.inl ⟨rfl, rfl⟩ | simp
    · first | exact Or.inl ⟨rfl, rfl⟩ | simp
  | look a0 =>
    simp only [step, Except.ok.injEq] at h
    rw [← h, look_game]
    first | exact Or.inl ⟨rfl, rfl⟩ | simp
  | move a0 a1 a2 =>
    simp only [step, Except.ok.injEq] at h
    rw [← h, move_game]
    first | exact Or.inl ⟨rfl, rfl⟩ | simp
  | moveToParentContainer a0 a1 =>
    simp only [step, Except.ok.injEq] at h
    rw [← h, moveToParentContainer_game]
    first | exact Or.inl ⟨rfl, rfl⟩ | simp
  | rotate a0 =>
    simp only [step, Except.ok.injEq] at h
    rw [← h, rotate_game]
    first | exact Or.inl ⟨rfl, rfl⟩ | simp
  | use a0 =>
    simp only [step] at h
    obtain ⟨m, hm⟩ := use_game h
    rw [hm]
    all_goals first | exact Or.inl ⟨rfl, rfl⟩ | simp
  | useInventoryItem a0 =>
    simp only [step, Except.ok.injEq] at h
    rw [← h, useInventoryItem_game]
    first | exact Or.inl ⟨rfl, rfl⟩ | simp
  | useWith a0 a1 =>
    simp only [step, Except.ok.injEq] at h
    rw [← h, useWith_game]
    first | exact Or.inl ⟨rfl, rfl⟩ | simp
  | useInventoryItemWith a0 a1 =>
    simp only [step, Except.ok.injEq] at h
    rw [← h, useInventoryItemWith_game]
    first | exact Or.inl ⟨rfl, rfl⟩ | simp
  | «open» a0 a1 =>
    simp only [step] at h
    obtain ⟨m, hm⟩ := open_game h
    rw [hm]
    all_goals first | exact Or.inl ⟨rfl, rfl⟩ | simp
  | openParent a0 =>
    simp only [step, Except.ok.injEq] at h
    rw [← h, openParent_game]
    first | exact Or.inl ⟨rfl, rfl⟩ | simp
  | close a0 =>
    simp only [step, Except.ok.injEq] at h
    rw [← h, close_game]
    first | exact Or.inl ⟨rfl, rfl⟩ | simp
  | refreshContainer =>
    simp only [step, Except.ok.injEq] at h
    rw [← h, refreshContainer_game]
    first | exact Or.inl ⟨rfl, rfl⟩ | simp
  | attack a0 =>
    simp only [step, Except.ok.injEq] at h
    obtain ⟨a, f, s, hm⟩ := attack_frame env a0 w
    rw [← h, hm]
    all_goals first | exact Or.inl ⟨rfl, rfl⟩ | simp
  | cancelAttack =>
    simp only [step, Except.ok.injEq] at h
    obtain ⟨a, f, s, hm⟩ := cancelAttack_frame env w
    rw [← h, hm]
    all_goals first | exact Or.inl ⟨rfl, rfl⟩ | simp
  | follow a0 =>
    simp only [step, Except.ok.injEq] at h
    obtain ⟨a, f, s, hm⟩ := follow_frame env a0 w
    rw [← h, hm]
    all_goals first | exact Or.inl ⟨rfl, rfl⟩ | simp
  | cancelFollow =>
    simp only [step, Except.ok.injEq] at h
    obtain ⟨a, f, s, hm⟩ := cancelFollow_frame env w
    rw [← h, hm]
    all_goals first | exact Or.inl ⟨rfl, rfl⟩ | simp
  | cancelAttackAndFollow =>
    simp only [step, Except.ok.injEq] at h
    rw [← h, cancelAttackAndFollow_game]
    first | exact Or.inl ⟨rfl, rfl⟩ | simp
  | talk a0 a1 =>
    simp only [step, Except.ok.injEq] at h
    rw [← h, talk_game]
    first | exact Or.inl ⟨rfl, rfl⟩ | simp
  | talkChannel a0 a1 a2 =>
    simp only [step, Except.ok.injEq] at h
    rw [← h, talkChannel_game]
    first | exact Or.inl ⟨rfl, rfl⟩ | simp
  | talkPrivate a0 a1 a2 =>
    simp only [step, Except.ok.injEq] at h
    rw [← h, talkPrivate_game]
    first | exact Or.inl ⟨rfl, rfl⟩ | simp
  | openPrivateChannel a0 =>
    simp only [step, Except.ok.injEq] at h
    rw [← h, openPrivateChannel_game]
    first | exact Or.inl ⟨rfl, rfl⟩ | simp
  | requestChannels =>
    simp only [step, Except.ok.injEq] at h
    rw [← h, requestChannels_game]
    first | exact Or.inl ⟨rfl, rfl⟩ | simp
  | joinChannel a0 =>
    simp only [step, Except.ok.injEq] at h
    rw [← h, joinChannel_game]
    first | exact Or.inl ⟨rfl, rfl⟩ | simp
  | leaveChannel a0 =>
    simp only [step, Except.ok.injEq] at h
    rw [← h, leaveChannel_game]
    first | exact Or.inl ⟨rfl, rfl⟩ | simp
  | closeNpcChannel =>
    simp only [step, Except.ok.injEq] at h
    rw [← h, closeNpcChannel_game]
    first | exact Or.inl ⟨rfl, rfl⟩ | simp
  | openOwnChannel =>
    simp only [step, Except.ok.injEq] at h
    rw [← h, openOwnChannel_game]
    first | exact Or.inl ⟨rfl, rfl⟩ | simp
  | inviteToOwnChannel a0 =>
    simp only [step, Except.ok.injEq] at h
    rw [← h, inviteToOwnChannel_game]
    first | exact Or.inl ⟨rfl, rfl⟩ | simp
  | excludeFromOwnChannel a0 =>
    simp only [step, Except.ok.injEq] at h
    rw [← h, excludeFromOwnChannel_game]
    first | exact Or.inl ⟨rfl, rfl⟩ | simp
  | partyInvite a0 =>
    simp only [step, Except.ok.injEq] at h
    rw [← h, partyInvite_game]
    first | exact Or.inl ⟨rfl, rfl⟩ | simp
  | partyJoin a0 =>
    simp only [step, Except.ok.injEq] at h
    rw [← h, partyJoin_game]
    first | exact Or.inl ⟨rfl, rfl⟩ | simp
  | partyRevokeInvitation a0 =>
    simp only [step, Except.ok.injEq] at h
    rw [← h, partyRevokeInvitation_game]
    first | exact Or.inl ⟨rfl, rfl⟩ | simp
  | partyPassLeadership a0 =>
    simp only [step, Except.ok.injEq] at h
    rw [← h, partyPassLeadership_game]
    first | exact Or.inl ⟨rfl, rfl⟩ | simp
  | partyLeave =>
    simp only [step, Except.ok.injEq] at h
    rw [← h, partyLeave_game]
    first | exact Or.inl ⟨rfl, rfl⟩ | simp
  | partyShareExperience a0 =>
    simp only [step, Except.ok.injEq] at h
    rw [← h, partyShareExperience_game]
    first | exact Or.inl ⟨rfl, rfl⟩ | simp
  | requestOutfit =>
    simp only [step, Except.ok.injEq] at h
    rw [← h, requestOutfit_game]
    first | exact Or.inl ⟨rfl, rfl⟩ | simp
  | changeOutfit a0 =>
    simp only [step, Except.ok.injEq] at h
    rw [← h, changeOutfit_game]
    first | exact Or.inl ⟨rfl, rfl⟩ | simp
  | addVip a0 =>
    simp only [step, Except.ok.injEq] at h
    rw [← h, addVip_game]
    first | exact Or.inl ⟨rfl, rfl⟩ | simp
  | removeVip a0 =>
    simp only [step, Except.ok.injEq] at h
    rw [← h, removeVip_game]
    first | exact Or.inl ⟨rfl, rfl⟩ | simp
  | setChaseMode a0 =>
    simp only [step, Except.ok.injEq] at h
    obtain ⟨m, hm⟩ := setChaseMode_game env a0 w
    rw [← h, hm]
    all_goals first | exact Or.inl ⟨rfl, rfl⟩ | simp
  | setFightMode a0 =>
    simp only [step, Except.ok.injEq] at h
    obtain ⟨m, hm⟩ := setFightMode_game env a0 w
    rw [← h, hm]
    all_goals first | exact Or.inl ⟨rfl, rfl⟩ | simp
  | setSafeFight a0 =>
    simp only [step, Except.ok.injEq] at h
    obtain ⟨m, hm⟩ := setSafeFight_game env a0 w
    rw [← h, hm]
    all_goals first | exact Or.inl ⟨rfl, rfl⟩ | simp
  | inspectNpcTrade a0 =>
    simp only [step, Except.ok.injEq] at h
    rw [← h, inspectNpcTrade_game]
    first | exact Or.inl ⟨rfl, rfl⟩ | simp
  | buyItem a0 a1 a2 a3 =>
    simp only [step, Except.ok.injEq] at h
    rw [← h, buyItem_game]
    first | exact Or.inl ⟨rfl, rfl⟩ | simp
  | sellItem a0 a1 a2 =>
    simp only [step, Except.ok.injEq] at h
    rw [← h, sellItem_game]
    first | exact Or.inl ⟨rfl, rfl⟩ | simp
  | closeNpcTrade =>
    simp only [step, Except.ok.injEq] at h
    rw [← h, closeNpcTrade_game]
    first | exact Or.inl ⟨rfl, rfl⟩ | simp
  | requestTrade a0 a1 =>
    simp only [step, Except.ok.injEq] at h
    rw [← h, requestTrade_game]
    first | exact Or.inl ⟨rfl, rfl⟩ | simp
  | inspectTrade a0 a1 =>
    simp only [step, Except.ok.injEq] at h
    rw [← h, inspectTrade_game]
    first | exact Or.inl ⟨rfl, rfl⟩ | simp
  | acceptTrade =>
    simp only [step, Except.ok.injEq] at h
    rw [← h, acceptTrade_game]
    first | exact Or.inl ⟨rfl, rfl⟩ | simp
  | rejectTrade =>
    simp only [step, Except.ok.injEq] at h
    rw [← h, rejectTrade_game]
    first | exact Or.inl ⟨rfl, rfl⟩ | simp
  | editText a0 a1 =>
    simp only [step, Except.ok.injEq] at h
    rw [← h, editText_game]
    first | exact Or.inl ⟨rfl, rfl⟩ | simp
  | editList a0 a1 a2 =>
    simp only [step, Except.ok.injEq] at h
    rw [← h, editList_game]
    first | exact Or.inl ⟨rfl, rfl⟩ | simp
  | reportBug a0 =>
    simp only [step, Except.ok.injEq] at h
    rw [← h, reportBug_game]
    first | exact Or.inl ⟨rfl, rfl⟩ | simp
  | reportRuleVilation a0 a1 a2 a3 a4 a5 a6 =>
    simp only [step, Except.ok.injEq] at h
    rw [← h, reportRuleVilation_game]
    first | exact Or.inl ⟨rfl, rfl⟩ | simp
  | debugReport a0 a1 a2 a3 =>
    simp only [step] at h
    rw [debugReport_game h]
    all_goals first | exact Or.inl ⟨rfl, rfl⟩ | simp
  | requestQuestLog =>
    simp only [step, Except.ok.injEq] at h
    rw [← h, requestQuestLog_game]
    first | exact Or.inl ⟨rfl, rfl⟩ | simp
  | requestQuestLine a0 =>
    simp only [step, Except.ok.injEq] at h
    rw [← h, requestQuestLine_game]
    first | exact Or.inl ⟨rfl, rfl⟩ | simp
  | equipItem a0 =>
    simp only [step] at h
    rw [equipItem_game h]
    all_goals first | exact Or.inl ⟨rfl, rfl⟩ | simp
  | mount a0 =>
    simp only [step, Except.ok.injEq] at h
    rw [← h, mount_game]
    first | exact Or.inl ⟨rfl, rfl⟩ | simp
  | requestItemInfo a0 a1 =>
    simp only [step] at h
    rw [requestItemInfo_game h]
    all_goals first | exact Or.inl ⟨rfl, rfl⟩ | simp
  | ping =>
    simp only [step, Except.ok.injEq] at h
    obtain ⟨m, hm⟩ := ping_game w
    rw [← h, hm]
    all_goals first | exact Or.inl ⟨rfl, rfl⟩ | simp
  | canPerformGameAction =>
    simp only [step, Except.ok.injEq] at h
    rw [← h, canPerformGameAction_game]
    all_goals first | exact Or.inl ⟨rfl, rfl⟩ | simp
  | checkBotProtection =>
    simp only [step, Except.ok.injEq] at h
    rw [← h, checkBotProtection_game]
    all_goals first | exact Or.inl ⟨rfl, rfl⟩ | simp
  | setClientVersion a0 =>
    exact Or.inr ⟨a0, rfl⟩
  | pingEventCallback =>
    simp only [step, Except.ok.injEq] at h
    obtain ⟨m, hm⟩ := pingEventCallback_game w
    rw [← h, hm]
    all_goals first | exact Or.inl ⟨rfl, rfl⟩ | simp
  | transportConnected =>
    simp only [step, Except.ok.injEq] at h
    rw [← h, transportConnected_game]
    all_goals first | exact Or.inl ⟨rfl, rfl⟩ | simp
  | transportClosed =>
    simp only [step, Except.ok.injEq] at h
    rw [← h, transportClosed_game]
    all_goals first | exact Or.inl ⟨rfl, rfl⟩ | simp
  | findEmptyContainerId =>
    obtain ⟨m, hm⟩ := findEmptyContainerId_op_game h
    rw [hm]
    exact Or.inl ⟨rfl, rfl⟩

/-! ## The claims -/

/-- C1: `canPerformGameAction()` answers true exactly when the session is online, a
local player exists, the player is not dead, a transport handle exists, that handle
is connected and the bot-protection check passes; with bot protection compiled out
the check always passes and the answer is the conjunction of the first five
conditions; evaluating the predicate leaves every member of the session as it was. -/
theorem canPerformGameAction_spec (env : Env) (w : World) :
    ((canPerformGameAction env w).1 = true ↔
      (w.game.m_online = true ∧ w.game.m_localPlayer.isSome = true ∧ w.game.m_dead = false
        ∧ (∃ p, w.game.m_protocolGame = some p ∧ p.connected = true)
        ∧ (checkBotProtection env w).1 = true))
    ∧ (env.BOT_PROTECTION = false →
        (checkBotProtection env w).1 = true ∧
        ((canPerformGameAction env w).1 = true ↔
          (w.game.m_online = true ∧ w.game.m_localPlayer.isSome = true ∧ w.game.m_dead = false
            ∧ ∃ p, w.game.m_protocolGame = some p ∧ p.connected = true)))
    ∧ (canPerformGameAction env w).2.game = w.game := by
  have key : (canPerformGameAction env w).1 = true ↔
      (w.game.m_online = true ∧ w.game.m_localPlayer.isSome = true ∧ w.game.m_dead = false
        ∧ (∃ p, w.game.m_protocolGame = some p ∧ p.connected = true)
        ∧ (checkBotProtection env w).1 = true) := by
    constructor
    · exact gate_pass_fields
    · rintro ⟨h1, h2, h3, ⟨p, hp, hc⟩, h5⟩
      unfold canPerformGameAction
      simp [h1, h2, h3, hp, hc, h5]
  refine ⟨key, ?_, canPerformGameAction_game env w⟩
  intro hb
  have hc : (checkBotProtection env w).1 = true := by
    unfold checkBotProtection
    simp [hb]
  refine ⟨hc, ?_⟩
  rw [key]
  constructor
  · rintro ⟨h1, h2, h3, h4, _⟩
    exact ⟨h1, h2, h3, h4⟩
  · rintro ⟨h1, h2, h3, h4⟩
    exact ⟨h1, h2, h3, h4, hc⟩

/-- C1, on a running game without bot protection: the gate passes and returns the
session it was given. -/
theorem canPerformGameAction_spec_witness :
    envPlain.BOT_PROTECTION = false ∧ (canPerformGameAction envPlain playing).1 = true
      ∧ (canPerformGameAction envPlain playing).2.game = playing.game :=
  ⟨rfl,
   ((canPerformGameAction_spec envPlain playing).2.1 rfl).2.mpr
     ⟨by decide, by decide, by decide, ⟨⟨true⟩, by decide, rfl⟩⟩,
   (canPerformGameAction_spec envPlain playing).2.2⟩

/-- C2: every operation that starts with the action gate, called while the player
is dead or the session is not online, returns normally, hands nothing to the
transport (the trace is unchanged) and leaves the session as it was. -/
theorem gated_op_dropped (env : Env) (op : Op) (w : World) (hg : op.gated = true)
    (h : w.game.m_dead = true ∨ w.game.m_online = false) :
    step env op w = .ok w := by
  have gate := gate_dead_or_offline env w h
  cases op with
  | terminate => exact Bool.noConfusion hg
  | processConnectionError a0 => exact Bool.noConfusion hg
  | processDisconnect => exact Bool.noConfusion hg
  | processLoginError a0 => exact Bool.noConfusion hg
  | processLoginAdvice a0 => exact Bool.noConfusion hg
  | processLoginWait a0 a1 => exact Bool.noConfusion hg
  | processGameStart => exact Bool.noConfusion hg
  | processGameEnd => exact Bool.noConfusion hg
  | processDeath a0 => exact Bool.noConfusion hg
  | processGMActions a0 => exact Bool.noConfusion hg
  | processPing => exact Bool.noConfusion hg
  | processPingBack a0 => exact Bool.noConfusion hg
  | processForward a0 a1 => exact Bool.noConfusion hg
  | processOpenOutfitWindow a0 a1 a2 => exact Bool.noConfusion hg
  | processOpenContainer a0 a1 a2 a3 a4 a5 => exact Bool.noConfusion hg
  | processCloseContainer a0 => exact Bool.noConfusion hg
  | processContainerAddItem a0 a1 => exact Bool.noConfusion hg
  | processContainerUpdateItem a0 a1 a2 => exact Bool.noConfusion hg
  | processContainerRemoveItem a0 a1 => exact Bool.noConfusion hg
  | processInventoryChange a0 a1 => exact Bool.noConfusion hg
  | processVipAdd a0 a1 a2 => exact Bool.noConfusion hg
  | processVipStateChange a0 a1 => exact Bool.noConfusion hg
  | processAttackCancel a0 => exact Bool.noConfusion hg
  | processWalkCancel a0 => exact Bool.noConfusion hg
  | loginWorld a0 a1 a2 a3 a4 a5 a6 => exact Bool.noConfusion hg
  | cancelLogin => exact Bool.noConfusion hg
  | forceLogout => exact Bool.noConfusion hg
  | safeLogout => exact Bool.noConfusion hg
  | walk a0 => simp [step, walk, gate]
  | autoWalk a0 => simp [step, autoWalk, gate]
  | forceWalk a0 => simp [step, forceWalk, gate]
  | turn a0 => simp [step, turn, gate]
  | stop => simp [step, stop, gate]
  | look a0 => simp [step, look, gate]
  | move a0 a1 a2 => simp [step, move, gate]
  | moveToParentContainer a0 a1 => simp [step, moveToParentContainer, gate]
  | rotate a0 => simp [step, rotate, gate]
  | use a0 => simp [step, use, gate]
  | useInventoryItem a0 => simp [step, useInventoryItem, gate]
  | useWith a0 a1 => simp [step, useWith, gate]
  | useInventoryItemWith a0 a1 => simp [step, useInventoryItemWith, gate]
  | «open» a0 a1 => simp [step, «open», gate]
  | openParent a0 => simp [step, openParent, gate]
  | close a0 => simp [step, close, gate]
  | refreshContainer => simp [step, refreshContainer, gate]
  | attack a0 => simp [step, attack, attackBody, gate]
  | cancelAttack => simp [step, cancelAttack, attackBody, gate]
  | follow a0 => simp [step, follow, followBody, gate]
  | cancelFollow => simp [step, cancelFollow, followBody, gate]
  | cancelAttackAndFollow => simp [step, cancelAttackAndFollow, gate]
  | talk a0 a1 => simp [step, talk, gate]
  | talkChannel a0 a1 a2 => simp [step, talkChannel, gate]
  | talkPrivate a0 a1 a2 => simp [step, talkPrivate, gate]
  | openPrivateChannel a0 => simp [step, openPrivateChannel, gate]
  | requestChannels => simp [step, requestChannels, gate]
  | joinChannel a0 => simp [step, joinChannel, gate]
  | leaveChannel a0 => simp [step, leaveChannel, gate]
  | closeNpcChannel => simp [step, closeNpcChannel, gate]
  | openOwnChannel => simp [step, openOwnChannel, gate]
  | inviteToOwnChannel a0 => simp [step, inviteToOwnChannel, gate]
  | excludeFromOwnChannel a0 => simp [step, excludeFromOwnChannel, gate]
  | partyInvite a0 => simp [step, partyInvite, gate]
  | partyJoin a0 => simp [step, partyJoin, gate]
  | partyRevokeInvitation a0 => simp [step, partyRevokeInvitation, gate]
  | partyPassLeadership a0 => simp [step, partyPassLeadership, gate]
  | partyLeave => simp [step, partyLeave, gate]
  | partyShareExperience a0 => simp [step, partyShareExperience, gate]
  | requestOutfit => simp [step, requestOutfit, gate]
  | changeOutfit a0 => simp [step, changeOutfit, gate]
  | addVip a0 => simp [step, addVip, gate]
  | removeVip a0 => simp [step, removeVip, gate]
  | setChaseMode a0 => simp [step, setChaseMode, gate]
  | setFightMode a0 => simp [step, setFightMode, gate]
  | setSafeFight a0 => simp [step, setSafeFight, gate]
  | inspectNpcTrade a0 => simp [step, inspectNpcTrade, gate]
  | buyItem a0 a1 a2 a3 => simp [step, buyItem, gate]
  | sellItem a0 a1 a2 => simp [step, sellItem, gate]
  | closeNpcTrade => simp [step, closeNpcTrade, gate]
  | requestTrade a0 a1 => simp [step, requestTrade, gate]
  | inspectTrade a0 a1 => simp [step, inspectTrade, gate]
  | acceptTrade => simp [step, acceptTrade, gate]
  | rejectTrade => simp [step, rejectTrade, gate]
  | editText a0 a1 => simp [step, editText, gate]
  | editList a0 a1 a2 => simp [step, editList, gate]
  | reportBug a0 => simp [step, reportBug, gate]
  | reportRuleVilation a0 a1 a2 a3 a4 a5 a6 => simp [step, reportRuleVilation, gate]
  | debugReport a0 a1 a2 a3 => exact Bool.noConfusion hg
  | requestQuestLog => simp [step, requestQuestLog, gate]
  | requestQuestLine a0 => simp [step, requestQuestLine, gate]
  | equipItem a0 => simp [step, equipItem, gate]
  | mount a0 => simp [step, mount, gate]
  | requestItemInfo a0 a1 => simp [step, requestItemInfo, gate]
  | ping => exact Bool.noConfusion hg
  | canPerformGameAction => exact Bool.noConfusion hg
  | checkBotProtection => exact Bool.noConfusion hg
  | setClientVersion a0 => exact Bool.noConfusion hg
  | pingEventCallback => exact Bool.noConfusion hg
  | transportConnected => exact Bool.noConfusion hg
  | transportClosed => exact Bool.noConfusion hg
  | findEmptyContainerId => exact Bool.noConfusion hg

/-- C2, on the session of a dead player: an attack request is dropped. -/
theorem gated_op_dropped_witness :
    deadAttackingOrc.game.m_dead = true
      ∧ step envPlain (.attack (some rat)) deadAttackingOrc = .ok deadAttackingOrc :=
  ⟨by decide, gated_op_dropped envPlain (.attack (some rat)) deadAttackingOrc rfl (Or.inl (by decide))⟩

theorem reachable_runOps (env : Env) (ops : List Op) {w : World} (h : Reachable w) :
    Reachable (runOps env ops w) := by
  induction ops generalizing w with
  | nil => exact h
  | cons op ops ih =>
    unfold runOps
    cases hs : step env op w with
    | ok w' => exact ih (Reachable.step env op h hs)
    | error e => exact ih h

theorem reachable_exclusive {w : World} (h : Reachable w) :
    w.game.m_attackingCreature = none ∨ w.game.m_followingCreature = none := by
  induction h with
  | construct => exact Or.inl rfl
  | step env op _ hs ih => exact step_exclusive hs ih

theorem attack_new_target {env : Env} {w : World} {x : Creature}
    (hp : (canPerformGameAction env w).1 = true)
    (hl : isLocalPlayer (some x) w.game.m_localPlayer = false)
    (hn : ptrEq (some x) w.game.m_attackingCreature = false) :
    (attack env (some x) w).game.m_attackingCreature = some x
      ∧ (attack env (some x) w).game.m_followingCreature = none := by
  rw [attack_of_pass hp hl]
  simp only [hn, isFollowing, Option.isSome_some, Bool.and_false, Bool.true_and,
    Bool.false_eq_true, if_false]
  cases hf : w.game.m_followingCreature <;>
    simp [hf, cancelFollow_of_pass hp, incSeq, setAttackingCreature, setFollowingCreature]

theorem follow_new_target {env : Env} {w : World} {x : Creature}
    (hp : (canPerformGameAction env w).1 = true)
    (hl : isLocalPlayer (some x) w.game.m_localPlayer = false)
    (hn : ptrEq (some x) w.game.m_followingCreature = false) :
    (follow env (some x) w).game.m_followingCreature = some x
      ∧ (follow env (some x) w).game.m_attackingCreature = none := by
  rw [follow_of_pass hp hl]
  simp only [hn, isAttacking, Option.isSome_some, Bool.and_false, Bool.true_and,
    Bool.false_eq_true, if_false]
  cases hf : w.game.m_attackingCreature <;>
    simp [hf, cancelAttack_of_pass hp, incSeq, setAttackingCreature, setFollowingCreature]

/-- C3: in every state reachable from the constructed session by any sequence of
operations the attacking target and the following target are never both set; and
a permitted `attack(X)` on a creature X that is neither the local player nor the
current attack target makes X the attacking target and leaves no following target,
and symmetrically for `follow(X)`. -/
theorem targets_mutually_exclusive (w : World) (hr : Reachable w) :
    ¬ (w.game.m_attackingCreature.isSome = true ∧ w.game.m_followingCreature.isSome = true)
    ∧ (∀ (env : Env) (x : Creature), (canPerformGameAction env w).1 = true →
        isLocalPlayer (some x) w.game.m_localPlayer = false →
        ptrEq (some x) w.game.m_attackingCreature = false →
        (attack env (some x) w).game.m_attackingCreature = some x
          ∧ (attack env (some x) w).game.m_followingCreature = none)
    ∧ (∀ (env : Env) (x : Creature), (canPerformGameAction env w).1 = true →
        isLocalPlayer (some x) w.game.m_localPlayer = false →
        ptrEq (some x) w.game.m_followingCreature = false →
        (follow env (some x) w).game.m_followingCreature = some x
          ∧ (follow env (some x) w).game.m_attackingCreature = none) := by
  refine ⟨?_, fun env x hp hl hn => attack_new_target hp hl hn,
    fun env x hp hl hn => follow_new_target hp hl hn⟩
  rintro ⟨ha, hf⟩
  rcases reachable_exclusive hr with h | h
  · rw [h] at ha; exact Bool.noConfusion ha
  · rw [h] at hf; exact Bool.noConfusion hf

/-- C3, on the running game in which the orc is attacked: the state is reachable,
its targets are exclusive, and following the rat clears the attack target. -/
theorem targets_mutually_exclusive_witness :
    Reachable attackingOrc
    ∧ ¬ (attackingOrc.game.m_attackingCreature.isSome = true
          ∧ attackingOrc.game.m_followingCreature.isSome = true)
    ∧ (follow envPlain (some rat) attackingOrc).game.m_followingCreature = some rat
    ∧ (follow envPlain (some rat) attackingOrc).game.m_attackingCreature = none :=
  have hr : Reachable attackingOrc := reachable_runOps envPlain _ Reachable.construct
  ⟨hr, (targets_mutually_exclusive attackingOrc hr).1,
    (targets_mutually_exclusive attackingOrc hr).2.2 envPlain rat (by decide) (by decide)
      (by decide)⟩

/-- The gate answers the same after an `attack` or `follow`. -/
theorem attack_gate (env env2 : Env) (creature : Option Creature) (w : World) :
    (canPerformGameAction env2 (attack env creature w)).1 = (canPerformGameAction env2 w).1 := by
  obtain ⟨a, f, s, hm⟩ := attack_frame env creature w
  apply gate_congr <;> rw [hm]

/-- C4 (as amended): when actions are permitted and X is neither null, nor the local
player, nor already the attacking target, `attack(X)` followed by `attack(X)` leaves
no attacking target; and `attack(X)` when X is already the attacking target clears the
target, notifies the change and sends an attack command with target id 0 carrying
the stored counter. -/
theorem attack_toggle (env : Env) (w : World) (x : Creature)
    (hp : (canPerformGameAction env w).1 = true)
    (hl : isLocalPlayer (some x) w.game.m_localPlayer = false) :
    (ptrEq (some x) w.game.m_attackingCreature = false →
      (attack env (some x) (attack env (some x) w)).game.m_attackingCreature = none)
    ∧ (ptrEq (some x) w.game.m_attackingCreature = true →
      (attack env (some x) w).game.m_attackingCreature = none
      ∧ (attack env (some x) w).out = w.out ++
          [.lua "onAttackingCreatureChange" [.creature none, .creature w.game.m_attackingCreature],
           .send (.sendAttack 0 (attack env (some x) w).game.m_seq)]) := by
  have toggle : ∀ w2 : World, (canPerformGameAction env w2).1 = true →
      isLocalPlayer (some x) w2.game.m_localPlayer = false →
      ptrEq (some x) w2.game.m_attackingCreature = true →
      (attack env (some x) w2).game.m_attackingCreature = none
      ∧ (attack env (some x) w2).out = w2.out ++
          [.lua "onAttackingCreatureChange" [.creature none, .creature w2.game.m_attackingCreature],
           .send (.sendAttack 0 (attack env (some x) w2).game.m_seq)] := by
    intro w2 hp2 hl2 ht
    rw [attack_of_pass hp2 hl2]
    simp [ht, incSeq, setAttackingCreature, idOrZero]
  refine ⟨fun hn => ?_, toggle w hp hl⟩
  have h1 := attack_new_target hp hl hn
  have hp2 : (canPerformGameAction env (attack env (some x) w)).1 = true := by
    rw [attack_gate]; exact hp
  have hl2 : isLocalPlayer (some x) (attack env (some x) w).game.m_localPlayer = false := by
    obtain ⟨a, f, s, hm⟩ := attack_frame env (some x) w
    rw [hm]; exact hl
  have ht : ptrEq (some x) (attack env (some x) w).game.m_attackingCreature = true := by
    rw [h1.1]; simp [ptrEq]
  exact (toggle _ hp2 hl2 ht).1

/-- C4, on a running game: attacking the orc twice from a state without target
leaves no target. -/
theorem attack_toggle_witness :
    (canPerformGameAction envPlain playing).1 = true
    ∧ (attack envPlain (some orc) (attack envPlain (some orc) playing)).game.m_attackingCreature
        = none :=
  ⟨by decide, (attack_toggle envPlain playing orc (by decide) (by decide)).1 (by decide)⟩

/-- C4 fails as stated: in the running game in which the orc is already the
attacking target (actions permitted, the orc is not the local player),
`attack(orc)` followed by `attack(orc)` leaves the orc as attacking target. -/
theorem attack_twice_counterexample :
    (canPerformGameAction envPlain attackingOrc).1 = true
    ∧ isLocalPlayer (some orc) attackingOrc.game.m_localPlayer = false
    ∧ (attack envPlain (some orc) (attack envPlain (some orc) attackingOrc)).game.m_attackingCreature
        = some orc := by
  decide

/-- What one permitted `attack` appends to the trace and does to the counter. -/
theorem attack_seq {env : Env} {w : World} {creature : Option Creature}
    (hp : (canPerformGameAction env w).1 = true)
    (hl : isLocalPlayer creature w.game.m_localPlayer = false) :
    ∃ effs, (attack env creature w).out = w.out ++ effs
      ∧ ((seqValues effs = [(w.game.m_seq + 1) % UINT_MOD]
            ∧ (attack env creature w).game.m_seq = (w.game.m_seq + 1) % UINT_MOD)
          ∨ (seqValues effs = [(w.game.m_seq + 1) % UINT_MOD, (w.game.m_seq + 2) % UINT_MOD]
            ∧ (attack env creature w).game.m_seq = (w.game.m_seq + 2) % UINT_MOD)) := by
  rw [attack_of_pass hp hl]
  simp only []
  generalize (if (creature.isSome && ptrEq creature w.game.m_attackingCreature) = true then none
    else creature) = c
  cases hb : (c.isSome && isFollowing w.game)
  · simp only [Bool.false_eq_true, if_false]
    exact ⟨[.lua "onAttackingCreatureChange" [.creature c, .creature w.game.m_attackingCreature],
        .send (.sendAttack (idOrZero c) ((w.game.m_seq + 1) % UINT_MOD))],
      by simp [incSeq, setAttackingCreature],
      Or.inl ⟨by simp [seqValues, seqOf], by simp [incSeq, setAttackingCreature]⟩⟩
  · simp only [if_true, cancelFollow_of_pass hp]
    exact ⟨[.lua "onFollowingCreatureChange" [.creature none, .creature w.game.m_followingCreature],
        .send (.sendFollow 0 ((w.game.m_seq + 1) % UINT_MOD)),
        .lua "onAttackingCreatureChange" [.creature c, .creature w.game.m_attackingCreature],
        .send (.sendAttack (idOrZero c) ((w.game.m_seq + 2) % UINT_MOD))],
      by simp [incSeq, setAttackingCreature, setFollowingCreature, UINT_MOD],
      Or.inr ⟨by simp [seqValues, seqOf],
        by simp [incSeq, setAttackingCreature, setFollowingCreature, UINT_MOD]⟩⟩

/-- What one permitted `follow` appends to the trace and does to the counter. -/
theorem follow_seq {env : Env} {w : World} {creature : Option Creature}
    (hp : (canPerformGameAction env w).1 = true)
    (hl : isLocalPlayer creature w.game.m_localPlayer = false) :
    ∃ effs, (follow env creature w).out = w.out ++ effs
      ∧ ((seqValues effs = [(w.game.m_seq + 1) % UINT_MOD]
            ∧ (follow env creature w).game.m_seq = (w.game.m_seq + 1) % UINT_MOD)
          ∨ (seqValues effs = [(w.game.m_seq + 1) % UINT_MOD, (w.game.m_seq + 2) % UINT_MOD]
            ∧ (follow env creature w).game.m_seq = (w.game.m_seq + 2) % UINT_MOD)) := by
  rw [follow_of_pass hp hl]
  simp only []
  generalize (if (creature.isSome && ptrEq creature w.game.m_followingCreature) = true then none
    else creature) = c
  cases hb : (c.isSome && isAttacking w.game)
  · simp only [Bool.false_eq_true, if_false]
    exact ⟨[.lua "onFollowingCreatureChange" [.creature c, .creature w.game.m_followingCreature],
        .send (.sendFollow (idOrZero c) ((w.game.m_seq + 1) % UINT_MOD))],
      by simp [incSeq, setFollowingCreature],
      Or.inl ⟨by simp [seqValues, seqOf], by simp [incSeq, setFollowingCreature]⟩⟩
  · simp only [if_true, cancelAttack_of_pass hp]
    exact ⟨[.lua "onAttackingCreatureChange" [.creature none, .creature w.game.m_attackingCreature],
        .send (.sendAttack 0 ((w.game.m_seq + 1) % UINT_MOD)),
        .lua "onFollowingCreatureChange" [.creature c, .creature w.game.m_followingCreature],
        .send (.sendFollow (idOrZero c) ((w.game.m_seq + 2) % UINT_MOD))],
      by simp [incSeq, setAttackingCreature, setFollowingCreature, UINT_MOD],
      Or.inr ⟨by simp [seqValues, seqOf],
        by simp [incSeq, setAttackingCreature, setFollowingCreature, UINT_MOD]⟩⟩

theorem enableFeature_features (x f : GameFeature) (g : Game) :
    (enableFeature x g).m_features f = (decide (f = x) || g.m_features f) := by
  unfold enableFeature
  by_cases h : f = x <;> simp [h]

theorem ite_features {c : Prop} [Decidable c] (a b : Game) (f : GameFeature) :
    (if c then a else b).m_features f = if c then a.m_features f else b.m_features f := by
  split <;> rfl

/-- The feature block computes the threshold table, whatever was enabled before. -/
theorem applyVersionFeatures_table (v : Int) (g : Game) (f : GameFeature) :
    (applyVersionFeatures v g).m_features f = thresholdTable v f := by
  unfold applyVersionFeatures
  lift_lets
  extract_lets g1 g2 g3 g4 g5 g6 g7 g8 g9
  have h1 : g1.m_features f = false := rfl
  clear_value g1
  have h2 : g2.m_features f = decide (f = .GameFormatCreatureName) := by
    simp only [g2, enableFeature_features, h1, Bool.or_false]
  clear_value g2
  have h3 : g3.m_features f = _ :=
    ite_features (c := v ≤ 810) (enableFeature .GameChargeableItems g2) g2 f
  clear_value g3
  have h4 : g4.m_features f = _ :=
    ite_features (c := v ≥ 854) (enableFeature .GameCreatureEmblems
      (enableFeature .GameDoubleFreeCapacity (enableFeature .GameChallangeOnLogin
        (enableFeature .GameAccountNames (enableFeature .GameProtocolChecksum g3))))) g3 f
  clear_value g4
  have h5 : g5.m_features f = _ :=
    ite_features (c := v ≥ 862) (enableFeature .GamePenalityOnDeath g4) g4 f
  clear_value g5
  have h6 : g6.m_features f = _ :=
    ite_features (c := v ≥ 870) (enableFeature .GameSpellList
      (enableFeature .GamePlayerMounts (enableFeature .GameDoubleExperience g5))) g5 f
  clear_value g6
  have h7 : g7.m_features f = _ :=
    ite_features (c := v ≥ 910) (enableFeature .GameItemAnimationPhase
      (enableFeature .GameEnvironmentEffect (enableFeature .GameChannelPlayerList
        (enableFeature .GamePlayerRegenerationTime (enableFeature .GameSkillsBase
          (enableFeature .GameTotalCapacity (enableFeature .GameNameOnNpcTrade g6))))))) g6 f
  clear_value g7
  have h8 : g8.m_features f = _ :=
    ite_features (c := v ≥ 940) (enableFeature .GamePlayerMarket g7) g7 f
  clear_value g8
  have h9 : g9.m_features f = _ :=
    ite_features (c := v ≥ 953) (enableFeature .GameClientPing
      (enableFeature .GamePurseSlot g8)) g8 f
  clear_value g9
  rw [ite_features]
  simp only [enableFeature_features] at h3 h4 h5 h6 h7 h8 h9 ⊢
  rw [h9, h8, h7, h6, h5, h4, h3, h2]
  cases f <;> simp [thresholdTable] <;> omega

/-- A call of `setClientVersion` with a new, accepted version in an offline session. -/
theorem setClientVersion_ok {v : Int} {w : World} (hoff : w.game.m_online = false)
    (hne : w.game.m_clientVersion ≠ v) (hv : v = 0 ∨ (810 ≤ v ∧ v ≤ 961)) :
    setClientVersion v w = .ok
      { game := { applyVersionFeatures v w.game with m_clientVersion := v },
        out := w.out ++ [.buildMessageModesMap v, .lua "onClientVersionChange" [.int v]] } := by
  unfold setClientVersion
  have h3 : ¬ (v ≠ 0 ∧ (v < 810 ∨ v > 961)) := by omega
  simp [hne, isOnline, hoff, h3, callGlobalField, emit]

/-- What a returning call of `setClientVersion` does to the stored version. -/
theorem setClientVersion_version {v : Int} {w w' : World} (h : setClientVersion v w = .ok w') :
    w'.game.m_clientVersion = v ∧ (w.game.m_clientVersion = v ∨ v = 0 ∨ (810 ≤ v ∧ v ≤ 961)) := by
  unfold setClientVersion at h
  split at h
  · rename_i he
    simp at h; subst h; exact ⟨he, Or.inl he⟩
  · split at h
    · simp at h
    · split at h
      · simp at h
      · rename_i h3
        simp only [Except.ok.injEq] at h
        subst h
        refine ⟨rfl, Or.inr ?_⟩
        omega

/-- The stored version is 0 or lies in the supported range, in every reachable state. -/
theorem reachable_version {w : World} (h : Reachable w) :
    w.game.m_clientVersion = 0 ∨ (810 ≤ w.game.m_clientVersion ∧ w.game.m_clientVersion ≤ 961) := by
  induction h with
  | construct => exact Or.inl rfl
  | step env op _ hs ih =>
    rcases step_version_features hs with ⟨hv, _⟩ | ⟨v, rfl⟩
    · rw [hv]; exact ih
    · simp only [step] at hs
      obtain ⟨h1, h2⟩ := setClientVersion_version hs
      rcases h2 with h2 | h2
      · rw [h1, ← h2]; exact ih
      · rw [h1]; exact h2

/-- An unsupported version is rejected in every reachable offline state. -/
theorem setClientVersion_rejects {w : World} (hr : Reachable w)
    (hoff : w.game.m_online = false) {v : Int} (hv : v ≠ 0 ∧ (v < 810 ∨ v > 961)) :
    setClientVersion v w = .error (.versionNotSupported v) := by
  have hne : w.game.m_clientVersion ≠ v := by
    have := reachable_version hr
    omega
  unfold setClientVersion
  simp [hne, isOnline, hoff, hv.1, hv.2]

/-- C8: in every reachable state that is not online, `setClientVersion(v)` fails
with the unsupported-version error for every v that is nonzero and below 810 or
above 961, and does not fail for v = 0 and for every v with 810 <= v <= 961. -/
theorem setClientVersion_supported_range (w : World) (hr : Reachable w)
    (hoff : w.game.m_online = false) (v : Int) :
    (v ≠ 0 ∧ (v < 810 ∨ v > 961) → setClientVersion v w = .error (.versionNotSupported v))
    ∧ (v = 0 ∨ (810 ≤ v ∧ v ≤ 961) → ∃ w', setClientVersion v w = .ok w') := by
  constructor
  · exact fun hv => setClientVersion_rejects hr hoff hv
  · intro hv
    by_cases he : w.game.m_clientVersion = v
    · exact ⟨w, by unfold setClientVersion; simp [he]⟩
    · exact ⟨_, setClientVersion_ok hoff he hv⟩

/-- C8, on the constructed session: version 500 is rejected, version 961 accepted. -/
theorem setClientVersion_supported_range_witness :
    construct.game.m_online = false
    ∧ setClientVersion 500 construct = .error (.versionNotSupported 500)
    ∧ ∃ w', setClientVersion 961 construct = .ok w' :=
  ⟨rfl,
    (setClientVersion_supported_range construct Reachable.construct rfl 500).1
      ⟨by decide, Or.inl (by decide)⟩,
    (setClientVersion_supported_range construct Reachable.construct rfl 961).2
      (Or.inr ⟨by decide, by decide⟩)⟩

/-- C9: in a state that is not online, for a version v in [810, 961] different from
the stored one, `setClientVersion(v)` returns, the stored version is v afterwards
and a feature flag is enabled exactly when the threshold table enables it for v,
whatever flags were enabled before. -/
theorem setClientVersion_features (w : World) (v : Int) (hoff : w.game.m_online = false)
    (hlo : 810 ≤ v) (hhi : v ≤ 961) (hne : w.game.m_clientVersion ≠ v) :
    ∃ w', setClientVersion v w = .ok w'
      ∧ w'.game.m_clientVersion = v
      ∧ ∀ f, w'.game.m_features f = thresholdTable v f :=
  ⟨_, setClientVersion_ok hoff hne (Or.inr ⟨hlo, hhi⟩), rfl,
    fun f => applyVersionFeatures_table v w.game f⟩

/-- C9, on the constructed session: version 960 enables every flag of the table. -/
theorem setClientVersion_features_witness :
    ∃ w', setClientVersion 960 construct = .ok w'
      ∧ w'.game.m_clientVersion = 960
      ∧ ∀ f, w'.game.m_features f = thresholdTable 960 f :=
  setClientVersion_features construct 960 rfl (by decide) (by decide) (by decide)

/-- C10 (as amended): on a reachable session that is not online `setClientVersion(809)`
fails with the unsupported-version error; version 810, the lowest accepted one,
when it is not the stored version, yields a feature set in which chargeable-items
is enabled and none of the flags of the 854-and-later thresholds is. -/
theorem setClientVersion_lowest (w : World) (hr : Reachable w)
    (hoff : w.game.m_online = false) :
    setClientVersion 809 w = .error (.versionNotSupported 809)
    ∧ (w.game.m_clientVersion ≠ 810 →
        ∃ w', setClientVersion 810 w = .ok w'
          ∧ w'.game.m_features .GameChargeableItems = true
          ∧ ∀ f ∈ flagsFrom854, w'.game.m_features f = false) := by
  refine ⟨setClientVersion_rejects hr hoff ⟨by decide, Or.inl (by decide)⟩, ?_⟩
  intro hne
  refine ⟨_, setClientVersion_ok hoff hne (Or.inr ⟨by decide, by decide⟩), ?_, ?_⟩
  · exact (applyVersionFeatures_table 810 w.game .GameChargeableItems).trans (by decide)
  · intro f hf
    have := applyVersionFeatures_table 810 w.game f
    simp only [flagsFrom854, List.mem_cons, List.mem_singleton, List.not_mem_nil, or_false] at hf
    rcases hf with h | h | h | h | h | h | h | h | h | h | h | h | h | h | h | h | h | h | h | h | h
    all_goals subst h; exact this.trans (by decide)

/-- C10, on the constructed session: 809 is rejected, 810 enables chargeable-items
and none of the later flags. -/
theorem setClientVersion_lowest_witness :
    construct.game.m_online = false
    ∧ setClientVersion 809 construct = .error (.versionNotSupported 809)
    ∧ ∃ w', setClientVersion 810 construct = .ok w'
        ∧ w'.game.m_features .GameChargeableItems = true
        ∧ ∀ f ∈ flagsFrom854, w'.game.m_features f = false :=
  ⟨rfl, (setClientVersion_lowest construct Reachable.construct rfl).1,
    (setClientVersion_lowest construct Reachable.construct rfl).2 (by decide)⟩

/-- C10 fails as stated: on the constructed (idle, not online) session
`setClientVersion(809)` yields no feature set at all, it throws the
unsupported-version error. -/
theorem setClientVersion_809_counterexample :
    construct.game.m_online = false
    ∧ setClientVersion 809 construct = .error (.versionNotSupported 809) := by
  constructor
  · rfl
  · rfl

/-- C7: `processAttackCancel(seq)` does nothing when seq is stale (nonzero and
different from the stored counter) or when no attack is in progress: every member
of the session, the two targets and the counter included, is as before and
nothing is handed to the transport or to any other collaborator. -/
theorem processAttackCancel_stale (env : Env) (w : World) (seq : Nat)
    (h : (seq ≠ 0 ∧ seq ≠ w.game.m_seq) ∨ w.game.m_attackingCreature = none) :
    processAttackCancel env seq w = w := by
  unfold processAttackCancel isAttacking
  rcases h with ⟨h0, hs⟩ | hn
  · have hs' : ¬ w.game.m_seq = seq := fun e => hs e.symm
    simp [h0, hs']
  · simp [hn]

/-- C7, on the running game in which the orc is attacked with counter 1: a cancel
event carrying the stale sequence 7 changes nothing. -/
theorem processAttackCancel_stale_witness :
    attackingOrc.game.m_seq = 1 ∧ attackingOrc.game.m_attackingCreature = some orc
    ∧ processAttackCancel envPlain 7 attackingOrc = attackingOrc :=
  ⟨by decide, by decide,
    processAttackCancel_stale envPlain attackingOrc 7 (Or.inl ⟨by decide, by decide⟩)⟩

/-- Every value of the unsigned counter is reached in a running game, by cancelling
the (absent) attack over and over. -/
theorem seq_reachable (n : Nat) :
    ∃ w, Reachable w ∧ w.game = { playing.game with m_seq := n % UINT_MOD } := by
  induction n with
  | zero => exact ⟨playing, reachable_runOps envPlain _ Reachable.construct, rfl⟩
  | succ n ih =>
    obtain ⟨w, hr, hg⟩ := ih
    have hp : (canPerformGameAction envPlain w).1 = true := by
      have : (canPerformGameAction envPlain w).1 = (canPerformGameAction envPlain playing).1 := by
        apply gate_congr <;> rw [hg]
      rw [this]; decide
    refine ⟨cancelAttack envPlain w, Reachable.step envPlain .cancelAttack hr rfl, ?_⟩
    rw [cancelAttack_of_pass hp]
    simp only [send_game, incSeq, setAttackingCreature, callGlobalField_game, hg]
    have e : (n % UINT_MOD + 1) % UINT_MOD = (n + 1) % UINT_MOD := by
      unfold UINT_MOD; omega
    rw [e]
    rfl

theorem attack_fresh_game {env : Env} {w : World} {x : Creature}
    (hp : (canPerformGameAction env w).1 = true)
    (hl : isLocalPlayer (some x) w.game.m_localPlayer = false)
    (ha : w.game.m_attackingCreature = none) (hf : w.game.m_followingCreature = none) :
    (attack env (some x) w).game =
      { w.game with m_attackingCreature := some x, m_seq := (w.game.m_seq + 1) % UINT_MOD } := by
  rw [attack_of_pass hp hl]
  simp [ha, hf, isFollowing, ptrEq, incSeq, setAttackingCreature]

/-! ## What each operation hands to the transport, seen from the counter -/

theorem seqValues_append (a b : List Effect) :
    seqValues (a ++ b) = seqValues a ++ seqValues b := by
  simp [seqValues, List.filterMap_append]

theorem quiet_refl (w : World) : Quiet w w := ⟨[], by simp, rfl⟩

theorem quiet_trans {a b c : World} (h1 : Quiet a b) (h2 : Quiet b c) : Quiet a c := by
  obtain ⟨e1, ho1, hs1⟩ := h1
  obtain ⟨e2, ho2, hs2⟩ := h2
  exact ⟨e1 ++ e2, by rw [ho2, ho1, List.append_assoc], by rw [seqValues_append, hs1, hs2]; rfl⟩

theorem quiet_of_out {w w' : World} (h : w'.out = w.out) : Quiet w w' :=
  ⟨[], by simp [h], rfl⟩

theorem quiet_emit {e : Effect} (w : World) (h : seqOf e = none) : Quiet w (emit e w) :=
  ⟨[e], rfl, by simp [seqValues, h]⟩

theorem gate_quiet {env : Env} {w w1 : World} {b : Bool}
    (h : canPerformGameAction env w = (b, w1)) : Quiet w w1 := by
  unfold canPerformGameAction checkBotProtection at h
  repeat' split at h
  all_goals simp only [Prod.mk.injEq] at h
  all_goals obtain ⟨_, rfl⟩ := h
  · exact quiet_emit w rfl
  · exact quiet_refl w
  · exact quiet_refl w

/-- A world reached from `w1` by effects without sequence value is quiet after `w`. -/
theorem quiet_step {w w1 w' : World} (h1 : Quiet w w1) {effs : List Effect}
    (h : w'.out = w1.out ++ effs) (hs : seqValues effs = []) : Quiet w w' :=
  quiet_trans h1 ⟨effs, h, hs⟩

theorem forceWalk_quiet (env : Env) (d : Direction) (w : World) :
    Quiet w (forceWalk env d w) := by
  unfold forceWalk
  rcases hg : canPerformGameAction env w with ⟨b, w1⟩
  have hq := gate_quiet hg
  cases b <;> simp only [] <;> (repeat' split) <;>
    first
      | exact hq
      | (apply quiet_step hq
          (by simp only [send_out, emit_out, callGlobalField_out, List.append_assoc]; rfl)
         rfl)

theorem turn_quiet (env : Env) (d : Direction) (w : World) :
    Quiet w (turn env d w) := by
  unfold turn
  rcases hg : canPerformGameAction env w with ⟨b, w1⟩
  have hq := gate_quiet hg
  cases b <;> simp only [] <;> (repeat' split) <;>
    first
      | exact hq
      | (apply quiet_step hq
          (by simp only [send_out, emit_out, callGlobalField_out, List.append_assoc]; rfl)
         rfl)

theorem look_quiet (env : Env) (t : Option Thing) (w : World) :
    Quiet w (look env t w) := by
  unfold look
  rcases hg : canPerformGameAction env w with ⟨b, w1⟩
  have hq := gate_quiet hg
  cases b <;> simp only [] <;> (repeat' split) <;>
    first
      | exact hq
      | (apply quiet_step hq
          (by simp only [send_out, emit_out, callGlobalField_out, List.append_assoc]; rfl)
         rfl)

theorem move_quiet (env : Env) (t : Option Thing) (p : Position) (n : Int) (w : World) :
    Quiet w (move env t p n w) := by
  unfold move
  rcases hg : canPerformGameAction env w with ⟨b, w1⟩
  have hq := gate_quiet hg
  cases b <;> simp only [] <;> (repeat' split) <;>
    first
      | exact hq
      | (apply quiet_step hq
          (by simp only [send_out, emit_out, callGlobalField_out, List.append_assoc]; rfl)
         rfl)

theorem moveToParentContainer_quiet (env : Env) (t : Option Thing) (n : Int) (w : World) :
    Quiet w (moveToParentContainer env t n w) := by
  unfold moveToParentContainer
  rcases hg : canPerformGameAction env w with ⟨b, w1⟩
  have hq := gate_quiet hg
  cases b <;> simp only [] <;> (repeat' split) <;>
    first
      | exact hq
      | (apply quiet_step hq
          (by simp only [send_out, emit_out, callGlobalField_out, List.append_assoc]; rfl)
         rfl)
      | exact quiet_trans hq (move_quiet _ _ _ _ _)

theorem rotate_quiet (env : Env) (t : Option Thing) (w : World) :
    Quiet w (rotate env t w) := by
  unfold rotate
  rcases hg : canPerformGameAction env w with ⟨b, w1⟩
  have hq := gate_quiet hg
  cases b <;> simp only [] <;> (repeat' split) <;>
    first
      | exact hq
      | (apply quiet_step hq
          (by simp only [send_out, emit_out, callGlobalField_out, List.append_assoc]; rfl)
         rfl)

theorem useInventoryItem_quiet (env : Env) (i : Int) (w : World) :
    Quiet w (useInventoryItem env i w) := by
  unfold useInventoryItem
  rcases hg : canPerformGameAction env w with ⟨b, w1⟩
  have hq := gate_quiet hg
  cases b <;> simp only [] <;> (repeat' split) <;>
    first
      | exact hq
      | (apply quiet_step hq
          (by simp only [send_out, emit_out, callGlobalField_out, List.append_assoc]; rfl)
         rfl)

theorem useWith_quiet (env : Env) (i : Option Item) (t : Option Thing) (w : World) :
    Quiet w (useWith env i t w) := by
  unfold useWith
  rcases hg : canPerformGameAction env w with ⟨b, w1⟩
  have hq := gate_quiet hg
  cases b <;> simp only [] <;> (repeat' split) <;>
    first
      | exact hq
      | (apply quiet_step hq
          (by simp only [send_out, emit_out, callGlobalField_out, List.append_assoc]; rfl)
         rfl)

theorem useInventoryItemWith_quiet (env : Env) (i : Int) (t : Option Thing) (w : World) :
    Quiet w (useInventoryItemWith env i t w) := by
  unfold useInventoryItemWith
  rcases hg : canPerformGameAction env w with ⟨b, w1⟩
  have hq := gate_quiet hg
  cases b <;> simp only [] <;> (repeat' split) <;>
    first
      | exact hq
      | (apply quiet_step hq
          (by simp only [send_out, emit_out, callGlobalField_out, List.append_assoc]; rfl)
         rfl)

theorem openParent_quiet (env : Env) (c : Option Container) (w : World) :
    Quiet w (openParent env c w) := by
  unfold openParent
  rcases hg : canPerformGameAction env w with ⟨b, w1⟩
  have hq := gate_quiet hg
  cases b <;> simp only [] <;> (repeat' split) <;>
    first
      | exact hq
      | (apply quiet_step hq
          (by simp only [send_out, emit_out, callGlobalField_out, List.append_assoc]; rfl)
         rfl)

theorem close_quiet (env : Env) (c : Option Container) (w : World) :
    Quiet w (close env c w) := by
  unfold close
  rcases hg : canPerformGameAction env w with ⟨b, w1⟩
  have hq := gate_quiet hg
  cases b <;> simp only [] <;> (repeat' split) <;>
    first
      | exact hq
      | (apply quiet_step hq
          (by simp only [send_out, emit_out, callGlobalField_out, List.append_assoc]; rfl)
         rfl)

theorem refreshContainer_quiet (env : Env) (w : World) :
    Quiet w (refreshContainer env w) := by
  unfold refreshContainer
  rcases hg : canPerformGameAction env w with ⟨b, w1⟩
  have hq := gate_quiet hg
  cases b <;> simp only [] <;> (repeat' split) <;>
    first
      | exact hq
      | (apply quiet_step hq
          (by simp only [send_out, emit_out, callGlobalField_out, List.append_assoc]; rfl)
         rfl)

theorem cancelAttackAndFollow_quiet (env : Env) (w : World) :
    Quiet w (cancelAttackAndFollow env w) := by
  unfold cancelAttackAndFollow
  rcases hg : canPerformGameAction env w with ⟨b, w1⟩
  have hq := gate_quiet hg
  cases b <;> simp only [] <;> (repeat' split) <;>
    first
      | exact hq
      | (apply quiet_step hq
          (by simp only [send_out, emit_out, callGlobalField_out, List.append_assoc]; rfl)
         rfl)

theorem talkChannel_quiet (env : Env) (m : Nat) (c : Int) (s : String) (w : World) :
    Quiet w (talkChannel env m c s w) := by
  unfold talkChannel
  rcases hg : canPerformGameAction env w with ⟨b, w1⟩
  have hq := gate_quiet hg
  cases b <;> simp only [] <;> (repeat' split) <;>
    first
      | exact hq
      | (apply quiet_step hq
          (by simp only [send_out, emit_out, callGlobalField_out, List.append_assoc]; rfl)
         rfl)

theorem talk_quiet (env : Env) (m : Nat) (s : String) (w : World) :
    Quiet w (talk env m s w) := by
  unfold talk
  rcases hg : canPerformGameAction env w with ⟨b, w1⟩
  have hq := gate_quiet hg
  cases b <;> simp only [] <;> (repeat' split) <;>
    first
      | exact hq
      | (apply quiet_step hq
          (by simp only [send_out, emit_out, callGlobalField_out, List.append_assoc]; rfl)
         rfl)
      | exact quiet_trans hq (talkChannel_quiet _ _ _ _ _)

theorem talkPrivate_quiet (env : Env) (m : Nat) (r s : String) (w : World) :
    Quiet w (talkPrivate env m r s w) := by
  unfold talkPrivate
  rcases hg : canPerformGameAction env w with ⟨b, w1⟩
  have hq := gate_quiet hg
  cases b <;> simp only [] <;> (repeat' split) <;>
    first
      | exact hq
      | (apply quiet_step hq
          (by simp only [send_out, emit_out, callGlobalField_out, List.append_assoc]; rfl)
         rfl)

theorem openPrivateChannel_quiet (env : Env) (r : String) (w : World) :
    Quiet w (openPrivateChannel env r w) := by
  unfold openPrivateChannel
  rcases hg : canPerformGameAction env w with ⟨b, w1⟩
  have hq := gate_quiet hg
  cases b <;> simp only [] <;> (repeat' split) <;>
    first
      | exact hq
      | (apply quiet_step hq
          (by simp only [send_out, emit_out, callGlobalField_out, List.append_assoc]; rfl)
         rfl)

theorem requestChannels_quiet (env : Env) (w : World) :
    Quiet w (requestChannels env w) := by
  unfold requestChannels
  rcases hg : canPerformGameAction env w with ⟨b, w1⟩
  have hq := gate_quiet hg
  cases b <;> simp only [] <;> (repeat' split) <;>
    first
      | exact hq
      | (apply quiet_step hq
          (by simp only [send_out, emit_out, callGlobalField_out, List.append_assoc]; rfl)
         rfl)

theorem joinChannel_quiet (env : Env) (c : Int) (w : World) :
    Quiet w (joinChannel env c w) := by
  unfold joinChannel
  rcases hg : canPerformGameAction env w with ⟨b, w1⟩
  have hq := gate_quiet hg
  cases b <;> simp only [] <;> (repeat' split) <;>
    first
      | exact hq
      | (apply quiet_step hq
          (by simp only [send_out, emit_out, callGlobalField_out, List.append_assoc]; rfl)
         rfl)

theorem leaveChannel_quiet (env : Env) (c : Int) (w : World) :
    Quiet w (leaveChannel env c w) := by
  unfold leaveChannel
  rcases hg : canPerformGameAction env w with ⟨b, w1⟩
  have hq := gate_quiet hg
  cases b <;> simp only [] <;> (repeat' split) <;>
    first
      | exact hq
      | (apply quiet_step hq
          (by simp only [send_out, emit_out, callGlobalField_out, List.append_assoc]; rfl)
         rfl)

theorem closeNpcChannel_quiet (env : Env) (w : World) :
    Quiet w (closeNpcChannel env w) := by
  unfold closeNpcChannel
  rcases hg : canPerformGameAction env w with ⟨b, w1⟩
  have hq := gate_quiet hg
  cases b <;> simp only [] <;> (repeat' split) <;>
    first
      | exact hq
      | (apply quiet_step hq
          (by simp only [send_out, emit_out, callGlobalField_out, List.append_assoc]; rfl)
         rfl)

theorem openOwnChannel_quiet (env : Env) (w : World) :
    Quiet w (openOwnChannel env w) := by
  unfold openOwnChannel
  rcases hg : canPerformGameAction env w with ⟨b, w1⟩
  have hq := gate_quiet hg
  cases b <;> simp only [] <;> (repeat' split) <;>
    first
      | exact hq
      | (apply quiet_step hq
          (by simp only [send_out, emit_out, callGlobalField_out, List.append_assoc]; rfl)
         rfl)

theorem inviteToOwnChannel_quiet (env : Env) (n : String) (w : World) :
    Quiet w (inviteToOwnChannel env n w) := by
  unfold inviteToOwnChannel
  rcases hg : canPerformGameAction env w with ⟨b, w1⟩
  have hq := gate_quiet hg
  cases b <;> simp only [] <;> (repeat' split) <;>
    first
      | exact hq
      | (apply quiet_step hq
          (by simp only [send_out, emit_out, callGlobalField_out, List.append_assoc]; rfl)
         rfl)

theorem excludeFromOwnChannel_quiet (env : Env) (n : String) (w : World) :
    Quiet w (excludeFromOwnChannel env n w) := by
  unfold excludeFromOwnChannel
  rcases hg : canPerformGameAction env w with ⟨b, w1⟩
  have hq := gate_quiet hg
  cases b <;> simp only [] <;> (repeat' split) <;>
    first
      | exact hq
      | (apply quiet_step hq
          (by simp only [send_out, emit_out, callGlobalField_out, List.append_assoc]; rfl)
         rfl)

theorem partyInvite_quiet (env : Env) (c : Int) (w : World) :
    Quiet w (partyInvite env c w) := by
  unfold partyInvite
  rcases hg : canPerformGameAction env w with ⟨b, w1⟩
  have hq := gate_quiet hg
  cases b <;> simp only [] <;> (repeat' split) <;>
    first
      | exact hq
      | (apply quiet_step hq
          (by simp only [send_out, emit_out, callGlobalField_out, List.append_assoc]; rfl)
         rfl)

theorem partyJoin_quiet (env : Env) (c : Int) (w : World) :
    Quiet w (partyJoin env c w) := by
  unfold partyJoin
  rcases hg : canPerformGameAction env w with ⟨b, w1⟩
  have hq := gate_quiet hg
  cases b <;> simp only [] <;> (repeat' split) <;>
    first
      | exact hq
      | (apply quiet_step hq
          (by simp only [send_out, emit_out, callGlobalField_out, List.append_assoc]; rfl)
         rfl)

theorem partyRevokeInvitation_quiet (env : Env) (c : Int) (w : World) :
    Quiet w (partyRevokeInvitation env c w) := by
  unfold partyRevokeInvitation
  rcases hg : canPerformGameAction env w with ⟨b, w1⟩
  have hq := gate_quiet hg
  cases b <;> simp only [] <;> (repeat' split) <;>
    first
      | exact hq
      | (apply quiet_step hq
          (by simp only [send_out, emit_out, callGlobalField_out, List.append_assoc]; rfl)
         rfl)

theorem partyPassLeadership_quiet (env : Env) (c : Int) (w : World) :
    Quiet w (partyPassLeadership env c w) := by
  unfold partyPassLeadership
  rcases hg : canPerformGameAction env w with ⟨b, w1⟩
  have hq := gate_quiet hg
  cases b <;> simp only [] <;> (repeat' split) <;>
    first
      | exact hq
      | (apply quiet_step hq
          (by simp only [send_out, emit_out, callGlobalField_out, List.append_assoc]; rfl)
         rfl)

theorem partyLeave_quiet (env : Env) (w : World) :
    Quiet w (partyLeave env w) := by
  unfold partyLeave
  rcases hg : canPerformGameAction env w with ⟨b, w1⟩
  have hq := gate_quiet hg
  cases b <;> simp only [] <;> (repeat' split) <;>
    first
      | exact hq
      | (apply quiet_step hq
          (by simp only [send_out, emit_out, callGlobalField_out, List.append_assoc]; rfl)
         rfl)

theorem partyShareExperience_quiet (env : Env) (a : Bool) (w : World) :
    Quiet w (partyShareExperience env a w) := by
  unfold partyShareExperience
  rcases hg : canPerformGameAction env w with ⟨b, w1⟩
  have hq := gate_quiet hg
  cases b <;> simp only [] <;> (repeat' split) <;>
    first
      | exact hq
      | (apply quiet_step hq
          (by simp only [send_out, emit_out, callGlobalField_out, List.append_assoc]; rfl)
         rfl)

theorem requestOutfit_quiet (env : Env) (w : World) :
    Quiet w (requestOutfit env w) := by
  unfold requestOutfit
  rcases hg : canPerformGameAction env w with ⟨b, w1⟩
  have hq := gate_quiet hg
  cases b <;> simp only [] <;> (repeat' split) <;>
    first
      | exact hq
      | (apply quiet_step hq
          (by simp only [send_out, emit_out, callGlobalField_out, List.append_assoc]; rfl)
         rfl)

theorem changeOutfit_quiet (env : Env) (o : Outfit) (w : World) :
    Quiet w (changeOutfit env o w) := by
  unfold changeOutfit
  rcases hg : canPerformGameAction env w with ⟨b, w1⟩
  have hq := gate_quiet hg
  cases b <;> simp only [] <;> (repeat' split) <;>
    first
      | exact hq
      | (apply quiet_step hq
          (by simp only [send_out, emit_out, callGlobalField_out, List.append_assoc]; rfl)
         rfl)

theorem addVip_quiet (env : Env) (n : String) (w : World) :
    Quiet w (addVip env n w) := by
  unfold addVip
  rcases hg : canPerformGameAction env w with ⟨b, w1⟩
  have hq := gate_quiet hg
  cases b <;> simp only [] <;> (repeat' split) <;>
    first
      | exact hq
      | (apply quiet_step hq
          (by simp only [send_out, emit_out, callGlobalField_out, List.append_assoc]; rfl)
         rfl)

theorem removeVip_quiet (env : Env) (i : Int) (w : World) :
    Quiet w (removeVip env i w) := by
  unfold removeVip
  rcases hg : canPerformGameAction env w with ⟨b, w1⟩
  have hq := gate_quiet hg
  cases b <;> simp only [] <;> (repeat' split) <;>
    first
      | exact hq
      | (apply quiet_step hq
          (by simp only [send_out, emit_out, callGlobalField_out, List.append_assoc]; rfl)
         rfl)

theorem inspectNpcTrade_quiet (env : Env) (i : Option Item) (w : World) :
    Quiet w (inspectNpcTrade env i w) := by
  unfold inspectNpcTrade
  rcases hg : canPerformGameAction env w with ⟨b, w1⟩
  have hq := gate_quiet hg
  cases b <;> simp only [] <;> (repeat' split) <;>
    first
      | exact hq
      | (apply quiet_step hq
          (by simp only [send_out, emit_out, callGlobalField_out, List.append_assoc]; rfl)
         rfl)

theorem buyItem_quiet (env : Env) (i : Option Item) (a : Int) (x y : Bool) (w : World) :
    Quiet w (buyItem env i a x y w) := by
  unfold buyItem
  rcases hg : canPerformGameAction env w with ⟨b, w1⟩
  have hq := gate_quiet hg
  cases b <;> simp only [] <;> (repeat' split) <;>
    first
      | exact hq
      | (apply quiet_step hq
          (by simp only [send_out, emit_out, callGlobalField_out, List.append_assoc]; rfl)
         rfl)

theorem sellItem_quiet (env : Env) (i : Option Item) (a : Int) (x : Bool) (w : World) :
    Quiet w (sellItem env i a x w) := by
  unfold sellItem
  rcases hg : canPerformGameAction env w with ⟨b, w1⟩
  have hq := gate_quiet hg
  cases b <;> simp only [] <;> (repeat' split) <;>
    first
      | exact hq
      | (apply quiet_step hq
          (by simp only [send_out, emit_out, callGlobalField_out, List.append_assoc]; rfl)
         rfl)

theorem closeNpcTrade_quiet (env : Env) (w : World) :
    Quiet w (closeNpcTrade env w) := by
  unfold closeNpcTrade
  rcases hg : canPerformGameAction env w with ⟨b, w1⟩
  have hq := gate_quiet hg
  cases b <;> simp only [] <;> (repeat' split) <;>
    first
      | exact hq
      | (apply quiet_step hq
          (by simp only [send_out, emit_out, callGlobalField_out, List.append_assoc]; rfl)
         rfl)

theorem requestTrade_quiet (env : Env) (i : Option Item) (c : Option Creature) (w : World) :
    Quiet w (requestTrade env i c w) := by
  unfold requestTrade
  rcases hg : canPerformGameAction env w with ⟨b, w1⟩
  have hq := gate_quiet hg
  cases b <;> simp only [] <;> (repeat' split) <;>
    first
      | exact hq
      | (apply quiet_step hq
          (by simp only [send_out, emit_out, callGlobalField_out, List.append_assoc]; rfl)
         rfl)

theorem inspectTrade_quiet (env : Env) (x : Bool) (i : Int) (w : World) :
    Quiet w (inspectTrade env x i w) := by
  unfold inspectTrade
  rcases hg : canPerformGameAction env w with ⟨b, w1⟩
  have hq := gate_quiet hg
  cases b <;> simp only [] <;> (repeat' split) <;>
    first
      | exact hq
      | (apply quiet_step hq
          (by simp only [send_out, emit_out, callGlobalField_out, List.append_assoc]; rfl)
         rfl)

theorem acceptTrade_quiet (env : Env) (w : World) :
    Quiet w (acceptTrade env w) := by
  unfold acceptTrade
  rcases hg : canPerformGameAction env w with ⟨b, w1⟩
  have hq := gate_quiet hg
  cases b <;> simp only [] <;> (repeat' split) <;>
    first
      | exact hq
      | (apply quiet_step hq
          (by simp only [send_out, emit_out, callGlobalField_out, List.append_assoc]; rfl)
         rfl)

theorem rejectTrade_quiet (env : Env) (w : World) :
    Quiet w (rejectTrade env w) := by
  unfold rejectTrade
  rcases hg : canPerformGameAction env w with ⟨b, w1⟩
  have hq := gate_quiet hg
  cases b <;> simp only [] <;> (repeat' split) <;>
    first
      | exact hq
      | (apply quiet_step hq
          (by simp only [send_out, emit_out, callGlobalField_out, List.append_assoc]; rfl)
         rfl)

theorem editText_quiet (env : Env) (i : Nat) (t : String) (w : World) :
    Quiet w (editText env i t w) := by
  unfold editText
  rcases hg : canPerformGameAction env w with ⟨b, w1⟩
  have hq := gate_quiet hg
  cases b <;> simp only [] <;> (repeat' split) <;>
    first
      | exact hq
      | (apply quiet_step hq
          (by simp only [send_out, emit_out, callGlobalField_out, List.append_assoc]; rfl)
         rfl)

theorem editList_quiet (env : Env) (i : Nat) (d : Int) (t : String) (w : World) :
    Quiet w (editList env i d t w) := by
  unfold editList
  rcases hg : canPerformGameAction env w with ⟨b, w1⟩
  have hq := gate_quiet hg
  cases b <;> simp only [] <;> (repeat' split) <;>
    first
      | exact hq
      | (apply quiet_step hq
          (by simp only [send_out, emit_out, callGlobalField_out, List.append_assoc]; rfl)
         rfl)

theorem reportBug_quiet (env : Env) (c : String) (w : World) :
    Quiet w (reportBug env c w) := by
  unfold reportBug
  rcases hg : canPerformGameAction env w with ⟨b, w1⟩
  have hq := gate_quiet hg
  cases b <;> simp only [] <;> (repeat' split) <;>
    first
      | exact hq
      | (apply quiet_step hq
          (by simp only [send_out, emit_out, callGlobalField_out, List.append_assoc]; rfl)
         rfl)

theorem reportRuleVilation_quiet (env : Env) (t : String) (r a : Int) (c s : String) (i : Int) (b : Bool) (w : World) :
    Quiet w (reportRuleVilation env t r a c s i b w) := by
  unfold reportRuleVilation
  rcases hg : canPerformGameAction env w with ⟨b, w1⟩
  have hq := gate_quiet hg
  cases b <;> simp only [] <;> (repeat' split) <;>
    first
      | exact hq
      | (apply quiet_step hq
          (by simp only [send_out, emit_out, callGlobalField_out, List.append_assoc]; rfl)
         rfl)

theorem requestQuestLog_quiet (env : Env) (w : World) :
    Quiet w (requestQuestLog env w) := by
  unfold requestQuestLog
  rcases hg : canPerformGameAction env w with ⟨b, w1⟩
  have hq := gate_quiet hg
  cases b <;> simp only [] <;> (repeat' split) <;>
    first
      | exact hq
      | (apply quiet_step hq
          (by simp only [send_out, emit_out, callGlobalField_out, List.append_assoc]; rfl)
         rfl)

theorem requestQuestLine_quiet (env : Env) (q : Int) (w : World) :
    Quiet w (requestQuestLine env q w) := by
  unfold requestQuestLine
  rcases hg : canPerformGameAction env w with ⟨b, w1⟩
  have hq := gate_quiet hg
  cases b <;> simp only [] <;> (repeat' split) <;>
    first
      | exact hq
      | (apply quiet_step hq
          (by simp only [send_out, emit_out, callGlobalField_out, List.append_assoc]; rfl)
         rfl)

theorem mount_quiet (env : Env) (m : Bool) (w : World) :
    Quiet w (mount env m w) := by
  unfold mount
  rcases hg : canPerformGameAction env w with ⟨b, w1⟩
  have hq := gate_quiet hg
  cases b <;> simp only [] <;> (repeat' split) <;>
    first
      | exact hq
      | (apply quiet_step hq
          (by simp only [send_out, emit_out, callGlobalField_out, List.append_assoc]; rfl)
         rfl)

theorem setChaseMode_quiet (env : Env) (m : ChaseModes) (w : World) :
    Quiet w (setChaseMode env m w) := by
  unfold setChaseMode
  rcases hg : canPerformGameAction env w with ⟨b, w1⟩
  have hq := gate_quiet hg
  cases b <;> simp only [] <;> (repeat' split) <;>
    first
      | exact hq
      | (apply quiet_step hq
          (by simp only [send_out, emit_out, callGlobalField_out, List.append_assoc]; rfl)
         rfl)

theorem setFightMode_quiet (env : Env) (m : FightModes) (w : World) :
    Quiet w (setFightMode env m w) := by
  unfold setFightMode
  rcases hg : canPerformGameAction env w with ⟨b, w1⟩
  have hq := gate_quiet hg
  cases b <;> simp only [] <;> (repeat' split) <;>
    first
      | exact hq
      | (apply quiet_step hq
          (by simp only [send_out, emit_out, callGlobalField_out, List.append_assoc]; rfl)
         rfl)

theorem setSafeFight_quiet (env : Env) (m : Bool) (w : World) :
    Quiet w (setSafeFight env m w) := by
  unfold setSafeFight
  rcases hg : canPerformGameAction env w with ⟨b, w1⟩
  have hq := gate_quiet hg
  cases b <;> simp only [] <;> (repeat' split) <;>
    first
      | exact hq
      | (apply quiet_step hq
          (by simp only [send_out, emit_out, callGlobalField_out, List.append_assoc]; rfl)
         rfl)

theorem closeAll_out (l : List (Int × Option Container)) (w : World) :
    (closeAll l w).out = w.out ++ closeEffects l := by
  induction l generalizing w with
  | nil => simp [closeAll, closeEffects]
  | cons x rest ih =>
    rcases x with ⟨k, c⟩
    cases c with
    | none => simpa [closeAll, closeEffects] using ih w
    | some c =>
      simp only [closeAll, ih, emit_out, List.append_assoc]
      simp [closeEffects]

/-- The trace after `resetGameStates`: the close notifications, then the timer
cancellation. -/
theorem resetGameStates_out (w : World) :
    (resetGameStates w).out =
      w.out ++ closeEffects w.game.m_containers ++ cancelEffects w.game.m_pingEvent := by
  unfold resetGameStates
  simp only []
  cases hp : w.game.m_pingEvent <;> simp [hp, closeAll_out, cancelEffects]

theorem seqValues_closeEffects (l : List (Int × Option Container)) :
    seqValues (closeEffects l) = [] := by
  induction l with
  | nil => rfl
  | cons x rest ih =>
    rcases x with ⟨k, c⟩
    cases c with
    | none => simpa [closeEffects, seqValues] using ih
    | some c => simpa [closeEffects, seqValues, seqOf] using ih

theorem seqValues_cancelEffects (e : Option ScheduledEvent) :
    seqValues (cancelEffects e) = [] := by
  cases e <;> rfl

theorem resetGameStates_quiet (w : World) : Quiet w (resetGameStates w) :=
  ⟨_, by rw [resetGameStates_out, List.append_assoc],
    by rw [seqValues_append, seqValues_closeEffects, seqValues_cancelEffects]; rfl⟩

theorem terminate_quiet (w : World) : Quiet w (terminate w) :=
  quiet_trans (resetGameStates_quiet w) (quiet_of_out rfl)

theorem processGameEnd_quiet (w : World) : Quiet w (processGameEnd w) := by
  unfold processGameEnd
  refine quiet_trans (quiet_emit w (e := .lua "onGameEnd" []) rfl) ?_
  refine quiet_trans (resetGameStates_quiet _) ?_
  exact ⟨[.cleanDynamicThings], rfl, rfl⟩

theorem processDisconnect_quiet (w : World) : Quiet w (processDisconnect w) := by
  have tail : ∀ w1 : World, Quiet w w1 → Quiet w (match w1.game.m_protocolGame with
      | some _ =>
        { emit .protocolDisconnect w1 with
          game := { (emit .protocolDisconnect w1).game with m_protocolGame := none } }
      | none => w1) := by
    intro w1 h1
    cases w1.game.m_protocolGame with
    | none => exact h1
    | some p => exact quiet_trans h1 ⟨[.protocolDisconnect], rfl, rfl⟩
  unfold processDisconnect
  cases ho : isOnline w.game
  · simp only [Bool.false_eq_true, if_false]
    exact tail w (quiet_refl w)
  · simp only [if_true]
    exact tail _ (processGameEnd_quiet w)

theorem processConnectionError_quiet (ec : ErrorCode) (w : World) :
    Quiet w (processConnectionError ec w) := by
  unfold processConnectionError
  split
  · have h1 : Quiet w (if (!ec.isEof) = true then
        callGlobalField "onConnectionError" [.str ec.message, .int ec.value] w else w) := by
      split
      · exact quiet_emit w rfl
      · exact quiet_refl w
    exact quiet_trans h1 (processDisconnect_quiet _)
  · exact quiet_refl w

theorem cancelLogin_quiet (w : World) : Quiet w (cancelLogin w) := by
  unfold cancelLogin
  have h1 : Quiet w (match w.game.m_protocolGame with
      | some _ => send .sendLogout w
      | none => w) := by
    split
    · exact quiet_emit w rfl
    · exact quiet_refl w
  exact quiet_trans h1 (processDisconnect_quiet _)

theorem forceLogout_quiet {w w' : World} (h : forceLogout w = .ok w') : Quiet w w' := by
  unfold forceLogout at h
  repeat' split at h
  all_goals simp at h
  · subst h; exact quiet_refl w
  · subst h
    exact quiet_trans (quiet_emit w (e := .send .sendLogout) rfl) (processDisconnect_quiet _)

theorem safeLogout_quiet {w w' : World} (h : safeLogout w = .ok w') : Quiet w w' := by
  unfold safeLogout at h
  repeat' split at h
  all_goals simp at h
  · subst h; exact quiet_refl w
  · subst h; exact quiet_emit w rfl

theorem processGameStart_quiet {w w' : World} (h : processGameStart w = .ok w') :
    Quiet w w' := by
  unfold processGameStart at h
  simp only [] at h
  repeat' split at h
  all_goals simp at h
  all_goals subst h
  all_goals exact ⟨[.send (.sendChangeFightModes w.game.m_fightMode w.game.m_chaseMode
      w.game.m_safeFight), .lua "onGameStart" []], by simp [enableBotCall, disableBotCall], rfl⟩

theorem processDeath_quiet {n : Int} {w w' : World} (h : processDeath n w = .ok w') :
    Quiet w w' := by
  unfold processDeath at h
  simp only [] at h
  split at h <;> simp at h
  subst h
  exact ⟨[.localPlayer .stopWalk, .lua "onDeath" [.int n]], by simp, rfl⟩

theorem getContainer_out (id : Int) (w : World) : (getContainer id w).2.out = w.out := by
  unfold getContainer containersIndex
  cases mapFind w.game.m_containers id <;> rfl

theorem processOpenContainer_quiet (id : Int) (it : Option Item) (n : String) (c : Int)
    (hp : Bool) (items : List (Option Item)) (w : World) :
    Quiet w (processOpenContainer id it n c hp items w) := by
  unfold processOpenContainer
  rcases hg : getContainer id w with ⟨prev, w1⟩
  have ho : w1.out = w.out := by
    have := getContainer_out id w
    rw [hg] at this; exact this
  simp only []
  cases prev with
  | none =>
    apply quiet_step (quiet_refl w) (by simp [enableBotCall, disableBotCall, ho]; rfl)
    rfl
  | some p =>
    apply quiet_step (quiet_refl w) (by simp [enableBotCall, disableBotCall, ho]; rfl)
    rfl

theorem processCloseContainer_quiet (id : Int) (w : World) :
    Quiet w (processCloseContainer id w) := by
  unfold processCloseContainer
  rcases hg : getContainer id w with ⟨prev, w1⟩
  have ho : w1.out = w.out := by
    have := getContainer_out id w
    rw [hg] at this; exact this
  cases prev with
  | none =>
    apply quiet_step (quiet_refl w) (by simp [ho]; rfl)
    rfl
  | some p =>
    apply quiet_step (quiet_refl w) (by simp [ho]; rfl)
    rfl

theorem processContainerAddItem_quiet (id : Int) (it : Option Item) (w : World) :
    Quiet w (processContainerAddItem id it w) := by
  unfold processContainerAddItem
  rcases hg : getContainer id w with ⟨prev, w1⟩
  have ho : w1.out = w.out := by
    have := getContainer_out id w
    rw [hg] at this; exact this
  cases prev with
  | none =>
    apply quiet_step (quiet_refl w) (by simp [ho]; rfl)
    rfl
  | some p =>
    apply quiet_step (quiet_refl w) (by simp [ho]; rfl)
    rfl

theorem processContainerUpdateItem_quiet (id slot : Int) (it : Option Item) (w : World) :
    Quiet w (processContainerUpdateItem id slot it w) := by
  unfold processContainerUpdateItem
  rcases hg : getContainer id w with ⟨prev, w1⟩
  have ho : w1.out = w.out := by
    have := getContainer_out id w
    rw [hg] at this; exact this
  cases prev with
  | none =>
    apply quiet_step (quiet_refl w) (by simp [ho]; rfl)
    rfl
  | some p =>
    apply quiet_step (quiet_refl w) (by simp [ho]; rfl)
    rfl

theorem processContainerRemoveItem_quiet (id slot : Int) (w : World) :
    Quiet w (processContainerRemoveItem id slot w) := by
  unfold processContainerRemoveItem
  rcases hg : getContainer id w with ⟨prev, w1⟩
  have ho : w1.out = w.out := by
    have := getContainer_out id w
    rw [hg] at this; exact this
  cases prev with
  | none =>
    apply quiet_step (quiet_refl w) (by simp [ho]; rfl)
    rfl
  | some p =>
    apply quiet_step (quiet_refl w) (by simp [ho]; rfl)
    rfl

theorem processInventoryChange_quiet {slot : Int} {it : Option Item} {w w' : World}
    (h : processInventoryChange slot it w = .ok w') : Quiet w w' := by
  unfold processInventoryChange at h
  simp only [] at h
  split at h <;> simp at h
  subst h
  exact quiet_emit w rfl

theorem processWalkCancel_quiet {env : Env} {d : Direction} {w w' : World}
    (h : processWalkCancel env d w = .ok w') : Quiet w w' := by
  unfold processWalkCancel at h
  repeat' split at h
  all_goals simp at h
  all_goals subst h
  · exact quiet_trans (quiet_emit w (e := .send .sendStop) rfl) (quiet_emit _ rfl)
  · exact quiet_emit w rfl

theorem loginWorld_quiet {o : Nat} {a p wn wh : String} {port : Int} {cn : String}
    {w w' : World} (h : loginWorld o a p wn wh port cn w = .ok w') : Quiet w w' := by
  unfold loginWorld at h
  repeat' split at h
  all_goals simp at h
  subst h
  refine quiet_trans (resetGameStates_quiet w) ?_
  exact ⟨[.protocolLogin a p wh (port % 65536).toNat cn], rfl, rfl⟩

theorem setClientVersion_quiet {v : Int} {w w' : World} (h : setClientVersion v w = .ok w') :
    Quiet w w' := by
  unfold setClientVersion at h
  repeat' split at h
  all_goals simp at h
  all_goals subst h
  · exact quiet_refl w
  · exact ⟨[.buildMessageModesMap v, .lua "onClientVersionChange" [.int v]], by simp, rfl⟩

theorem ping_quiet (w : World) : Quiet w (ping w) := by
  unfold ping
  repeat' split
  · exact quiet_refl w
  · exact quiet_refl w
  · exact ⟨[.send .sendPing], rfl, rfl⟩

theorem pingEventCallback_quiet (w : World) : Quiet w (pingEventCallback w) := by
  unfold pingEventCallback
  repeat' split
  · exact ⟨[.send .sendPing], rfl, rfl⟩
  · exact quiet_refl w
  · exact quiet_refl w

theorem checkBotProtection_quiet (env : Env) (w : World) :
    Quiet w (checkBotProtection env w).2 := by
  unfold checkBotProtection
  split
  · exact quiet_emit w rfl
  · exact quiet_refl w

theorem transportConnected_quiet (w : World) : Quiet w (transportConnected w) := by
  unfold transportConnected
  split <;> exact quiet_of_out rfl

theorem transportClosed_quiet (w : World) : Quiet w (transportClosed w) := by
  unfold transportClosed
  split <;> exact quiet_of_out rfl

theorem findEmptyContainerId_quiet {env : Env} {w w' : World}
    (h : step env .findEmptyContainerId w = .ok w') : Quiet w w' := by
  simp only [step] at h
  split at h <;> simp at h
  subst h
  exact quiet_of_out rfl

theorem use_quiet {env : Env} {t : Option Thing} {w w' : World} (h : use env t w = .ok w') :
    Quiet w w' := by
  unfold use at h
  rcases hg : canPerformGameAction env w with ⟨b, w1⟩
  have hq := gate_quiet hg
  rw [hg] at h
  cases b
  · simp at h; subst h; exact hq
  · cases t with
    | none => simp at h; subst h; exact hq
    | some t =>
      simp only [] at h
      split at h <;> simp at h
      subst h
      exact quiet_trans hq ⟨_, rfl, rfl⟩

theorem open_quiet {env : Env} {i : Option Item} {c : Option Container} {w w' : World}
    (h : «open» env i c w = .ok w') : Quiet w w' := by
  unfold «open» at h
  rcases hg : canPerformGameAction env w with ⟨b, w1⟩
  have hq := gate_quiet hg
  rw [hg] at h
  cases b
  · simp at h; subst h; exact hq
  · cases i with
    | none => simp at h; subst h; exact hq
    | some i =>
      cases c with
      | some c => simp at h; subst h; exact quiet_trans hq ⟨_, rfl, rfl⟩
      | none =>
        simp only [] at h
        split at h <;> simp at h
        subst h
        exact quiet_trans hq ⟨_, rfl, rfl⟩

theorem equipItem_quiet {env : Env} {i : Option Item} {w w' : World}
    (h : equipItem env i w = .ok w') : Quiet w w' := by
  unfold equipItem at h
  rcases hg : canPerformGameAction env w with ⟨b, w1⟩
  have hq := gate_quiet hg
  rw [hg] at h
  cases b <;> cases i <;> simp at h <;> subst h
  · exact hq
  · exact hq
  · exact quiet_trans hq ⟨_, rfl, rfl⟩

theorem requestItemInfo_quiet {env : Env} {i : Option Item} {n : Int} {w w' : World}
    (h : requestItemInfo env i n w = .ok w') : Quiet w w' := by
  unfold requestItemInfo at h
  rcases hg : canPerformGameAction env w with ⟨b, w1⟩
  have hq := gate_quiet hg
  rw [hg] at h
  cases b <;> cases i <;> simp at h <;> subst h
  · exact hq
  · exact hq
  · exact quiet_trans hq ⟨_, rfl, rfl⟩

theorem debugReport_quiet {a b c d : String} {w w' : World}
    (h : debugReport a b c d w = .ok w') : Quiet w w' := by
  unfold debugReport at h
  split at h <;> simp at h
  subst h
  exact quiet_emit w rfl

theorem seqStep_of_quiet {w w' : World} (hq : Quiet w w')
    (hs : w'.game.m_seq = w.game.m_seq ∨ w'.game.m_seq = 0) : SeqStep w w' := by
  obtain ⟨effs, ho, he⟩ := hq
  exact ⟨effs, ho, Or.inl ⟨he, hs⟩⟩

theorem seqStep_quiet_right {a b c : World} (h : SeqStep a b) (hq : Quiet b c)
    (hs : c.game.m_seq = b.game.m_seq) : SeqStep a c := by
  obtain ⟨e1, ho1, h1⟩ := h
  obtain ⟨e2, ho2, he2⟩ := hq
  refine ⟨e1 ++ e2, by rw [ho2, ho1, List.append_assoc], ?_⟩
  rw [seqValues_append, he2, List.append_nil, hs]
  exact h1

theorem seqStep_quiet_left {a b c : World} (hq : Quiet a b) (hs : b.game.m_seq = a.game.m_seq)
    (h : SeqStep b c) : SeqStep a c := by
  obtain ⟨e1, ho1, he1⟩ := hq
  obtain ⟨e2, ho2, h2⟩ := h
  refine ⟨e1 ++ e2, by rw [ho2, ho1, List.append_assoc], ?_⟩
  rw [seqValues_append, he1, List.nil_append, ← hs]
  exact h2

theorem attack_seqStep (env : Env) (creature : Option Creature) (w : World) :
    SeqStep w (attack env creature w) := by
  by_cases hp : (canPerformGameAction env w).1 = true
  · cases hl : isLocalPlayer creature w.game.m_localPlayer
    · obtain ⟨effs, ho, h⟩ := attack_seq hp hl
      exact ⟨effs, ho, Or.inr h⟩
    · refine seqStep_of_quiet ?_ (Or.inl (by rw [attack_of_fail (Or.inr hl)]))
      unfold attack attackBody
      rw [gate_eq_of_pass hp]
      simp only [hl, if_true]
      exact quiet_refl w
  · have hp' : (canPerformGameAction env w).1 = false := by simpa using hp
    refine seqStep_of_quiet ?_ (Or.inl (by rw [attack_of_fail (Or.inl hp')]))
    unfold attack attackBody
    rcases hg : canPerformGameAction env w with ⟨b, w1⟩
    rw [hg] at hp'
    simp only at hp'
    subst hp'
    exact gate_quiet hg

theorem follow_seqStep (env : Env) (creature : Option Creature) (w : World) :
    SeqStep w (follow env creature w) := by
  by_cases hp : (canPerformGameAction env w).1 = true
  · cases hl : isLocalPlayer creature w.game.m_localPlayer
    · obtain ⟨effs, ho, h⟩ := follow_seq hp hl
      exact ⟨effs, ho, Or.inr h⟩
    · refine seqStep_of_quiet ?_ (Or.inl (by rw [follow_of_fail (Or.inr hl)]))
      unfold follow followBody
      rw [gate_eq_of_pass hp]
      simp only [hl, if_true]
      exact quiet_refl w
  · have hp' : (canPerformGameAction env w).1 = false := by simpa using hp
    refine seqStep_of_quiet ?_ (Or.inl (by rw [follow_of_fail (Or.inl hp')]))
    unfold follow followBody
    rcases hg : canPerformGameAction env w with ⟨b, w1⟩
    rw [hg] at hp'
    simp only at hp'
    subst hp'
    exact gate_quiet hg

theorem cancelAttack_seqStep (env : Env) (w : World) : SeqStep w (cancelAttack env w) := by
  rw [← attack_none]; exact attack_seqStep env none w

theorem cancelFollow_seqStep (env : Env) (w : World) : SeqStep w (cancelFollow env w) := by
  rw [← follow_none]; exact follow_seqStep env none w

theorem processAttackCancel_seqStep (env : Env) (seq : Nat) (w : World) :
    SeqStep w (processAttackCancel env seq w) := by
  unfold processAttackCancel
  split
  · exact cancelAttack_seqStep env w
  · exact seqStep_of_quiet (quiet_refl w) (Or.inl rfl)

/-- The step `if(isFollowing()) cancelFollow();` of `walk`, `autoWalk` and `stop`. -/
theorem cancelIfFollowing_seqStep (env : Env) (w : World) :
    SeqStep w (if isFollowing w.game = true then cancelFollow env w else w) := by
  split
  · exact cancelFollow_seqStep env w
  · exact seqStep_of_quiet (quiet_refl w) (Or.inl rfl)

theorem stop_seqStep (env : Env) (w : World) : SeqStep w (stop env w) := by
  unfold stop
  rcases hg : canPerformGameAction env w with ⟨b, w1⟩
  cases b
  · exact seqStep_of_quiet (gate_quiet hg) (Or.inl (by rw [gate_game hg]))
  · have := gate_true hg; subst this
    exact seqStep_quiet_right (cancelIfFollowing_seqStep env w1)
      (quiet_emit _ (e := .send .sendStop) rfl) rfl

theorem walk_seqStep (env : Env) (d : Direction) (w : World) : SeqStep w (walk env d w) := by
  unfold walk
  rcases hg : canPerformGameAction env w with ⟨b, w1⟩
  cases b
  · exact seqStep_of_quiet (gate_quiet hg) (Or.inl (by rw [gate_game hg]))
  · have := gate_true hg; subst this
    have h1 := cancelIfFollowing_seqStep env w1
    simp only []
    generalize (if isFollowing w1.game = true then cancelFollow env w1 else w1) = w2 at h1 ⊢
    repeat' split
    · exact seqStep_quiet_right h1 (quiet_emit _ (e := .send .sendStop) rfl) rfl
    · exact h1
    · refine seqStep_quiet_right h1 ?_ (by simp)
      exact quiet_trans (quiet_trans (quiet_emit w2 (e := .localPlayer (.preWalk d)) rfl)
        (quiet_emit _ (e := .lua "onWalk" [.direction d]) rfl)) (forceWalk_quiet _ _ _)
    · refine seqStep_quiet_right h1 ?_ (by simp)
      exact quiet_trans (quiet_trans (quiet_emit w2 (e := .localPlayer .lockWalk) rfl)
        (quiet_emit _ (e := .lua "onWalk" [.direction d]) rfl)) (forceWalk_quiet _ _ _)
    · exact h1

theorem autoWalk_seqStep (env : Env) (dirs : List Direction) (w : World) :
    SeqStep w (autoWalk env dirs w) := by
  unfold autoWalk
  rcases hg : canPerformGameAction env w with ⟨b, w1⟩
  cases b
  · exact seqStep_of_quiet (gate_quiet hg) (Or.inl (by rw [gate_game hg]))
  · have := gate_true hg; subst this
    simp only []
    split
    · exact seqStep_of_quiet (quiet_emit _ (e := .log _) rfl) (Or.inl rfl)
    · cases dirs with
      | nil => exact seqStep_of_quiet (quiet_refl _) (Or.inl rfl)
      | cons d ds =>
        have h1 := cancelIfFollowing_seqStep env w1
        simp only []
        generalize (if isFollowing w1.game = true then cancelFollow env w1 else w1) = w2 at h1 ⊢
        refine seqStep_quiet_right h1 ?_ ?_
        · repeat' split
          all_goals
            (apply quiet_step (quiet_refl w2)
              (by simp only [send_out, emit_out, callGlobalField_out, List.append_assoc]; rfl);
             rfl)
        · repeat' split
          all_goals rfl

/-- Outside the attack/follow family an operation leaves the counter alone or
resets it. -/
theorem step_seq {env : Env} {op : Op} {w w' : World} (h : step env op w = .ok w') :
    w'.game.m_seq = w.game.m_seq ∨ w'.game.m_seq = 0 ∨ op.sendsSeq = true := by
  cases op with
  | terminate =>
    simp only [step, Except.ok.injEq] at h
    subst h; simp only [terminate_game, Game.reset]
    all_goals first | exact Or.inl rfl | exact Or.inr (Or.inl rfl) | simp
  | processConnectionError a0 =>
    simp only [step, Except.ok.injEq] at h
    subst h; simp only [processConnectionError_game, Game.disconnect, Game.gameEnd, Game.reset]
    split <;> try split
    all_goals first | exact Or.inl rfl | exact Or.inr (Or.inl rfl) | simp
  | processDisconnect =>
    simp only [step, Except.ok.injEq] at h
    subst h; simp only [processDisconnect_game, Game.disconnect, Game.gameEnd, Game.reset]
    split
    all_goals first | exact Or.inl rfl | exact Or.inr (Or.inl rfl) | simp
  | processLoginError a0 =>
    simp only [step, Except.ok.injEq] at h
    rw [← h]
    first | exact Or.inl rfl | exact Or.inr (Or.inl rfl) | simp
  | processLoginAdvice a0 =>
    simp only [step, Except.ok.injEq] at h
    rw [← h]
    first | exact Or.inl rfl | exact Or.inr (Or.inl rfl) | simp
  | processLoginWait a0 a1 =>
    simp only [step, Except.ok.injEq] at h
    rw [← h]
    first | exact Or.inl rfl | exact Or.inr (Or.inl rfl) | simp
  | processGameStart =>
    simp only [step] at h
    rw [(processGameStart_game h).2]
    all_goals first | exact Or.inl rfl | exact Or.inr (Or.inl rfl) | simp
  | processGameEnd =>
    simp only [step, Except.ok.injEq] at h
    subst h; simp only [processGameEnd_game, Game.gameEnd, Game.reset]
    all_goals first | exact Or.inl rfl | exact Or.inr (Or.inl rfl) | simp
  | processDeath a0 =>
    simp only [step] at h
    rw [(processDeath_game h).2]
    all_goals first | exact Or.inl rfl | exact Or.inr (Or.inl rfl) | simp
  | processGMActions a0 =>
    simp only [step, Except.ok.injEq] at h
    rw [← h]
    first | exact Or.inl rfl | exact Or.inr (Or.inl rfl) | simp
  | processPing =>
    simp only [step, Except.ok.injEq] at h
    rw [← h]
    first | exact Or.inl rfl | exact Or.inr (Or.inl rfl) | simp
  | processPingBack a0 =>
    simp only [step, Except.ok.injEq] at h
    rw [← h]
    first | exact Or.inl rfl | exact Or.inr (Or.inl rfl) | simp
  | processForward a0 a1 =>
    simp only [step, Except.ok.injEq] at h
    rw [← h]
    first | exact Or.inl rfl | exact Or.inr (Or.inl rfl) | simp
  | processOpenOutfitWindow a0 a1 a2 =>
    simp only [step, Except.ok.injEq] at h
    rw [← h]
    first | exact Or.inl rfl | exact Or.inr (Or.inl rfl) | simp
  | processOpenContainer a0 a1 a2 a3 a4 a5 =>
    simp only [step, Except.ok.injEq] at h
    obtain ⟨m, hm⟩ := processOpenContainer_game a0 a1 a2 a3 a4 a5 w
    rw [← h, hm]
    all_goals first | exact Or.inl rfl | exact Or.inr (Or.inl rfl) | simp
  | processCloseContainer a0 =>
    simp only [step, Except.ok.injEq] at h
    obtain ⟨m, hm⟩ := processCloseContainer_game a0 w
    rw [← h, hm]
    all_goals first | exact Or.inl rfl | exact Or.inr (Or.inl rfl) | simp
  | processContainerAddItem a0 a1 =>
    simp only [step, Except.ok.injEq] at h
    obtain ⟨m, hm⟩ := processContainerAddItem_game a0 a1 w
    rw [← h, hm]
    all_goals first | exact Or.inl rfl | exact Or.inr (Or.inl rfl) | simp
  | processContainerUpdateItem a0 a1 a2 =>
    simp only [step, Except.ok.injEq] at h
    obtain ⟨m, hm⟩ := processContainerUpdateItem_game a0 a1 a2 w
    rw [← h, hm]
    all_goals first | exact Or.inl rfl | exact Or.inr (Or.inl rfl) | simp
  | processContainerRemoveItem a0 a1 =>
    simp only [step, Except.ok.injEq] at h
    obtain ⟨m, hm⟩ := processContainerRemoveItem_game a0 a1 w
    rw [← h, hm]
    all_goals first | exact Or.inl rfl | exact Or.inr (Or.inl rfl) | simp
  | processInventoryChange a0 a1 =>
    simp only [step] at h
    rw [processInventoryChange_game h]
    all_goals first | exact Or.inl rfl | exact Or.inr (Or.inl rfl) | simp
  | processVipAdd a0 a1 a2 =>
    simp only [step, Except.ok.injEq] at h
    rw [← h]
    first | exact Or.inl rfl | exact Or.inr (Or.inl rfl) | simp
  | processVipStateChange a0 a1 =>
    simp only [step, Except.ok.injEq] at h
    obtain ⟨m, hm⟩ := processVipStateChange_game a0 a1 w
    rw [← h, hm]
    all_goals first | exact Or.inl rfl | exact Or.inr (Or.inl rfl) | simp
  | processAttackCancel a0 =>
    exact Or.inr (Or.inr rfl)
  | processWalkCancel a0 =>
    simp only [step] at h
    rw [processWalkCancel_game h]
    all_goals first | exact Or.inl rfl | exact Or.inr (Or.inl rfl) | simp
  | loginWorld a0 a1 a2 a3 a4 a5 a6 =>
    simp only [step] at h
    rw [(loginWorld_game h).2.2.2]; simp only [Game.reset]
    all_goals first | exact Or.inl rfl | exact Or.inr (Or.inl rfl) | simp
  | cancelLogin =>
    simp only [step, Except.ok.injEq] at h
    subst h; simp only [cancelLogin_game, Game.disconnect, Game.gameEnd, Game.reset]
    split
    all_goals first | exact Or.inl rfl | exact Or.inr (Or.inl rfl) | simp
  | forceLogout =>
    simp only [step] at h
    rw [forceLogout_game h]; simp only [Game.disconnect, Game.gameEnd, Game.reset]
    split <;> try split
    all_goals first | exact Or.inl rfl | exact Or.inr (Or.inl rfl) | simp
  | safeLogout =>
    simp only [step] at h
    rw [safeLogout_game h]
    all_goals first | exact Or.inl rfl | exact Or.inr (Or.inl rfl) | simp
  | walk a0 =>
    exact Or.inr (Or.inr rfl)
  | autoWalk a0 =>
    exact Or.inr (Or.inr rfl)
  | forceWalk a0 =>
    simp only [step, Except.ok.injEq] at h
    rw [← h, forceWalk_game]
    first | exact Or.inl rfl | exact Or.inr (Or.inl rfl) | simp
  | turn a0 =>
    simp only [step, Except.ok.injEq] at h
    rw [← h, turn_game]
    first | exact Or.inl rfl | exact Or.inr (Or.inl rfl) | simp
  | stop =>
    exact Or.inr (Or.inr rfl)
  | look a0 =>
    simp only [step, Except.ok.injEq] at h
    rw [← h, look_game]
    first | exact Or.inl rfl | exact Or.inr (Or.inl rfl) | simp
  | move a0 a1 a2 =>
    simp only [step, Except.ok.injEq] at h
    rw [← h, move_game]
    first | exact Or.inl rfl | exact Or.inr (Or.inl rfl) | simp
  | moveToParentContainer a0 a1 =>
    simp only [step, Except.ok.injEq] at h
    rw [← h, moveToParentContainer_game]
    first | exact Or.inl rfl | exact Or.inr (Or.inl rfl) | simp
  | rotate a0 =>
    simp only [step, Except.ok.injEq] at h
    rw [← h, rotate_game]
    first | exact Or.inl rfl | exact Or.inr (Or.inl rfl) | simp
  | use a0 =>
    simp only [step] at h
    obtain ⟨m, hm⟩ := use_game h
    rw [hm]
    all_goals first | exact Or.inl rfl | exact Or.inr (Or.inl rfl) | simp
  | useInventoryItem a0 =>
    simp only [step, Except.ok.injEq] at h
    rw [← h, useInventoryItem_game]
    first | exact Or.inl rfl | exact Or.inr (Or.inl rfl) | simp
  | useWith a0 a1 =>
    simp only [step, Except.ok.injEq] at h
    rw [← h, useWith_game]
    first | exact Or.inl rfl | exact Or.inr (Or.inl rfl) | simp
  | useInventoryItemWith a0 a1 =>
    simp only [step, Except.ok.injEq] at h
    rw [← h, useInventoryItemWith_game]
    first | exact Or.inl rfl | exact Or.inr (Or.inl rfl) | simp
  | «open» a0 a1 =>
    simp only [step] at h
    obtain ⟨m, hm⟩ := open_game h
    rw [hm]
    all_goals first | exact Or.inl rfl | exact Or.inr (Or.inl rfl) | simp
  | openParent a0 =>
    simp only [step, Except.ok.injEq] at h
    rw [← h, openParent_game]
    first | exact Or.inl rfl | exact Or.inr (Or.inl rfl) | simp
  | close a0 =>
    simp only [step, Except.ok.injEq] at h
    rw [← h, close_game]
    first | exact Or.inl rfl | exact Or.inr (Or.inl rfl) | simp
  | refreshContainer =>
    simp only [step, Except.ok.injEq] at h
    rw [← h, refreshContainer_game]
    first | exact Or.inl rfl | exact Or.inr (Or.inl rfl) | simp
  | attack a0 =>
    exact Or.inr (Or.inr rfl)
  | cancelAttack =>
    exact Or.inr (Or.inr rfl)
  | follow a0 =>
    exact Or.inr (Or.inr rfl)
  | cancelFollow =>
    exact Or.inr (Or.inr rfl)
  | cancelAttackAndFollow =>
    simp only [step, Except.ok.injEq] at h
    rw [← h, cancelAttackAndFollow_game]
    first | exact Or.inl rfl | exact Or.inr (Or.inl rfl) | simp
  | talk a0 a1 =>
    simp only [step, Except.ok.injEq] at h
    rw [← h, talk_game]
    first | exact Or.inl rfl | exact Or.inr (Or.inl rfl) | simp
  | talkChannel a0 a1 a2 =>
    simp only [step, Except.ok.injEq] at h
    rw [← h, talkChannel_game]
    first | exact Or.inl rfl | exact Or.inr (Or.inl rfl) | simp
  | talkPrivate a0 a1 a2 =>
    simp only [step, Except.ok.injEq] at h
    rw [← h, talkPrivate_game]
    first | exact Or.inl rfl | exact Or.inr (Or.inl rfl) | simp
  | openPrivateChannel a0 =>
    simp only [step, Except.ok.injEq] at h
    rw [← h, openPrivateChannel_game]
    first | exact Or.inl rfl | exact Or.inr (Or.inl rfl) | simp
  | requestChannels =>
    simp only [step, Except.ok.injEq] at h
    rw [← h, requestChannels_game]
    first | exact Or.inl rfl | exact Or.inr (Or.inl rfl) | simp
  | joinChannel a0 =>
    simp only [step, Except.ok.injEq] at h
    rw [← h, joinChannel_game]
    first | exact Or.inl rfl | exact Or.inr (Or.inl rfl) | simp
  | leaveChannel a0 =>
    simp only [step, Except.ok.injEq] at h
    rw [← h, leaveChannel_game]
    first | exact Or.inl rfl | exact Or.inr (Or.inl rfl) | simp
  | closeNpcChannel =>
    simp only [step, Except.ok.injEq] at h
    rw [← h, closeNpcChannel_game]
    first | exact Or.inl rfl | exact Or.inr (Or.inl rfl) | simp
  | openOwnChannel =>
    simp only [step, Except.ok.injEq] at h
    rw [← h, openOwnChannel_game]
    first | exact Or.inl rfl | exact Or.inr (Or.inl rfl) | simp
  | inviteToOwnChannel a0 =>
    simp only [step, Except.ok.injEq] at h
    rw [← h, inviteToOwnChannel_game]
    first | exact Or.inl rfl | exact Or.inr (Or.inl rfl) | simp
  | excludeFromOwnChannel a0 =>
    simp only [step, Except.ok.injEq] at h
    rw [← h, excludeFromOwnChannel_game]
    first | exact Or.inl rfl | exact Or.inr (Or.inl rfl) | simp
  | partyInvite a0 =>
    simp only [step, Except.ok.injEq] at h
    rw [← h, partyInvite_game]
    first | exact Or.inl rfl | exact Or.inr (Or.inl rfl) | simp
  | partyJoin a0 =>
    simp only [step, Except.ok.injEq] at h
    rw [← h, partyJoin_game]
    first | exact Or.inl rfl | exact Or.inr (Or.inl rfl) | simp
  | partyRevokeInvitation a0 =>
    simp only [step, Except.ok.injEq] at h
    rw [← h, partyRevokeInvitation_game]
    first | exact Or.inl rfl | exact Or.inr (Or.inl rfl) | simp
  | partyPassLeadership a0 =>
    simp only [step, Except.ok.injEq] at h
    rw [← h, partyPassLeadership_game]
    first | exact Or.inl rfl | exact Or.inr (Or.inl rfl) | simp
  | partyLeave =>
    simp only [step, Except.ok.injEq] at h
    rw [← h, partyLeave_game]
    first | exact Or.inl rfl | exact Or.inr (Or.inl rfl) | simp
  | partyShareExperience a0 =>
    simp only [step, Except.ok.injEq] at h
    rw [← h, partyShareExperience_game]
    first | exact Or.inl rfl | exact Or.inr (Or.inl rfl) | simp
  | requestOutfit =>
    simp only [step, Except.ok.injEq] at h
    rw [← h, requestOutfit_game]
    first | exact Or.inl rfl | exact Or.inr (Or.inl rfl) | simp
  | changeOutfit a0 =>
    simp only [step, Except.ok.injEq] at h
    rw [← h, changeOutfit_game]
    first | exact Or.inl rfl | exact Or.inr (Or.inl rfl) | simp
  | addVip a0 =>
    simp only [step, Except.ok.injEq] at h
    rw [← h, addVip_game]
    first | exact Or.inl rfl | exact Or.inr (Or.inl rfl) | simp
  | removeVip a0 =>
    simp only [step, Except.ok.injEq] at h
    rw [← h, removeVip_game]
    first | exact Or.inl rfl | exact Or.inr (Or.inl rfl) | simp
  | setChaseMode a0 =>
    simp only [step, Except.ok.injEq] at h
    obtain ⟨m, hm⟩ := setChaseMode_game env a0 w
    rw [← h, hm]
    all_goals first | exact Or.inl rfl | exact Or.inr (Or.inl rfl) | simp
  | setFightMode a0 =>
    simp only [step, Except.ok.injEq] at h
    obtain ⟨m, hm⟩ := setFightMode_game env a0 w
    rw [← h, hm]
    all_goals first | exact Or.inl rfl | exact Or.inr (Or.inl rfl) | simp
  | setSafeFight a0 =>
    simp only [step, Except.ok.injEq] at h
    obtain ⟨m, hm⟩ := setSafeFight_game env a0 w
    rw [← h, hm]
    all_goals first | exact Or.inl rfl | exact Or.inr (Or.inl rfl) | simp
  | inspectNpcTrade a0 =>
    simp only [step, Except.ok.injEq] at h
    rw [← h, inspectNpcTrade_game]
    first | exact Or.inl rfl | exact Or.inr (Or.inl rfl) | simp
  | buyItem a0 a1 a2 a3 =>
    simp only [step, Except.ok.injEq] at h
    rw [← h, buyItem_game]
    first | exact Or.inl rfl | exact Or.inr (Or.inl rfl) | simp
  | sellItem a0 a1 a2 =>
    simp only [step, Except.ok.injEq] at h
    rw [← h, sellItem_game]
    first | exact Or.inl rfl | exact Or.inr (Or.inl rfl) | simp
  | closeNpcTrade =>
    simp only [step, Except.ok.injEq] at h
    rw [← h, closeNpcTrade_game]
    first | exact Or.inl rfl | exact Or.inr (Or.inl rfl) | simp
  | requestTrade a0 a1 =>
    simp only [step, Except.ok.injEq] at h
    rw [← h, requestTrade_game]
    first | exact Or.inl rfl | exact Or.inr (Or.inl rfl) | simp
  | inspectTrade a0 a1 =>
    simp only [step, Except.ok.injEq] at h
    rw [← h, inspectTrade_game]
    first | exact Or.inl rfl | exact Or.inr (Or.inl rfl) | simp
  | acceptTrade =>
    simp only [step, Except.ok.injEq] at h
    rw [← h, acceptTrade_game]
    first | exact Or.inl rfl | exact Or.inr (Or.inl rfl) | simp
  | rejectTrade =>
    simp only [step, Except.ok.injEq] at h
    rw [← h, rejectTrade_game]
    first | exact Or.inl rfl | exact Or.inr (Or.inl rfl) | simp
  | editText a0 a1 =>
    simp only [step, Except.ok.injEq] at h
    rw [← h, editText_game]
    first | exact Or.inl rfl | exact Or.inr (Or.inl rfl) | simp
  | editList a0 a1 a2 =>
    simp only [step, Except.ok.injEq] at h
    rw [← h, editList_game]
    first | exact Or.inl rfl | exact Or.inr (Or.inl rfl) | simp
  | reportBug a0 =>
    simp only [step, Except.ok.injEq] at h
    rw [← h, reportBug_game]
    first | exact Or.inl rfl | exact Or.inr (Or.inl rfl) | simp
  | reportRuleVilation a0 a1 a2 a3 a4 a5 a6 =>
    simp only [step, Except.ok.injEq] at h
    rw [← h, reportRuleVilation_game]
    first | exact Or.inl rfl | exact Or.inr (Or.inl rfl) | simp
  | debugReport a0 a1 a2 a3 =>
    simp only [step] at h
    rw [debugReport_game h]
    all_goals first | exact Or.inl rfl | exact Or.inr (Or.inl rfl) | simp
  | requestQuestLog =>
    simp only [step, Except.ok.injEq] at h
    rw [← h, requestQuestLog_game]
    first | exact Or.inl rfl | exact Or.inr (Or.inl rfl) | simp
  | requestQuestLine a0 =>
    simp only [step, Except.ok.injEq] at h
    rw [← h, requestQuestLine_game]
    first | exact Or.inl rfl | exact Or.inr (Or.inl rfl) | simp
  | equipItem a0 =>
    simp only [step] at h
    rw [equipItem_game h]
    all_goals first | exact Or.inl rfl | exact Or.inr (Or.inl rfl) | simp
  | mount a0 =>
    simp only [step, Except.ok.injEq] at h
    rw [← h, mount_game]
    first | exact Or.inl rfl | exact Or.inr (Or.inl rfl) | simp
  | requestItemInfo a0 a1 =>
    simp only [step] at h
    rw [requestItemInfo_game h]
    all_goals first | exact Or.inl rfl | exact Or.inr (Or.inl rfl) | simp
  | ping =>
    simp only [step, Except.ok.injEq] at h
    obtain ⟨m, hm⟩ := ping_game w
    rw [← h, hm]
    all_goals first | exact Or.inl rfl | exact Or.inr (Or.inl rfl) | simp
  | canPerformGameAction =>
    simp only [step, Except.ok.injEq] at h
    rw [← h, canPerformGameAction_game]
    all_goals first | exact Or.inl rfl | exact Or.inr (Or.inl rfl) | simp
  | checkBotProtection =>
    simp only [step, Except.ok.injEq] at h
    rw [← h, checkBotProtection_game]
    all_goals first | exact Or.inl rfl | exact Or.inr (Or.inl rfl) | simp
  | setClientVersion a0 =>
    simp only [step] at h
    obtain ⟨f, v, hm⟩ := setClientVersion_frame h
    rw [hm]
    exact Or.inl rfl
  | pingEventCallback =>
    simp only [step, Except.ok.injEq] at h
    obtain ⟨m, hm⟩ := pingEventCallback_game w
    rw [← h, hm]
    all_goals first | exact Or.inl rfl | exact Or.inr (Or.inl rfl) | simp
  | transportConnected =>
    simp only [step, Except.ok.injEq] at h
    rw [← h, transportConnected_game]
    all_goals first | exact Or.inl rfl | exact Or.inr (Or.inl rfl) | simp
  | transportClosed =>
    simp only [step, Except.ok.injEq] at h
    rw [← h, transportClosed_game]
    all_goals first | exact Or.inl rfl | exact Or.inr (Or.inl rfl) | simp
  | findEmptyContainerId =>
    obtain ⟨m, hm⟩ := findEmptyContainerId_op_game h
    rw [hm]
    exact Or.inl rfl

/-- Outside the attack/follow family an operation hands no attack or follow
command to the transport. -/
theorem step_quiet {env : Env} {op : Op} {w w' : World} (h : step env op w = .ok w')
    (hf : op.sendsSeq = false) : Quiet w w' := by
  cases op with
  | terminate =>
    simp only [step, Except.ok.injEq] at h
    subst h
    apply terminate_quiet
  | processConnectionError a0 =>
    simp only [step, Except.ok.injEq] at h
    subst h
    apply processConnectionError_quiet
  | processDisconnect =>
    simp only [step, Except.ok.injEq] at h
    subst h
    apply processDisconnect_quiet
  | processLoginError a0 =>
    simp only [step, Except.ok.injEq] at h
    subst h
    exact ⟨[.lua _ _], rfl, rfl⟩
  | processLoginAdvice a0 =>
    simp only [step, Except.ok.injEq] at h
    subst h
    exact ⟨[.lua _ _], rfl, rfl⟩
  | processLoginWait a0 a1 =>
    simp only [step, Except.ok.injEq] at h
    subst h
    exact ⟨[.lua _ _], rfl, rfl⟩
  | processGameStart =>
    simp only [step] at h
    exact processGameStart_quiet h
  | processGameEnd =>
    simp only [step, Except.ok.injEq] at h
    subst h
    apply processGameEnd_quiet
  | processDeath a0 =>
    simp only [step] at h
    exact processDeath_quiet h
  | processGMActions a0 =>
    simp only [step, Except.ok.injEq] at h
    subst h
    exact ⟨[.lua _ _], rfl, rfl⟩
  | processPing =>
    simp only [step, Except.ok.injEq] at h
    subst h
    exact ⟨[.lua _ _], rfl, rfl⟩
  | processPingBack a0 =>
    simp only [step, Except.ok.injEq] at h
    subst h
    exact ⟨[.lua _ _], rfl, rfl⟩
  | processForward a0 a1 =>
    simp only [step, Except.ok.injEq] at h
    subst h
    exact ⟨[.lua _ _], rfl, rfl⟩
  | processOpenOutfitWindow a0 a1 a2 =>
    simp only [step, Except.ok.injEq] at h
    subst h
    exact ⟨[.lua _ _], rfl, rfl⟩
  | processOpenContainer a0 a1 a2 a3 a4 a5 =>
    simp only [step, Except.ok.injEq] at h
    subst h
    apply processOpenContainer_quiet
  | processCloseContainer a0 =>
    simp only [step, Except.ok.injEq] at h
    subst h
    apply processCloseContainer_quiet
  | processContainerAddItem a0 a1 =>
    simp only [step, Except.ok.injEq] at h
    subst h
    apply processContainerAddItem_quiet
  | processContainerUpdateItem a0 a1 a2 =>
    simp only [step, Except.ok.injEq] at h
    subst h
    apply processContainerUpdateItem_quiet
  | processContainerRemoveItem a0 a1 =>
    simp only [step, Except.ok.injEq] at h
    subst h
    apply processContainerRemoveItem_quiet
  | processInventoryChange a0 a1 =>
    simp only [step] at h
    exact processInventoryChange_quiet h
  | processVipAdd a0 a1 a2 =>
    simp only [step, Except.ok.injEq] at h
    subst h
    exact ⟨[.lua _ _], rfl, rfl⟩
  | processVipStateChange a0 a1 =>
    simp only [step, Except.ok.injEq] at h
    subst h
    exact ⟨[.lua _ _], rfl, rfl⟩
  | processAttackCancel a0 =>
    exact Bool.noConfusion hf
  | processWalkCancel a0 =>
    simp only [step] at h
    exact processWalkCancel_quiet h
  | loginWorld a0 a1 a2 a3 a4 a5 a6 =>
    simp only [step] at h
    exact loginWorld_quiet h
  | cancelLogin =>
    simp only [step, Except.ok.injEq] at h
    subst h
    apply cancelLogin_quiet
  | forceLogout =>
    simp only [step] at h
    exact forceLogout_quiet h
  | safeLogout =>
    simp only [step] at h
    exact safeLogout_quiet h
  | walk a0 =>
    exact Bool.noConfusion hf
  | autoWalk a0 =>
    exact Bool.noConfusion hf
  | forceWalk a0 =>
    simp only [step, Except.ok.injEq] at h
    subst h
    apply forceWalk_quiet
  | turn a0 =>
    simp only [step, Except.ok.injEq] at h
    subst h
    apply turn_quiet
  | stop =>
    exact Bool.noConfusion hf
  | look a0 =>
    simp only [step, Except.ok.injEq] at h
    subst h
    apply look_quiet
  | move a0 a1 a2 =>
    simp only [step, Except.ok.injEq] at h
    subst h
    apply move_quiet
  | moveToParentContainer a0 a1 =>
    simp only [step, Except.ok.injEq] at h
    subst h
    apply moveToParentContainer_quiet
  | rotate a0 =>
    simp only [step, Except.ok.injEq] at h
    subst h
    apply rotate_quiet
  | use a0 =>
    simp only [step] at h
    exact use_quiet h
  | useInventoryItem a0 =>
    simp only [step, Except.ok.injEq] at h
    subst h
    apply useInventoryItem_quiet
  | useWith a0 a1 =>
    simp only [step, Except.ok.injEq] at h
    subst h
    apply useWith_quiet
  | useInventoryItemWith a0 a1 =>
    simp only [step, Except.ok.injEq] at h
    subst h
    apply useInventoryItemWith_quiet
  | «open» a0 a1 =>
    simp only [step] at h
    exact open_quiet h
  | openParent a0 =>
    simp only [step, Except.ok.injEq] at h
    subst h
    apply openParent_quiet
  | close a0 =>
    simp only [step, Except.ok.injEq] at h
    subst h
    apply close_quiet
  | refreshContainer =>
    simp only [step, Except.ok.injEq] at h
    subst h
    apply refreshContainer_quiet
  | attack a0 =>
    exact Bool.noConfusion hf
  | cancelAttack =>
    exact Bool.noConfusion hf
  | follow a0 =>
    exact Bool.noConfusion hf
  | cancelFollow =>
    exact Bool.noConfusion hf
  | cancelAttackAndFollow =>
    simp only [step, Except.ok.injEq] at h
    subst h
    apply cancelAttackAndFollow_quiet
  | talk a0 a1 =>
    simp only [step, Except.ok.injEq] at h
    subst h
    apply talk_quiet
  | talkChannel a0 a1 a2 =>
    simp only [step, Except.ok.injEq] at h
    subst h
    apply talkChannel_quiet
  | talkPrivate a0 a1 a2 =>
    simp only [step, Except.ok.injEq] at h
    subst h
    apply talkPrivate_quiet
  | openPrivateChannel a0 =>
    simp only [step, Except.ok.injEq] at h
    subst h
    apply openPrivateChannel_quiet
  | requestChannels =>
    simp only [step, Except.ok.injEq] at h
    subst h
    apply requestChannels_quiet
  | joinChannel a0 =>
    simp only [step, Except.ok.injEq] at h
    subst h
    apply joinChannel_quiet
  | leaveChannel a0 =>
    simp only [step, Except.ok.injEq] at h
    subst h
    apply leaveChannel_quiet
  | closeNpcChannel =>
    simp only [step, Except.ok.injEq] at h
    subst h
    apply closeNpcChannel_quiet
  | openOwnChannel =>
    simp only [step, Except.ok.injEq] at h
    subst h
    apply openOwnChannel_quiet
  | inviteToOwnChannel a0 =>
    simp only [step, Except.ok.injEq] at h
    subst h
    apply inviteToOwnChannel_quiet
  | excludeFromOwnChannel a0 =>
    simp only [step, Except.ok.injEq] at h
    subst h
    apply excludeFromOwnChannel_quiet
  | partyInvite a0 =>
    simp only [step, Except.ok.injEq] at h
    subst h
    apply partyInvite_quiet
  | partyJoin a0 =>
    simp only [step, Except.ok.injEq] at h
    subst h
    apply partyJoin_quiet
  | partyRevokeInvitation a0 =>
    simp only [step, Except.ok.injEq] at h
    subst h
    apply partyRevokeInvitation_quiet
  | partyPassLeadership a0 =>
    simp only [step, Except.ok.injEq] at h
    subst h
    apply partyPassLeadership_quiet
  | partyLeave =>
    simp only [step, Except.ok.injEq] at h
    subst h
    apply partyLeave_quiet
  | partyShareExperience a0 =>
    simp only [step, Except.ok.injEq] at h
    subst h
    apply partyShareExperience_quiet
  | requestOutfit =>
    simp only [step, Except.ok.injEq] at h
    subst h
    apply requestOutfit_quiet
  | changeOutfit a0 =>
    simp only [step, Except.ok.injEq] at h
    subst h
    apply changeOutfit_quiet
  | addVip a0 =>
    simp only [step, Except.ok.injEq] at h
    subst h
    apply addVip_quiet
  | removeVip a0 =>
    simp only [step, Except.ok.injEq] at h
    subst h
    apply removeVip_quiet
  | setChaseMode a0 =>
    simp only [step, Except.ok.injEq] at h
    subst h
    apply setChaseMode_quiet
  | setFightMode a0 =>
    simp only [step, Except.ok.injEq] at h
    subst h
    apply setFightMode_quiet
  | setSafeFight a0 =>
    simp only [step, Except.ok.injEq] at h
    subst h
    apply setSafeFight_quiet
  | inspectNpcTrade a0 =>
    simp only [step, Except.ok.injEq] at h
    subst h
    apply inspectNpcTrade_quiet
  | buyItem a0 a1 a2 a3 =>
    simp only [step, Except.ok.injEq] at h
    subst h
    apply buyItem_quiet
  | sellItem a0 a1 a2 =>
    simp only [step, Except.ok.injEq] at h
    subst h
    apply sellItem_quiet
  | closeNpcTrade =>
    simp only [step, Except.ok.injEq] at h
    subst h
    apply closeNpcTrade_quiet
  | requestTrade a0 a1 =>
    simp only [step, Except.ok.injEq] at h
    subst h
    apply requestTrade_quiet
  | inspectTrade a0 a1 =>
    simp only [step, Except.ok.injEq] at h
    subst h
    apply inspectTrade_quiet
  | acceptTrade =>
    simp only [step, Except.ok.injEq] at h
    subst h
    apply acceptTrade_quiet
  | rejectTrade =>
    simp only [step, Except.ok.injEq] at h
    subst h
    apply rejectTrade_quiet
  | editText a0 a1 =>
    simp only [step, Except.ok.injEq] at h
    subst h
    apply editText_quiet
  | editList a0 a1 a2 =>
    simp only [step, Except.ok.injEq] at h
    subst h
    apply editList_quiet
  | reportBug a0 =>
    simp only [step, Except.ok.injEq] at h
    subst h
    apply reportBug_quiet
  | reportRuleVilation a0 a1 a2 a3 a4 a5 a6 =>
    simp only [step, Except.ok.injEq] at h
    subst h
    apply reportRuleVilation_quiet
  | debugReport a0 a1 a2 a3 =>
    simp only [step] at h
    exact debugReport_quiet h
  | requestQuestLog =>
    simp only [step, Except.ok.injEq] at h
    subst h
    apply requestQuestLog_quiet
  | requestQuestLine a0 =>
    simp only [step, Except.ok.injEq] at h
    subst h
    apply requestQuestLine_quiet
  | equipItem a0 =>
    simp only [step] at h
    exact equipItem_quiet h
  | mount a0 =>
    simp only [step, Except.ok.injEq] at h
    subst h
    apply mount_quiet
  | requestItemInfo a0 a1 =>
    simp only [step] at h
    exact requestItemInfo_quiet h
  | ping =>
    simp only [step, Except.ok.injEq] at h
    subst h
    apply ping_quiet
  | canPerformGameAction =>
    simp only [step, Except.ok.injEq] at h
    subst h
    exact gate_quiet rfl
  | checkBotProtection =>
    simp only [step, Except.ok.injEq] at h
    subst h
    exact checkBotProtection_quiet env w
  | setClientVersion a0 =>
    simp only [step] at h
    exact setClientVersion_quiet h
  | pingEventCallback =>
    simp only [step, Except.ok.injEq] at h
    subst h
    apply pingEventCallback_quiet
  | transportConnected =>
    simp only [step, Except.ok.injEq] at h
    subst h
    apply transportConnected_quiet
  | transportClosed =>
    simp only [step, Except.ok.injEq] at h
    subst h
    apply transportClosed_quiet
  | findEmptyContainerId =>
    exact findEmptyContainerId_quiet h

/-- Every operation, seen from the sequence counter. -/
theorem step_seqStep {env : Env} {op : Op} {w w' : World} (h : step env op w = .ok w') :
    SeqStep w w' := by
  cases hf : op.sendsSeq
  · refine seqStep_of_quiet (step_quiet h hf) ?_
    rcases step_seq h with h1 | h1 | h1
    · exact Or.inl h1
    · exact Or.inr h1
    · rw [hf] at h1; exact Bool.noConfusion h1
  · cases op with
    | terminate => exact Bool.noConfusion hf
    | processConnectionError a0 => exact Bool.noConfusion hf
    | processDisconnect => exact Bool.noConfusion hf
    | processLoginError a0 => exact Bool.noConfusion hf
    | processLoginAdvice a0 => exact Bool.noConfusion hf
    | processLoginWait a0 a1 => exact Bool.noConfusion hf
    | processGameStart => exact Bool.noConfusion hf
    | processGameEnd => exact Bool.noConfusion hf
    | processDeath a0 => exact Bool.noConfusion hf
    | processGMActions a0 => exact Bool.noConfusion hf
    | processPing => exact Bool.noConfusion hf
    | processPingBack a0 => exact Bool.noConfusion hf
    | processForward a0 a1 => exact Bool.noConfusion hf
    | processOpenOutfitWindow a0 a1 a2 => exact Bool.noConfusion hf
    | processOpenContainer a0 a1 a2 a3 a4 a5 => exact Bool.noConfusion hf
    | processCloseContainer a0 => exact Bool.noConfusion hf
    | processContainerAddItem a0 a1 => exact Bool.noConfusion hf
    | processContainerUpdateItem a0 a1 a2 => exact Bool.noConfusion hf
    | processContainerRemoveItem a0 a1 => exact Bool.noConfusion hf
    | processInventoryChange a0 a1 => exact Bool.noConfusion hf
    | processVipAdd a0 a1 a2 => exact Bool.noConfusion hf
    | processVipStateChange a0 a1 => exact Bool.noConfusion hf
    | processAttackCancel a0 =>
      simp only [step, Except.ok.injEq] at h
      subst h
      exact processAttackCancel_seqStep env a0 w
    | processWalkCancel a0 => exact Bool.noConfusion hf
    | loginWorld a0 a1 a2 a3 a4 a5 a6 => exact Bool.noConfusion hf
    | cancelLogin => exact Bool.noConfusion hf
    | forceLogout => exact Bool.noConfusion hf
    | safeLogout => exact Bool.noConfusion hf
    | walk a0 =>
      simp only [step, Except.ok.injEq] at h
      subst h
      exact walk_seqStep env a0 w
    | autoWalk a0 =>
      simp only [step, Except.ok.injEq] at h
      subst h
      exact autoWalk_seqStep env a0 w
    | forceWalk a0 => exact Bool.noConfusion hf
    | turn a0 => exact Bool.noConfusion hf
    | stop =>
      simp only [step, Except.ok.injEq] at h
      subst h
      exact stop_seqStep env w
    | look a0 => exact Bool.noConfusion hf
    | move a0 a1 a2 => exact Bool.noConfusion hf
    | moveToParentContainer a0 a1 => exact Bool.noConfusion hf
    | rotate a0 => exact Bool.noConfusion hf
    | use a0 => exact Bool.noConfusion hf
    | useInventoryItem a0 => exact Bool.noConfusion hf
    | useWith a0 a1 => exact Bool.noConfusion hf
    | useInventoryItemWith a0 a1 => exact Bool.noConfusion hf
    | «open» a0 a1 => exact Bool.noConfusion hf
    | openParent a0 => exact Bool.noConfusion hf
    | close a0 => exact Bool.noConfusion hf
    | refreshContainer => exact Bool.noConfusion hf
    | attack a0 =>
      simp only [step, Except.ok.injEq] at h
      subst h
      exact attack_seqStep env a0 w
    | cancelAttack =>
      simp only [step, Except.ok.injEq] at h
      subst h
      exact cancelAttack_seqStep env w
    | follow a0 =>
      simp only [step, Except.ok.injEq] at h
      subst h
      exact follow_seqStep env a0 w
    | cancelFollow =>
      simp only [step, Except.ok.injEq] at h
      subst h
      exact cancelFollow_seqStep env w
    | cancelAttackAndFollow => exact Bool.noConfusion hf
    | talk a0 a1 => exact Bool.noConfusion hf
    | talkChannel a0 a1 a2 => exact Bool.noConfusion hf
    | talkPrivate a0 a1 a2 => exact Bool.noConfusion hf
    | openPrivateChannel a0 => exact Bool.noConfusion hf
    | requestChannels => exact Bool.noConfusion hf
    | joinChannel a0 => exact Bool.noConfusion hf
    | leaveChannel a0 => exact Bool.noConfusion hf
    | closeNpcChannel => exact Bool.noConfusion hf
    | openOwnChannel => exact Bool.noConfusion hf
    | inviteToOwnChannel a0 => exact Bool.noConfusion hf
    | excludeFromOwnChannel a0 => exact Bool.noConfusion hf
    | partyInvite a0 => exact Bool.noConfusion hf
    | partyJoin a0 => exact Bool.noConfusion hf
    | partyRevokeInvitation a0 => exact Bool.noConfusion hf
    | partyPassLeadership a0 => exact Bool.noConfusion hf
    | partyLeave => exact Bool.noConfusion hf
    | partyShareExperience a0 => exact Bool.noConfusion hf
    | requestOutfit => exact Bool.noConfusion hf
    | changeOutfit a0 => exact Bool.noConfusion hf
    | addVip a0 => exact Bool.noConfusion hf
    | removeVip a0 => exact Bool.noConfusion hf
    | setChaseMode a0 => exact Bool.noConfusion hf
    | setFightMode a0 => exact Bool.noConfusion hf
    | setSafeFight a0 => exact Bool.noConfusion hf
    | inspectNpcTrade a0 => exact Bool.noConfusion hf
    | buyItem a0 a1 a2 a3 => exact Bool.noConfusion hf
    | sellItem a0 a1 a2 => exact Bool.noConfusion hf
    | closeNpcTrade => exact Bool.noConfusion hf
    | requestTrade a0 a1 => exact Bool.noConfusion hf
    | inspectTrade a0 a1 => exact Bool.noConfusion hf
    | acceptTrade => exact Bool.noConfusion hf
    | rejectTrade => exact Bool.noConfusion hf
    | editText a0 a1 => exact Bool.noConfusion hf
    | editList a0 a1 a2 => exact Bool.noConfusion hf
    | reportBug a0 => exact Bool.noConfusion hf
    | reportRuleVilation a0 a1 a2 a3 a4 a5 a6 => exact Bool.noConfusion hf
    | debugReport a0 a1 a2 a3 => exact Bool.noConfusion hf
    | requestQuestLog => exact Bool.noConfusion hf
    | requestQuestLine a0 => exact Bool.noConfusion hf
    | equipItem a0 => exact Bool.noConfusion hf
    | mount a0 => exact Bool.noConfusion hf
    | requestItemInfo a0 a1 => exact Bool.noConfusion hf
    | ping => exact Bool.noConfusion hf
    | canPerformGameAction => exact Bool.noConfusion hf
    | checkBotProtection => exact Bool.noConfusion hf
    | setClientVersion a0 => exact Bool.noConfusion hf
    | pingEventCallback => exact Bool.noConfusion hf
    | transportConnected => exact Bool.noConfusion hf
    | transportClosed => exact Bool.noConfusion hf
    | findEmptyContainerId => exact Bool.noConfusion hf

/-! ## The container registry -/

theorem mapFind_mapSet_self {α : Type} (m : List (Int × α)) (k : Int) (v : α) :
    mapFind (mapSet m k v) k = some v := by
  induction m with
  | nil => simp [mapSet, mapFind]
  | cons x rest ih =>
    rcases x with ⟨k', x⟩
    unfold mapSet
    split
    · simp [mapFind]
    · split
      · rename_i h1 h2
        simp [mapFind, h2]
      · rename_i h1 h2
        simp [mapFind, h2, ih]

theorem mapFind_mapSet_ne {α : Type} (m : List (Int × α)) (k j : Int) (v : α) (h : j ≠ k) :
    mapFind (mapSet m k v) j = mapFind m j := by
  induction m with
  | nil => simp [mapSet, mapFind, h.symm]
  | cons x rest ih =>
    rcases x with ⟨k', x⟩
    unfold mapSet
    split
    · simp [mapFind, h.symm]
    · split
      · rename_i h1 h2
        subst h2
        simp [mapFind, h.symm]
      · rename_i h1 h2
        by_cases hj : k' = j
        · simp [mapFind, hj]
        · simp [mapFind, hj, ih]

theorem containerAt_set_self (g : Game) (k : Int) (v : Option Container) :
    containerAt { g with m_containers := mapSet g.m_containers k v } k = v := by
  simp [containerAt, mapFind_mapSet_self]

theorem containerAt_set_ne (g : Game) (k j : Int) (v : Option Container) (h : j ≠ k) :
    containerAt { g with m_containers := mapSet g.m_containers k v } j = containerAt g j := by
  simp [containerAt, mapFind_mapSet_ne _ _ _ _ h]

/-- Reading `m_containers[id]` returns the container the registry holds there and
changes no slot: at most a null entry is inserted. -/
theorem containersIndex_spec (id : Int) (g : Game) :
    (containersIndex id g).1 = containerAt g id
    ∧ (∀ j, containerAt (containersIndex id g).2 j = containerAt g j)
    ∧ mapFind (containersIndex id g).2.m_containers id = some (containerAt g id)
    ∧ ∃ m, (containersIndex id g).2 = { g with m_containers := m } := by
  unfold containersIndex
  cases hf : mapFind g.m_containers id with
  | some c =>
    refine ⟨by simp [containerAt, hf], fun j => rfl, by simp [containerAt, hf], ⟨g.m_containers, rfl⟩⟩
  | none =>
    refine ⟨by simp [containerAt, hf], fun j => ?_, ?_, ⟨_, rfl⟩⟩
    · by_cases hj : j = id
      · subst hj
        simp [containerAt, mapFind_mapSet_self, hf]
      · simp [containerAt, mapFind_mapSet_ne _ _ _ _ hj]
    · simp [containerAt, hf, mapFind_mapSet_self]

theorem getContainer_spec (id : Int) (w : World) :
    (getContainer id w).1 = containerAt w.game id
    ∧ (∀ j, containerAt (getContainer id w).2.game j = containerAt w.game j)
    ∧ mapFind (getContainer id w).2.game.m_containers id = some (containerAt w.game id)
    ∧ (getContainer id w).2.out = w.out
    ∧ ∃ m, (getContainer id w).2.game = { w.game with m_containers := m } := by
  obtain ⟨h1, h2, h3, h4⟩ := containersIndex_spec id w.game
  exact ⟨h1, h2, h3, rfl, h4⟩

/-- The world after `processOpenContainer`, in terms of the previous occupant. -/
theorem processOpenContainer_eq (N : Int) (item : Option Item) (name : String) (capacity : Int)
    (hasParent : Bool) (items : List (Option Item)) (w : World) :
    ∃ g1 : Game, (∀ j, containerAt g1 j = containerAt w.game j)
      ∧ (∃ m, g1 = { w.game with m_containers := m })
      ∧ processOpenContainer N item name capacity hasParent items w =
        { game := { g1 with
            m_containers := mapSet g1.m_containers N
              (some { id := N, capacity := capacity, name := name, containerItem := item,
                      hasParent := hasParent, items := items }),
            m_denyBotCall := true },
          out := w.out ++
            (match containerAt w.game N with
             | some P =>
               [.containerOnOpen
                  { id := N, capacity := capacity, name := name, containerItem := item,
                    hasParent := hasParent, items := items } (some P),
                .containerOnClose P]
             | none =>
               [.containerOnOpen
                  { id := N, capacity := capacity, name := name, containerItem := item,
                    hasParent := hasParent, items := items } none]) } := by
  obtain ⟨h1, h2, _, h4, h5⟩ := getContainer_spec N w
  refine ⟨(getContainer N w).2.game, h2, h5, ?_⟩
  unfold processOpenContainer
  rcases hg : getContainer N w with ⟨prev, w1⟩
  rw [hg] at h1 h4
  simp only at h1 h4
  subst h1
  cases hc : containerAt w.game N <;>
    simp [hc, enableBotCall, disableBotCall, Container.onAddItems, h4, emit]

/-- C14: `processOpenContainer(N, item, name, capacity, hasParent, items)` stores
at id N the new container C (id N, the given capacity, name, item and hasParent,
contents = items in order) and leaves every other id as it was. When a container P
occupied N the trace grows by C's open notification carrying P followed by P's
close notification; when N was unoccupied it grows by C's open notification with
no previous occupant and no close notification. -/
theorem processOpenContainer_spec (N : Int) (item : Option Item) (name : String)
    (capacity : Int) (hasParent : Bool) (items : List (Option Item)) (w : World) :
    containerAt (processOpenContainer N item name capacity hasParent items w).game N =
        some { id := N, capacity := capacity, name := name, containerItem := item,
               hasParent := hasParent, items := items }
    ∧ (∀ j, j ≠ N →
        containerAt (processOpenContainer N item name capacity hasParent items w).game j =
          containerAt w.game j)
    ∧ (∀ P, containerAt w.game N = some P →
        (processOpenContainer N item name capacity hasParent items w).out = w.out ++
          [.containerOnOpen
             { id := N, capacity := capacity, name := name, containerItem := item,
               hasParent := hasParent, items := items } (some P),
           .containerOnClose P])
    ∧ (containerAt w.game N = none →
        (processOpenContainer N item name capacity hasParent items w).out = w.out ++
          [.containerOnOpen
             { id := N, capacity := capacity, name := name, containerItem := item,
               hasParent := hasParent, items := items } none]) := by
  obtain ⟨g1, h1, _, he⟩ := processOpenContainer_eq N item name capacity hasParent items w
  rw [he]
  refine ⟨?_, ?_, ?_, ?_⟩
  · simp [containerAt, mapFind_mapSet_self]
  · intro j hj
    rw [← h1 j]
    simp [containerAt, mapFind_mapSet_ne _ _ _ _ hj]
  · intro P hP
    simp [hP]
  · intro hn
    simp [hn]

/-- C14, on the running game whose id 0 holds the backpack: opening a pouch at id 0
stores the pouch there, notifies its opening with the backpack as previous
occupant, then closes the backpack. -/
theorem processOpenContainer_spec_witness :
    containerAt playingWithBackpack.game 0 = some backpack
    ∧ (processOpenContainer 0 none "pouch" 8 true [] playingWithBackpack).out =
        playingWithBackpack.out ++
          [.containerOnOpen
             { id := 0, capacity := 8, name := "pouch", containerItem := none,
               hasParent := true, items := [] } (some backpack),
           .containerOnClose backpack] :=
  ⟨by decide,
    (processOpenContainer_spec 0 none "pouch" 8 true [] playingWithBackpack).2.2.1 backpack
      (by decide)⟩

/-- The world after `processCloseContainer` on an occupied id. -/
theorem processCloseContainer_occupied {id : Int} {w : World} {K : Container}
    (hK : containerAt w.game id = some K) :
    ∃ g1 : Game, (∀ j, containerAt g1 j = containerAt w.game j)
      ∧ (∃ m, g1 = { w.game with m_containers := m })
      ∧ processCloseContainer id w =
        { game := { g1 with m_containers := mapSet g1.m_containers id none },
          out := w.out ++ [.containerOnClose K] } := by
  obtain ⟨h1, h2, _, h4, h5⟩ := getContainer_spec id w
  refine ⟨(getContainer id w).2.game, h2, h5, ?_⟩
  unfold processCloseContainer
  rcases hg : getContainer id w with ⟨prev, w1⟩
  rw [hg] at h1 h4
  simp only at h1 h4
  rw [hK] at h1
  subst h1
  simp [h4, emit]

/-- The world after one of the four container events on an id that holds no
container: the lookup, then the error log. -/
theorem processCloseContainer_absent {id : Int} {w : World}
    (h : containerAt w.game id = none) :
    processCloseContainer id w = emit (.log "container not found") (getContainer id w).2 := by
  have h1 := (getContainer_spec id w).1
  unfold processCloseContainer
  rcases hg : getContainer id w with ⟨prev, w1⟩
  rw [hg, h] at h1
  simp only at h1
  subst h1
  rfl

theorem processContainerAddItem_absent {id : Int} {item : Option Item} {w : World}
    (h : containerAt w.game id = none) :
    processContainerAddItem id item w =
      emit (.log "container not found") (getContainer id w).2 := by
  have h1 := (getContainer_spec id w).1
  unfold processContainerAddItem
  rcases hg : getContainer id w with ⟨prev, w1⟩
  rw [hg, h] at h1
  simp only at h1
  subst h1
  rfl

theorem processContainerUpdateItem_absent {id slot : Int} {item : Option Item} {w : World}
    (h : containerAt w.game id = none) :
    processContainerUpdateItem id slot item w =
      emit (.log "container not found") (getContainer id w).2 := by
  have h1 := (getContainer_spec id w).1
  unfold processContainerUpdateItem
  rcases hg : getContainer id w with ⟨prev, w1⟩
  rw [hg, h] at h1
  simp only at h1
  subst h1
  rfl

theorem processContainerRemoveItem_absent {id slot : Int} {w : World}
    (h : containerAt w.game id = none) :
    processContainerRemoveItem id slot w =
      emit (.log "container not found") (getContainer id w).2 := by
  have h1 := (getContainer_spec id w).1
  unfold processContainerRemoveItem
  rcases hg : getContainer id w with ⟨prev, w1⟩
  rw [hg, h] at h1
  simp only at h1
  subst h1
  rfl

/-- What the lookup followed by the error log leaves behind. -/
theorem notFound_spec (id : Int) (w : World) :
    (∀ j, containerAt (emit (.log "container not found") (getContainer id w).2).game j =
        containerAt w.game j)
    ∧ (emit (.log "container not found") (getContainer id w).2).out =
        w.out ++ [.log "container not found"]
    ∧ ∃ m, (emit (.log "container not found") (getContainer id w).2).game =
        { w.game with m_containers := m } := by
  obtain ⟨_, h2, _, h4, h5⟩ := getContainer_spec id w
  exact ⟨h2, by simp [h4], h5⟩

/-- C15: `processCloseContainer(id)` on an id occupied by a container K clears that
slot and no other (the registry holds no container at id afterwards, every other id
holds what it held), and the trace grows by exactly one close notification, to K; a
second `processCloseContainer(id)` right afterwards finds no container: it leaves
the session as it is and only logs "container not found". -/
theorem processCloseContainer_spec (id : Int) (w : World) (K : Container)
    (hK : containerAt w.game id = some K) :
    containerAt (processCloseContainer id w).game id = none
    ∧ (∀ j, j ≠ id → containerAt (processCloseContainer id w).game j = containerAt w.game j)
    ∧ (processCloseContainer id w).out = w.out ++ [.containerOnClose K]
    ∧ (processCloseContainer id (processCloseContainer id w)).game =
        (processCloseContainer id w).game
    ∧ (processCloseContainer id (processCloseContainer id w)).out =
        (processCloseContainer id w).out ++ [.log "container not found"] := by
  obtain ⟨g1, h1, _, he⟩ := processCloseContainer_occupied hK
  have hnone : containerAt (processCloseContainer id w).game id = none := by
    rw [he]; simp [containerAt, mapFind_mapSet_self]
  refine ⟨hnone, ?_, by rw [he], ?_, ?_⟩
  · intro j hj
    rw [he, ← h1 j]
    simp [containerAt, mapFind_mapSet_ne _ _ _ _ hj]
  · rw [processCloseContainer_absent hnone]
    have hf : mapFind (processCloseContainer id w).game.m_containers id = some none := by
      rw [he]; simp [mapFind_mapSet_self]
    simp [getContainer, containersIndex, hf]
  · rw [processCloseContainer_absent hnone]
    exact (notFound_spec id _).2.1

/-- C15, on the running game whose id 0 holds the backpack. -/
theorem processCloseContainer_spec_witness :
    containerAt playingWithBackpack.game 0 = some backpack
    ∧ containerAt (processCloseContainer 0 playingWithBackpack).game 0 = none
    ∧ (processCloseContainer 0 playingWithBackpack).out =
        playingWithBackpack.out ++ [.containerOnClose backpack] :=
  ⟨by decide, (processCloseContainer_spec 0 playingWithBackpack backpack (by decide)).1,
    (processCloseContainer_spec 0 playingWithBackpack backpack (by decide)).2.2.1⟩

/-- C16: on an id at which the registry holds no container, `processCloseContainer`,
`processContainerAddItem`, `processContainerUpdateItem` and
`processContainerRemoveItem` return normally, every id holds the container (with the
contents) it held before, every other member of the session is unchanged, and the
trace grows by the "container not found" log only: no container is notified. -/
theorem container_event_dropped (env : Env) (id : Int) (w : World)
    (h : containerAt w.game id = none) (op : Op)
    (hop : op = .processCloseContainer id ∨ (∃ item, op = .processContainerAddItem id item)
      ∨ (∃ slot item, op = .processContainerUpdateItem id slot item)
      ∨ (∃ slot, op = .processContainerRemoveItem id slot)) :
    ∃ w', step env op w = .ok w'
      ∧ (∀ j, containerAt w'.game j = containerAt w.game j)
      ∧ (∃ m, w'.game = { w.game with m_containers := m })
      ∧ w'.out = w.out ++ [.log "container not found"]
      ∧ containerNotifications w'.out = containerNotifications w.out := by
  have key : ∀ w', w' = emit (.log "container not found") (getContainer id w).2 →
      (∀ j, containerAt w'.game j = containerAt w.game j)
      ∧ (∃ m, w'.game = { w.game with m_containers := m })
      ∧ w'.out = w.out ++ [.log "container not found"]
      ∧ containerNotifications w'.out = containerNotifications w.out := by
    intro w' hw'
    subst hw'
    obtain ⟨h1, h2, h3⟩ := notFound_spec id w
    refine ⟨h1, h3, h2, ?_⟩
    rw [h2]
    simp [containerNotifications]
  rcases hop with rfl | ⟨item, rfl⟩ | ⟨slot, item, rfl⟩ | ⟨slot, rfl⟩
  · exact ⟨_, rfl, key _ (processCloseContainer_absent h)⟩
  · exact ⟨_, rfl, key _ (processContainerAddItem_absent h)⟩
  · exact ⟨_, rfl, key _ (processContainerUpdateItem_absent h)⟩
  · exact ⟨_, rfl, key _ (processContainerRemoveItem_absent h)⟩

/-- C16, on the running game whose only container is at id 0: an add-item event for
id 7 is dropped. -/
theorem container_event_dropped_witness :
    containerAt playingWithBackpack.game 7 = none
    ∧ ∃ w', step envPlain (.processContainerAddItem 7 none) playingWithBackpack = .ok w'
        ∧ (∀ j, containerAt w'.game j = containerAt playingWithBackpack.game j)
        ∧ w'.out = playingWithBackpack.out ++ [.log "container not found"] :=
  ⟨by decide,
    let ⟨w', h1, h2, _, h4, _⟩ :=
      container_event_dropped envPlain 7 playingWithBackpack (by decide)
        (.processContainerAddItem 7 none) (Or.inr (Or.inl ⟨none, rfl⟩))
    ⟨w', h1, h2, h4⟩⟩

/-! ## The free-id scan -/

theorem mapFind_isSome_mem {α : Type} {m : List (Int × α)} {k : Int}
    (h : (mapFind m k).isSome = true) : k ∈ m.map Prod.fst := by
  induction m with
  | nil => simp [mapFind] at h
  | cons x rest ih =>
    rcases x with ⟨k', x⟩
    unfold mapFind at h
    by_cases hk : k' = k
    · simp [hk]
    · simp only [hk, if_false] at h
      simp [ih h]

/-- When every id below `k` is in the map, the map has at least `k` entries. -/
theorem occupied_prefix_le_length {α : Type} (m : List (Int × α)) (k : Nat)
    (h : ∀ i : Nat, i < k → (mapFind m (i : Int)).isSome = true) : k ≤ m.length := by
  have h1 : (Finset.range k).card ≤ (m.map Prod.fst).toFinset.card := by
    apply Finset.card_le_card_of_injOn (fun i : Nat => (i : Int))
    · intro i hi
      simp only [Finset.mem_range] at hi
      simp only [List.mem_toFinset]
      exact mapFind_isSome_mem (h i hi)
    · intro a _ b _ hab
      exact Int.ofNat.inj hab
  have h2 : (m.map Prod.fst).toFinset.card ≤ (m.map Prod.fst).length :=
    List.toFinset_card_le _
  simp only [Finset.card_range, List.length_map] at h1 h2
  omega

theorem containerAt_isSome_mapFind {g : Game} {i : Int}
    (h : (containerAt g i).isSome = true) : (mapFind g.m_containers i).isSome = true := by
  unfold containerAt at h
  cases hf : mapFind g.m_containers i with
  | none => simp [hf] at h
  | some c => rfl

/-- The loop of `findEmptyContainerId` started at id `k` with every id below `k`
occupied and enough fuel for the entries that are left. -/
theorem findEmptyContainerIdLoop_spec (g : Game) (fuel k : Nat)
    (hocc : ∀ i : Nat, i < k → (containerAt g (i : Int)).isSome = true)
    (hfuel : g.m_containers.length < k + fuel) :
    ∃ (r : Nat) (g' : Game), findEmptyContainerIdLoop fuel (k : Int) g = some ((r : Int), g')
      ∧ k ≤ r ∧ containerAt g (r : Int) = none
      ∧ (∀ i : Nat, i < r → (containerAt g (i : Int)).isSome = true)
      ∧ (∀ j, containerAt g' j = containerAt g j)
      ∧ ∃ m, g' = { g with m_containers := m } := by
  induction fuel generalizing k with
  | zero =>
    have := occupied_prefix_le_length g.m_containers k
      (fun i hi => containerAt_isSome_mapFind (hocc i hi))
    omega
  | succ n ih =>
    obtain ⟨h1, h2, _, h4⟩ := containersIndex_spec (k : Int) g
    unfold findEmptyContainerIdLoop
    rcases hci : containersIndex (k : Int) g with ⟨c, g1⟩
    rw [hci] at h1 h2 h4
    simp only at h1 h2 h4
    cases c with
    | none =>
      exact ⟨k, g1, rfl, le_refl k, h1.symm, hocc, h2, h4⟩
    | some c =>
      have hg1 : g1 = g := by
        unfold containersIndex at hci
        cases hf : mapFind g.m_containers (k : Int) with
        | none => simp [hf] at hci
        | some x => simp [hf] at hci; exact hci.2.symm
      subst hg1
      have hocc' : ∀ i : Nat, i < k + 1 → (containerAt g1 (i : Int)).isSome = true := by
        intro i hi
        by_cases hik : i = k
        · subst hik; rw [← h1]; rfl
        · exact hocc i (by omega)
      obtain ⟨r, g', hr, hkr, hnone, hall, hsame, hm⟩ := ih (k + 1) hocc' (by omega)
      refine ⟨r, g', ?_, by omega, hnone, hall, hsame, hm⟩
      simpa using hr

/-- C17: on every registry `findEmptyContainerId` terminates (the fuel given to the
loop is enough) and returns the least non-negative id that holds no container: the
returned slot is unoccupied, every id from 0 up to it is occupied, and no unoccupied
non-negative id is smaller. The call changes no slot (at most a null entry is
inserted at the returned id) and no other member. For containers at the ids 0, 1
and 3 it returns 2. -/
theorem findEmptyContainerId_spec (g : Game) :
    (∃ (r : Int) (g' : Game), findEmptyContainerId g = some (r, g')
      ∧ 0 ≤ r ∧ containerAt g r = none
      ∧ (∀ i : Int, 0 ≤ i → i < r → (containerAt g i).isSome = true)
      ∧ (∀ i : Int, 0 ≤ i → containerAt g i = none → r ≤ i)
      ∧ (∀ j, containerAt g' j = containerAt g j)
      ∧ ∃ m, g' = { g with m_containers := m })
    ∧ (findEmptyContainerId registry013).map Prod.fst = some 2 := by
  refine ⟨?_, by decide⟩
  obtain ⟨r, g', hr, _, hnone, hall, hsame, hm⟩ :=
    findEmptyContainerIdLoop_spec g (g.m_containers.length + 1) 0 (fun i hi => by omega)
      (by omega)
  have hall' : ∀ i : Int, 0 ≤ i → i < (r : Int) → (containerAt g i).isSome = true := by
    intro i h0 hi
    have := hall i.toNat (by omega)
    rwa [Int.toNat_of_nonneg h0] at this
  refine ⟨(r : Int), g', hr, by omega, hnone, hall', ?_, hsame, hm⟩
  intro i h0 hi
  by_contra hlt
  have := hall' i h0 (by omega)
  rw [hi] at this
  exact Bool.noConfusion this

/-! ## Version changes: failures and monotonicity -/

/-- The caller's view of `setClientVersionAt` is `setClientVersion`. -/
theorem setClientVersion_callerView (v : Int) (w : World) :
    callerView (setClientVersionAt v w) = setClientVersion v w := by
  unfold setClientVersionAt setClientVersion callerView
  repeat' split
  all_goals simp_all

/-- C11 (as amended): in every online session `setClientVersion(v)` fails with the
precondition error for every v different from the stored version; for v equal to
the stored version it returns at once, without failing and without changing
anything. -/
theorem setClientVersion_online (w : World) (v : Int) (hon : w.game.m_online = true) :
    (v ≠ w.game.m_clientVersion → setClientVersion v w = .error .changeVersionWhileOnline)
    ∧ (v = w.game.m_clientVersion → setClientVersion v w = .ok w) := by
  constructor
  · intro hne
    have hne' : ¬ w.game.m_clientVersion = v := fun e => hne e.symm
    unfold setClientVersion
    simp [hne', isOnline, hon]
  · intro he
    unfold setClientVersion
    simp [he]

/-- C11, on the running game (version 860): version 870 is refused with the
precondition error. -/
theorem setClientVersion_online_witness :
    playing.game.m_online = true
    ∧ setClientVersion 870 playing = .error .changeVersionWhileOnline :=
  ⟨by decide, (setClientVersion_online playing 870 (by decide)).1 (by decide)⟩

/-- C11 fails as stated: the running game is online, reachable, and its stored
version is 860; `setClientVersion(860)` does not fail, it returns with the session
as it was. -/
theorem setClientVersion_same_online_counterexample :
    Reachable playing ∧ playing.game.m_online = true
    ∧ setClientVersion 860 playing = .ok playing :=
  ⟨reachable_runOps envPlain _ Reachable.construct, by decide, rfl⟩

/-- C12: whenever `setClientVersion(v)` fails, the session is online or v is
unsupported, and at the point of the throw the world is the one the call was given:
the stored version, the feature set, every other member and the trace (so no
version-change notification) are unchanged. -/
theorem setClientVersion_failure_unchanged (v : Int) (w : World) (e : GameError)
    (h : setClientVersion v w = .error e) :
    (setClientVersionAt v w).2 = some e
    ∧ (setClientVersionAt v w).1 = w
    ∧ ((e = .changeVersionWhileOnline ∧ w.game.m_online = true)
        ∨ (e = .versionNotSupported v ∧ v ≠ 0 ∧ (v < 810 ∨ v > 961))) := by
  unfold setClientVersion at h
  unfold setClientVersionAt
  split at h
  · simp at h
  · split at h
    · rename_i h1 h2
      simp only [Except.error.injEq] at h
      subst h
      simp [h1, h2]
      exact h2
    · split at h
      · rename_i h1 h2 h3
        simp only [Except.error.injEq] at h
        subst h
        simp [h1, h2, h3]
      · simp at h

/-- C12, on the running game: the refused change to version 870 leaves the world
as it was. -/
theorem setClientVersion_failure_unchanged_witness :
    setClientVersion 870 playing = .error .changeVersionWhileOnline
    ∧ (setClientVersionAt 870 playing).1 = playing :=
  ⟨rfl, (setClientVersion_failure_unchanged 870 playing .changeVersionWhileOnline rfl).2.1⟩

/-- What a returning call of `setClientVersion` leaves: the world it was given, or
the version stored and the feature set of the table. -/
theorem setClientVersion_result {v : Int} {w w' : World} (h : setClientVersion v w = .ok w') :
    (w' = w ∧ w.game.m_clientVersion = v)
    ∨ (w'.game.m_clientVersion = v ∧ ∀ f, w'.game.m_features f = thresholdTable v f) := by
  unfold setClientVersion at h
  split at h
  · rename_i he
    simp at h; subst h; exact Or.inl ⟨rfl, he⟩
  · split at h
    · simp at h
    · split at h
      · simp at h
      · simp only [Except.ok.injEq] at h
        subst h
        exact Or.inr ⟨rfl, fun f => applyVersionFeatures_table v w.game f⟩

/-- In every reachable state with a version set, the feature set is the one the
table gives for the stored version. -/
theorem reachable_features {w : World} (h : Reachable w) :
    w.game.m_clientVersion ≠ 0 →
      ∀ f, w.game.m_features f = thresholdTable w.game.m_clientVersion f := by
  induction h with
  | construct => intro h; exact absurd rfl h
  | step env op _ hs ih =>
    rcases step_version_features hs with ⟨hv, hf⟩ | ⟨v, rfl⟩
    · rw [hv, hf]; exact ih
    · simp only [step] at hs
      rcases setClientVersion_result hs with ⟨rfl, _⟩ | ⟨h1, h2⟩
      · exact ih
      · intro _ f
        rw [h1]; exact h2 f

/-- The feature set after a returning `setClientVersion(v)`, v in the supported
range, in a reachable state. -/
theorem setClientVersion_reachable_features {v : Int} {w w' : World} (hr : Reachable w)
    (hv : 810 ≤ v) (h : setClientVersion v w = .ok w') :
    ∀ f, w'.game.m_features f = thresholdTable v f := by
  rcases setClientVersion_result h with ⟨rfl, he⟩ | ⟨_, h2⟩
  · intro f
    have := reachable_features hr (by omega) f
    rw [he] at this
    exact this
  · exact h2

/-- Every threshold of the table but the one of chargeable-items is a lower bound. -/
theorem thresholdTable_mono {v w : Int} (hvw : v ≤ w) {f : GameFeature}
    (hf : f ≠ .GameChargeableItems) (h : thresholdTable v f = true) :
    thresholdTable w f = true := by
  cases f <;> simp [thresholdTable] at h hf ⊢ <;> omega

/-- C13 (as amended): for all accepted versions v <= w in [810, 961] and reachable
states, every flag other than chargeable-items that is enabled after
`setClientVersion(v)` is also enabled after `setClientVersion(w)`; chargeable-items
is enabled after `setClientVersion(v)` exactly when v = 810. -/
theorem version_features_monotone (a b a' b' : World) (v w : Int)
    (ha : Reachable a) (hb : Reachable b) (hv : 810 ≤ v) (hvw : v ≤ w) (hw : w ≤ 961)
    (h1 : setClientVersion v a = .ok a') (h2 : setClientVersion w b = .ok b') :
    (∀ f, f ≠ .GameChargeableItems →
      a'.game.m_features f = true → b'.game.m_features f = true)
    ∧ (a'.game.m_features .GameChargeableItems = true ↔ v = 810) := by
  have fa := setClientVersion_reachable_features ha hv h1
  have fb := setClientVersion_reachable_features hb (by omega) h2
  constructor
  · intro f hf hfa
    rw [fb f]
    rw [fa f] at hfa
    exact thresholdTable_mono hvw hf hfa
  · rw [fa]
    simp only [thresholdTable, decide_eq_true_eq]
    omega

/-- C13, on the fresh client: the flags of version 860 other than chargeable-items
are all enabled at version 960. -/
theorem version_features_monotone_witness :
    setClientVersion 860 construct = .ok versionSet
    ∧ setClientVersion 960 construct = .ok (runOps envPlain [.setClientVersion 960] construct)
    ∧ ∀ f, f ≠ .GameChargeableItems →
        versionSet.game.m_features f = true →
          (runOps envPlain [.setClientVersion 960] construct).game.m_features f = true :=
  ⟨rfl, rfl,
    (version_features_monotone construct construct versionSet
      (runOps envPlain [.setClientVersion 960] construct) 860 960 Reachable.construct
      Reachable.construct (by decide) (by decide) (by decide) rfl rfl).1⟩

/-- C13 fails as stated: 810 and 811 are accepted versions with 810 <= 811, the
chargeable-items flag is enabled after `setClientVersion(810)` and not enabled after
`setClientVersion(811)`, on the fresh client. -/
theorem chargeable_not_monotone_counterexample :
    ∃ a' b', setClientVersion 810 construct = .ok a' ∧ setClientVersion 811 construct = .ok b'
      ∧ a'.game.m_features .GameChargeableItems = true
      ∧ b'.game.m_features .GameChargeableItems = false :=
  ⟨_, _, rfl, rfl, by decide, by decide⟩

/-! ## Logging in -/

/-- The caller's view of `loginWorldAt` is `loginWorld`. -/
theorem loginWorld_callerView (o : Nat) (a p wn wh : String) (port : Int) (cn : String)
    (w : World) :
    callerView (loginWorldAt o a p wn wh port cn w) = loginWorld o a p wn wh port cn w := by
  unfold loginWorldAt loginWorld callerView
  repeat' split
  all_goals simp_all

theorem loginRequests_closeEffects (l : List (Int × Option Container)) :
    loginRequests (closeEffects l) = [] := by
  induction l with
  | nil => rfl
  | cons x rest ih =>
    rcases x with ⟨k, c⟩
    cases c with
    | none => simpa [closeEffects, loginRequests] using ih
    | some c =>
      simp only [closeEffects, loginRequests, List.filterMap_cons, Option.map_some',
        List.filter_cons] at ih ⊢
      simpa using ih

theorem loginRequests_cancelEffects (e : Option ScheduledEvent) :
    loginRequests (cancelEffects e) = [] := by
  cases e <;> rfl

theorem loginRequests_append (a b : List Effect) :
    loginRequests (a ++ b) = loginRequests a ++ loginRequests b := by
  simp [loginRequests]

/-- The trace of a returning `loginWorld`. -/
theorem loginWorld_out {o : Nat} {a p wn wh : String} {port : Int} {cn : String} {w w' : World}
    (h : loginWorld o a p wn wh port cn w = .ok w') :
    w'.out = w.out ++ (closeEffects w.game.m_containers ++ cancelEffects w.game.m_pingEvent
      ++ [.protocolLogin a p wh (port % 65536).toNat cn]) := by
  unfold loginWorld at h
  split at h
  · simp at h
  · split at h
    · simp at h
    · simp only [Except.ok.injEq] at h
      subst h
      simp [resetGameStates_out]

/-- C18: `loginWorld` fails if and only if a transport handle already exists, or the
session is online, or the stored version is 0; and whenever it fails, the world at
the point of the throw is the one the call was given (members and trace: no reset,
no local player, no handle, names unchanged, nothing sent). -/
theorem loginWorld_fails_iff (o : Nat) (a p wn wh : String) (port : Int) (cn : String)
    (w : World) :
    ((∃ e, loginWorld o a p wn wh port cn w = .error e) ↔
      (w.game.m_protocolGame.isSome = true ∨ w.game.m_online = true
        ∨ w.game.m_clientVersion = 0))
    ∧ (∀ e, loginWorld o a p wn wh port cn w = .error e →
        (loginWorldAt o a p wn wh port cn w).2 = some e
        ∧ (loginWorldAt o a p wn wh port cn w).1 = w) := by
  by_cases h1 : (w.game.m_protocolGame.isSome || w.game.m_online) = true
  · have e1 : loginWorld o a p wn wh port cn w = .error .loginWhileOnlineOrLogging := by
      simp only [loginWorld, isOnline, h1, if_true]
    have e2 : loginWorldAt o a p wn wh port cn w = (w, some .loginWhileOnlineOrLogging) := by
      simp only [loginWorldAt, isOnline, h1, if_true]
    rw [e1, e2]
    refine ⟨⟨fun _ => ?_, fun _ => ⟨_, rfl⟩⟩, ?_⟩
    · simp only [Bool.or_eq_true] at h1
      rcases h1 with h | h
      · exact Or.inl h
      · exact Or.inr (Or.inl h)
    · intro e he
      simp only [Except.error.injEq] at he
      subst he
      exact ⟨rfl, rfl⟩
  · by_cases h2 : w.game.m_clientVersion = 0
    · have e1 : loginWorld o a p wn wh port cn w = .error .versionNotSet := by
        simp only [loginWorld, isOnline, h1, h2, if_true]
        rfl
      have e2 : loginWorldAt o a p wn wh port cn w = (w, some .versionNotSet) := by
        simp only [loginWorldAt, isOnline, h1, h2, if_true]
        rfl
      rw [e1, e2]
      refine ⟨⟨fun _ => Or.inr (Or.inr h2), fun _ => ⟨_, rfl⟩⟩, ?_⟩
      intro e he
      simp only [Except.error.injEq] at he
      subst he
      exact ⟨rfl, rfl⟩
    · have e1 : ∃ w', loginWorld o a p wn wh port cn w = .ok w' := by
        simp only [loginWorld, isOnline, h1, h2, if_false]
        exact ⟨_, rfl⟩
      rcases e1 with ⟨w', e1⟩
      rw [e1]
      simp only [Bool.or_eq_true, not_or] at h1
      refine ⟨⟨fun ⟨e, he⟩ => by simp at he, fun h => ?_⟩, ?_⟩
      · rcases h with h | h | h
        · exact absurd h h1.1
        · exact absurd h h1.2
        · exact absurd h h2
      · intro e he
        simp at he

/-- The three refusals of `loginWorld`, with the session untouched: a handle
already open, the game running, no version set. -/
theorem loginWorld_fails_iff_witness :
    (∃ e, loginWorld 1 "acc" "pw" "World" "host" 7172 "Knight" playing = .error e)
    ∧ (loginWorldAt 1 "acc" "pw" "World" "host" 7172 "Knight" playing).1 = playing
    ∧ (∃ e, loginWorld 1 "acc" "pw" "World" "host" 7172 "Knight" construct = .error e) :=
  ⟨((loginWorld_fails_iff 1 "acc" "pw" "World" "host" 7172 "Knight" playing).1).2
      (Or.inr (Or.inl (by decide))),
    ((loginWorld_fails_iff 1 "acc" "pw" "World" "host" 7172 "Knight" playing).2
      .loginWhileOnlineOrLogging rfl).2,
    ((loginWorld_fails_iff 1 "acc" "pw" "World" "host" 7172 "Knight" construct).1).2
      (Or.inr (Or.inr (by decide)))⟩

/-- C19: when `loginWorld(account, password, worldName, host, port, characterName)`
returns, a transport handle exists, not connected; the call handed out exactly one
login request, to that handle, with the credentials, the host, the port as uint16
and the character name; a local player named characterName exists; the world and
character names are recorded; online and dead are false; every other member holds
its reset default; and the stored version and feature flags are unchanged. -/
theorem loginWorld_success (o : Nat) (a p wn wh : String) (port : Int) (cn : String)
    (w w' : World) (h : loginWorld o a p wn wh port cn w = .ok w') :
    w'.game =
      { m_localPlayer := some { obj := o, name := cn },
        m_attackingCreature := none, m_followingCreature := none,
        m_protocolGame := some { connected := false },
        m_containers := [], m_vips := [], m_online := false, m_denyBotCall := false,
        m_dead := false, m_serverBeat := 50, m_seq := 0, m_ping := -1,
        m_fightMode := FightModes.FightBalanced, m_chaseMode := ChaseModes.DontChase,
        m_safeFight := true, m_canReportBugs := false, m_gmActions := [],
        m_characterName := cn, m_worldName := wn,
        m_features := w.game.m_features, m_pingEvent := none,
        m_clientVersion := w.game.m_clientVersion }
    ∧ isOnline w'.game = false
    ∧ (∃ effs, w'.out = w.out ++ effs
        ∧ loginRequests effs = [.protocolLogin a p wh (port % 65536).toNat cn]) := by
  refine ⟨?_, ?_, ?_⟩
  · rw [(loginWorld_game h).2.2.2]
    rfl
  · rw [isOnline, (loginWorld_game h).2.2.2]
    rfl
  · refine ⟨_, loginWorld_out h, ?_⟩
    rw [loginRequests_append, loginRequests_append, loginRequests_closeEffects,
      loginRequests_cancelEffects]
    rfl

/-- C19, on the client with version 860 set: logging in leaves a session that is
not online, with the handle open and the names recorded. -/
theorem loginWorld_success_witness :
    ∃ w', loginWorld 1 "acc" "pw" "World" "host" 7172 "Knight" versionSet = .ok w'
      ∧ isOnline w'.game = false
      ∧ w'.game.m_protocolGame = some { connected := false }
      ∧ w'.game.m_characterName = "Knight" ∧ w'.game.m_worldName = "World"
      ∧ w'.game.m_clientVersion = 860 :=
  ⟨runOps envPlain [.loginWorld 1 "acc" "pw" "World" "host" 7172 "Knight"] versionSet, rfl,
    (loginWorld_success 1 "acc" "pw" "World" "host" 7172 "Knight" versionSet _ rfl).2.1,
    rfl, rfl, rfl, rfl⟩

/-! ## Connection errors -/

theorem connectionErrors_closeEffects (l : List (Int × Option Container)) :
    connectionErrors (closeEffects l) = [] := by
  induction l with
  | nil => rfl
  | cons x rest ih =>
    rcases x with ⟨k, c⟩
    cases c with
    | none => simpa [closeEffects, connectionErrors] using ih
    | some c =>
      simp only [closeEffects, connectionErrors, List.filterMap_cons, Option.map_some',
        List.filter_cons] at ih ⊢
      simpa using ih

theorem connectionErrors_cancelEffects (e : Option ScheduledEvent) :
    connectionErrors (cancelEffects e) = [] := by
  cases e <;> rfl

theorem connectionErrors_append (a b : List Effect) :
    connectionErrors (a ++ b) = connectionErrors a ++ connectionErrors b := by
  simp [connectionErrors]

theorem connectionErrors_gameEndEffects (g : Game) :
    connectionErrors (gameEndEffects g) = [] := by
  unfold gameEndEffects
  rw [connectionErrors_append, connectionErrors_append, connectionErrors_append,
    connectionErrors_closeEffects, connectionErrors_cancelEffects]
  rfl

/-- The trace of `processGameEnd`. -/
theorem processGameEnd_out (w : World) :
    (processGameEnd w).out = w.out ++ gameEndEffects w.game := by
  simp [processGameEnd, gameEndEffects, resetGameStates_out]

/-- The trace of `processDisconnect` with a handle present. -/
theorem processDisconnect_out (w : World) (h : w.game.m_protocolGame.isSome = true) :
    (processDisconnect w).out =
      w.out ++ ((if w.game.m_online then gameEndEffects w.game else []) ++ [.protocolDisconnect]) := by
  obtain ⟨pg, hp⟩ := Option.isSome_iff_exists.mp h
  unfold processDisconnect isOnline
  cases hon : w.game.m_online
  · simp [hp]
  · have hg : w.game.gameEnd.m_protocolGame = some pg := hp
    simp [hg, processGameEnd_out]

/-- C20: `processConnectionError(ec)` with a transport handle present hands out no
connection-error notification when ec is the clean end-of-stream error and exactly
one, carrying the message and the code of ec, for every other ec; in both cases the
handle is told to disconnect and no handle is left. With no handle present the call
returns the world it was given. -/
theorem processConnectionError_spec (ec : ErrorCode) (w : World) :
    (w.game.m_protocolGame.isSome = true →
      (processConnectionError ec w).out =
        w.out ++ ((if ec.isEof then [] else [.lua "onConnectionError" [.str ec.message, .int ec.value]])
          ++ (if w.game.m_online then gameEndEffects w.game else [])
          ++ [.protocolDisconnect])
      ∧ (∃ effs, (processConnectionError ec w).out = w.out ++ effs
          ∧ connectionErrors effs =
            if ec.isEof then []
            else [.lua "onConnectionError" [.str ec.message, .int ec.value]])
      ∧ (processConnectionError ec w).game.m_protocolGame = none)
    ∧ (w.game.m_protocolGame = none → processConnectionError ec w = w) := by
  constructor
  · intro h
    obtain ⟨pg, hp⟩ := Option.isSome_iff_exists.mp h
    have hout : (processConnectionError ec w).out =
        w.out ++ ((if ec.isEof then [] else [.lua "onConnectionError" [.str ec.message, .int ec.value]])
          ++ (if w.game.m_online then gameEndEffects w.game else [])
          ++ [.protocolDisconnect]) := by
      unfold processConnectionError
      simp only [hp]
      cases he : ec.isEof
      · simp [processDisconnect_out _ (show (callGlobalField "onConnectionError"
          [.str ec.message, .int ec.value] w).game.m_protocolGame.isSome = true from h)]
      · simp [processDisconnect_out _ h]
    refine ⟨hout, ⟨_, hout, ?_⟩, ?_⟩
    · rw [connectionErrors_append, connectionErrors_append]
      have h2 : connectionErrors (if w.game.m_online then gameEndEffects w.game else []) = [] := by
        split
        · exact connectionErrors_gameEndEffects _
        · rfl
      rw [h2]
      cases he : ec.isEof <;> simp [connectionErrors]
    · rw [processConnectionError_game, h]
      simp [Game.disconnect]
  · intro h
    unfold processConnectionError
    simp [h]

/-- C20, on the running game: a connection reset is reported once, with its message
and code, and the handle is gone; a clean end of stream is not reported, and the
handle is gone. -/
theorem processConnectionError_spec_witness :
    connectionErrors ((processConnectionError connectionReset playing).out.drop playing.out.length)
      = [.lua "onConnectionError" [.str "Connection reset by peer", .int 104]]
    ∧ (processConnectionError connectionReset playing).game.m_protocolGame = none
    ∧ (processConnectionError endOfFile playing).game.m_protocolGame = none
    ∧ processConnectionError endOfFile construct = construct :=
  ⟨by
      rw [((processConnectionError_spec connectionReset playing).1 (by decide)).1]
      rw [List.drop_left]
      rw [connectionErrors_append, connectionErrors_append]
      rfl,
    ((processConnectionError_spec connectionReset playing).1 (by decide)).2.2,
    ((processConnectionError_spec endOfFile playing).1 (by decide)).2.2,
    (processConnectionError_spec endOfFile construct).2 rfl⟩

/-! ## The running game keeps its transport handle -/

/-- No operation leaves the session online without a transport handle, when it
did not find it so. -/
theorem step_online_handle {env : Env} {op : Op} {w w' : World} (h : step env op w = .ok w')
    (hx : w.game.m_online = true → w.game.m_protocolGame.isSome = true) :
    w'.game.m_online = true → w'.game.m_protocolGame.isSome = true := by
  cases op with
  | terminate =>
    simp only [step, Except.ok.injEq] at h
    subst h; simp only [terminate_game, Game.reset]
    all_goals first | exact hx | (intro ho; simp at ho; done) | (intro ho; simp_all; done) | (simp; done)
  | processConnectionError a0 =>
    simp only [step, Except.ok.injEq] at h
    subst h; simp only [processConnectionError_game, Game.disconnect, Game.gameEnd, Game.reset]
    split <;> try split
    all_goals first | exact hx | (intro ho; simp at ho; done) | (intro ho; simp_all; done) | (simp; done)
  | processDisconnect =>
    simp only [step, Except.ok.injEq] at h
    subst h; simp only [processDisconnect_game, Game.disconnect, Game.gameEnd, Game.reset]
    split
    all_goals first | exact hx | (intro ho; simp at ho; done) | (intro ho; simp_all; done) | (simp; done)
  | processLoginError a0 =>
    simp only [step, Except.ok.injEq] at h
    rw [← h]
    first | exact hx | (intro ho; simp at ho; done) | (intro ho; simp_all; done) | (simp; done)
  | processLoginAdvice a0 =>
    simp only [step, Except.ok.injEq] at h
    rw [← h]
    first | exact hx | (intro ho; simp at ho; done) | (intro ho; simp_all; done) | (simp; done)
  | processLoginWait a0 a1 =>
    simp only [step, Except.ok.injEq] at h
    rw [← h]
    first | exact hx | (intro ho; simp at ho; done) | (intro ho; simp_all; done) | (simp; done)
  | processGameStart =>
    simp only [step] at h
    rw [(processGameStart_game h).2]
    exact fun _ => (processGameStart_game h).1
  | processGameEnd =>
    simp only [step, Except.ok.injEq] at h
    subst h; simp only [processGameEnd_game, Game.gameEnd, Game.reset]
    all_goals first | exact hx | (intro ho; simp at ho; done) | (intro ho; simp_all; done) | (simp; done)
  | processDeath a0 =>
    simp only [step] at h
    rw [(processDeath_game h).2]
    all_goals first | exact hx | (intro ho; simp at ho; done) | (intro ho; simp_all; done) | (simp; done)
  | processGMActions a0 =>
    simp only [step, Except.ok.injEq] at h
    rw [← h]
    first | exact hx | (intro ho; simp at ho; done) | (intro ho; simp_all; done) | (simp; done)
  | processPing =>
    simp only [step, Except.ok.injEq] at h
    rw [← h]
    first | exact hx | (intro ho; simp at ho; done) | (intro ho; simp_all; done) | (simp; done)
  | processPingBack a0 =>
    simp only [step, Except.ok.injEq] at h
    rw [← h]
    first | exact hx | (intro ho; simp at ho; done) | (intro ho; simp_all; done) | (simp; done)
  | processForward a0 a1 =>
    simp only [step, Except.ok.injEq] at h
    rw [← h]
    first | exact hx | (intro ho; simp at ho; done) | (intro ho; simp_all; done) | (simp; done)
  | processOpenOutfitWindow a0 a1 a2 =>
    simp only [step, Except.ok.injEq] at h
    rw [← h]
    first | exact hx | (intro ho; simp at ho; done) | (intro ho; simp_all; done) | (simp; done)
  | processOpenContainer a0 a1 a2 a3 a4 a5 =>
    simp only [step, Except.ok.injEq] at h
    obtain ⟨m, hm⟩ := processOpenContainer_game a0 a1 a2 a3 a4 a5 w
    rw [← h, hm]
    all_goals first | exact hx | (intro ho; simp at ho; done) | (intro ho; simp_all; done) | (simp; done)
  | processCloseContainer a0 =>
    simp only [step, Except.ok.injEq] at h
    obtain ⟨m, hm⟩ := processCloseContainer_game a0 w
    rw [← h, hm]
    all_goals first | exact hx | (intro ho; simp at ho; done) | (intro ho; simp_all; done) | (simp; done)
  | processContainerAddItem a0 a1 =>
    simp only [step, Except.ok.injEq] at h
    obtain ⟨m, hm⟩ := processContainerAddItem_game a0 a1 w
    rw [← h, hm]
    all_goals first | exact hx | (intro ho; simp at ho; done) | (intro ho; simp_all; done) | (simp; done)
  | processContainerUpdateItem a0 a1 a2 =>
    simp only [step, Except.ok.injEq] at h
    obtain ⟨m, hm⟩ := processContainerUpdateItem_game a0 a1 a2 w
    rw [← h, hm]
    all_goals first | exact hx | (intro ho; simp at ho; done) | (intro ho; simp_all; done) | (simp; done)
  | processContainerRemoveItem a0 a1 =>
    simp only [step, Except.ok.injEq] at h
    obtain ⟨m, hm⟩ := processContainerRemoveItem_game a0 a1 w
    rw [← h, hm]
    all_goals first | exact hx | (intro ho; simp at ho; done) | (intro ho; simp_all; done) | (simp; done)
  | processInventoryChange a0 a1 =>
    simp only [step] at h
    rw [processInventoryChange_game h]
    all_goals first | exact hx | (intro ho; simp at ho; done) | (intro ho; simp_all; done) | (simp; done)
  | processVipAdd a0 a1 a2 =>
    simp only [step, Except.ok.injEq] at h
    rw [← h]
    first | exact hx | (intro ho; simp at ho; done) | (intro ho; simp_all; done) | (simp; done)
  | processVipStateChange a0 a1 =>
    simp only [step, Except.ok.injEq] at h
    obtain ⟨m, hm⟩ := processVipStateChange_game a0 a1 w
    rw [← h, hm]
    all_goals first | exact hx | (intro ho; simp at ho; done) | (intro ho; simp_all; done) | (simp; done)
  | processAttackCancel a0 =>
    simp only [step, Except.ok.injEq] at h
    obtain ⟨a, f, s, hm⟩ := processAttackCancel_frame env a0 w
    rw [← h, hm]
    all_goals first | exact hx | (intro ho; simp at ho; done) | (intro ho; simp_all; done) | (simp; done)
  | processWalkCancel a0 =>
    simp only [step] at h
    rw [processWalkCancel_game h]
    all_goals first | exact hx | (intro ho; simp at ho; done) | (intro ho; simp_all; done) | (simp; done)
  | loginWorld a0 a1 a2 a3 a4 a5 a6 =>
    simp only [step] at h
    rw [(loginWorld_game h).2.2.2]; simp only [Game.reset]
    all_goals first | exact hx | (intro ho; simp at ho; done) | (intro ho; simp_all; done) | (simp; done)
  | cancelLogin =>
    simp only [step, Except.ok.injEq] at h
    subst h; simp only [cancelLogin_game, Game.disconnect, Game.gameEnd, Game.reset]
    split
    all_goals first | exact hx | (intro ho; simp at ho; done) | (intro ho; simp_all; done) | (simp; done)
  | forceLogout =>
    simp only [step] at h
    rw [forceLogout_game h]; simp only [Game.disconnect, Game.gameEnd, Game.reset]
    split <;> try split
    all_goals first | exact hx | (intro ho; simp at ho; done) | (intro ho; simp_all; done) | (simp; done)
  | safeLogout =>
    simp only [step] at h
    rw [safeLogout_game h]
    all_goals first | exact hx | (intro ho; simp at ho; done) | (intro ho; simp_all; done) | (simp; done)
  | walk a0 =>
    simp only [step, Except.ok.injEq] at h
    subst h
    rcases walk_game env a0 w with e | e <;> rw [e]
    rotate_left
    · obtain ⟨a, f, s, hm⟩ := cancelFollow_frame env w
      rw [hm]
      first | exact hx | (intro ho; simp at ho; done) | (intro ho; simp_all; done) | (simp; done)
    · first | exact hx | (intro ho; simp at ho; done) | (intro ho; simp_all; done) | (simp; done)
  | autoWalk a0 =>
    simp only [step, Except.ok.injEq] at h
    subst h
    rcases autoWalk_game env a0 w with e | e <;> rw [e]
    rotate_left
    · obtain ⟨a, f, s, hm⟩ := cancelFollow_frame env w
      rw [hm]
      first | exact hx | (intro ho; simp at ho; done) | (intro ho; simp_all; done) | (simp; done)
    · first | exact hx | (intro ho; simp at ho; done) | (intro ho; simp_all; done) | (simp; done)
  | forceWalk a0 =>
    simp only [step, Except.ok.injEq] at h
    rw [← h, forceWalk_game]
    first | exact hx | (intro ho; simp at ho; done) | (intro ho; simp_all; done) | (simp; done)
  | turn a0 =>
    simp only [step, Except.ok.injEq] at h
    rw [← h, turn_game]
    first | exact hx | (intro ho; simp at ho; done) | (intro ho; simp_all; done) | (simp; done)
  | stop =>
    simp only [step, Except.ok.injEq] at h
    subst h
    rcases stop_game env w with e | e <;> rw [e]
    rotate_left
    · obtain ⟨a, f, s, hm⟩ := cancelFollow_frame env w
      rw [hm]
      first | exact hx | (intro ho; simp at ho; done) | (intro ho; simp_all; done) | (simp; done)
    · first | exact hx | (intro ho; simp at ho; done) | (intro ho; simp_all; done) | (simp; done)
  | look a0 =>
    simp only [step, Except.ok.injEq] at h
    rw [← h, look_game]
    first | exact hx | (intro ho; simp at ho; done) | (intro ho; simp_all; done) | (simp; done)
  | move a0 a1 a2 =>
    simp only [step, Except.ok.injEq] at h
    rw [← h, move_game]
    first | exact hx | (intro ho; simp at ho; done) | (intro ho; simp_all; done) | (simp; done)
  | moveToParentContainer a0 a1 =>
    simp only [step, Except.ok.injEq] at h
    rw [← h, moveToParentContainer_game]
    first | exact hx | (intro ho; simp at ho; done) | (intro ho; simp_all; done) | (simp; done)
  | rotate a0 =>
    simp only [step, Except.ok.injEq] at h
    rw [← h, rotate_game]
    first | exact hx | (intro ho; simp at ho; done) | (intro ho; simp_all; done) | (simp; done)
  | use a0 =>
    simp only [step] at h
    obtain ⟨m, hm⟩ := use_game h
    rw [hm]
    all_goals first | exact hx | (intro ho; simp at ho; done) | (intro ho; simp_all; done) | (simp; done)
  | useInventoryItem a0 =>
    simp only [step, Except.ok.injEq] at h
    rw [← h, useInventoryItem_game]
    first | exact hx | (intro ho; simp at ho; done) | (intro ho; simp_all; done) | (simp; done)
  | useWith a0 a1 =>
    simp only [step, Except.ok.injEq] at h
    rw [← h, useWith_game]
    first | exact hx | (intro ho; simp at ho; done) | (intro ho; simp_all; done) | (simp; done)
  | useInventoryItemWith a0 a1 =>
    simp only [step, Except.ok.injEq] at h
    rw [← h, useInventoryItemWith_game]
    first | exact hx | (intro ho; simp at ho; done) | (intro ho; simp_all; done) | (simp; done)
  | «open» a0 a1 =>
    simp only [step] at h
    obtain ⟨m, hm⟩ := open_game h
    rw [hm]
    all_goals first | exact hx | (intro ho; simp at ho; done) | (intro ho; simp_all; done) | (simp; done)
  | openParent a0 =>
    simp only [step, Except.ok.injEq] at h
    rw [← h, openParent_game]
    first | exact hx | (intro ho; simp at ho; done) | (intro ho; simp_all; done) | (simp; done)
  | close a0 =>
    simp only [step, Except.ok.injEq] at h
    rw [← h, close_game]
    first | exact hx | (intro ho; simp at ho; done) | (intro ho; simp_all; done) | (simp; done)
  | refreshContainer =>
    simp only [step, Except.ok.injEq] at h
    rw [← h, refreshContainer_game]
    first | exact hx | (intro ho; simp at ho; done) | (intro ho; simp_all; done) | (simp; done)
  | attack a0 =>
    simp only [step, Except.ok.injEq] at h
    obtain ⟨a, f, s, hm⟩ := attack_frame env a0 w
    rw [← h, hm]
    all_goals first | exact hx | (intro ho; simp at ho; done) | (intro ho; simp_all; done) | (simp; done)
  | cancelAttack =>
    simp only [step, Except.ok.injEq] at h
    obtain ⟨a, f, s, hm⟩ := cancelAttack_frame env w
    rw [← h, hm]
    all_goals first | exact hx | (intro ho; simp at ho; done) | (intro ho; simp_all; done) | (simp; done)
  | follow a0 =>
    simp only [step, Except.ok.injEq] at h
    obtain ⟨a, f, s, hm⟩ := follow_frame env a0 w
    rw [← h, hm]
    all_goals first | exact hx | (intro ho; simp at ho; done) | (intro ho; simp_all; done) | (simp; done)
  | cancelFollow =>
    simp only [step, Except.ok.injEq] at h
    obtain ⟨a, f, s, hm⟩ := cancelFollow_frame env w
    rw [← h, hm]
    all_goals first | exact hx | (intro ho; simp at ho; done) | (intro ho; simp_all; done) | (simp; done)
  | cancelAttackAndFollow =>
    simp only [step, Except.ok.injEq] at h
    rw [← h, cancelAttackAndFollow_game]
    first | exact hx | (intro ho; simp at ho; done) | (intro ho; simp_all; done) | (simp; done)
  | talk a0 a1 =>
    simp only [step, Except.ok.injEq] at h
    rw [← h, talk_game]
    first | exact hx | (intro ho; simp at ho; done) | (intro ho; simp_all; done) | (simp; done)
  | talkChannel a0 a1 a2 =>
    simp only [step, Except.ok.injEq] at h
    rw [← h, talkChannel_game]
    first | exact hx | (intro ho; simp at ho; done) | (intro ho; simp_all; done) | (simp; done)
  | talkPrivate a0 a1 a2 =>
    simp only [step, Except.ok.injEq] at h
    rw [← h, talkPrivate_game]
    first | exact hx | (intro ho; simp at ho; done) | (intro ho; simp_all; done) | (simp; done)
  | openPrivateChannel a0 =>
    simp only [step, Except.ok.injEq] at h
    rw [← h, openPrivateChannel_game]
    first | exact hx | (intro ho; simp at ho; done) | (intro ho; simp_all; done) | (simp; done)
  | requestChannels =>
    simp only [step, Except.ok.injEq] at h
    rw [← h, requestChannels_game]
    first | exact hx | (intro ho; simp at ho; done) | (intro ho; simp_all; done) | (simp; done)
  | joinChannel a0 =>
    simp only [step, Except.ok.injEq] at h
    rw [← h, joinChannel_game]
    first | exact hx | (intro ho; simp at ho; done) | (intro ho; simp_all; done) | (simp; done)
  | leaveChannel a0 =>
    simp only [step, Except.ok.injEq] at h
    rw [← h, leaveChannel_game]
    first | exact hx | (intro ho; simp at ho; done) | (intro ho; simp_all; done) | (simp; done)
  | closeNpcChannel =>
    simp only [step, Except.ok.injEq] at h
    rw [← h, closeNpcChannel_game]
    first | exact hx | (intro ho; simp at ho; done) | (intro ho; simp_all; done) | (simp; done)
  | openOwnChannel =>
    simp only [step, Except.ok.injEq] at h
    rw [← h, openOwnChannel_game]
    first | exact hx | (intro ho; simp at ho; done) | (intro ho; simp_all; done) | (simp; done)
  | inviteToOwnChannel a0 =>
    simp only [step, Except.ok.injEq] at h
    rw [← h, inviteToOwnChannel_game]
    first | exact hx | (intro ho; simp at ho; done) | (intro ho; simp_all; done) | (simp; done)
  | excludeFromOwnChannel a0 =>
    simp only [step, Except.ok.injEq] at h
    rw [← h, excludeFromOwnChannel_game]
    first | exact hx | (intro ho; simp at ho; done) | (intro ho; simp_all; done) | (simp; done)
  | partyInvite a0 =>
    simp only [step, Except.ok.injEq] at h
    rw [← h, partyInvite_game]
    first | exact hx | (intro ho; simp at ho; done) | (intro ho; simp_all; done) | (simp; done)
  | partyJoin a0 =>
    simp only [step, Except.ok.injEq] at h
    rw [← h, partyJoin_game]
    first | exact hx | (intro ho; simp at ho; done) | (intro ho; simp_all; done) | (simp; done)
  | partyRevokeInvitation a0 =>
    simp only [step, Except.ok.injEq] at h
    rw [← h, partyRevokeInvitation_game]
    first | exact hx | (intro ho; simp at ho; done) | (intro ho; simp_all; done) | (simp; done)
  | partyPassLeadership a0 =>
    simp only [step, Except.ok.injEq] at h
    rw [← h, partyPassLeadership_game]
    first | exact hx | (intro ho; simp at ho; done) | (intro ho; simp_all; done) | (simp; done)
  | partyLeave =>
    simp only [step, Except.ok.injEq] at h
    rw [← h, partyLeave_game]
    first | exact hx | (intro ho; simp at ho; done) | (intro ho; simp_all; done) | (simp; done)
  | partyShareExperience a0 =>
    simp only [step, Except.ok.injEq] at h
    rw [← h, partyShareExperience_game]
    first | exact hx | (intro ho; simp at ho; done) | (intro ho; simp_all; done) | (simp; done)
  | requestOutfit =>
    simp only [step, Except.ok.injEq] at h
    rw [← h, requestOutfit_game]
    first | exact hx | (intro ho; simp at ho; done) | (intro ho; simp_all; done) | (simp; done)
  | changeOutfit a0 =>
    simp only [step, Except.ok.injEq] at h
    rw [← h, changeOutfit_game]
    first | exact hx | (intro ho; simp at ho; done) | (intro ho; simp_all; done) | (simp; done)
  | addVip a0 =>
    simp only [step, Except.ok.injEq] at h
    rw [← h, addVip_game]
    first | exact hx | (intro ho; simp at ho; done) | (intro ho; simp_all; done) | (simp; done)
  | removeVip a0 =>
    simp only [step, Except.ok.injEq] at h
    rw [← h, removeVip_game]
    first | exact hx | (intro ho; simp at ho; done) | (intro ho; simp_all; done) | (simp; done)
  | setChaseMode a0 =>
    simp only [step, Except.ok.injEq] at h
    obtain ⟨m, hm⟩ := setChaseMode_game env a0 w
    rw [← h, hm]
    all_goals first | exact hx | (intro ho; simp at ho; done) | (intro ho; simp_all; done) | (simp; done)
  | setFightMode a0 =>
    simp only [step, Except.ok.injEq] at h
    obtain ⟨m, hm⟩ := setFightMode_game env a0 w
    rw [← h, hm]
    all_goals first | exact hx | (intro ho; simp at ho; done) | (intro ho; simp_all; done) | (simp; done)
  | setSafeFight a0 =>
    simp only [step, Except.ok.injEq] at h
    obtain ⟨m, hm⟩ := setSafeFight_game env a0 w
    rw [← h, hm]
    all_goals first | exact hx | (intro ho; simp at ho; done) | (intro ho; simp_all; done) | (simp; done)
  | inspectNpcTrade a0 =>
    simp only [step, Except.ok.injEq] at h
    rw [← h, inspectNpcTrade_game]
    first | exact hx | (intro ho; simp at ho; done) | (intro ho; simp_all; done) | (simp; done)
  | buyItem a0 a1 a2 a3 =>
    simp only [step, Except.ok.injEq] at h
    rw [← h, buyItem_game]
    first | exact hx | (intro ho; simp at ho; done) | (intro ho; simp_all; done) | (simp; done)
  | sellItem a0 a1 a2 =>
    simp only [step, Except.ok.injEq] at h
    rw [← h, sellItem_game]
    first | exact hx | (intro ho; simp at ho; done) | (intro ho; simp_all; done) | (simp; done)
  | closeNpcTrade =>
    simp only [step, Except.ok.injEq] at h
    rw [← h, closeNpcTrade_game]
    first | exact hx | (intro ho; simp at ho; done) | (intro ho; simp_all; done) | (simp; done)
  | requestTrade a0 a1 =>
    simp only [step, Except.ok.injEq] at h
    rw [← h, requestTrade_game]
    first | exact hx | (intro ho; simp at ho; done) | (intro ho; simp_all; done) | (simp; done)
  | inspectTrade a0 a1 =>
    simp only [step, Except.ok.injEq] at h
    rw [← h, inspectTrade_game]
    first | exact hx | (intro ho; simp at ho; done) | (intro ho; simp_all; done) | (simp; done)
  | acceptTrade =>
    simp only [step, Except.ok.injEq] at h
    rw [← h, acceptTrade_game]
    first | exact hx | (intro ho; simp at ho; done) | (intro ho; simp_all; done) | (simp; done)
  | rejectTrade =>
    simp only [step, Except.ok.injEq] at h
    rw [← h, rejectTrade_game]
    first | exact hx | (intro ho; simp at ho; done) | (intro ho; simp_all; done) | (simp; done)
  | editText a0 a1 =>
    simp only [step, Except.ok.injEq] at h
    rw [← h, editText_game]
    first | exact hx | (intro ho; simp at ho; done) | (intro ho; simp_all; done) | (simp; done)
  | editList a0 a1 a2 =>
    simp only [step, Except.ok.injEq] at h
    rw [← h, editList_game]
    first | exact hx | (intro ho; simp at ho; done) | (intro ho; simp_all; done) | (simp; done)
  | reportBug a0 =>
    simp only [step, Except.ok.injEq] at h
    rw [← h, reportBug_game]
    first | exact hx | (intro ho; simp at ho; done) | (intro ho; simp_all; done) | (simp; done)
  | reportRuleVilation a0 a1 a2 a3 a4 a5 a6 =>
    simp only [step, Except.ok.injEq] at h
    rw [← h, reportRuleVilation_game]
    first | exact hx | (intro ho; simp at ho; done) | (intro ho; simp_all; done) | (simp; done)
  | debugReport a0 a1 a2 a3 =>
    simp only [step] at h
    rw [debugReport_game h]
    all_goals first | exact hx | (intro ho; simp at ho; done) | (intro ho; simp_all; done) | (simp; done)
  | requestQuestLog =>
    simp only [step, Except.ok.injEq] at h
    rw [← h, requestQuestLog_game]
    first | exact hx | (intro ho; simp at ho; done) | (intro ho; simp_all; done) | (simp; done)
  | requestQuestLine a0 =>
    simp only [step, Except.ok.injEq] at h
    rw [← h, requestQuestLine_game]
    first | exact hx | (intro ho; simp at ho; done) | (intro ho; simp_all; done) | (simp; done)
  | equipItem a0 =>
    simp only [step] at h
    rw [equipItem_game h]
    all_goals first | exact hx | (intro ho; simp at ho; done) | (intro ho; simp_all; done) | (simp; done)
  | mount a0 =>
    simp only [step, Except.ok.injEq] at h
    rw [← h, mount_game]
    first | exact hx | (intro ho; simp at ho; done) | (intro ho; simp_all; done) | (simp; done)
  | requestItemInfo a0 a1 =>
    simp only [step] at h
    rw [requestItemInfo_game h]
    all_goals first | exact hx | (intro ho; simp at ho; done) | (intro ho; simp_all; done) | (simp; done)
  | ping =>
    simp only [step, Except.ok.injEq] at h
    obtain ⟨m, hm⟩ := ping_game w
    rw [← h, hm]
    all_goals first | exact hx | (intro ho; simp at ho; done) | (intro ho; simp_all; done) | (simp; done)
  | canPerformGameAction =>
    simp only [step, Except.ok.injEq] at h
    rw [← h, canPerformGameAction_game]
    all_goals first | exact hx | (intro ho; simp at ho; done) | (intro ho; simp_all; done) | (simp; done)
  | checkBotProtection =>
    simp only [step, Except.ok.injEq] at h
    rw [← h, checkBotProtection_game]
    all_goals first | exact hx | (intro ho; simp at ho; done) | (intro ho; simp_all; done) | (simp; done)
  | setClientVersion a0 =>
    simp only [step] at h
    obtain ⟨f, v, hm⟩ := setClientVersion_frame h
    rw [hm]; exact hx
  | pingEventCallback =>
    simp only [step, Except.ok.injEq] at h
    obtain ⟨m, hm⟩ := pingEventCallback_game w
    rw [← h, hm]
    all_goals first | exact hx | (intro ho; simp at ho; done) | (intro ho; simp_all; done) | (simp; done)
  | transportConnected =>
    simp only [step, Except.ok.injEq] at h
    rw [← h, transportConnected_game]
    intro ho
    have h1 := hx ho
    obtain ⟨p, hp⟩ := Option.isSome_iff_exists.mp h1
    simp [hp]
  | transportClosed =>
    simp only [step, Except.ok.injEq] at h
    rw [← h, transportClosed_game]
    intro ho
    have h1 := hx ho
    obtain ⟨p, hp⟩ := Option.isSome_iff_exists.mp h1
    simp [hp]
  | findEmptyContainerId =>
    obtain ⟨m, hm⟩ := findEmptyContainerId_op_game h
    rw [hm]; exact hx

/-- In every reachable state a running game holds a transport handle. -/
theorem reachable_online_handle {w : World} (h : Reachable w) :
    w.game.m_online = true → w.game.m_protocolGame.isSome = true := by
  induction h with
  | construct => intro ho; exact absurd ho (by decide)
  | step env op _ hs ih => exact step_online_handle hs ih

/-- C28: in every state reachable from construction through the operations of
`Game` (the game-start event with no handle is a null dereference, not a step),
online implies that a transport handle exists; hence `forceLogout` and
`safeLogout`, which check only `isOnline()`, return normally; and the two
functions that release the handle, `terminate` and `processDisconnect`, leave the
session not online. -/
theorem online_implies_handle (w : World) (hr : Reachable w) :
    (w.game.m_online = true → w.game.m_protocolGame.isSome = true)
    ∧ (∃ w', forceLogout w = .ok w') ∧ (∃ w', safeLogout w = .ok w')
    ∧ ((terminate w).game.m_protocolGame = none ∧ (terminate w).game.m_online = false)
    ∧ ((processDisconnect w).game.m_protocolGame = none
        ∧ (processDisconnect w).game.m_online = false) := by
  have hinv := reachable_online_handle hr
  refine ⟨hinv, ?_, ?_, ⟨by simp, by simp [Game.reset]⟩, ⟨by simp [Game.disconnect], ?_⟩⟩
  · unfold forceLogout isOnline
    cases ho : w.game.m_online
    · exact ⟨w, by simp⟩
    · obtain ⟨p, hp⟩ := Option.isSome_iff_exists.mp (hinv ho)
      simp [hp]
  · unfold safeLogout isOnline
    cases ho : w.game.m_online
    · exact ⟨w, by simp⟩
    · obtain ⟨p, hp⟩ := Option.isSome_iff_exists.mp (hinv ho)
      simp [hp]
  · rw [processDisconnect_game]
    cases ho : w.game.m_online <;> simp [Game.disconnect, Game.gameEnd, Game.reset, ho]

/-- C28, on the running game: it is online, it holds a handle, and both logouts
return normally. -/
theorem online_implies_handle_witness :
    playing.game.m_online = true ∧ playing.game.m_protocolGame.isSome = true
    ∧ (∃ w', forceLogout playing = .ok w') ∧ (∃ w', safeLogout playing = .ok w') :=
  ⟨by decide,
    (online_implies_handle playing (reachable_runOps envPlain _ Reachable.construct)).1 (by decide),
    (online_implies_handle playing (reachable_runOps envPlain _ Reachable.construct)).2.1,
    (online_implies_handle playing (reachable_runOps envPlain _ Reachable.construct)).2.2.1⟩

/-! ## Logging out -/

theorem sentCommands_append (a b : List Effect) :
    sentCommands (a ++ b) = sentCommands a ++ sentCommands b := by
  simp [sentCommands]

theorem sentCommands_closeEffects (l : List (Int × Option Container)) :
    sentCommands (closeEffects l) = [] := by
  induction l with
  | nil => rfl
  | cons x rest ih =>
    rcases x with ⟨k, c⟩
    cases c with
    | none => simpa [closeEffects, sentCommands] using ih
    | some c =>
      simp only [closeEffects, sentCommands, List.filterMap_cons, Option.map_some'] at ih ⊢
      simpa using ih

theorem sentCommands_cancelEffects (e : Option ScheduledEvent) :
    sentCommands (cancelEffects e) = [] := by
  cases e <;> rfl

theorem sentCommands_gameEndEffects (g : Game) : sentCommands (gameEndEffects g) = [] := by
  unfold gameEndEffects
  rw [sentCommands_append, sentCommands_append, sentCommands_append,
    sentCommands_closeEffects, sentCommands_cancelEffects]
  rfl

/-- C22: `forceLogout` and `safeLogout` return the world they were given when the
session is not online. In a reachable online state `safeLogout` hands the
transport one logout command and changes no member (still online, handle kept);
`forceLogout` hands it one logout command, then ends the game (game-end
notification, reset), tells the handle to disconnect and releases it. -/
theorem logout_spec (w : World) :
    (w.game.m_online = false → forceLogout w = .ok w ∧ safeLogout w = .ok w)
    ∧ (Reachable w → w.game.m_online = true →
        safeLogout w = .ok { game := w.game, out := w.out ++ [.send .sendLogout] }
        ∧ ∃ w', forceLogout w = .ok w'
          ∧ w'.out = w.out ++ ([.send .sendLogout] ++ gameEndEffects w.game ++ [.protocolDisconnect])
          ∧ sentCommands ([.send .sendLogout] ++ gameEndEffects w.game ++ [.protocolDisconnect])
              = [.sendLogout]
          ∧ w'.game = { w.game.gameEnd with m_protocolGame := none }
          ∧ w'.game.m_online = false ∧ w'.game.m_protocolGame = none) := by
  constructor
  · intro ho
    simp [forceLogout, safeLogout, isOnline, ho]
  · intro hr ho
    obtain ⟨p, hp⟩ := Option.isSome_iff_exists.mp (reachable_online_handle hr ho)
    constructor
    · simp [safeLogout, isOnline, ho, hp, send, emit]
    · refine ⟨processDisconnect (send .sendLogout w), ?_, ?_, ?_, ?_, ?_, ?_⟩
      · simp [forceLogout, isOnline, ho, hp]
      · rw [processDisconnect_out _ (by simp [hp])]
        simp [ho]
      · rw [sentCommands_append, sentCommands_append, sentCommands_gameEndEffects]
        rfl
      · rw [processDisconnect_game]
        simp [Game.disconnect, ho]
      · rw [processDisconnect_game]
        simp [Game.disconnect, ho, Game.gameEnd, Game.reset]
      · rw [processDisconnect_game]
        simp [Game.disconnect]

/-- C22, on the running game and on a fresh client: the safe logout only sends,
the forced logout leaves no handle, and neither does anything before login. -/
theorem logout_spec_witness :
    safeLogout playing = .ok { game := playing.game, out := playing.out ++ [.send .sendLogout] }
    ∧ (∃ w', forceLogout playing = .ok w' ∧ w'.game.m_online = false
        ∧ w'.game.m_protocolGame = none)
    ∧ forceLogout construct = .ok construct ∧ safeLogout construct = .ok construct :=
  ⟨((logout_spec playing).2 (reachable_runOps envPlain _ Reachable.construct) (by decide)).1,
    (((logout_spec playing).2 (reachable_runOps envPlain _ Reachable.construct)
      (by decide)).2).elim (fun w' h => ⟨w', h.1, h.2.2.2.2.1, h.2.2.2.2.2⟩),
    ((logout_spec construct).1 (by decide)).1,
    ((logout_spec construct).1 (by decide)).2⟩

/-! ## A transport error in the running game -/

theorem gameEndNotifications_append (a b : List Effect) :
    gameEndNotifications (a ++ b) = gameEndNotifications a ++ gameEndNotifications b := by
  simp [gameEndNotifications]

theorem gameEndNotifications_closeEffects (l : List (Int × Option Container)) :
    gameEndNotifications (closeEffects l) = [] := by
  induction l with
  | nil => rfl
  | cons x rest ih =>
    rcases x with ⟨k, c⟩
    cases c with
    | none => simpa [closeEffects, gameEndNotifications] using ih
    | some c =>
      simp only [closeEffects, gameEndNotifications, List.filterMap_cons, Option.map_some',
        List.filter_cons] at ih ⊢
      simpa using ih

theorem gameEndNotifications_cancelEffects (e : Option ScheduledEvent) :
    gameEndNotifications (cancelEffects e) = [] := by
  cases e <;> rfl

/-- Every container of the registry is among those `resetGameStates` closes. -/
theorem containerAt_mem_closeEffects {g : Game} {id : Int} {c : Container}
    (h : containerAt g id = some c) : Effect.containerOnClose c ∈ closeEffects g.m_containers := by
  unfold containerAt at h
  have hm : ∀ (l : List (Int × Option Container)), mapFind l id = some (some c) →
      Effect.containerOnClose c ∈ closeEffects l := by
    intro l
    induction l with
    | nil => intro h; simp [mapFind] at h
    | cons x rest ih =>
      rcases x with ⟨k, v⟩
      intro h
      unfold mapFind at h
      by_cases hk : k = id
      · simp [hk] at h
        subst h
        simp [closeEffects]
      · simp [hk] at h
        have := ih h
        unfold closeEffects at this ⊢
        rw [List.filterMap_cons]
        cases v with
        | none => simpa using this
        | some v => simp only [Option.map_some']; exact List.mem_cons_of_mem _ this
  cases hf : mapFind g.m_containers id with
  | none => simp [hf] at h
  | some v =>
    simp [hf] at h
    subst h
    exact hm _ hf

/-- C21: on a transport error other than end-of-stream, in a reachable online
state: the connection error is notified, then exactly one game-end notification is
handed out, then every open container is closed and a running keepalive timer is
cancelled, the dynamic things are cleaned, and last the handle is told to
disconnect; the session left is the idle one (reset defaults, names empty, no
handle, version and features as before), and the handle is still held by the
session that `processGameEnd` leaves. -/
theorem connection_error_online (ec : ErrorCode) (w : World) (hr : Reachable w)
    (hon : w.game.m_online = true) (hne : ec.isEof = false) :
    (processConnectionError ec w).out =
      w.out ++ ([.lua "onConnectionError" [.str ec.message, .int ec.value], .lua "onGameEnd" []]
        ++ closeEffects w.game.m_containers ++ cancelEffects w.game.m_pingEvent
        ++ [.cleanDynamicThings, .protocolDisconnect])
    ∧ gameEndNotifications
        ([.lua "onConnectionError" [.str ec.message, .int ec.value], .lua "onGameEnd" []]
          ++ closeEffects w.game.m_containers ++ cancelEffects w.game.m_pingEvent
          ++ [.cleanDynamicThings, .protocolDisconnect]) = [.lua "onGameEnd" []]
    ∧ (∀ id c, containerAt w.game id = some c →
        Effect.containerOnClose c ∈ closeEffects w.game.m_containers)
    ∧ (∀ e, w.game.m_pingEvent = some e → cancelEffects w.game.m_pingEvent = [.cancelEvent e])
    ∧ (processConnectionError ec w).game =
        { m_localPlayer := none, m_attackingCreature := none, m_followingCreature := none,
          m_protocolGame := none, m_containers := [], m_vips := [], m_online := false,
          m_denyBotCall := false, m_dead := false, m_serverBeat := 50, m_seq := 0,
          m_ping := -1, m_fightMode := FightModes.FightBalanced,
          m_chaseMode := ChaseModes.DontChase, m_safeFight := true,
          m_canReportBugs := false, m_gmActions := [], m_characterName := "",
          m_worldName := "", m_features := w.game.m_features, m_pingEvent := none,
          m_clientVersion := w.game.m_clientVersion }
    ∧ (processGameEnd (callGlobalField "onConnectionError"
          [.str ec.message, .int ec.value] w)).game.m_protocolGame = w.game.m_protocolGame
    ∧ w.game.m_protocolGame.isSome = true
    ∧ processConnectionError ec w =
        { game := { (processGameEnd (callGlobalField "onConnectionError"
              [.str ec.message, .int ec.value] w)).game with m_protocolGame := none },
          out := (processGameEnd (callGlobalField "onConnectionError"
              [.str ec.message, .int ec.value] w)).out ++ [.protocolDisconnect] } := by
  have hh := reachable_online_handle hr hon
  obtain ⟨p, hp⟩ := Option.isSome_iff_exists.mp hh
  refine ⟨?_, ?_, fun id c h => containerAt_mem_closeEffects h, ?_, ?_, ?_, hh, ?_⟩
  · unfold processConnectionError
    simp only [hp, hne]
    rw [show (!false) = true from rfl, if_pos rfl, processDisconnect_out _ (by simpa using hh)]
    simp [hon, gameEndEffects]
  · simp only [gameEndNotifications_append, gameEndNotifications_closeEffects,
      gameEndNotifications_cancelEffects]
    simp [gameEndNotifications]
  · intro e he
    rw [he]; rfl
  · rw [processConnectionError_game, hh]
    simp [Game.disconnect, hon, Game.gameEnd, Game.reset]
  · rw [processGameEnd_game]; rfl
  · unfold processConnectionError
    simp only [hp, hne]
    rw [show (!false) = true from rfl, if_pos rfl]
    unfold processDisconnect isOnline
    have h1 : (callGlobalField "onConnectionError" [.str ec.message, .int ec.value] w).game.m_online
        = true := hon
    rw [h1, if_pos rfl]
    have h2 : (processGameEnd (callGlobalField "onConnectionError"
        [.str ec.message, .int ec.value] w)).game.m_protocolGame = some p := by
      rw [processGameEnd_game]; exact hp
    dsimp only
    rw [h2]
    rfl

/-- C21, on the running game with the backpack open: after the connection reset
the trace ends with the error, the game end, the close of the backpack, the
clean-up and the disconnect, in this order, and the session is idle. -/
theorem connection_error_online_witness :
    (processConnectionError connectionReset playingWithBackpack).out =
      playingWithBackpack.out ++
        [.lua "onConnectionError" [.str "Connection reset by peer", .int 104],
         .lua "onGameEnd" [], .containerOnClose backpack, .cleanDynamicThings,
         .protocolDisconnect]
    ∧ (processConnectionError connectionReset playingWithBackpack).game.m_online = false
    ∧ (processConnectionError connectionReset playingWithBackpack).game.m_protocolGame = none :=
  ⟨(connection_error_online connectionReset playingWithBackpack
      (reachable_runOps envPlain _ Reachable.construct) (by decide) (by decide)).1,
    by
      rw [(connection_error_online connectionReset playingWithBackpack
        (reachable_runOps envPlain _ Reachable.construct) (by decide) (by decide)).2.2.2.2.1],
    by
      rw [(connection_error_online connectionReset playingWithBackpack
        (reachable_runOps envPlain _ Reachable.construct) (by decide) (by decide)).2.2.2.2.1]⟩

/-! ## Combat modes -/

/-- C23: when actions are permitted, each of `setFightMode`, `setChaseMode` and
`setSafeFight` returns the world it was given when the value is the stored one;
otherwise it stores the value, leaves the two other modes as they were, hands the
transport one change-fight-modes command with the three modes as stored after the
call, and then notifies the change. -/
theorem setModes_spec (env : Env) (w : World) (hp : (canPerformGameAction env w).1 = true) :
    (∀ m : FightModes,
      (m = w.game.m_fightMode → setFightMode env m w = w)
      ∧ (m ≠ w.game.m_fightMode →
          setFightMode env m w =
            { game := { w.game with m_fightMode := m },
              out := w.out ++ [.send (.sendChangeFightModes m w.game.m_chaseMode w.game.m_safeFight),
                .lua "onFightModeChange" [.fightMode m]] }
          ∧ sentCommands [.send (.sendChangeFightModes m w.game.m_chaseMode w.game.m_safeFight),
                .lua "onFightModeChange" [.fightMode m]]
              = [.sendChangeFightModes (setFightMode env m w).game.m_fightMode
                  (setFightMode env m w).game.m_chaseMode (setFightMode env m w).game.m_safeFight]))
    ∧ (∀ c : ChaseModes,
      (c = w.game.m_chaseMode → setChaseMode env c w = w)
      ∧ (c ≠ w.game.m_chaseMode →
          setChaseMode env c w =
            { game := { w.game with m_chaseMode := c },
              out := w.out ++ [.send (.sendChangeFightModes w.game.m_fightMode c w.game.m_safeFight),
                .lua "onChaseModeChange" [.chaseMode c]] }
          ∧ sentCommands [.send (.sendChangeFightModes w.game.m_fightMode c w.game.m_safeFight),
                .lua "onChaseModeChange" [.chaseMode c]]
              = [.sendChangeFightModes (setChaseMode env c w).game.m_fightMode
                  (setChaseMode env c w).game.m_chaseMode (setChaseMode env c w).game.m_safeFight]))
    ∧ (∀ s : Bool,
      (s = w.game.m_safeFight → setSafeFight env s w = w)
      ∧ (s ≠ w.game.m_safeFight →
          setSafeFight env s w =
            { game := { w.game with m_safeFight := s },
              out := w.out ++ [.send (.sendChangeFightModes w.game.m_fightMode w.game.m_chaseMode s),
                .lua "onSafeFightChange" [.bool s]] }
          ∧ sentCommands [.send (.sendChangeFightModes w.game.m_fightMode w.game.m_chaseMode s),
                .lua "onSafeFightChange" [.bool s]]
              = [.sendChangeFightModes (setSafeFight env s w).game.m_fightMode
                  (setSafeFight env s w).game.m_chaseMode (setSafeFight env s w).game.m_safeFight])) := by
  have hg := gate_eq_of_pass hp
  refine ⟨fun m => ⟨fun he => ?_, fun hne => ?_⟩, fun c => ⟨fun he => ?_, fun hne => ?_⟩,
    fun s => ⟨fun he => ?_, fun hne => ?_⟩⟩
  · unfold setFightMode
    rw [hg]
    simp [he]
  · have hne' : ¬ w.game.m_fightMode = m := fun e => hne e.symm
    have e1 : setFightMode env m w =
        { game := { w.game with m_fightMode := m },
          out := w.out ++ [.send (.sendChangeFightModes m w.game.m_chaseMode w.game.m_safeFight),
            .lua "onFightModeChange" [.fightMode m]] } := by
      unfold setFightMode
      rw [hg]
      simp [hne', send, emit, callGlobalField]
    refine ⟨e1, ?_⟩
    rw [e1]
    rfl
  · unfold setChaseMode
    rw [hg]
    simp [he]
  · have hne' : ¬ w.game.m_chaseMode = c := fun e => hne e.symm
    have e1 : setChaseMode env c w =
        { game := { w.game with m_chaseMode := c },
          out := w.out ++ [.send (.sendChangeFightModes w.game.m_fightMode c w.game.m_safeFight),
            .lua "onChaseModeChange" [.chaseMode c]] } := by
      unfold setChaseMode
      rw [hg]
      simp [hne', send, emit, callGlobalField]
    refine ⟨e1, ?_⟩
    rw [e1]
    rfl
  · unfold setSafeFight
    rw [hg]
    simp [he]
  · have hne' : ¬ w.game.m_safeFight = s := fun e => hne e.symm
    have e1 : setSafeFight env s w =
        { game := { w.game with m_safeFight := s },
          out := w.out ++ [.send (.sendChangeFightModes w.game.m_fightMode w.game.m_chaseMode s),
            .lua "onSafeFightChange" [.bool s]] } := by
      unfold setSafeFight
      rw [hg]
      simp [hne', send, emit, callGlobalField]
    refine ⟨e1, ?_⟩
    rw [e1]
    rfl

/-- C23, on the running game (balanced, stand, safe): asking for the balanced mode
changes nothing; asking for the offensive mode sends (offensive, stand, safe). -/
theorem setModes_spec_witness :
    setFightMode envPlain .FightBalanced playing = playing
    ∧ setFightMode envPlain .FightOffensive playing =
        { game := { playing.game with m_fightMode := .FightOffensive },
          out := playing.out ++ [.send (.sendChangeFightModes .FightOffensive .DontChase true),
            .lua "onFightModeChange" [.fightMode .FightOffensive]] } :=
  ⟨((setModes_spec envPlain playing rfl).1 .FightBalanced).1 rfl,
    (((setModes_spec envPlain playing rfl).1 .FightOffensive).2 (by decide)).1⟩

/-! ## Auto-walk -/

/-- The trace of a permitted `autoWalk` on a path of 1 to 127 steps: the
cancellation of a follow in progress, the pre-walk of the first step when the local
player can take it, the notification and the command. -/
theorem autoWalk_of_pass {env : Env} {w : World} {d : Direction} {ds : List Direction}
    (hp : (canPerformGameAction env w).1 = true) (hlen : (d :: ds).length ≤ 127) :
    (autoWalk env (d :: ds) w).out =
      w.out ++
        ((if isFollowing w.game then
            [.lua "onFollowingCreatureChange" [.creature none, .creature w.game.m_followingCreature],
             .send (.sendFollow 0 ((w.game.m_seq + 1) % UINT_MOD))]
          else [])
        ++ (if env.canWalk d
              && ((match env.getTile (env.translatedToDirection env.playerPosition d) with
                    | some t => t.isWalkable
                    | none => false) && !env.isAutoWalking) then
              [.localPlayer (.preWalk d)]
            else []))
        ++ [.lua "onAutoWalk" [.directions (d :: ds)], .send (.sendAutoWalk (d :: ds))] := by
  have hg := gate_eq_of_pass hp
  have hl : ¬ (d :: ds).length > 127 := by omega
  unfold autoWalk
  rw [hg]
  simp only [hl, if_false, send_out, callGlobalField_out]
  cases hf : isFollowing w.game
  · simp only [Bool.false_eq_true, if_false]
    cases hc : env.canWalk d
    · simp
    · cases ht : ((match env.getTile (env.translatedToDirection env.playerPosition d) with
                    | some t => t.isWalkable
                    | none => false) && !env.isAutoWalking)
      · simp [ht]
      · simp [ht]
  · simp only [if_true]
    rw [cancelFollow_of_pass hp]
    cases hc : env.canWalk d
    · simp [setFollowingCreature, incSeq]
    · cases ht : ((match env.getTile (env.translatedToDirection env.playerPosition d) with
                    | some t => t.isWalkable
                    | none => false) && !env.isAutoWalking)
      · simp [ht, setFollowingCreature, incSeq]
      · simp [ht, setFollowingCreature, incSeq]

theorem autoWalkCommands_append (a b : List Effect) :
    autoWalkCommands (a ++ b) = autoWalkCommands a ++ autoWalkCommands b := by
  simp [autoWalkCommands]

/-- C24: when actions are permitted, `autoWalk(dirs)` with more than 127
directions logs an error and returns, no command sent and no member changed; with
an empty path it returns the world it was given; with 1 to 127 directions the
trace ends with the auto-walk notification and one auto-walk command carrying dirs,
and the effects before them hold no auto-walk command. -/
theorem autoWalk_limit (env : Env) (w : World) (dirs : List Direction)
    (hp : (canPerformGameAction env w).1 = true) :
    (127 < dirs.length →
      autoWalk env dirs w =
        { game := w.game,
          out := w.out ++ [.log "Auto walk path too great, the maximum number of directions is 127"] }
      ∧ sentCommands [.log "Auto walk path too great, the maximum number of directions is 127"]
          = [])
    ∧ (dirs = [] → autoWalk env dirs w = w)
    ∧ (1 ≤ dirs.length → dirs.length ≤ 127 →
        ∃ effs, (autoWalk env dirs w).out =
            w.out ++ effs ++ [.lua "onAutoWalk" [.directions dirs], .send (.sendAutoWalk dirs)]
          ∧ autoWalkCommands effs = []
          ∧ autoWalkCommands
              (effs ++ [.lua "onAutoWalk" [.directions dirs], .send (.sendAutoWalk dirs)])
              = [dirs]) := by
  have hg := gate_eq_of_pass hp
  refine ⟨fun hl => ⟨?_, rfl⟩, fun he => ?_, fun h1 h2 => ?_⟩
  · unfold autoWalk
    rw [hg]
    simp [hl, emit]
  · subst he
    unfold autoWalk
    rw [hg]
    simp
  · cases dirs with
    | nil => simp at h1
    | cons d ds =>
      refine ⟨_, autoWalk_of_pass hp h2, ?_, ?_⟩
      · rw [autoWalkCommands_append]
        split <;> split <;> rfl
      · rw [autoWalkCommands_append, autoWalkCommands_append]
        have e2 : autoWalkCommands [Effect.lua "onAutoWalk" [.directions (d :: ds)],
            .send (.sendAutoWalk (d :: ds))] = [d :: ds] := rfl
        rw [e2]
        split <;> split <;> rfl

/-- C24, on the running game: a path of 128 steps is refused with the session as
it was, a path of 127 steps is sent. -/
theorem autoWalk_limit_witness :
    (autoWalk envPlain path128 playing).game = playing.game
    ∧ (autoWalk envPlain path128 playing).out =
        playing.out ++ [.log "Auto walk path too great, the maximum number of directions is 127"]
    ∧ ∃ effs, (autoWalk envPlain path127 playing).out =
        playing.out ++ effs ++ [.lua "onAutoWalk" [.directions path127], .send (.sendAutoWalk path127)]
        ∧ autoWalkCommands effs = [] :=
  ⟨by rw [((autoWalk_limit envPlain playing path128 rfl).1 (by simp [path128])).1],
    by rw [((autoWalk_limit envPlain playing path128 rfl).1 (by simp [path128])).1],
    ((autoWalk_limit envPlain playing path127 rfl).2.2 (by simp [path127]) (by simp [path127])).elim
      (fun effs h => ⟨effs, h.1, h.2.1⟩)⟩

/-! ## Game start and the keepalive timer -/

/-- In every reachable state the client-ping flag is enabled exactly when the
stored version is 953 or later. -/
theorem reachable_clientPing {w : World} (h : Reachable w) :
    w.game.m_features .GameClientPing = true ↔ 953 ≤ w.game.m_clientVersion := by
  induction h with
  | construct => decide
  | step env op _ hs ih =>
    rcases step_version_features hs with ⟨hv, hf⟩ | ⟨v, rfl⟩
    · rw [hv, hf]; exact ih
    · simp only [step] at hs
      rcases setClientVersion_result hs with ⟨rfl, _⟩ | ⟨h1, h2⟩
      · exact ih
      · rw [h1, h2]
        simp [thresholdTable]

/-- The trace of one tick of the keepalive timer. -/
theorem pingEventCallback_out (v : World) :
    (pingEventCallback v).out =
      v.out ++ (if (match v.game.m_protocolGame with
                    | some p => p.connected
                    | none => false) then [.send .sendPing] else []) := by
  unfold pingEventCallback
  cases hp : v.game.m_protocolGame with
  | none => simp
  | some p =>
    cases hc : p.connected <;> simp [hc, enableBotCall, disableBotCall]

/-- C25: with a transport handle present `processGameStart` returns; it sets
online, hands the transport one change-fight-modes command with the stored modes,
notifies the game start, and stores a new keepalive timer of period 1000 exactly
when the client-ping flag is enabled (otherwise the timer member is as before); in
every reachable state the flag is enabled exactly when the stored version is 953 or
later; and a tick of the timer sends one ping when the handle exists and is
connected, and nothing otherwise. -/
theorem processGameStart_spec (w : World) (hh : w.game.m_protocolGame.isSome = true) :
    (∃ w', processGameStart w = .ok w'
      ∧ w'.game =
          { w.game with
            m_online := true, m_denyBotCall := true,
            m_pingEvent := if w.game.m_features .GameClientPing then some { delay := 1000 }
              else w.game.m_pingEvent }
      ∧ w'.game.m_online = true
      ∧ w'.out = w.out ++
          [.send (.sendChangeFightModes w.game.m_fightMode w.game.m_chaseMode w.game.m_safeFight),
           .lua "onGameStart" []]
      ∧ sentCommands
          [.send (.sendChangeFightModes w.game.m_fightMode w.game.m_chaseMode w.game.m_safeFight),
           .lua "onGameStart" []]
          = [.sendChangeFightModes w.game.m_fightMode w.game.m_chaseMode w.game.m_safeFight])
    ∧ (Reachable w →
        (w.game.m_features .GameClientPing = true ↔ 953 ≤ w.game.m_clientVersion))
    ∧ (∀ v : World, (pingEventCallback v).out =
        v.out ++ (if (match v.game.m_protocolGame with
                      | some p => p.connected
                      | none => false) then [.send .sendPing] else [])) := by
  obtain ⟨p, hp⟩ := Option.isSome_iff_exists.mp hh
  refine ⟨?_, fun hr => reachable_clientPing hr, pingEventCallback_out⟩
  have hex : ∃ w', processGameStart w = .ok w' := by
    unfold processGameStart
    simp only [hp]
    split <;> exact ⟨_, rfl⟩
  obtain ⟨w', hw⟩ := hex
  refine ⟨w', hw, (processGameStart_game hw).2, ?_, ?_, rfl⟩
  · rw [(processGameStart_game hw).2]
  · unfold processGameStart at hw
    simp only [hp, getFeature] at hw
    split at hw
    · simp only [Except.ok.injEq] at hw
      subst hw
      simp [enableBotCall, disableBotCall]
    · simp only [Except.ok.injEq] at hw
      subst hw
      simp [enableBotCall, disableBotCall]

/-- C25, while logging in at version 960: the game start stores the timer of
period 1000; at version 860 it stores none. -/
theorem processGameStart_spec_witness :
    (∃ w', processGameStart loggingIn960 = .ok w' ∧ w'.game.m_online = true
      ∧ w'.game.m_pingEvent = some { delay := 1000 })
    ∧ (∃ w', processGameStart loggingIn = .ok w' ∧ w'.game.m_online = true
      ∧ w'.game.m_pingEvent = none) :=
  ⟨((processGameStart_spec loggingIn960 rfl).1).elim
      (fun w' h => ⟨w', h.1, h.2.2.1, by rw [h.2.1]; rfl⟩),
    ((processGameStart_spec loggingIn rfl).1).elim
      (fun w' h => ⟨w', h.1, h.2.2.1, by rw [h.2.1]; rfl⟩)⟩

/-! ## The version and the feature set during a session -/

/-- A call of `setClientVersion` that returns in an online session returns the
world it was given. -/
theorem setClientVersion_online_ok {v : Int} {w w' : World}
    (h : setClientVersion v w = .ok w') (hon : w.game.m_online = true) : w' = w := by
  unfold setClientVersion at h
  split at h
  · simp only [Except.ok.injEq] at h
    exact h.symm
  · simp [isOnline, hon] at h

/-- C26: no operation changes the stored version or the feature set while the
session is online; an operation that changes one of them is a returning
`setClientVersion` in a session that is not online; and the resets
(`resetGameStates`, `processGameEnd`, `processDisconnect`, a returning `loginWorld`)
leave both as they were. -/
theorem version_features_immutable (env : Env) (op : Op) (w w' : World)
    (h : step env op w = .ok w') :
    (w.game.m_online = true →
      w'.game.m_clientVersion = w.game.m_clientVersion ∧ w'.game.m_features = w.game.m_features)
    ∧ ((w'.game.m_clientVersion ≠ w.game.m_clientVersion
          ∨ w'.game.m_features ≠ w.game.m_features) →
        ∃ v, op = .setClientVersion v ∧ setClientVersion v w = .ok w'
          ∧ w.game.m_online = false)
    ∧ ((resetGameStates w).game.m_clientVersion = w.game.m_clientVersion
        ∧ (resetGameStates w).game.m_features = w.game.m_features)
    ∧ ((processGameEnd w).game.m_clientVersion = w.game.m_clientVersion
        ∧ (processGameEnd w).game.m_features = w.game.m_features)
    ∧ ((processDisconnect w).game.m_clientVersion = w.game.m_clientVersion
        ∧ (processDisconnect w).game.m_features = w.game.m_features)
    ∧ (∀ o a p wn wh port cn w2, loginWorld o a p wn wh port cn w = .ok w2 →
        w2.game.m_clientVersion = w.game.m_clientVersion
        ∧ w2.game.m_features = w.game.m_features) := by
  have key : w.game.m_online = true →
      w'.game.m_clientVersion = w.game.m_clientVersion
        ∧ w'.game.m_features = w.game.m_features := by
    intro hon
    rcases step_version_features h with hk | ⟨v, rfl⟩
    · exact hk
    · simp only [step] at h
      rw [setClientVersion_online_ok h hon]
      exact ⟨rfl, rfl⟩
  refine ⟨key, ?_, ?_, ?_, ?_, ?_⟩
  · intro hch
    rcases step_version_features h with hk | ⟨v, rfl⟩
    · rcases hch with hc | hc
      · exact absurd hk.1 hc
      · exact absurd hk.2 hc
    · refine ⟨v, rfl, by simpa only [step] using h, ?_⟩
      cases hon : w.game.m_online
      · rfl
      · have := key hon
        rcases hch with hc | hc
        · exact absurd this.1 hc
        · exact absurd this.2 hc
  · rw [resetGameStates_game]; exact ⟨rfl, rfl⟩
  · rw [processGameEnd_game]; exact ⟨rfl, rfl⟩
  · rw [processDisconnect_game]
    unfold Game.disconnect
    split <;> exact ⟨rfl, rfl⟩
  · intro o a p wn wh port cn w2 h2
    rw [(loginWorld_game h2).2.2.2]
    exact ⟨rfl, rfl⟩

/-- C26, on the running game (version 860): the end of the game leaves the version
stored. -/
theorem version_features_immutable_witness :
    step envPlain .processGameEnd playing = .ok (processGameEnd playing)
    ∧ (processGameEnd playing).game.m_clientVersion = 860
    ∧ (processGameEnd playing).game.m_features = playing.game.m_features :=
  ⟨rfl,
    ((version_features_immutable envPlain .processGameEnd playing (processGameEnd playing)
      rfl).1 (by decide)).1,
    ((version_features_immutable envPlain .processGameEnd playing (processGameEnd playing)
      rfl).1 (by decide)).2⟩

/-! ## The outbound ping -/

/-- C27 (as amended): `ping()` does not go through the action gate at all: with a
transport handle that is connected it hands the transport one ping and leaves the
bot-call denial set, whatever the online and dead members are; with no handle, or
a handle that is not connected, it returns the world it was given. -/
theorem ping_spec (w : World) :
    (∀ p, w.game.m_protocolGame = some p → p.connected = true →
      ping w = { game := { w.game with m_denyBotCall := true },
                 out := w.out ++ [.send .sendPing] })
    ∧ (w.game.m_protocolGame = none → ping w = w)
    ∧ (∀ p, w.game.m_protocolGame = some p → p.connected = false → ping w = w) := by
  refine ⟨fun p hp hc => ?_, fun hn => ?_, fun p hp hc => ?_⟩
  · unfold ping
    simp [hp, hc, send, emit]
  · unfold ping
    simp [hn]
  · unfold ping
    simp [hp, hc]

/-- C27, while logging in (not online, handle connected): the ping is sent. -/
theorem ping_spec_witness :
    loggingIn.game.m_online = false
    ∧ ping loggingIn = { game := { loggingIn.game with m_denyBotCall := true },
                         out := loggingIn.out ++ [.send .sendPing] } :=
  ⟨by decide, (ping_spec loggingIn).1 { connected := true } rfl rfl⟩

/-- C27 fails as stated: the session of the dead player is reachable, its local
player is dead, and `ping()` hands a ping to the transport; the session that is
logging in is reachable and not online, and `ping()` hands a ping to the
transport. -/
theorem ping_dead_counterexample :
    Reachable deadAttackingOrc ∧ deadAttackingOrc.game.m_dead = true
    ∧ (ping deadAttackingOrc).out = deadAttackingOrc.out ++ [.send .sendPing]
    ∧ Reachable loggingIn ∧ loggingIn.game.m_online = false
    ∧ (ping loggingIn).out = loggingIn.out ++ [.send .sendPing] :=
  ⟨reachable_runOps envPlain _ Reachable.construct, by decide, rfl,
    reachable_runOps envPlain _ Reachable.construct, by decide, rfl⟩


/-! ## The counter within a session -/

theorem seqSend_of_quiet {w w' : World} (hq : Quiet w w')
    (hs : w'.game.m_seq = w.game.m_seq) : SeqSend w w' := by
  obtain ⟨effs, ho, he⟩ := hq
  exact ⟨effs, ho, Or.inl ⟨he, hs⟩⟩

theorem seqSend_quiet_right {a b c : World} (h : SeqSend a b) (hq : Quiet b c)
    (hs : c.game.m_seq = b.game.m_seq) : SeqSend a c := by
  obtain ⟨e1, ho1, h1⟩ := h
  obtain ⟨e2, ho2, he2⟩ := hq
  refine ⟨e1 ++ e2, by rw [ho2, ho1, List.append_assoc], ?_⟩
  rw [seqValues_append, he2, List.append_nil, hs]
  exact h1

theorem seqSend_quiet_left {a b c : World} (hq : Quiet a b) (hs : b.game.m_seq = a.game.m_seq)
    (h : SeqSend b c) : SeqSend a c := by
  obtain ⟨e1, ho1, he1⟩ := hq
  obtain ⟨e2, ho2, h2⟩ := h
  refine ⟨e1 ++ e2, by rw [ho2, ho1, List.append_assoc], ?_⟩
  rw [seqValues_append, he1, List.nil_append, ← hs]
  exact h2

theorem attack_seqSend (env : Env) (creature : Option Creature) (w : World) :
    SeqSend w (attack env creature w) := by
  by_cases hp : (canPerformGameAction env w).1 = true
  · cases hl : isLocalPlayer creature w.game.m_localPlayer
    · obtain ⟨effs, ho, h⟩ := attack_seq hp hl
      exact ⟨effs, ho, Or.inr h⟩
    · refine seqSend_of_quiet ?_ (by rw [attack_of_fail (Or.inr hl)])
      unfold attack attackBody
      rw [gate_eq_of_pass hp]
      simp only [hl, if_true]
      exact quiet_refl w
  · have hp' : (canPerformGameAction env w).1 = false := by simpa using hp
    refine seqSend_of_quiet ?_ (by rw [attack_of_fail (Or.inl hp')])
    unfold attack attackBody
    rcases hg : canPerformGameAction env w with ⟨b, w1⟩
    rw [hg] at hp'
    simp only at hp'
    subst hp'
    exact gate_quiet hg

theorem follow_seqSend (env : Env) (creature : Option Creature) (w : World) :
    SeqSend w (follow env creature w) := by
  by_cases hp : (canPerformGameAction env w).1 = true
  · cases hl : isLocalPlayer creature w.game.m_localPlayer
    · obtain ⟨effs, ho, h⟩ := follow_seq hp hl
      exact ⟨effs, ho, Or.inr h⟩
    · refine seqSend_of_quiet ?_ (by rw [follow_of_fail (Or.inr hl)])
      unfold follow followBody
      rw [gate_eq_of_pass hp]
      simp only [hl, if_true]
      exact quiet_refl w
  · have hp' : (canPerformGameAction env w).1 = false := by simpa using hp
    refine seqSend_of_quiet ?_ (by rw [follow_of_fail (Or.inl hp')])
    unfold follow followBody
    rcases hg : canPerformGameAction env w with ⟨b, w1⟩
    rw [hg] at hp'
    simp only at hp'
    subst hp'
    exact gate_quiet hg

theorem cancelAttack_seqSend (env : Env) (w : World) : SeqSend w (cancelAttack env w) := by
  rw [← attack_none]; exact attack_seqSend env none w

theorem cancelFollow_seqSend (env : Env) (w : World) : SeqSend w (cancelFollow env w) := by
  rw [← follow_none]; exact follow_seqSend env none w

theorem processAttackCancel_seqSend (env : Env) (seq : Nat) (w : World) :
    SeqSend w (processAttackCancel env seq w) := by
  unfold processAttackCancel
  split
  · exact cancelAttack_seqSend env w
  · exact seqSend_of_quiet (quiet_refl w) rfl

/-- The step `if(isFollowing()) cancelFollow();` of `walk`, `autoWalk` and `stop`,
within a session. -/
theorem cancelIfFollowing_seqSend (env : Env) (w : World) :
    SeqSend w (if isFollowing w.game = true then cancelFollow env w else w) := by
  split
  · exact cancelFollow_seqSend env w
  · exact seqSend_of_quiet (quiet_refl w) rfl

theorem stop_seqSend (env : Env) (w : World) : SeqSend w (stop env w) := by
  unfold stop
  rcases hg : canPerformGameAction env w with ⟨b, w1⟩
  cases b
  · exact seqSend_of_quiet (gate_quiet hg) (by rw [gate_game hg])
  · have := gate_true hg; subst this
    exact seqSend_quiet_right (cancelIfFollowing_seqSend env w1)
      (quiet_emit _ (e := .send .sendStop) rfl) rfl

theorem walk_seqSend (env : Env) (d : Direction) (w : World) : SeqSend w (walk env d w) := by
  unfold walk
  rcases hg : canPerformGameAction env w with ⟨b, w1⟩
  cases b
  · exact seqSend_of_quiet (gate_quiet hg) (by rw [gate_game hg])
  · have := gate_true hg; subst this
    have h1 := cancelIfFollowing_seqSend env w1
    simp only []
    generalize (if isFollowing w1.game = true then cancelFollow env w1 else w1) = w2 at h1 ⊢
    repeat' split
    · exact seqSend_quiet_right h1 (quiet_emit _ (e := .send .sendStop) rfl) rfl
    · exact h1
    · refine seqSend_quiet_right h1 ?_ (by simp)
      exact quiet_trans (quiet_trans (quiet_emit w2 (e := .localPlayer (.preWalk d)) rfl)
        (quiet_emit _ (e := .lua "onWalk" [.direction d]) rfl)) (forceWalk_quiet _ _ _)
    · refine seqSend_quiet_right h1 ?_ (by simp)
      exact quiet_trans (quiet_trans (quiet_emit w2 (e := .localPlayer .lockWalk) rfl)
        (quiet_emit _ (e := .lua "onWalk" [.direction d]) rfl)) (forceWalk_quiet _ _ _)
    · exact h1

theorem autoWalk_seqSend (env : Env) (dirs : List Direction) (w : World) :
    SeqSend w (autoWalk env dirs w) := by
  unfold autoWalk
  rcases hg : canPerformGameAction env w with ⟨b, w1⟩
  cases b
  · exact seqSend_of_quiet (gate_quiet hg) (by rw [gate_game hg])
  · have := gate_true hg; subst this
    simp only []
    split
    · exact seqSend_of_quiet (quiet_emit _ (e := .log _) rfl) rfl
    · cases dirs with
      | nil => exact seqSend_of_quiet (quiet_refl _) rfl
      | cons d ds =>
        have h1 := cancelIfFollowing_seqSend env w1
        simp only []
        generalize (if isFollowing w1.game = true then cancelFollow env w1 else w1) = w2 at h1 ⊢
        refine seqSend_quiet_right h1 ?_ ?_
        · repeat' split
          all_goals
            (apply quiet_step (quiet_refl w2)
              (by simp only [send_out, emit_out, callGlobalField_out, List.append_assoc]; rfl);
             rfl)
        · repeat' split
          all_goals rfl

/-- Outside the attack/follow family an operation leaves the counter alone, or it
is one of those that reach `resetGameStates()` and leaves the session not online
with the counter at 0. -/
theorem step_seq_reset {env : Env} {op : Op} {w w' : World} (h : step env op w = .ok w') :
    w'.game.m_seq = w.game.m_seq ∨ op.sendsSeq = true
      ∨ (w'.game.m_seq = 0 ∧ w'.game.m_online = false ∧ op.resets = true) := by
  cases op with
  | terminate =>
    simp only [step, Except.ok.injEq] at h
    subst h; simp only [terminate_game, Game.reset]
    all_goals first | exact Or.inl rfl | exact Or.inr (Or.inr ⟨rfl, rfl, rfl⟩) | (simp [Op.resets]; done)
  | processConnectionError a0 =>
    simp only [step, Except.ok.injEq] at h
    subst h; simp only [processConnectionError_game, Game.disconnect, Game.gameEnd, Game.reset]
    split <;> try split
    all_goals first | exact Or.inl rfl | exact Or.inr (Or.inr ⟨rfl, rfl, rfl⟩) | (simp [Op.resets]; done)
  | processDisconnect =>
    simp only [step, Except.ok.injEq] at h
    subst h; simp only [processDisconnect_game, Game.disconnect, Game.gameEnd, Game.reset]
    split
    all_goals first | exact Or.inl rfl | exact Or.inr (Or.inr ⟨rfl, rfl, rfl⟩) | (simp [Op.resets]; done)
  | processLoginError a0 =>
    simp only [step, Except.ok.injEq] at h
    rw [← h]
    first | exact Or.inl rfl | exact Or.inr (Or.inr ⟨rfl, rfl, rfl⟩) | (simp [Op.resets]; done)
  | processLoginAdvice a0 =>
    simp only [step, Except.ok.injEq] at h
    rw [← h]
    first | exact Or.inl rfl | exact Or.inr (Or.inr ⟨rfl, rfl, rfl⟩) | (simp [Op.resets]; done)
  | processLoginWait a0 a1 =>
    simp only [step, Except.ok.injEq] at h
    rw [← h]
    first | exact Or.inl rfl | exact Or.inr (Or.inr ⟨rfl, rfl, rfl⟩) | (simp [Op.resets]; done)
  | processGameStart =>
    simp only [step] at h
    rw [(processGameStart_game h).2]
    all_goals first | exact Or.inl rfl | exact Or.inr (Or.inr ⟨rfl, rfl, rfl⟩) | (simp [Op.resets]; done)
  | processGameEnd =>
    simp only [step, Except.ok.injEq] at h
    subst h; simp only [processGameEnd_game, Game.gameEnd, Game.reset]
    all_goals first | exact Or.inl rfl | exact Or.inr (Or.inr ⟨rfl, rfl, rfl⟩) | (simp [Op.resets]; done)
  | processDeath a0 =>
    simp only [step] at h
    rw [(processDeath_game h).2]
    all_goals first | exact Or.inl rfl | exact Or.inr (Or.inr ⟨rfl, rfl, rfl⟩) | (simp [Op.resets]; done)
  | processGMActions a0 =>
    simp only [step, Except.ok.injEq] at h
    rw [← h]
    first | exact Or.inl rfl | exact Or.inr (Or.inr ⟨rfl, rfl, rfl⟩) | (simp [Op.resets]; done)
  | processPing =>
    simp only [step, Except.ok.injEq] at h
    rw [← h]
    first | exact Or.inl rfl | exact Or.inr (Or.inr ⟨rfl, rfl, rfl⟩) | (simp [Op.resets]; done)
  | processPingBack a0 =>
    simp only [step, Except.ok.injEq] at h
    rw [← h]
    first | exact Or.inl rfl | exact Or.inr (Or.inr ⟨rfl, rfl, rfl⟩) | (simp [Op.resets]; done)
  | processForward a0 a1 =>
    simp only [step, Except.ok.injEq] at h
    rw [← h]
    first | exact Or.inl rfl | exact Or.inr (Or.inr ⟨rfl, rfl, rfl⟩) | (simp [Op.resets]; done)
  | processOpenOutfitWindow a0 a1 a2 =>
    simp only [step, Except.ok.injEq] at h
    rw [← h]
    first | exact Or.inl rfl | exact Or.inr (Or.inr ⟨rfl, rfl, rfl⟩) | (simp [Op.resets]; done)
  | processOpenContainer a0 a1 a2 a3 a4 a5 =>
    simp only [step, Except.ok.injEq] at h
    obtain ⟨m, hm⟩ := processOpenContainer_game a0 a1 a2 a3 a4 a5 w
    rw [← h, hm]
    all_goals first | exact Or.inl rfl | exact Or.inr (Or.inr ⟨rfl, rfl, rfl⟩) | (simp [Op.resets]; done)
  | processCloseContainer a0 =>
    simp only [step, Except.ok.injEq] at h
    obtain ⟨m, hm⟩ := processCloseContainer_game a0 w
    rw [← h, hm]
    all_goals first | exact Or.inl rfl | exact Or.inr (Or.inr ⟨rfl, rfl, rfl⟩) | (simp [Op.resets]; done)
  | processContainerAddItem a0 a1 =>
    simp only [step, Except.ok.injEq] at h
    obtain ⟨m, hm⟩ := processContainerAddItem_game a0 a1 w
    rw [← h, hm]
    all_goals first | exact Or.inl rfl | exact Or.inr (Or.inr ⟨rfl, rfl, rfl⟩) | (simp [Op.resets]; done)
  | processContainerUpdateItem a0 a1 a2 =>
    simp only [step, Except.ok.injEq] at h
    obtain ⟨m, hm⟩ := processContainerUpdateItem_game a0 a1 a2 w
    rw [← h, hm]
    all_goals first | exact Or.inl rfl | exact Or.inr (Or.inr ⟨rfl, rfl, rfl⟩) | (simp [Op.resets]; done)
  | processContainerRemoveItem a0 a1 =>
    simp only [step, Except.ok.injEq] at h
    obtain ⟨m, hm⟩ := processContainerRemoveItem_game a0 a1 w
    rw [← h, hm]
    all_goals first | exact Or.inl rfl | exact Or.inr (Or.inr ⟨rfl, rfl, rfl⟩) | (simp [Op.resets]; done)
  | processInventoryChange a0 a1 =>
    simp only [step] at h
    rw [processInventoryChange_game h]
    all_goals first | exact Or.inl rfl | exact Or.inr (Or.inr ⟨rfl, rfl, rfl⟩) | (simp [Op.resets]; done)
  | processVipAdd a0 a1 a2 =>
    simp only [step, Except.ok.injEq] at h
    rw [← h]
    first | exact Or.inl rfl | exact Or.inr (Or.inr ⟨rfl, rfl, rfl⟩) | (simp [Op.resets]; done)
  | processVipStateChange a0 a1 =>
    simp only [step, Except.ok.injEq] at h
    obtain ⟨m, hm⟩ := processVipStateChange_game a0 a1 w
    rw [← h, hm]
    all_goals first | exact Or.inl rfl | exact Or.inr (Or.inr ⟨rfl, rfl, rfl⟩) | (simp [Op.resets]; done)
  | processAttackCancel a0 =>
    exact Or.inr (Or.inl rfl)
  | processWalkCancel a0 =>
    simp only [step] at h
    rw [processWalkCancel_game h]
    all_goals first | exact Or.inl rfl | exact Or.inr (Or.inr ⟨rfl, rfl, rfl⟩) | (simp [Op.resets]; done)
  | loginWorld a0 a1 a2 a3 a4 a5 a6 =>
    simp only [step] at h
    rw [(loginWorld_game h).2.2.2]; simp only [Game.reset]
    all_goals first | exact Or.inl rfl | exact Or.inr (Or.inr ⟨rfl, rfl, rfl⟩) | (simp [Op.resets]; done)
  | cancelLogin =>
    simp only [step, Except.ok.injEq] at h
    subst h; simp only [cancelLogin_game, Game.disconnect, Game.gameEnd, Game.reset]
    split
    all_goals first | exact Or.inl rfl | exact Or.inr (Or.inr ⟨rfl, rfl, rfl⟩) | (simp [Op.resets]; done)
  | forceLogout =>
    simp only [step] at h
    rw [forceLogout_game h]; simp only [Game.disconnect, Game.gameEnd, Game.reset]
    split <;> try split
    all_goals first | exact Or.inl rfl | exact Or.inr (Or.inr ⟨rfl, rfl, rfl⟩) | (simp [Op.resets]; done)
  | safeLogout =>
    simp only [step] at h
    rw [safeLogout_game h]
    all_goals first | exact Or.inl rfl | exact Or.inr (Or.inr ⟨rfl, rfl, rfl⟩) | (simp [Op.resets]; done)
  | walk a0 =>
    exact Or.inr (Or.inl rfl)
  | autoWalk a0 =>
    exact Or.inr (Or.inl rfl)
  | forceWalk a0 =>
    simp only [step, Except.ok.injEq] at h
    rw [← h, forceWalk_game]
    first | exact Or.inl rfl | exact Or.inr (Or.inr ⟨rfl, rfl, rfl⟩) | (simp [Op.resets]; done)
  | turn a0 =>
    simp only [step, Except.ok.injEq] at h
    rw [← h, turn_game]
    first | exact Or.inl rfl | exact Or.inr (Or.inr ⟨rfl, rfl, rfl⟩) | (simp [Op.resets]; done)
  | stop =>
    exact Or.inr (Or.inl rfl)
  | look a0 =>
    simp only [step, Except.ok.injEq] at h
    rw [← h, look_game]
    first | exact Or.inl rfl | exact Or.inr (Or.inr ⟨rfl, rfl, rfl⟩) | (simp [Op.resets]; done)
  | move a0 a1 a2 =>
    simp only [step, Except.ok.injEq] at h
    rw [← h, move_game]
    first | exact Or.inl rfl | exact Or.inr (Or.inr ⟨rfl, rfl, rfl⟩) | (simp [Op.resets]; done)
  | moveToParentContainer a0 a1 =>
    simp only [step, Except.ok.injEq] at h
    rw [← h, moveToParentContainer_game]
    first | exact Or.inl rfl | exact Or.inr (Or.inr ⟨rfl, rfl, rfl⟩) | (simp [Op.resets]; done)
  | rotate a0 =>
    simp only [step, Except.ok.injEq] at h
    rw [← h, rotate_game]
    first | exact Or.inl rfl | exact Or.inr (Or.inr ⟨rfl, rfl, rfl⟩) | (simp [Op.resets]; done)
  | use a0 =>
    simp only [step] at h
    obtain ⟨m, hm⟩ := use_game h
    rw [hm]
    all_goals first | exact Or.inl rfl | exact Or.inr (Or.inr ⟨rfl, rfl, rfl⟩) | (simp [Op.resets]; done)
  | useInventoryItem a0 =>
    simp only [step, Except.ok.injEq] at h
    rw [← h, useInventoryItem_game]
    first | exact Or.inl rfl | exact Or.inr (Or.inr ⟨rfl, rfl, rfl⟩) | (simp [Op.resets]; done)
  | useWith a0 a1 =>
    simp only [step, Except.ok.injEq] at h
    rw [← h, useWith_game]
    first | exact Or.inl rfl | exact Or.inr (Or.inr ⟨rfl, rfl, rfl⟩) | (simp [Op.resets]; done)
  | useInventoryItemWith a0 a1 =>
    simp only [step, Except.ok.injEq] at h
    rw [← h, useInventoryItemWith_game]
    first | exact Or.inl rfl | exact Or.inr (Or.inr ⟨rfl, rfl, rfl⟩) | (simp [Op.resets]; done)
  | «open» a0 a1 =>
    simp only [step] at h
    obtain ⟨m, hm⟩ := open_game h
    rw [hm]
    all_goals first | exact Or.inl rfl | exact Or.inr (Or.inr ⟨rfl, rfl, rfl⟩) | (simp [Op.resets]; done)
  | openParent a0 =>
    simp only [step, Except.ok.injEq] at h
    rw [← h, openParent_game]
    first | exact Or.inl rfl | exact Or.inr (Or.inr ⟨rfl, rfl, rfl⟩) | (simp [Op.resets]; done)
  | close a0 =>
    simp only [step, Except.ok.injEq] at h
    rw [← h, close_game]
    first | exact Or.inl rfl | exact Or.inr (Or.inr ⟨rfl, rfl, rfl⟩) | (simp [Op.resets]; done)
  | refreshContainer =>
    simp only [step, Except.ok.injEq] at h
    rw [← h, refreshContainer_game]
    first | exact Or.inl rfl | exact Or.inr (Or.inr ⟨rfl, rfl, rfl⟩) | (simp [Op.resets]; done)
  | attack a0 =>
    exact Or.inr (Or.inl rfl)
  | cancelAttack =>
    exact Or.inr (Or.inl rfl)
  | follow a0 =>
    exact Or.inr (Or.inl rfl)
  | cancelFollow =>
    exact Or.inr (Or.inl rfl)
  | cancelAttackAndFollow =>
    simp only [step, Except.ok.injEq] at h
    rw [← h, cancelAttackAndFollow_game]
    first | exact Or.inl rfl | exact Or.inr (Or.inr ⟨rfl, rfl, rfl⟩) | (simp [Op.resets]; done)
  | talk a0 a1 =>
    simp only [step, Except.ok.injEq] at h
    rw [← h, talk_game]
    first | exact Or.inl rfl | exact Or.inr (Or.inr ⟨rfl, rfl, rfl⟩) | (simp [Op.resets]; done)
  | talkChannel a0 a1 a2 =>
    simp only [step, Except.ok.injEq] at h
    rw [← h, talkChannel_game]
    first | exact Or.inl rfl | exact Or.inr (Or.inr ⟨rfl, rfl, rfl⟩) | (simp [Op.resets]; done)
  | talkPrivate a0 a1 a2 =>
    simp only [step, Except.ok.injEq] at h
    rw [← h, talkPrivate_game]
    first | exact Or.inl rfl | exact Or.inr (Or.inr ⟨rfl, rfl, rfl⟩) | (simp [Op.resets]; done)
  | openPrivateChannel a0 =>
    simp only [step, Except.ok.injEq] at h
    rw [← h, openPrivateChannel_game]
    first | exact Or.inl rfl | exact Or.inr (Or.inr ⟨rfl, rfl, rfl⟩) | (simp [Op.resets]; done)
  | requestChannels =>
    simp only [step, Except.ok.injEq] at h
    rw [← h, requestChannels_game]
    first | exact Or.inl rfl | exact Or.inr (Or.inr ⟨rfl, rfl, rfl⟩) | (simp [Op.resets]; done)
  | joinChannel a0 =>
    simp only [step, Except.ok.injEq] at h
    rw [← h, joinChannel_game]
    first | exact Or.inl rfl | exact Or.inr (Or.inr ⟨rfl, rfl, rfl⟩) | (simp [Op.resets]; done)
  | leaveChannel a0 =>
    simp only [step, Except.ok.injEq] at h
    rw [← h, leaveChannel_game]
    first | exact Or.inl rfl | exact Or.inr (Or.inr ⟨rfl, rfl, rfl⟩) | (simp [Op.resets]; done)
  | closeNpcChannel =>
    simp only [step, Except.ok.injEq] at h
    rw [← h, closeNpcChannel_game]
    first | exact Or.inl rfl | exact Or.inr (Or.inr ⟨rfl, rfl, rfl⟩) | (simp [Op.resets]; done)
  | openOwnChannel =>
    simp only [step, Except.ok.injEq] at h
    rw [← h, openOwnChannel_game]
    first | exact Or.inl rfl | exact Or.inr (Or.inr ⟨rfl, rfl, rfl⟩) | (simp [Op.resets]; done)
  | inviteToOwnChannel a0 =>
    simp only [step, Except.ok.injEq] at h
    rw [← h, inviteToOwnChannel_game]
    first | exact Or.inl rfl | exact Or.inr (Or.inr ⟨rfl, rfl, rfl⟩) | (simp [Op.resets]; done)
  | excludeFromOwnChannel a0 =>
    simp only [step, Except.ok.injEq] at h
    rw [← h, excludeFromOwnChannel_game]
    first | exact Or.inl rfl | exact Or.inr (Or.inr ⟨rfl, rfl, rfl⟩) | (simp [Op.resets]; done)
  | partyInvite a0 =>
    simp only [step, Except.ok.injEq] at h
    rw [← h, partyInvite_game]
    first | exact Or.inl rfl | exact Or.inr (Or.inr ⟨rfl, rfl, rfl⟩) | (simp [Op.resets]; done)
  | partyJoin a0 =>
    simp only [step, Except.ok.injEq] at h
    rw [← h, partyJoin_game]
    first | exact Or.inl rfl | exact Or.inr (Or.inr ⟨rfl, rfl, rfl⟩) | (simp [Op.resets]; done)
  | partyRevokeInvitation a0 =>
    simp only [step, Except.ok.injEq] at h
    rw [← h, partyRevokeInvitation_game]
    first | exact Or.inl rfl | exact Or.inr (Or.inr ⟨rfl, rfl, rfl⟩) | (simp [Op.resets]; done)
  | partyPassLeadership a0 =>
    simp only [step, Except.ok.injEq] at h
    rw [← h, partyPassLeadership_game]
    first | exact Or.inl rfl | exact Or.inr (Or.inr ⟨rfl, rfl, rfl⟩) | (simp [Op.resets]; done)
  | partyLeave =>
    simp only [step, Except.ok.injEq] at h
    rw [← h, partyLeave_game]
    first | exact Or.inl rfl | exact Or.inr (Or.inr ⟨rfl, rfl, rfl⟩) | (simp [Op.resets]; done)
  | partyShareExperience a0 =>
    simp only [step, Except.ok.injEq] at h
    rw [← h, partyShareExperience_game]
    first | exact Or.inl rfl | exact Or.inr (Or.inr ⟨rfl, rfl, rfl⟩) | (simp [Op.resets]; done)
  | requestOutfit =>
    simp only [step, Except.ok.injEq] at h
    rw [← h, requestOutfit_game]
    first | exact Or.inl rfl | exact Or.inr (Or.inr ⟨rfl, rfl, rfl⟩) | (simp [Op.resets]; done)
  | changeOutfit a0 =>
    simp only [step, Except.ok.injEq] at h
    rw [← h, changeOutfit_game]
    first | exact Or.inl rfl | exact Or.inr (Or.inr ⟨rfl, rfl, rfl⟩) | (simp [Op.resets]; done)
  | addVip a0 =>
    simp only [step, Except.ok.injEq] at h
    rw [← h, addVip_game]
    first | exact Or.inl rfl | exact Or.inr (Or.inr ⟨rfl, rfl, rfl⟩) | (simp [Op.resets]; done)
  | removeVip a0 =>
    simp only [step, Except.ok.injEq] at h
    rw [← h, removeVip_game]
    first | exact Or.inl rfl | exact Or.inr (Or.inr ⟨rfl, rfl, rfl⟩) | (simp [Op.resets]; done)
  | setChaseMode a0 =>
    simp only [step, Except.ok.injEq] at h
    obtain ⟨m, hm⟩ := setChaseMode_game env a0 w
    rw [← h, hm]
    all_goals first | exact Or.inl rfl | exact Or.inr (Or.inr ⟨rfl, rfl, rfl⟩) | (simp [Op.resets]; done)
  | setFightMode a0 =>
    simp only [step, Except.ok.injEq] at h
    obtain ⟨m, hm⟩ := setFightMode_game env a0 w
    rw [← h, hm]
    all_goals first | exact Or.inl rfl | exact Or.inr (Or.inr ⟨rfl, rfl, rfl⟩) | (simp [Op.resets]; done)
  | setSafeFight a0 =>
    simp only [step, Except.ok.injEq] at h
    obtain ⟨m, hm⟩ := setSafeFight_game env a0 w
    rw [← h, hm]
    all_goals first | exact Or.inl rfl | exact Or.inr (Or.inr ⟨rfl, rfl, rfl⟩) | (simp [Op.resets]; done)
  | inspectNpcTrade a0 =>
    simp only [step, Except.ok.injEq] at h
    rw [← h, inspectNpcTrade_game]
    first | exact Or.inl rfl | exact Or.inr (Or.inr ⟨rfl, rfl, rfl⟩) | (simp [Op.resets]; done)
  | buyItem a0 a1 a2 a3 =>
    simp only [step, Except.ok.injEq] at h
    rw [← h, buyItem_game]
    first | exact Or.inl rfl | exact Or.inr (Or.inr ⟨rfl, rfl, rfl⟩) | (simp [Op.resets]; done)
  | sellItem a0 a1 a2 =>
    simp only [step, Except.ok.injEq] at h
    rw [← h, sellItem_game]
    first | exact Or.inl rfl | exact Or.inr (Or.inr ⟨rfl, rfl, rfl⟩) | (simp [Op.resets]; done)
  | closeNpcTrade =>
    simp only [step, Except.ok.injEq] at h
    rw [← h, closeNpcTrade_game]
    first | exact Or.inl rfl | exact Or.inr (Or.inr ⟨rfl, rfl, rfl⟩) | (simp [Op.resets]; done)
  | requestTrade a0 a1 =>
    simp only [step, Except.ok.injEq] at h
    rw [← h, requestTrade_game]
    first | exact Or.inl rfl | exact Or.inr (Or.inr ⟨rfl, rfl, rfl⟩) | (simp [Op.resets]; done)
  | inspectTrade a0 a1 =>
    simp only [step, Except.ok.injEq] at h
    rw [← h, inspectTrade_game]
    first | exact Or.inl rfl | exact Or.inr (Or.inr ⟨rfl, rfl, rfl⟩) | (simp [Op.resets]; done)
  | acceptTrade =>
    simp only [step, Except.ok.injEq] at h
    rw [← h, acceptTrade_game]
    first | exact Or.inl rfl | exact Or.inr (Or.inr ⟨rfl, rfl, rfl⟩) | (simp [Op.resets]; done)
  | rejectTrade =>
    simp only [step, Except.ok.injEq] at h
    rw [← h, rejectTrade_game]
    first | exact Or.inl rfl | exact Or.inr (Or.inr ⟨rfl, rfl, rfl⟩) | (simp [Op.resets]; done)
  | editText a0 a1 =>
    simp only [step, Except.ok.injEq] at h
    rw [← h, editText_game]
    first | exact Or.inl rfl | exact Or.inr (Or.inr ⟨rfl, rfl, rfl⟩) | (simp [Op.resets]; done)
  | editList a0 a1 a2 =>
    simp only [step, Except.ok.injEq] at h
    rw [← h, editList_game]
    first | exact Or.inl rfl | exact Or.inr (Or.inr ⟨rfl, rfl, rfl⟩) | (simp [Op.resets]; done)
  | reportBug a0 =>
    simp only [step, Except.ok.injEq] at h
    rw [← h, reportBug_game]
    first | exact Or.inl rfl | exact Or.inr (Or.inr ⟨rfl, rfl, rfl⟩) | (simp [Op.resets]; done)
  | reportRuleVilation a0 a1 a2 a3 a4 a5 a6 =>
    simp only [step, Except.ok.injEq] at h
    rw [← h, reportRuleVilation_game]
    first | exact Or.inl rfl | exact Or.inr (Or.inr ⟨rfl, rfl, rfl⟩) | (simp [Op.resets]; done)
  | debugReport a0 a1 a2 a3 =>
    simp only [step] at h
    rw [debugReport_game h]
    all_goals first | exact Or.inl rfl | exact Or.inr (Or.inr ⟨rfl, rfl, rfl⟩) | (simp [Op.resets]; done)
  | requestQuestLog =>
    simp only [step, Except.ok.injEq] at h
    rw [← h, requestQuestLog_game]
    first | exact Or.inl rfl | exact Or.inr (Or.inr ⟨rfl, rfl, rfl⟩) | (simp [Op.resets]; done)
  | requestQuestLine a0 =>
    simp only [step, Except.ok.injEq] at h
    rw [← h, requestQuestLine_game]
    first | exact Or.inl rfl | exact Or.inr (Or.inr ⟨rfl, rfl, rfl⟩) | (simp [Op.resets]; done)
  | equipItem a0 =>
    simp only [step] at h
    rw [equipItem_game h]
    all_goals first | exact Or.inl rfl | exact Or.inr (Or.inr ⟨rfl, rfl, rfl⟩) | (simp [Op.resets]; done)
  | mount a0 =>
    simp only [step, Except.ok.injEq] at h
    rw [← h, mount_game]
    first | exact Or.inl rfl | exact Or.inr (Or.inr ⟨rfl, rfl, rfl⟩) | (simp [Op.resets]; done)
  | requestItemInfo a0 a1 =>
    simp only [step] at h
    rw [requestItemInfo_game h]
    all_goals first | exact Or.inl rfl | exact Or.inr (Or.inr ⟨rfl, rfl, rfl⟩) | (simp [Op.resets]; done)
  | ping =>
    simp only [step, Except.ok.injEq] at h
    obtain ⟨m, hm⟩ := ping_game w
    rw [← h, hm]
    all_goals first | exact Or.inl rfl | exact Or.inr (Or.inr ⟨rfl, rfl, rfl⟩) | (simp [Op.resets]; done)
  | canPerformGameAction =>
    simp only [step, Except.ok.injEq] at h
    rw [← h, canPerformGameAction_game]
    all_goals first | exact Or.inl rfl | exact Or.inr (Or.inr ⟨rfl, rfl, rfl⟩) | (simp [Op.resets]; done)
  | checkBotProtection =>
    simp only [step, Except.ok.injEq] at h
    rw [← h, checkBotProtection_game]
    all_goals first | exact Or.inl rfl | exact Or.inr (Or.inr ⟨rfl, rfl, rfl⟩) | (simp [Op.resets]; done)
  | setClientVersion a0 =>
    simp only [step] at h
    obtain ⟨f, v, hm⟩ := setClientVersion_frame h
    rw [hm]
    exact Or.inl rfl
  | pingEventCallback =>
    simp only [step, Except.ok.injEq] at h
    obtain ⟨m, hm⟩ := pingEventCallback_game w
    rw [← h, hm]
    all_goals first | exact Or.inl rfl | exact Or.inr (Or.inr ⟨rfl, rfl, rfl⟩) | (simp [Op.resets]; done)
  | transportConnected =>
    simp only [step, Except.ok.injEq] at h
    rw [← h, transportConnected_game]
    all_goals first | exact Or.inl rfl | exact Or.inr (Or.inr ⟨rfl, rfl, rfl⟩) | (simp [Op.resets]; done)
  | transportClosed =>
    simp only [step, Except.ok.injEq] at h
    rw [← h, transportClosed_game]
    all_goals first | exact Or.inl rfl | exact Or.inr (Or.inr ⟨rfl, rfl, rfl⟩) | (simp [Op.resets]; done)
  | findEmptyContainerId =>
    obtain ⟨m, hm⟩ := findEmptyContainerId_op_game h
    rw [hm]
    exact Or.inl rfl

/-- Every operation, seen from the sequence counter: it keeps the counter or sends
its successive values, or it is one of those that reach `resetGameStates()` and
leaves the session not online, the counter at 0 and nothing sent. -/
theorem step_seqSession {env : Env} {op : Op} {w w' : World} (h : step env op w = .ok w') :
    SeqSend w w'
      ∨ (Quiet w w' ∧ w'.game.m_seq = 0 ∧ w'.game.m_online = false ∧ op.resets = true) := by
  cases hf : op.sendsSeq
  · rcases step_seq_reset h with h1 | h1 | h1
    · exact Or.inl (seqSend_of_quiet (step_quiet h hf) h1)
    · rw [hf] at h1; exact Bool.noConfusion h1
    · exact Or.inr ⟨step_quiet h hf, h1⟩
  · left
    cases op with
    | terminate => exact Bool.noConfusion hf
    | processConnectionError a0 => exact Bool.noConfusion hf
    | processDisconnect => exact Bool.noConfusion hf
    | processLoginError a0 => exact Bool.noConfusion hf
    | processLoginAdvice a0 => exact Bool.noConfusion hf
    | processLoginWait a0 a1 => exact Bool.noConfusion hf
    | processGameStart => exact Bool.noConfusion hf
    | processGameEnd => exact Bool.noConfusion hf
    | processDeath a0 => exact Bool.noConfusion hf
    | processGMActions a0 => exact Bool.noConfusion hf
    | processPing => exact Bool.noConfusion hf
    | processPingBack a0 => exact Bool.noConfusion hf
    | processForward a0 a1 => exact Bool.noConfusion hf
    | processOpenOutfitWindow a0 a1 a2 => exact Bool.noConfusion hf
    | processOpenContainer a0 a1 a2 a3 a4 a5 => exact Bool.noConfusion hf
    | processCloseContainer a0 => exact Bool.noConfusion hf
    | processContainerAddItem a0 a1 => exact Bool.noConfusion hf
    | processContainerUpdateItem a0 a1 a2 => exact Bool.noConfusion hf
    | processContainerRemoveItem a0 a1 => exact Bool.noConfusion hf
    | processInventoryChange a0 a1 => exact Bool.noConfusion hf
    | processVipAdd a0 a1 a2 => exact Bool.noConfusion hf
    | processVipStateChange a0 a1 => exact Bool.noConfusion hf
    | processAttackCancel a0 =>
      simp only [step, Except.ok.injEq] at h
      subst h
      exact processAttackCancel_seqSend env a0 w
    | processWalkCancel a0 => exact Bool.noConfusion hf
    | loginWorld a0 a1 a2 a3 a4 a5 a6 => exact Bool.noConfusion hf
    | cancelLogin => exact Bool.noConfusion hf
    | forceLogout => exact Bool.noConfusion hf
    | safeLogout => exact Bool.noConfusion hf
    | walk a0 =>
      simp only [step, Except.ok.injEq] at h
      subst h
      exact walk_seqSend env a0 w
    | autoWalk a0 =>
      simp only [step, Except.ok.injEq] at h
      subst h
      exact autoWalk_seqSend env a0 w
    | forceWalk a0 => exact Bool.noConfusion hf
    | turn a0 => exact Bool.noConfusion hf
    | stop =>
      simp only [step, Except.ok.injEq] at h
      subst h
      exact stop_seqSend env w
    | look a0 => exact Bool.noConfusion hf
    | move a0 a1 a2 => exact Bool.noConfusion hf
    | moveToParentContainer a0 a1 => exact Bool.noConfusion hf
    | rotate a0 => exact Bool.noConfusion hf
    | use a0 => exact Bool.noConfusion hf
    | useInventoryItem a0 => exact Bool.noConfusion hf
    | useWith a0 a1 => exact Bool.noConfusion hf
    | useInventoryItemWith a0 a1 => exact Bool.noConfusion hf
    | «open» a0 a1 => exact Bool.noConfusion hf
    | openParent a0 => exact Bool.noConfusion hf
    | close a0 => exact Bool.noConfusion hf
    | refreshContainer => exact Bool.noConfusion hf
    | attack a0 =>
      simp only [step, Except.ok.injEq] at h
      subst h
      exact attack_seqSend env a0 w
    | cancelAttack =>
      simp only [step, Except.ok.injEq] at h
      subst h
      exact cancelAttack_seqSend env w
    | follow a0 =>
      simp only [step, Except.ok.injEq] at h
      subst h
      exact follow_seqSend env a0 w
    | cancelFollow =>
      simp only [step, Except.ok.injEq] at h
      subst h
      exact cancelFollow_seqSend env w
    | cancelAttackAndFollow => exact Bool.noConfusion hf
    | talk a0 a1 => exact Bool.noConfusion hf
    | talkChannel a0 a1 a2 => exact Bool.noConfusion hf
    | talkPrivate a0 a1 a2 => exact Bool.noConfusion hf
    | openPrivateChannel a0 => exact Bool.noConfusion hf
    | requestChannels => exact Bool.noConfusion hf
    | joinChannel a0 => exact Bool.noConfusion hf
    | leaveChannel a0 => exact Bool.noConfusion hf
    | closeNpcChannel => exact Bool.noConfusion hf
    | openOwnChannel => exact Bool.noConfusion hf
    | inviteToOwnChannel a0 => exact Bool.noConfusion hf
    | excludeFromOwnChannel a0 => exact Bool.noConfusion hf
    | partyInvite a0 => exact Bool.noConfusion hf
    | partyJoin a0 => exact Bool.noConfusion hf
    | partyRevokeInvitation a0 => exact Bool.noConfusion hf
    | partyPassLeadership a0 => exact Bool.noConfusion hf
    | partyLeave => exact Bool.noConfusion hf
    | partyShareExperience a0 => exact Bool.noConfusion hf
    | requestOutfit => exact Bool.noConfusion hf
    | changeOutfit a0 => exact Bool.noConfusion hf
    | addVip a0 => exact Bool.noConfusion hf
    | removeVip a0 => exact Bool.noConfusion hf
    | setChaseMode a0 => exact Bool.noConfusion hf
    | setFightMode a0 => exact Bool.noConfusion hf
    | setSafeFight a0 => exact Bool.noConfusion hf
    | inspectNpcTrade a0 => exact Bool.noConfusion hf
    | buyItem a0 a1 a2 a3 => exact Bool.noConfusion hf
    | sellItem a0 a1 a2 => exact Bool.noConfusion hf
    | closeNpcTrade => exact Bool.noConfusion hf
    | requestTrade a0 a1 => exact Bool.noConfusion hf
    | inspectTrade a0 a1 => exact Bool.noConfusion hf
    | acceptTrade => exact Bool.noConfusion hf
    | rejectTrade => exact Bool.noConfusion hf
    | editText a0 a1 => exact Bool.noConfusion hf
    | editList a0 a1 a2 => exact Bool.noConfusion hf
    | reportBug a0 => exact Bool.noConfusion hf
    | reportRuleVilation a0 a1 a2 a3 a4 a5 a6 => exact Bool.noConfusion hf
    | debugReport a0 a1 a2 a3 => exact Bool.noConfusion hf
    | requestQuestLog => exact Bool.noConfusion hf
    | requestQuestLine a0 => exact Bool.noConfusion hf
    | equipItem a0 => exact Bool.noConfusion hf
    | mount a0 => exact Bool.noConfusion hf
    | requestItemInfo a0 a1 => exact Bool.noConfusion hf
    | ping => exact Bool.noConfusion hf
    | canPerformGameAction => exact Bool.noConfusion hf
    | checkBotProtection => exact Bool.noConfusion hf
    | setClientVersion a0 => exact Bool.noConfusion hf
    | pingEventCallback => exact Bool.noConfusion hf
    | transportConnected => exact Bool.noConfusion hf
    | transportClosed => exact Bool.noConfusion hf
    | findEmptyContainerId => exact Bool.noConfusion hf

/-- The trace of a run of calls that ends no session: it only grows, and as long as
the counter does not wrap the values sent are the successive values of the counter,
the last one stored. -/
theorem runCalls_seq (calls : List (Env × Op)) (w : World) (hk : sessionKept calls w = true) :
    ∃ effs, (runCalls calls w).out = w.out ++ effs
      ∧ (w.game.m_seq + (seqValues effs).length < UINT_MOD →
          seqValues effs = List.range' (w.game.m_seq + 1) (seqValues effs).length
          ∧ (runCalls calls w).game.m_seq = w.game.m_seq + (seqValues effs).length) := by
  induction calls generalizing w with
  | nil => exact ⟨[], by simp [runCalls], fun _ => by simp [runCalls, seqValues]⟩
  | cons c cs ih =>
    rcases c with ⟨env, op⟩
    unfold sessionKept at hk
    unfold runCalls
    cases hs : step env op w with
    | error e =>
      rw [hs] at hk
      exact ih w hk
    | ok w1 =>
      rw [hs] at hk
      simp only [Bool.and_eq_true, Bool.or_eq_true, Bool.not_eq_true'] at hk
      obtain ⟨hk1, hk2⟩ := hk
      have hsend : SeqSend w w1 := by
        rcases step_seqSession hs with h1 | ⟨_, _, hoff, hres⟩
        · exact h1
        · rcases hk1 with h | h
          · rw [hres] at h; exact Bool.noConfusion h
          · rw [hoff] at h; exact Bool.noConfusion h
      obtain ⟨e1, ho1, h1⟩ := hsend
      obtain ⟨e2, ho2, h2⟩ := ih w1 hk2
      refine ⟨e1 ++ e2, by simp only [ho2, ho1, List.append_assoc], ?_⟩
      rw [seqValues_append, List.length_append]
      intro hnw
      rcases h1 with ⟨hv, hq⟩ | ⟨hv, hq⟩ | ⟨hv, hq⟩
      · rw [hv] at hnw ⊢
        simp only [List.length_nil, Nat.zero_add, List.nil_append] at hnw ⊢
        rw [hq] at h2
        exact h2 hnw
      · rw [hv] at hnw ⊢
        simp only [List.length_singleton] at hnw ⊢
        have e : (w.game.m_seq + 1) % UINT_MOD = w.game.m_seq + 1 :=
          Nat.mod_eq_of_lt (by omega)
        rw [e] at hq ⊢
        rw [hq] at h2
        obtain ⟨h3, h4⟩ := h2 (by omega)
        constructor
        · rw [Nat.add_comm 1, List.range'_succ, ← h3]
          rfl
        · rw [h4]; omega
      · rw [hv] at hnw ⊢
        simp only [List.length_cons, List.length_nil] at hnw ⊢
        have e1' : (w.game.m_seq + 1) % UINT_MOD = w.game.m_seq + 1 :=
          Nat.mod_eq_of_lt (by omega)
        have e2' : (w.game.m_seq + 2) % UINT_MOD = w.game.m_seq + 2 :=
          Nat.mod_eq_of_lt (by omega)
        rw [e2'] at hq
        rw [e1', e2']
        rw [hq] at h2
        obtain ⟨h3, h4⟩ := h2 (by omega)
        constructor
        · rw [show 0 + 1 + 1 + (seqValues e2).length = (seqValues e2).length + 1 + 1 by omega,
            List.range'_succ, List.range'_succ, ← h3]
          rfl
        · rw [h4]; omega

/-- A permitted attack on a creature that is not the current target, nothing being
followed: the world it leaves. -/
theorem attack_plain {env : Env} {w : World} {x : Creature}
    (hp : (canPerformGameAction env w).1 = true)
    (hl : isLocalPlayer (some x) w.game.m_localPlayer = false)
    (hne : ptrEq (some x) w.game.m_attackingCreature = false)
    (hf : w.game.m_followingCreature = none) :
    attack env (some x) w =
      { game := { w.game with
          m_attackingCreature := some x, m_seq := (w.game.m_seq + 1) % UINT_MOD },
        out := w.out ++
          [.lua "onAttackingCreatureChange" [.creature (some x), .creature w.game.m_attackingCreature],
           .send (.sendAttack x.id ((w.game.m_seq + 1) % UINT_MOD))] } := by
  rw [attack_of_pass hp hl]
  simp [hne, hf, isFollowing, incSeq, setAttackingCreature, send, emit, callGlobalField, idOrZero]

/-- C5 (as amended): in a run of calls that ends no session, as long as the
unsigned 32-bit counter does not wrap (the counter before the run plus the number
of attack/follow commands sent stays below 2^32), the sequence values handed to the
transport are the successive values seq+1, seq+2, ... of the counter, strictly
increasing from the counter before the run, and the last one is the counter stored
afterwards. Every operation either keeps the counter or sends its successive values,
or reaches `resetGameStates()` and leaves the session not online with the counter
at 0 and nothing sent. Every permitted `attack` or `follow` call on a creature other
than the local player increments before each send (two commands when it first
cancels the other target) and stores the last value sent. After a session reset,
and in the constructed session, the counter is 0. -/
theorem attack_follow_sequence (calls : List (Env × Op)) (w : World)
    (hk : sessionKept calls w = true) :
    (∃ effs, (runCalls calls w).out = w.out ++ effs
      ∧ (w.game.m_seq + (seqValues effs).length < UINT_MOD →
          seqValues effs = List.range' (w.game.m_seq + 1) (seqValues effs).length
          ∧ List.Chain (fun a b => a < b) w.game.m_seq (seqValues effs)
          ∧ (runCalls calls w).game.m_seq = w.game.m_seq + (seqValues effs).length))
    ∧ (∀ (env : Env) (op : Op) (v v' : World), step env op v = .ok v' →
        SeqSend v v'
          ∨ (Quiet v v' ∧ v'.game.m_seq = 0 ∧ v'.game.m_online = false ∧ op.resets = true))
    ∧ (∀ (env : Env) (v : World) (creature : Option Creature),
        (canPerformGameAction env v).1 = true →
        isLocalPlayer creature v.game.m_localPlayer = false →
        ∀ v', (v' = attack env creature v ∨ v' = follow env creature v) →
          ∃ effs, v'.out = v.out ++ effs
            ∧ (seqValues effs = [(v.game.m_seq + 1) % UINT_MOD]
                ∨ seqValues effs =
                    [(v.game.m_seq + 1) % UINT_MOD, (v.game.m_seq + 2) % UINT_MOD])
            ∧ (seqValues effs).getLast? = some v'.game.m_seq)
    ∧ (∀ v : World, (resetGameStates v).game.m_seq = 0 ∧ (processGameEnd v).game.m_seq = 0
        ∧ (terminate v).game.m_seq = 0)
    ∧ construct.game.m_seq = 0 := by
  refine ⟨?_, fun env op v v' h => step_seqSession h, ?_,
    fun v => ⟨by simp [Game.reset], by simp [Game.gameEnd, Game.reset], by simp [Game.reset]⟩,
    rfl⟩
  · obtain ⟨effs, ho, h⟩ := runCalls_seq calls w hk
    refine ⟨effs, ho, fun hnw => ?_⟩
    obtain ⟨h1, h2⟩ := h hnw
    refine ⟨h1, ?_, h2⟩
    rw [h1]
    exact List.chain_lt_range' _ _ Nat.one_pos
  · intro env v creature hp hl v' hv'
    have key : ∃ effs, v'.out = v.out ++ effs
        ∧ ((seqValues effs = [(v.game.m_seq + 1) % UINT_MOD]
              ∧ v'.game.m_seq = (v.game.m_seq + 1) % UINT_MOD)
            ∨ (seqValues effs = [(v.game.m_seq + 1) % UINT_MOD, (v.game.m_seq + 2) % UINT_MOD]
              ∧ v'.game.m_seq = (v.game.m_seq + 2) % UINT_MOD)) := by
      rcases hv' with h | h <;> subst h
      · exact attack_seq hp hl
      · exact follow_seq hp hl
    obtain ⟨effs, hout, hs⟩ := key
    refine ⟨effs, hout, ?_, ?_⟩
    · rcases hs with ⟨h, _⟩ | ⟨h, _⟩
      · exact Or.inl h
      · exact Or.inr h
    · rcases hs with ⟨h, h2⟩ | ⟨h, h2⟩ <;> rw [h, h2] <;> simp

/-- C5, on the running game (counter 0): attacking the orc and then following the
rat keeps the session, and the three values sent are 1, 2, 3, increasing from the
counter before the run. -/
theorem attack_follow_sequence_witness :
    sessionKept [(envPlain, .attack (some orc)), (envPlain, .follow (some rat))] playing = true
    ∧ (∃ effs,
        (runCalls [(envPlain, .attack (some orc)), (envPlain, .follow (some rat))] playing).out
            = playing.out ++ effs
        ∧ (playing.game.m_seq + (seqValues effs).length < UINT_MOD →
            List.Chain (fun a b => a < b) playing.game.m_seq (seqValues effs)))
    ∧ seqValues ((runCalls [(envPlain, .attack (some orc)), (envPlain, .follow (some rat))]
        playing).out.drop playing.out.length) = [1, 2, 3] :=
  ⟨rfl,
    ((attack_follow_sequence [(envPlain, .attack (some orc)), (envPlain, .follow (some rat))]
      playing rfl).1).elim (fun effs h => ⟨effs, h.1, fun hn => (h.2 hn).2.1⟩),
    by decide⟩

/-- C5 fails as stated: there is a reachable online session whose counter holds
4294967294 in which two permitted attacks in a row, which end no session, hand the
transport the sequence values 4294967295 and then 0: the values sent within the
session are not strictly increasing. -/
theorem sequence_wraps_counterexample :
    ∃ w, Reachable w ∧ w.game.m_online = true ∧ w.game.m_seq = 4294967294
      ∧ sessionKept [(envPlain, .attack (some orc)), (envPlain, .attack (some rat))] w = true
      ∧ ∃ effs,
          (runCalls [(envPlain, .attack (some orc)), (envPlain, .attack (some rat))] w).out
            = w.out ++ effs
          ∧ seqValues effs = [4294967295, 0]
          ∧ ¬ List.Chain' (fun a b => a < b) (seqValues effs) := by
  obtain ⟨w, hr, hg⟩ := seq_reachable 4294967294
  have hp : (canPerformGameAction envPlain w).1 = true := by
    have : (canPerformGameAction envPlain w).1 = (canPerformGameAction envPlain playing).1 := by
      apply gate_congr <;> rw [hg]
    rw [this]; decide
  have hl : isLocalPlayer (some orc) w.game.m_localPlayer = false := by rw [hg]; decide
  have hne : ptrEq (some orc) w.game.m_attackingCreature = false := by rw [hg]; decide
  have hf : w.game.m_followingCreature = none := by rw [hg]; rfl
  have hs : w.game.m_seq = 4294967294 := by rw [hg]; decide
  have h1 := attack_plain hp hl hne hf
  have hp1 : (canPerformGameAction envPlain (attack envPlain (some orc) w)).1 = true := by
    have : (canPerformGameAction envPlain (attack envPlain (some orc) w)).1
        = (canPerformGameAction envPlain w).1 := by
      apply gate_congr <;> rw [h1]
    rw [this]; exact hp
  have hl1 : isLocalPlayer (some rat) (attack envPlain (some orc) w).game.m_localPlayer
      = false := by
    rw [h1]
    show isLocalPlayer (some rat) w.game.m_localPlayer = false
    rw [hg]; decide
  have hne1 : ptrEq (some rat) (attack envPlain (some orc) w).game.m_attackingCreature
      = false := by
    rw [h1]
    show ptrEq (some rat) (some orc) = false
    decide
  have hf1 : (attack envPlain (some orc) w).game.m_followingCreature = none := by
    rw [h1]; exact hf
  have h2 := attack_plain hp1 hl1 hne1 hf1
  have hv : seqValues
      [Effect.lua "onAttackingCreatureChange" [.creature (some orc), .creature w.game.m_attackingCreature],
       .send (.sendAttack orc.id ((w.game.m_seq + 1) % UINT_MOD)),
       .lua "onAttackingCreatureChange" [.creature (some rat),
         .creature (attack envPlain (some orc) w).game.m_attackingCreature],
       .send (.sendAttack rat.id (((attack envPlain (some orc) w).game.m_seq + 1) % UINT_MOD))]
      = [4294967295, 0] := by
    have e1 : (attack envPlain (some orc) w).game.m_seq = (w.game.m_seq + 1) % UINT_MOD := by
      rw [h1]
    rw [e1, hs]
    simp [seqValues, seqOf, UINT_MOD]
  refine ⟨w, hr, by rw [hg]; rfl, hs, by simp [sessionKept, step, Op.resets], _, ?_, hv, ?_⟩
  · simp only [runCalls, step]
    rw [h2]
    simp only []
    rw [h1]
    simp
  · rw [hv]
    simp

end Otclient
